import Mathlib

/-!
# Comparison-statement derivation of the bubble chart (`src/bubblechart/main.js`)

A shallow embedding of the comparison-statement engine
(`syncComparisonStatement` and the helpers it calls) together with theorems
about it.

## Numbers

JavaScript numbers are embedded as `JsNum`: an exact rational, `Infinity`,
`-Infinity` or `NaN`.  Arithmetic on finite values is exact (no rounding, no
overflow to `Infinity`, no signed zero); the special values follow IEEE 754.

## Values

A property of a data point can hold any JavaScript value.  `JsVal` covers the
cases `normalizeNumber` tells apart: a number, a string, a boolean, `null` and
`undefined`.  The code only ever reads a string through `Number(s)` and through
`normalizeNumber(s)`; a string is therefore represented by these two readings.
-/

namespace BubbleChart

/-! ## JavaScript numbers -/

/-- A JavaScript number.  The operations of `JsNum` below are the exact ones
(no rounding); the operations of `Double` further down round as the program
does. -/
inductive JsNum where
  | fin (q : ℚ)
  | posInf
  | negInf
  | nan
  deriving DecidableEq

namespace JsNum

/-- The test `Number.isFinite(x)` for a value already known to be a number. -/
def isFinite : JsNum → Bool
  | fin _ => true
  | _ => false

/-- Unary minus. -/
def neg : JsNum → JsNum
  | fin q => fin (-q)
  | posInf => negInf
  | negInf => posInf
  | nan => nan

/-- The sum `x + y`. -/
def add : JsNum → JsNum → JsNum
  | fin a, fin b => fin (a + b)
  | fin _, posInf => posInf
  | fin _, negInf => negInf
  | posInf, fin _ => posInf
  | posInf, posInf => posInf
  | negInf, fin _ => negInf
  | negInf, negInf => negInf
  | _, _ => nan

/-- The difference `x - y`. -/
def sub (x y : JsNum) : JsNum := add x (neg y)

/-- The product `x * y`. -/
def mul : JsNum → JsNum → JsNum
  | fin a, fin b => fin (a * b)
  | fin a, posInf => if 0 < a then posInf else if a < 0 then negInf else nan
  | fin a, negInf => if 0 < a then negInf else if a < 0 then posInf else nan
  | posInf, fin b => if 0 < b then posInf else if b < 0 then negInf else nan
  | negInf, fin b => if 0 < b then negInf else if b < 0 then posInf else nan
  | posInf, posInf => posInf
  | posInf, negInf => negInf
  | negInf, posInf => negInf
  | negInf, negInf => posInf
  | _, _ => nan

/-- The quotient `x / y` (a zero divisor is read as `+0`). -/
def div : JsNum → JsNum → JsNum
  | fin a, fin b =>
    if b = 0 then (if 0 < a then posInf else if a < 0 then negInf else nan)
    else fin (a / b)
  | fin _, posInf => fin 0
  | fin _, negInf => fin 0
  | posInf, fin b => if b < 0 then negInf else posInf
  | negInf, fin b => if b < 0 then posInf else negInf
  | _, _ => nan

/-- The comparison `x < y`; every comparison with `NaN` is false. -/
def lt : JsNum → JsNum → Bool
  | fin a, fin b => decide (a < b)
  | fin _, posInf => true
  | negInf, fin _ => true
  | negInf, posInf => true
  | _, _ => false

/-- The comparison `x > y`. -/
def gt (x y : JsNum) : Bool := lt y x

/-- The comparison `x <= y`; every comparison with `NaN` is false. -/
def le : JsNum → JsNum → Bool
  | nan, _ => false
  | _, nan => false
  | x, y => !(lt y x)

/-- The test `x === 0`. -/
def isZero : JsNum → Bool
  | fin q => decide (q = 0)
  | _ => false

/-- Truthiness of a number: every number except `0` and `NaN`. -/
def truthy : JsNum → Bool
  | fin q => decide (q ≠ 0)
  | nan => false
  | _ => true

end JsNum

/-! ## JavaScript values -/

/-- A value held by a property of a data point.  A string is represented by
what `Number(s)` returns (`asNumber`) and by what the string branch of
`normalizeNumber` returns for it (`normalized`). -/
inductive JsVal where
  | num (x : JsNum)
  | str (asNumber normalized : JsNum)
  | bool (b : Bool)
  | null
  | undefined
  deriving DecidableEq

namespace JsVal

/-- The conversion `Number(value)`. -/
def toNumber : JsVal → JsNum
  | num x => x
  | str asNumber _ => asNumber
  | bool b => if b then JsNum.fin 1 else JsNum.fin 0
  | null => JsNum.fin 0
  | undefined => JsNum.nan

/-- The test `Number.isFinite(value)`: it does not convert, so only a
finite value of type number passes. -/
def isFinite : JsVal → Bool
  | num x => x.isFinite
  | _ => false

end JsVal

/-! ## Ratio helpers -/

/-- The function `safeRatio(numerator, denominator)`. -/
def safeRatio (numerator denominator : JsVal) : JsNum :=
  let num := numerator.toNumber
  let den := denominator.toNumber
  if !num.isFinite || !den.isFinite || den.isZero then
    JsNum.posInf
  else
    JsNum.div num den

/-- The function `normalizeNumber(value)`. -/
def normalizeNumber : JsVal → JsNum
  | JsVal.num x => x
  | JsVal.str _ normalized => normalized
  | JsVal.bool b => if b then JsNum.fin 1 else JsNum.fin 0
  | _ => JsNum.nan

/-- The function `sumActivityValues(...values)`: a left fold from `0` that
skips every value that is not finite or not strictly positive. -/
def sumActivityValues (values : List JsVal) : JsNum :=
  values.foldl
    (fun total value =>
      let numericValue := normalizeNumber value
      if !numericValue.isFinite || JsNum.le numericValue (JsNum.fin 0) then
        total
      else
        JsNum.add total numericValue)
    (JsNum.fin 0)

/-! ## Data points -/

/-- A scatter data point as the comparison engine reads it.  A field the
object does not carry is `undefined` (`none` for the two names). -/
structure DataPoint where
  categoryId : JsVal := JsVal.undefined
  categoryName : Option String := none
  displayName : Option String := none
  color : Option String := none
  pollutantValue : JsVal := JsVal.undefined
  actDataValue : JsVal := JsVal.undefined
  emissionFactor : JsVal := JsVal.undefined
  deriving DecidableEq

/-- A value that is either a number or `null` (`none`). -/
abbrev Nullable := Option JsNum

/-- The test `Number.isFinite(x)` for a number-or-null value. -/
def nullableIsFinite : Nullable → Bool
  | some x => x.isFinite
  | none => false

/-- The conversion `Number(x)` for a number-or-null value (`Number(null)` is `0`). -/
def nullableToNumber : Nullable → JsNum
  | some x => x
  | none => JsNum.fin 0

/-- Truthiness of a number-or-null value. -/
def nullableTruthy : Nullable → Bool
  | some x => x.truthy
  | none => false

/-- A number-or-null value stored in a property. -/
def nullableToVal : Nullable → JsVal
  | some x => JsVal.num x
  | none => JsVal.null

/-- The function `calculateEmissionFactor(dataPoint)`; the argument `none` is a
missing data point, the result `none` is the `null` the code returns. -/
def calculateEmissionFactor (dataPoint : Option DataPoint) : Nullable :=
  match dataPoint with
  | none => none
  | some dp =>
    let pollutionValue := normalizeNumber dp.pollutantValue
    let activityValue := normalizeNumber dp.actDataValue
    if !pollutionValue.isFinite || !activityValue.isFinite || activityValue.isZero then
      none
    else
      some (JsNum.div pollutionValue activityValue)

/-- The object `estimateReplacementPollution` returns. -/
structure ReplacementEstimate where
  value : JsNum
  emissionFactor : Nullable
  totalActivity : JsNum
  deriving DecidableEq

/-- The function `estimateReplacementPollution(replacementSource, baselineSource)`. -/
def estimateReplacementPollution (replacementSource baselineSource : Option DataPoint) :
    Option ReplacementEstimate :=
  match replacementSource, baselineSource with
  | some source, some baseline =>
    let replacementPollution := normalizeNumber source.pollutantValue
    let replacementActivity := normalizeNumber source.actDataValue
    let baselineActivity := normalizeNumber baseline.actDataValue
    if !replacementPollution.isFinite || !replacementActivity.isFinite
        || replacementActivity.isZero then
      none
    else
      let emissionFactor := calculateEmissionFactor
        (some { pollutantValue := JsVal.num replacementPollution,
                actDataValue := JsVal.num replacementActivity })
      let totalActivity := sumActivityValues
        [JsVal.num replacementActivity, JsVal.num baselineActivity]
      if !nullableIsFinite emissionFactor || !totalActivity.isFinite
          || JsNum.le totalActivity (JsNum.fin 0) then
        none
      else
        let replacement := JsNum.mul (nullableToNumber emissionFactor) totalActivity
        if !replacement.isFinite then
          none
        else
          some { value := replacement, emissionFactor := emissionFactor,
                 totalActivity := totalActivity }
  | _, _ => none

/-! ## Leader and follower -/

/-- The comparator handed to `sort` in `selectLeaderFollower`, on the two
converted metric values. -/
def rankCompare (aValue bValue : JsNum) : JsNum :=
  let aValid := aValue.isFinite
  let bValid := bValue.isFinite
  if !aValid && !bValid then JsNum.fin 0
  else if !aValid then JsNum.fin 1
  else if !bValid then JsNum.fin (-1)
  else JsNum.sub bValue aValue

/-- The relation `Array.prototype.sort` orders by: `a` may stay in front of
`b` unless the comparator returns a positive number for `(a, b)`. -/
def staysBefore {α : Type} (compareFn : α → α → JsNum) (a b : α) : Prop :=
  JsNum.gt (compareFn a b) (JsNum.fin 0) = false

instance {α : Type} (compareFn : α → α → JsNum) : DecidableRel (staysBefore compareFn) :=
  fun a b => inferInstanceAs (Decidable (JsNum.gt (compareFn a b) (JsNum.fin 0) = false))

/-- The call `[...array].sort(compareFn)`.  The sort is stable; elements the
comparator does not tell apart keep their order. -/
def arraySort {α : Type} (compareFn : α → α → JsNum) (array : List α) : List α :=
  List.insertionSort (staysBefore compareFn) array

/-- The object `selectLeaderFollower` returns. -/
structure LeaderFollower (α : Type) where
  leader : Option α
  follower : Option α

/-- The function `selectLeaderFollower(dataPoints, metricAccessor)`. -/
def selectLeaderFollower {α : Type} (dataPoints : List α) (metricAccessor : α → JsVal) :
    LeaderFollower α :=
  if dataPoints.length < 2 then
    { leader := none, follower := none }
  else
    let ranked := arraySort
      (fun a b => rankCompare (metricAccessor a).toNumber (metricAccessor b).toNumber)
      dataPoints
    match ranked with
    | leader :: follower :: _ =>
      let leaderValue := (metricAccessor leader).toNumber
      let followerValue := (metricAccessor follower).toNumber
      { leader := if leaderValue.isFinite then some leader else none,
        follower := if followerValue.isFinite then some follower else none }
    | _ => { leader := none, follower := none }

/-- The order the comparator of `selectLeaderFollower` induces on converted
metric values: `x` may stay in front of `y`. -/
def rankBefore (x y : JsNum) : Prop :=
  JsNum.gt (rankCompare x y) (JsNum.fin 0) = false

/-- The comparator `selectLeaderFollower` builds from the accessor. -/
def metricCompare {α : Type} (metricAccessor : α → JsVal) (a b : α) : JsNum :=
  rankCompare (metricAccessor a).toNumber (metricAccessor b).toNumber

/-- The number of data points whose converted metric value is finite. -/
def finiteCount {α : Type} (metricAccessor : α → JsVal) (dataPoints : List α) : Nat :=
  dataPoints.countP (fun p => (metricAccessor p).toNumber.isFinite)

/-! ## Category inclusion -/

/-- The answer of the category-inclusion assessor, as far as the code reads
it: whether `included` is truthy, and the `reason` text when it is truthy. -/
structure InclusionAssessment where
  included : Bool
  reason : Option String
  deriving DecidableEq

/-- What a call of `assessCategoryInclusion(childId, parentId)` ends in: it
throws (or its promise rejects), or it resolves to an answer; the answer
`none` is `null` or `undefined`. -/
inductive AssessorOutcome where
  | threw
  | answered (assessment : Option InclusionAssessment)
  deriving DecidableEq

/-- The part of `window.supabaseModule` the comparison engine uses.  The
field is `none` when `assessCategoryInclusion` is not a function. -/
structure SupabaseModule where
  assessCategoryInclusion : Option (JsNum → JsNum → AssessorOutcome)

/-- The function `requestCategoryInclusionAssessment(candidateCategoryId,
containerCategoryId)`; `supabaseModule = none` is a missing
`window.supabaseModule`. -/
def requestCategoryInclusionAssessment (supabaseModule : Option SupabaseModule)
    (candidateCategoryId containerCategoryId : JsVal) : Option InclusionAssessment :=
  match supabaseModule with
  | none => none
  | some supabase =>
    let childId := candidateCategoryId.toNumber
    let parentId := containerCategoryId.toNumber
    if !childId.isFinite || !parentId.isFinite then
      none
    else
      match supabase.assessCategoryInclusion with
      | none => none
      | some assessor =>
        match assessor childId parentId with
        | AssessorOutcome.answered assessment => assessment
        | AssessorOutcome.threw => none

/-- The note `buildReplacementInclusionNote` returns. -/
structure InclusionNote where
  text : String
  reason : String
  deriving DecidableEq

/-- Truthiness of a property that holds a string or is missing. -/
def nameTruthy : Option String → Bool
  | some s => s != ""
  | none => false

/-- The expression `a || b` on two such properties. -/
def nameOr (a b : Option String) : Option String :=
  if nameTruthy a then a else b

/-- The function `buildReplacementInclusionNote(polluterDataPoint, baselineDataPoint)`. -/
def buildReplacementInclusionNote (supabaseModule : Option SupabaseModule)
    (polluterDataPoint baselineDataPoint : Option DataPoint) : Option InclusionNote :=
  match polluterDataPoint, baselineDataPoint with
  | some polluter, some baseline =>
    let assessment := requestCategoryInclusionAssessment supabaseModule
      polluter.categoryId baseline.categoryId
    match assessment with
    | some answer =>
      if answer.included then
        let polluterName := nameOr polluter.displayName polluter.categoryName
        let baselineName := nameOr baseline.displayName baseline.categoryName
        if nameTruthy polluterName && nameTruthy baselineName then
          some { text := (polluterName.getD "") ++ " is already included in "
                           ++ (baselineName.getD ""),
                 reason := (nameOr answer.reason (some "evaluated")).getD "evaluated" }
        else
          none
      else
        none
    | none => none
  | _, _ => none

/-! ## The comparison statement -/

/-- The value of `pollutionRelation` when it is not `null`. -/
inductive PollutionRelation where
  | lower
  | higher
  deriving DecidableEq

/-- The value of `calcSource`. -/
inductive CalcSource where
  | baselineOnly
  | ef
  | fallbackEnergy
  | ratioFallback
  deriving DecidableEq

/-- The object held by `replacementDetails`. -/
structure ReplacementDetails where
  polluter : DataPoint
  baseline : DataPoint
  emissionFactor : Nullable
  totalActivity : Nullable
  calcSource : CalcSource
  deriving DecidableEq

/-- The variables `replacementPollution`, `replacementDetails` and
`replacementInclusion` of `syncComparisonStatement`. -/
structure ReplacementState where
  replacementPollution : Nullable
  replacementDetails : Option ReplacementDetails
  replacementInclusion : Option InclusionNote
  deriving DecidableEq

/-- The property `warningDetails` of the statement. -/
structure WarningDetails where
  polluter : Option DataPoint
  baseline : Option DataPoint
  totalActivity : Nullable
  emissionFactor : Nullable
  calcSource : Option CalcSource
  inclusion : Option InclusionNote
  deriving DecidableEq

/-- The texts `syncComparisonStatement` looks up in `window.supabaseModule`:
the pollutant name and the two units (after their defaults). -/
structure StatementLabels where
  pollutantName : Option String
  pollutantUnit : String
  activityUnit : String
  deriving DecidableEq

/-- The statement object handed to `updateComparisonStatement`. -/
structure ComparisonStatement where
  pollutantName : Option String
  pollutantUnit : String
  activityUnit : String
  pollutionLeaderName : Option String
  pollutionFollowerName : Option String
  energyLeaderName : Option String
  energyFollowerName : Option String
  pollutionRatio : JsNum
  pollutionRelation : Option PollutionRelation
  energyRatio : JsNum
  replacementPollution : Nullable
  pollutionColor : Option String
  energyColor : Option String
  leftPrimary : DataPoint
  leftSecondary : DataPoint
  energyPrimary : DataPoint
  energySecondary : DataPoint
  warningDetails : WarningDetails
  deriving DecidableEq

/-- The enrichment step: every data point gets
`emissionFactor: calculateEmissionFactor(dataPoint)`. -/
def enrichComparisonData (comparisonData : List DataPoint) : List DataPoint :=
  comparisonData.map
    (fun dataPoint =>
      { dataPoint with
        emissionFactor := nullableToVal (calculateEmissionFactor (some dataPoint)) })

/-- The accessor `(dataPoint) => normalizeNumber(dataPoint?.pollutantValue)`. -/
def pollutionAccessor (dataPoint : DataPoint) : JsVal :=
  JsVal.num (normalizeNumber dataPoint.pollutantValue)

/-- The accessor `(dataPoint) => normalizeNumber(dataPoint?.actDataValue)`. -/
def energyAccessor (dataPoint : DataPoint) : JsVal :=
  JsVal.num (normalizeNumber dataPoint.actDataValue)

/-- The accessor `(dataPoint) => Number(dataPoint?.emissionFactor)`. -/
def emissionFactorAccessor (dataPoint : DataPoint) : JsVal :=
  JsVal.num dataPoint.emissionFactor.toNumber

/-- The pair `(leftLeader, leftFollower)`: the energy follower and the energy
leader, replaced by the emission-factor pair (each slot falling back to the
pollution pair) when one of the two is missing. -/
def leftPair (pollution energy emission : LeaderFollower DataPoint) :
    Option DataPoint × Option DataPoint :=
  let leftLeader := energy.follower
  let leftFollower := energy.leader
  if leftLeader.isNone || leftFollower.isNone then
    (emission.leader <|> pollution.leader, emission.follower <|> pollution.follower)
  else
    (leftLeader, leftFollower)

/-- The pair `(pollutionRatio, pollutionRelation)` computed from the left
pair and the pollution pair. -/
def pollutionComparison (leftLeader leftFollower : Option DataPoint)
    (pollution : LeaderFollower DataPoint) : JsNum × Option PollutionRelation :=
  let bothLeft := leftLeader.isSome && leftFollower.isSome
  let pollutionRatioSourceLeader := if bothLeft then leftLeader else pollution.leader
  let pollutionRatioSourceFollower := if bothLeft then leftFollower else pollution.follower
  match pollutionRatioSourceLeader, pollutionRatioSourceFollower with
  | some sourceLeader, some sourceFollower =>
    let leaderPollution := normalizeNumber sourceLeader.pollutantValue
    let followerPollution := normalizeNumber sourceFollower.pollutantValue
    if leaderPollution.isFinite && followerPollution.isFinite then
      if JsNum.lt leaderPollution followerPollution then
        (safeRatio (JsVal.num followerPollution) (JsVal.num leaderPollution),
          some PollutionRelation.lower)
      else
        (safeRatio (JsVal.num leaderPollution) (JsVal.num followerPollution),
          some PollutionRelation.higher)
    else
      (JsNum.nan, none)
  | _, _ => (JsNum.nan, none)

/-- The value `energyRatio`. -/
def energyRatioOf (energy : LeaderFollower DataPoint) : JsNum :=
  match energy.leader, energy.follower with
  | some energyLeader, some energyFollower =>
    safeRatio energyLeader.actDataValue energyFollower.actDataValue
  | _, _ => JsNum.nan

/-- The value `polluterEmissionFactor`. -/
def polluterEmissionFactorOf (warningPolluter : DataPoint) : Nullable :=
  if warningPolluter.emissionFactor.isFinite then
    some warningPolluter.emissionFactor.toNumber
  else
    calculateEmissionFactor (some warningPolluter)

/-- The baseline-only step (the first `if` inside `if (warningPolluter &&
warningBaseline)`): the replacement variables after it. -/
def baselineOnlyStep (replacementInclusion : Option InclusionNote)
    (warningPolluter warningBaseline : DataPoint) : ReplacementState :=
  let baselineOnlyEnergy := normalizeNumber warningBaseline.actDataValue
  let polluterEmissionFactor := polluterEmissionFactorOf warningPolluter
  if replacementInclusion.isSome && baselineOnlyEnergy.isFinite
      && JsNum.gt baselineOnlyEnergy (JsNum.fin 0)
      && nullableIsFinite polluterEmissionFactor then
    { replacementPollution :=
        some (JsNum.mul (nullableToNumber polluterEmissionFactor) baselineOnlyEnergy),
      replacementDetails := some
        { polluter := warningPolluter, baseline := warningBaseline,
          emissionFactor := polluterEmissionFactor,
          totalActivity := some baselineOnlyEnergy,
          calcSource := CalcSource.baselineOnly },
      replacementInclusion := replacementInclusion }
  else
    { replacementPollution := none, replacementDetails := none,
      replacementInclusion := replacementInclusion }

/-- The body of `if (!replacementPollution)`: the combined-activity estimate,
then the summed-activity fallback, then the ratio fallback.  When none of them
assigns, the variables keep the values in `current`. -/
def fallThroughStep (warningPolluter warningBaseline : DataPoint)
    (warningFallback : Option DataPoint) (current : ReplacementState) : ReplacementState :=
  let polluterEmissionFactor := polluterEmissionFactorOf warningPolluter
  match estimateReplacementPollution (some warningPolluter) (some warningBaseline) with
  | some estimate =>
    { current with
      replacementPollution := some estimate.value,
      replacementDetails := some
        { polluter := warningPolluter, baseline := warningBaseline,
          emissionFactor := estimate.emissionFactor,
          totalActivity := some estimate.totalActivity,
          calcSource := CalcSource.ef } }
  | none =>
    let fallbackTotalEnergy :=
      sumActivityValues [warningPolluter.actDataValue, warningBaseline.actDataValue]
    if nullableIsFinite polluterEmissionFactor
        && JsNum.gt fallbackTotalEnergy (JsNum.fin 0) then
      { current with
        replacementPollution :=
          some (JsNum.mul (nullableToNumber polluterEmissionFactor) fallbackTotalEnergy),
        replacementDetails := some
          { polluter := warningPolluter, baseline := warningBaseline,
            emissionFactor := polluterEmissionFactor,
            totalActivity := some fallbackTotalEnergy,
            calcSource := CalcSource.fallbackEnergy } }
    else
      match warningFallback with
      | some fallback =>
        let ratioFallback := safeRatio warningPolluter.pollutantValue fallback.pollutantValue
        let fallbackValue : Nullable :=
          if ratioFallback.isFinite then
            some (JsNum.mul ratioFallback fallback.pollutantValue.toNumber)
          else none
        if nullableIsFinite fallbackValue then
          { current with
            replacementPollution := fallbackValue,
            replacementDetails := some
              { polluter := warningPolluter, baseline := warningBaseline,
                emissionFactor :=
                  if nullableTruthy polluterEmissionFactor then polluterEmissionFactor
                  else none,
                totalActivity :=
                  if fallbackTotalEnergy.truthy then some fallbackTotalEnergy else none,
                calcSource := CalcSource.ratioFallback } }
        else current
      | none => current

/-- The replacement block of `syncComparisonStatement` (the three variables
after `if (warningPolluter && warningBaseline) {...}`). -/
def replacementBlock (supabaseModule : Option SupabaseModule)
    (warningPolluter warningBaseline warningFallback : Option DataPoint) : ReplacementState :=
  match warningPolluter, warningBaseline with
  | some polluter, some baseline =>
    let replacementInclusion :=
      buildReplacementInclusionNote supabaseModule (some polluter) (some baseline)
    let afterBaselineOnly := baselineOnlyStep replacementInclusion polluter baseline
    if !nullableTruthy afterBaselineOnly.replacementPollution then
      fallThroughStep polluter baseline warningFallback afterBaselineOnly
    else
      afterBaselineOnly
  | _, _ =>
    { replacementPollution := none, replacementDetails := none, replacementInclusion := none }

/-- The object literal `statement` of `syncComparisonStatement`, built from
the values of the local variables it reads. -/
def statementOf (labels : StatementLabels)
    (leftLeader leftFollower energyLeader energyFollower : DataPoint)
    (comparison : JsNum × Option PollutionRelation) (energyRatio : JsNum)
    (replacement : ReplacementState) : ComparisonStatement :=
  let detailsTotal : Nullable := replacement.replacementDetails.bind (fun d => d.totalActivity)
  let summed := sumActivityValues [energyFollower.actDataValue, energyLeader.actDataValue]
  { pollutantName := labels.pollutantName,
    pollutantUnit := labels.pollutantUnit,
    activityUnit := labels.activityUnit,
    pollutionLeaderName := leftLeader.displayName,
    pollutionFollowerName := leftFollower.displayName,
    energyLeaderName := energyLeader.displayName,
    energyFollowerName := energyFollower.displayName,
    pollutionRatio := comparison.1,
    pollutionRelation := comparison.2,
    energyRatio := energyRatio,
    replacementPollution := replacement.replacementPollution,
    pollutionColor := leftLeader.color,
    energyColor := energyLeader.color,
    leftPrimary := leftLeader,
    leftSecondary := leftFollower,
    energyPrimary := energyLeader,
    energySecondary := energyFollower,
    warningDetails :=
      { polluter := some energyFollower,
        baseline := some energyLeader,
        totalActivity :=
          if nullableTruthy detailsTotal then detailsTotal
          else if summed.truthy then some summed
          else none,
        emissionFactor :=
          match replacement.replacementDetails.bind (fun d => d.emissionFactor) with
          | some factor => some factor
          | none => polluterEmissionFactorOf energyFollower,
        calcSource := replacement.replacementDetails.map (fun d => d.calcSource),
        inclusion := replacement.replacementInclusion } }

/-- The function `syncComparisonStatement` from the point where
`comparisonData` has been collected.  The result `none` stands for the call
`hideComparisonStatement()`, the result `some statement` for the call
`updateComparisonStatement(statement)`. -/
def syncComparisonStatement (supabaseModule : Option SupabaseModule)
    (labels : StatementLabels) (comparisonData : List DataPoint) :
    Option ComparisonStatement :=
  if comparisonData.length < 2 then
    none
  else
    let enrichedComparisonData := enrichComparisonData comparisonData
    let pollution := selectLeaderFollower enrichedComparisonData pollutionAccessor
    let energy := selectLeaderFollower enrichedComparisonData energyAccessor
    let emission := selectLeaderFollower enrichedComparisonData emissionFactorAccessor
    let left := leftPair pollution energy emission
    let leftLeader := left.1
    let leftFollower := left.2
    let comparison := pollutionComparison leftLeader leftFollower pollution
    let energyRatio := energyRatioOf energy
    let warningPolluter := energy.follower
    let warningBaseline := energy.leader
    let warningFallback := leftFollower <|> pollution.follower
    let replacement :=
      replacementBlock supabaseModule warningPolluter warningBaseline warningFallback
    match leftLeader, leftFollower, energy.leader, energy.follower with
    | some leftLeader, some leftFollower, some energyLeader, some energyFollower =>
      some (statementOf labels leftLeader leftFollower energyLeader energyFollower
        comparison energyRatio replacement)
    | _, _, _, _ => none

/-- The replacement variables before any strategy has assigned them. -/
def noReplacement : ReplacementState :=
  { replacementPollution := none, replacementDetails := none, replacementInclusion := none }

/-- The containment check for polluter and baseline fails or is negative:
`window.supabaseModule` is missing, a category id does not convert to a finite
number, the assessor is not a function, the assessor throws, or its answer is
empty or has no truthy `included`. -/
def containmentFailedOrNegative (supabaseModule : Option SupabaseModule)
    (polluter baseline : DataPoint) : Prop :=
  supabaseModule = none ∨
  polluter.categoryId.toNumber.isFinite = false ∨
  baseline.categoryId.toNumber.isFinite = false ∨
  ∃ supabase, supabaseModule = some supabase ∧
    (supabase.assessCategoryInclusion = none ∨
     ∃ assessor, supabase.assessCategoryInclusion = some assessor ∧
       (assessor polluter.categoryId.toNumber baseline.categoryId.toNumber
          = AssessorOutcome.threw ∨
        assessor polluter.categoryId.toNumber baseline.categoryId.toNumber
          = AssessorOutcome.answered none ∨
        ∃ answer, assessor polluter.categoryId.toNumber baseline.categoryId.toNumber
            = AssessorOutcome.answered (some answer) ∧ answer.included = false))

/-- The number of compared data points whose pollutant value and activity
value are both finite. -/
def bothFiniteCount (comparisonData : List DataPoint) : Nat :=
  comparisonData.countP (fun dataPoint =>
    (normalizeNumber dataPoint.pollutantValue).isFinite
      && (normalizeNumber dataPoint.actDataValue).isFinite)

/-- The number of compared data points whose activity value is finite. -/
def finiteActivityCount (comparisonData : List DataPoint) : Nat :=
  comparisonData.countP (fun dataPoint => (normalizeNumber dataPoint.actDataValue).isFinite)

/-- A data point after the enrichment step. -/
def enrich (dataPoint : DataPoint) : DataPoint :=
  { dataPoint with
    emissionFactor := nullableToVal (calculateEmissionFactor (some dataPoint)) }

/-- The part of an activity value `sumActivityValues` adds: the value when
it is finite and strictly positive, and 0 otherwise. -/
def positivePart : JsNum → ℚ
  | JsNum.fin q => if 0 < q then q else 0
  | _ => 0

/-! ## Double precision

The numbers of the program are IEEE 754 doubles: every arithmetic operation
returns the double nearest to the exact result.  The operations of `JsNum`
above are the exact ones; the definitions below round, overflow to
`±Infinity` and underflow to `0` as the program does.  They are used where a
property depends on rounding or overflow (the replacement figure). -/

/-- Rounding of a rational to the nearest integer, a tie going to the even
neighbour. -/
def roundHalfEven (x : ℚ) : ℤ :=
  let lower := ⌊x⌋
  let rest := x - lower
  if rest < 1 / 2 then lower
  else if 1 / 2 < rest then lower + 1
  else if lower % 2 = 0 then lower
  else lower + 1

/-- The double nearest to the rational `q` (round to nearest, ties to even):
53 significant bits for a magnitude from `2^-1022` on, a multiple of `2^-1074`
below it, `±Infinity` when the rounded magnitude reaches `2^1024`. -/
def roundToDouble (q : ℚ) : JsNum :=
  if q = 0 then JsNum.fin 0
  else
    let exponent := Int.log 2 |q|
    let quantum := max exponent (-1022) - 52
    let rounded : ℚ := (roundHalfEven (|q| / (2 : ℚ) ^ quantum) : ℚ) * (2 : ℚ) ^ quantum
    if (2 : ℚ) ^ (1024 : ℤ) ≤ rounded then
      (if 0 < q then JsNum.posInf else JsNum.negInf)
    else
      JsNum.fin (if 0 < q then rounded else -rounded)

/-- The sum `x + y` of two doubles. -/
def Double.add : JsNum → JsNum → JsNum
  | JsNum.fin a, JsNum.fin b => roundToDouble (a + b)
  | x, y => JsNum.add x y

/-- The difference `x - y` of two doubles. -/
def Double.sub (x y : JsNum) : JsNum := Double.add x (JsNum.neg y)

/-- The product `x * y` of two doubles. -/
def Double.mul : JsNum → JsNum → JsNum
  | JsNum.fin a, JsNum.fin b => roundToDouble (a * b)
  | x, y => JsNum.mul x y

/-- The quotient `x / y` of two doubles (a zero divisor is read as `+0`). -/
def Double.div : JsNum → JsNum → JsNum
  | JsNum.fin a, JsNum.fin b =>
    if b = 0 then JsNum.div (JsNum.fin a) (JsNum.fin b) else roundToDouble (a / b)
  | x, y => JsNum.div x y

/-- The function `safeRatio(numerator, denominator)` on doubles. -/
def Double.safeRatio (numerator denominator : JsVal) : JsNum :=
  let num := numerator.toNumber
  let den := denominator.toNumber
  if !num.isFinite || !den.isFinite || den.isZero then
    JsNum.posInf
  else
    Double.div num den

/-- The function `sumActivityValues(...values)` on doubles: a left fold from
`0` that skips every value that is not finite or not strictly positive. -/
def Double.sumActivityValues (values : List JsVal) : JsNum :=
  values.foldl
    (fun total value =>
      let numericValue := normalizeNumber value
      if !numericValue.isFinite || JsNum.le numericValue (JsNum.fin 0) then
        total
      else
        Double.add total numericValue)
    (JsNum.fin 0)

/-- The function `calculateEmissionFactor(dataPoint)` on doubles; the argument
`none` is a missing data point, the result `none` is the `null` the code
returns. -/
def Double.calculateEmissionFactor (dataPoint : Option DataPoint) : Nullable :=
  match dataPoint with
  | none => none
  | some dp =>
    let pollutionValue := normalizeNumber dp.pollutantValue
    let activityValue := normalizeNumber dp.actDataValue
    if !pollutionValue.isFinite || !activityValue.isFinite || activityValue.isZero then
      none
    else
      some (Double.div pollutionValue activityValue)

/-- The function `estimateReplacementPollution(replacementSource,
baselineSource)` on doubles. -/
def Double.estimateReplacementPollution (replacementSource baselineSource : Option DataPoint) :
    Option ReplacementEstimate :=
  match replacementSource, baselineSource with
  | some source, some baseline =>
    let replacementPollution := normalizeNumber source.pollutantValue
    let replacementActivity := normalizeNumber source.actDataValue
    let baselineActivity := normalizeNumber baseline.actDataValue
    if !replacementPollution.isFinite || !replacementActivity.isFinite
        || replacementActivity.isZero then
      none
    else
      let emissionFactor := Double.calculateEmissionFactor
        (some { pollutantValue := JsVal.num replacementPollution,
                actDataValue := JsVal.num replacementActivity })
      let totalActivity := Double.sumActivityValues
        [JsVal.num replacementActivity, JsVal.num baselineActivity]
      if !nullableIsFinite emissionFactor || !totalActivity.isFinite
          || JsNum.le totalActivity (JsNum.fin 0) then
        none
      else
        let replacement := Double.mul (nullableToNumber emissionFactor) totalActivity
        if !replacement.isFinite then
          none
        else
          some { value := replacement, emissionFactor := emissionFactor,
                 totalActivity := totalActivity }
  | _, _ => none

/-- The comparator handed to `sort` in `selectLeaderFollower`, on the two
converted metric values, with the double difference. -/
def Double.rankCompare (aValue bValue : JsNum) : JsNum :=
  let aValid := aValue.isFinite
  let bValid := bValue.isFinite
  if !aValid && !bValid then JsNum.fin 0
  else if !aValid then JsNum.fin 1
  else if !bValid then JsNum.fin (-1)
  else Double.sub bValue aValue

/-- The function `selectLeaderFollower(dataPoints, metricAccessor)` on
doubles. -/
def Double.selectLeaderFollower {α : Type} (dataPoints : List α) (metricAccessor : α → JsVal) :
    LeaderFollower α :=
  if dataPoints.length < 2 then
    { leader := none, follower := none }
  else
    let ranked := arraySort
      (fun a b => Double.rankCompare (metricAccessor a).toNumber (metricAccessor b).toNumber)
      dataPoints
    match ranked with
    | leader :: follower :: _ =>
      let leaderValue := (metricAccessor leader).toNumber
      let followerValue := (metricAccessor follower).toNumber
      { leader := if leaderValue.isFinite then some leader else none,
        follower := if followerValue.isFinite then some follower else none }
    | _ => { leader := none, follower := none }

/-- A data point after the enrichment step, on doubles. -/
def Double.enrich (dataPoint : DataPoint) : DataPoint :=
  { dataPoint with
    emissionFactor := nullableToVal (Double.calculateEmissionFactor (some dataPoint)) }

/-- The enrichment step on doubles: every data point gets
`emissionFactor: calculateEmissionFactor(dataPoint)`. -/
def Double.enrichComparisonData (comparisonData : List DataPoint) : List DataPoint :=
  comparisonData.map
    (fun dataPoint =>
      { dataPoint with
        emissionFactor := nullableToVal (Double.calculateEmissionFactor (some dataPoint)) })

/-- The pair `(pollutionRatio, pollutionRelation)` on doubles, computed from
the left pair and the pollution pair. -/
def Double.pollutionComparison (leftLeader leftFollower : Option DataPoint)
    (pollution : LeaderFollower DataPoint) : JsNum × Option PollutionRelation :=
  let bothLeft := leftLeader.isSome && leftFollower.isSome
  let pollutionRatioSourceLeader := if bothLeft then leftLeader else pollution.leader
  let pollutionRatioSourceFollower := if bothLeft then leftFollower else pollution.follower
  match pollutionRatioSourceLeader, pollutionRatioSourceFollower with
  | some sourceLeader, some sourceFollower =>
    let leaderPollution := normalizeNumber sourceLeader.pollutantValue
    let followerPollution := normalizeNumber sourceFollower.pollutantValue
    if leaderPollution.isFinite && followerPollution.isFinite then
      if JsNum.lt leaderPollution followerPollution then
        (Double.safeRatio (JsVal.num followerPollution) (JsVal.num leaderPollution),
          some PollutionRelation.lower)
      else
        (Double.safeRatio (JsVal.num leaderPollution) (JsVal.num followerPollution),
          some PollutionRelation.higher)
    else
      (JsNum.nan, none)
  | _, _ => (JsNum.nan, none)

/-- The value `energyRatio` on doubles. -/
def Double.energyRatioOf (energy : LeaderFollower DataPoint) : JsNum :=
  match energy.leader, energy.follower with
  | some energyLeader, some energyFollower =>
    Double.safeRatio energyLeader.actDataValue energyFollower.actDataValue
  | _, _ => JsNum.nan

/-- The value `polluterEmissionFactor` on doubles. -/
def Double.polluterEmissionFactorOf (warningPolluter : DataPoint) : Nullable :=
  if warningPolluter.emissionFactor.isFinite then
    some warningPolluter.emissionFactor.toNumber
  else
    Double.calculateEmissionFactor (some warningPolluter)

/-- The baseline-only step on doubles (the first `if` inside
`if (warningPolluter && warningBaseline)`): the replacement variables after
it. -/
def Double.baselineOnlyStep (replacementInclusion : Option InclusionNote)
    (warningPolluter warningBaseline : DataPoint) : ReplacementState :=
  let baselineOnlyEnergy := normalizeNumber warningBaseline.actDataValue
  let polluterEmissionFactor := Double.polluterEmissionFactorOf warningPolluter
  if replacementInclusion.isSome && baselineOnlyEnergy.isFinite
      && JsNum.gt baselineOnlyEnergy (JsNum.fin 0)
      && nullableIsFinite polluterEmissionFactor then
    { replacementPollution :=
        some (Double.mul (nullableToNumber polluterEmissionFactor) baselineOnlyEnergy),
      replacementDetails := some
        { polluter := warningPolluter, baseline := warningBaseline,
          emissionFactor := polluterEmissionFactor,
          totalActivity := some baselineOnlyEnergy,
          calcSource := CalcSource.baselineOnly },
      replacementInclusion := replacementInclusion }
  else
    { replacementPollution := none, replacementDetails := none,
      replacementInclusion := replacementInclusion }

/-- The body of `if (!replacementPollution)` on doubles: the combined-activity
estimate, then the summed-activity fallback, then the ratio fallback.  When
none of them assigns, the variables keep the values in `current`. -/
def Double.fallThroughStep (warningPolluter warningBaseline : DataPoint)
    (warningFallback : Option DataPoint) (current : ReplacementState) : ReplacementState :=
  let polluterEmissionFactor := Double.polluterEmissionFactorOf warningPolluter
  match Double.estimateReplacementPollution (some warningPolluter) (some warningBaseline) with
  | some estimate =>
    { current with
      replacementPollution := some estimate.value,
      replacementDetails := some
        { polluter := warningPolluter, baseline := warningBaseline,
          emissionFactor := estimate.emissionFactor,
          totalActivity := some estimate.totalActivity,
          calcSource := CalcSource.ef } }
  | none =>
    let fallbackTotalEnergy :=
      Double.sumActivityValues [warningPolluter.actDataValue, warningBaseline.actDataValue]
    if nullableIsFinite polluterEmissionFactor
        && JsNum.gt fallbackTotalEnergy (JsNum.fin 0) then
      { current with
        replacementPollution :=
          some (Double.mul (nullableToNumber polluterEmissionFactor) fallbackTotalEnergy),
        replacementDetails := some
          { polluter := warningPolluter, baseline := warningBaseline,
            emissionFactor := polluterEmissionFactor,
            totalActivity := some fallbackTotalEnergy,
            calcSource := CalcSource.fallbackEnergy } }
    else
      match warningFallback with
      | some fallback =>
        let ratioFallback :=
          Double.safeRatio warningPolluter.pollutantValue fallback.pollutantValue
        let fallbackValue : Nullable :=
          if ratioFallback.isFinite then
            some (Double.mul ratioFallback fallback.pollutantValue.toNumber)
          else none
        if nullableIsFinite fallbackValue then
          { current with
            replacementPollution := fallbackValue,
            replacementDetails := some
              { polluter := warningPolluter, baseline := warningBaseline,
                emissionFactor :=
                  if nullableTruthy polluterEmissionFactor then polluterEmissionFactor
                  else none,
                totalActivity :=
                  if fallbackTotalEnergy.truthy then some fallbackTotalEnergy else none,
                calcSource := CalcSource.ratioFallback } }
        else current
      | none => current

/-- The replacement block of `syncComparisonStatement` on doubles (the three
variables after `if (warningPolluter && warningBaseline) {...}`). -/
def Double.replacementBlock (supabaseModule : Option SupabaseModule)
    (warningPolluter warningBaseline warningFallback : Option DataPoint) : ReplacementState :=
  match warningPolluter, warningBaseline with
  | some polluter, some baseline =>
    let replacementInclusion :=
      buildReplacementInclusionNote supabaseModule (some polluter) (some baseline)
    let afterBaselineOnly := Double.baselineOnlyStep replacementInclusion polluter baseline
    if !nullableTruthy afterBaselineOnly.replacementPollution then
      Double.fallThroughStep polluter baseline warningFallback afterBaselineOnly
    else
      afterBaselineOnly
  | _, _ =>
    { replacementPollution := none, replacementDetails := none, replacementInclusion := none }

/-- The object literal `statement` of `syncComparisonStatement` on doubles,
built from the values of the local variables it reads. -/
def Double.statementOf (labels : StatementLabels)
    (leftLeader leftFollower energyLeader energyFollower : DataPoint)
    (comparison : JsNum × Option PollutionRelation) (energyRatio : JsNum)
    (replacement : ReplacementState) : ComparisonStatement :=
  let detailsTotal : Nullable := replacement.replacementDetails.bind (fun d => d.totalActivity)
  let summed :=
    Double.sumActivityValues [energyFollower.actDataValue, energyLeader.actDataValue]
  { pollutantName := labels.pollutantName,
    pollutantUnit := labels.pollutantUnit,
    activityUnit := labels.activityUnit,
    pollutionLeaderName := leftLeader.displayName,
    pollutionFollowerName := leftFollower.displayName,
    energyLeaderName := energyLeader.displayName,
    energyFollowerName := energyFollower.displayName,
    pollutionRatio := comparison.1,
    pollutionRelation := comparison.2,
    energyRatio := energyRatio,
    replacementPollution := replacement.replacementPollution,
    pollutionColor := leftLeader.color,
    energyColor := energyLeader.color,
    leftPrimary := leftLeader,
    leftSecondary := leftFollower,
    energyPrimary := energyLeader,
    energySecondary := energyFollower,
    warningDetails :=
      { polluter := some energyFollower,
        baseline := some energyLeader,
        totalActivity :=
          if nullableTruthy detailsTotal then detailsTotal
          else if summed.truthy then some summed
          else none,
        emissionFactor :=
          match replacement.replacementDetails.bind (fun d => d.emissionFactor) with
          | some factor => some factor
          | none => Double.polluterEmissionFactorOf energyFollower,
        calcSource := replacement.replacementDetails.map (fun d => d.calcSource),
        inclusion := replacement.replacementInclusion } }

/-- The function `syncComparisonStatement` on doubles, from the point where
`comparisonData` has been collected.  The result `none` stands for the call
`hideComparisonStatement()`, the result `some statement` for the call
`updateComparisonStatement(statement)`. -/
def Double.syncComparisonStatement (supabaseModule : Option SupabaseModule)
    (labels : StatementLabels) (comparisonData : List DataPoint) :
    Option ComparisonStatement :=
  if comparisonData.length < 2 then
    none
  else
    let enrichedComparisonData := Double.enrichComparisonData comparisonData
    let pollution := Double.selectLeaderFollower enrichedComparisonData pollutionAccessor
    let energy := Double.selectLeaderFollower enrichedComparisonData energyAccessor
    let emission := Double.selectLeaderFollower enrichedComparisonData emissionFactorAccessor
    let left := leftPair pollution energy emission
    let leftLeader := left.1
    let leftFollower := left.2
    let comparison := Double.pollutionComparison leftLeader leftFollower pollution
    let energyRatio := Double.energyRatioOf energy
    let warningPolluter := energy.follower
    let warningBaseline := energy.leader
    let warningFallback := leftFollower <|> pollution.follower
    let replacement :=
      Double.replacementBlock supabaseModule warningPolluter warningBaseline warningFallback
    match leftLeader, leftFollower, energy.leader, energy.follower with
    | some leftLeader, some leftFollower, some energyLeader, some energyFollower =>
      some (Double.statementOf labels leftLeader leftFollower energyLeader energyFollower
        comparison energyRatio replacement)
    | _, _, _, _ => none

/-! ## Example inputs -/

/-- The accessor of the ranking examples: the points are pairs of an index
and a metric value. -/
def indexedMetric (point : Nat × JsVal) : JsVal := point.2

/-- Four points with the metric values `[NaN, 5, 10, NaN]`. -/
def rankingExample : List (Nat × JsVal) :=
  [(0, JsVal.num JsNum.nan), (1, JsVal.num (JsNum.fin 5)),
   (2, JsVal.num (JsNum.fin 10)), (3, JsVal.num JsNum.nan)]

/-- Two points with the metric values `[5, NaN]`: one finite value. -/
def oneFiniteExample : List (Nat × JsVal) :=
  [(0, JsVal.num (JsNum.fin 5)), (1, JsVal.num JsNum.nan)]

/-- Category A of the scenario: pollution 100, activity 50. -/
def categoryA : DataPoint :=
  { categoryId := JsVal.num (JsNum.fin 1), displayName := some "A",
    pollutantValue := JsVal.num (JsNum.fin 100), actDataValue := JsVal.num (JsNum.fin 50) }

/-- Category B of the scenario: pollution 40, activity 200. -/
def categoryB : DataPoint :=
  { categoryId := JsVal.num (JsNum.fin 2), displayName := some "B",
    pollutantValue := JsVal.num (JsNum.fin 40), actDataValue := JsVal.num (JsNum.fin 200) }

/-- The labels of the examples. -/
def exampleLabels : StatementLabels :=
  { pollutantName := some "PM2.5", pollutantUnit := "kt", activityUnit := "TJ" }

/-- The statement the scenario `[categoryA, categoryB]` yields when no
inclusion service is loaded. -/
def scenarioStatement : ComparisonStatement :=
  statementOf exampleLabels (enrich categoryA) (enrich categoryB) (enrich categoryB)
    (enrich categoryA) (JsNum.fin (5 / 2), some PollutionRelation.higher) (JsNum.fin 4)
    { replacementPollution := some (JsNum.fin 500),
      replacementDetails := some
        { polluter := enrich categoryA, baseline := enrich categoryB,
          emissionFactor := some (JsNum.fin 2), totalActivity := some (JsNum.fin 250),
          calcSource := CalcSource.ef },
      replacementInclusion := none }

/-- Category A without a pollutant value (the property is missing): activity 50. -/
def unmeasuredA : DataPoint :=
  { categoryId := JsVal.num (JsNum.fin 1), displayName := some "A",
    actDataValue := JsVal.num (JsNum.fin 50) }

/-- Category B without a pollutant value (the property is missing): activity 200. -/
def unmeasuredB : DataPoint :=
  { categoryId := JsVal.num (JsNum.fin 2), displayName := some "B",
    actDataValue := JsVal.num (JsNum.fin 200) }

/-- A polluter with pollution 8 and the negative activity value -10. -/
def negativeActivityPolluter : DataPoint :=
  { categoryId := JsVal.num (JsNum.fin 1), displayName := some "A",
    pollutantValue := JsVal.num (JsNum.fin 8), actDataValue := JsVal.num (JsNum.fin (-10)) }

/-- A baseline with pollution 10 and activity 250. -/
def largeBaseline : DataPoint :=
  { categoryId := JsVal.num (JsNum.fin 2), displayName := some "B",
    pollutantValue := JsVal.num (JsNum.fin 10), actDataValue := JsVal.num (JsNum.fin 250) }

/-- A polluter with pollution 40 and activity 50: emission factor 0.8. -/
def smallPolluter : DataPoint :=
  { categoryId := JsVal.num (JsNum.fin 1), displayName := some "A",
    pollutantValue := JsVal.num (JsNum.fin 40), actDataValue := JsVal.num (JsNum.fin 50) }

/-- A baseline with pollution 10 and activity 200; with `smallPolluter` the
combined activity is 250. -/
def wideBaseline : DataPoint :=
  { categoryId := JsVal.num (JsNum.fin 2), displayName := some "B",
    pollutantValue := JsVal.num (JsNum.fin 10), actDataValue := JsVal.num (JsNum.fin 200) }

/-- A polluter with pollution 0 and activity 50. -/
def cleanPolluter : DataPoint :=
  { categoryId := JsVal.num (JsNum.fin 1), displayName := some "A",
    pollutantValue := JsVal.num (JsNum.fin 0), actDataValue := JsVal.num (JsNum.fin 50) }

/-- An inclusion service whose assessor always answers `included: true`. -/
def includingService : SupabaseModule :=
  { assessCategoryInclusion := some (fun _ _ =>
      AssessorOutcome.answered (some { included := true, reason := none })) }

/-- An inclusion service whose assessor always answers `included: false`. -/
def excludingService : SupabaseModule :=
  { assessCategoryInclusion := some (fun _ _ =>
      AssessorOutcome.answered (some { included := false, reason := none })) }

/-- An inclusion service whose assessor always throws. -/
def throwingService : SupabaseModule :=
  { assessCategoryInclusion := some (fun _ _ => AssessorOutcome.threw) }

/-- The statement the derivation builds for `[smallPolluter, wideBaseline]`
with the given inclusion module. -/
def smallWideStatement (supabaseModule : Option SupabaseModule) : ComparisonStatement :=
  statementOf exampleLabels (enrich smallPolluter) (enrich wideBaseline)
    (enrich wideBaseline) (enrich smallPolluter)
    (pollutionComparison (some (enrich smallPolluter)) (some (enrich wideBaseline))
      (selectLeaderFollower (enrichComparisonData [smallPolluter, wideBaseline])
        pollutionAccessor))
    (safeRatio (enrich wideBaseline).actDataValue (enrich smallPolluter).actDataValue)
    (replacementBlock supabaseModule (some (enrich smallPolluter))
      (some (enrich wideBaseline)) (some (enrich wideBaseline)))

/-! ## Layout negotiation: numbers and constants -/

/-- The function `Math.round(x)`: the nearest integer, a tie going up. -/
def JsNum.round : JsNum → JsNum
  | JsNum.fin q => JsNum.fin (⌊q + 1 / 2⌋ : ℤ)
  | x => x

/-- The function `Math.max(x, y)`: `NaN` when an argument is `NaN`. -/
def JsNum.max : JsNum → JsNum → JsNum
  | JsNum.nan, _ => JsNum.nan
  | _, JsNum.nan => JsNum.nan
  | x, y => if JsNum.lt x y then y else x

/-- The function `Math.abs(x)`. -/
def JsNum.abs : JsNum → JsNum
  | JsNum.fin q => JsNum.fin |q|
  | JsNum.posInf => JsNum.posInf
  | JsNum.negInf => JsNum.posInf
  | JsNum.nan => JsNum.nan

/-- The comparison `x >= y`; every comparison with `NaN` is false. -/
def JsNum.ge (x y : JsNum) : Bool := JsNum.le y x

/-- The expression `a || fallback` for a property that holds a number or is
missing (`none`): `a` when it is truthy, the fallback otherwise. -/
def orNumber (a : Nullable) (fallback : JsNum) : JsNum :=
  match a with
  | some x => if x.truthy then x else fallback
  | none => fallback

/-- The constant `WRAPPER_OBSERVER_SUPPRESS_MS`. -/
def WRAPPER_OBSERVER_SUPPRESS_MS : ℚ := 450

/-- The constant `MIN_CHART_CANVAS_HEIGHT`. -/
def MIN_CHART_CANVAS_HEIGHT : ℚ := 420

/-- The constant `CHART_HEADER_BUFFER`. -/
def CHART_HEADER_BUFFER : ℚ := 10

/-- The constant `FOOTER_GAP`. -/
def FOOTER_GAP : ℚ := 6

/-- The constant `MIN_HEIGHT_DELTA`. -/
def MIN_HEIGHT_DELTA : ℚ := 8

/-- The constant `DEFAULT_PARENT_FOOTER`. -/
def DEFAULT_PARENT_FOOTER : ℚ := 140

/-- The constant `DEFAULT_PARENT_VIEWPORT`. -/
def DEFAULT_PARENT_VIEWPORT : ℚ := 900

/-- The constant `CSS_VISUAL_PADDING`. -/
def CSS_VISUAL_PADDING : ℚ := 27

/-- The constant `RESIZE_THRESHOLD`. -/
def RESIZE_THRESHOLD : ℚ := 3

/-! ## Layout negotiation: the page -/

/-- The value of the CSS custom property `--bubble-viewport-height`. -/
inductive CssViewportHeight where
  | fullViewport
  | pixels (value : JsNum)
  deriving DecidableEq

/-- The module-level variables of the layout subsystem, with the two window
properties the module writes (`window.__NAEI_LAST_CHART_HEIGHT`,
`window.__BUBBLE_PRE_LEGEND_ESTIMATE`) and the two CSS properties it sets
(`--bubble-viewport-height`, and `--bubble-footer-height` in pixels, 187 after
the call `applyCssFooterReserve(CSS_DEFAULT_FOOTER_RESERVE)` at load).  A
pending handle is `none` for `null`; the cached heights are `none` while
unset. -/
structure LayoutState where
  comparisonStatementVisible : Bool := false
  pendingComparisonChromeRefresh : Option Nat := none
  pendingComparisonRedraw : Option Nat := none
  pendingComparisonChromeHeight : Bool := false
  lastMeasuredComparisonChromeHeight : JsNum := JsNum.fin 0
  suppressWrapperObserverUntil : JsNum := JsNum.fin 0
  lastSentHeight : JsNum := JsNum.fin 0
  parentFooterHeight : JsNum := JsNum.fin DEFAULT_PARENT_FOOTER
  parentViewportHeight : JsNum := JsNum.fin DEFAULT_PARENT_VIEWPORT
  lastChartHeight : Nullable := none
  preLegendEstimate : Nullable := none
  cssViewportHeight : CssViewportHeight := CssViewportHeight.fullViewport
  cssFooterReserve : JsNum := JsNum.fin 187
  deriving DecidableEq

/-- The rectangle `getBoundingClientRect()` returns for an element, as far as
the module reads it. -/
structure ElementRect where
  height : JsNum := JsNum.fin 0
  bottom : JsNum := JsNum.fin 0
  deriving DecidableEq

/-- The `footer` element: its rectangle and what `parseFloat` returns for its
two computed margins. -/
structure FooterElement where
  rect : ElementRect
  marginTop : JsNum
  marginBottom : JsNum
  deriving DecidableEq

/-- The `#comparisonDiv` element: its rectangle and whether its inline
`display` differs from `none`. -/
structure ComparisonDiv where
  rect : ElementRect
  displayed : Bool
  deriving DecidableEq

/-- What the module reads from the window and the document during one call.
A missing element or property is `none`. -/
structure Dom where
  visualViewportHeight : Nullable := none
  innerHeight : Nullable := none
  clientHeight : Nullable := none
  scrollY : Nullable := none
  pageYOffset : Nullable := none
  footer : Option FooterElement := none
  chartTitle : Option ElementRect := none
  customLegend : Option ElementRect := none
  comparisonDiv : Option ComparisonDiv := none
  bodyScrollHeight : Nullable := none
  bodyOffsetHeight : Nullable := none
  htmlScrollHeight : Nullable := none
  htmlOffsetHeight : Nullable := none
  chartShell : Option ElementRect := none
  mainContent : Option ElementRect := none
  chartWrapper : Option ElementRect := none
  overlay : Option ElementRect := none
  overlayApiActive : Bool := false
  overlayHasVisibleClass : Bool := false
  overlayAriaHiddenFalse : Bool := false
  deriving DecidableEq

/-- The data of a `parentViewportMetrics` message, as far as the listener
reads it.  A property the message does not carry is `undefined`. -/
structure ParentMetricsMessage where
  footerHeight : JsVal := JsVal.undefined
  viewportHeight : JsVal := JsVal.undefined
  deriving DecidableEq

/-- The object `layoutHeightManager.handleParentMetrics(event.data) || {}`,
as far as the listener reads it. -/
structure ManagerMetrics where
  footerHeight : JsVal := JsVal.undefined
  viewportHeight : JsVal := JsVal.undefined
  deriving DecidableEq

/-- The external object `window.LayoutHeightManager.create(...)` returns, as
far as the modelled functions call it.  Its methods are taken to return a
number or `undefined` (`none`); `handleParentMetrics` returns the metrics
object (all properties `undefined` when it returns nothing). -/
structure LayoutHeightManager where
  estimateChartHeight : JsNum → JsNum → JsNum → Nullable
  getLastEstimatedHeight : Nullable
  getWrapperElement : Option ElementRect
  handleParentMetrics : ParentMetricsMessage → ManagerMetrics := fun _ => {}

/-- The constants of a page load: `IS_EMBEDDED` and `layoutHeightManager`
(`none` when `window.LayoutHeightManager` is missing). -/
structure PageConfig where
  isEmbedded : Bool
  layoutHeightManager : Option LayoutHeightManager

/-! ## Layout negotiation: measuring and estimating -/

/-- The function `getElementHeight(el)`. -/
def getElementHeight (el : Option ElementRect) : JsNum :=
  match el with
  | none => JsNum.fin 0
  | some rect => JsNum.round (orNumber (some rect.height) (JsNum.fin 0))

/-- The function `getElementBottom(el)`. -/
def getElementBottom (dom : Dom) (el : Option ElementRect) : JsNum :=
  match el with
  | none => JsNum.fin 0
  | some rect =>
    let scrollOffset := orNumber dom.scrollY (orNumber dom.pageYOffset (JsNum.fin 0))
    JsNum.max (JsNum.fin 0)
      (JsNum.round (JsNum.add (orNumber (some rect.bottom) (JsNum.fin 0)) scrollOffset))

/-- The function `getStandaloneFooterHeight()`. -/
def getStandaloneFooterHeight (dom : Dom) : JsNum :=
  match dom.footer with
  | none => JsNum.fin DEFAULT_PARENT_FOOTER
  | some footer =>
    let margins := JsNum.add (orNumber (some footer.marginTop) (JsNum.fin 0))
      (orNumber (some footer.marginBottom) (JsNum.fin 0))
    JsNum.round (JsNum.add (orNumber (some footer.rect.height) (JsNum.fin 0)) margins)

/-- The function `persistComparisonChromeHeight(value)`: the new state and
the value it returns. -/
def persistComparisonChromeHeight (value : JsVal) (state : LayoutState) :
    LayoutState × JsNum :=
  let numeric := value.toNumber
  let safeValue :=
    if numeric.isFinite && JsNum.gt numeric (JsNum.fin 0) then JsNum.round numeric
    else JsNum.fin 0
  ({ state with lastMeasuredComparisonChromeHeight := safeValue }, safeValue)

/-- The function `applyCssViewportHeight(value)` called with the string
`${pixels}px`.  With a layout height manager the call is handed to the manager
and the module sets nothing itself. -/
def applyCssViewportHeightPx (config : PageConfig) (pixels : JsNum) (state : LayoutState) :
    LayoutState :=
  match config.layoutHeightManager with
  | some _ => state
  | none => { state with cssViewportHeight := CssViewportHeight.pixels pixels }

/-- The object `measureChartChromeHeight` returns. -/
structure ChromeMetrics where
  base : JsNum
  comparison : JsNum
  total : JsNum
  deriving DecidableEq

/-- The function `measureChartChromeHeight()`: the metrics and the state
after it (a displayed comparison block has its height persisted). -/
def measureChartChromeHeight (dom : Dom) (state : LayoutState) : ChromeMetrics × LayoutState :=
  let titleHeight := getElementHeight dom.chartTitle
  let legendHeight := getElementHeight dom.customLegend
  let baseChromeHeight :=
    JsNum.add (JsNum.add (JsNum.fin CHART_HEADER_BUFFER) titleHeight) legendHeight
  let shown : Option ElementRect :=
    match dom.comparisonDiv with
    | some div => if div.displayed then some div.rect else none
    | none => none
  match shown with
  | some rect =>
    let visibleComparisonHeight := getElementHeight (some rect)
    let state1 :=
      if visibleComparisonHeight.isFinite
          && JsNum.ge visibleComparisonHeight (JsNum.fin 0) then
        (persistComparisonChromeHeight (JsVal.num visibleComparisonHeight) state).1
      else state
    ({ base := baseChromeHeight, comparison := visibleComparisonHeight,
       total := JsNum.add baseChromeHeight visibleComparisonHeight }, state1)
  | none =>
    ({ base := baseChromeHeight, comparison := JsNum.fin 0,
       total := JsNum.add baseChromeHeight (JsNum.fin 0) }, state)

/-- The value `viewportHeight` of `updateChartWrapperHeight`: the rounded
parent viewport height when embedded, the rounded first truthy window reading
(or 0) otherwise. -/
def resolveViewportHeight (config : PageConfig) (dom : Dom) (state : LayoutState) : JsNum :=
  JsNum.round
    (if config.isEmbedded then state.parentViewportHeight
     else orNumber dom.visualViewportHeight
       (orNumber dom.innerHeight (orNumber dom.clientHeight (JsNum.fin 0))))

/-- The footer height `updateChartWrapperHeight` starts from: the
parent-supplied one when embedded, the measured one otherwise. -/
def footerHeightOf (config : PageConfig) (dom : Dom) (state : LayoutState) : JsNum :=
  if config.isEmbedded then state.parentFooterHeight else getStandaloneFooterHeight dom

/-- The value `footerReserve` of `updateChartWrapperHeight`. -/
def footerReserveOf (config : PageConfig) (dom : Dom) (state : LayoutState) : JsNum :=
  JsNum.add (footerHeightOf config dom state) (JsNum.fin FOOTER_GAP)

/-- The value `anticipatedComparisonChrome` of `updateChartWrapperHeight`,
from the metrics and the state after measuring. -/
def anticipatedComparisonChromeOf (metrics : ChromeMetrics) (state : LayoutState) : JsNum :=
  let visibleComparisonChrome := orNumber (some metrics.comparison) (JsNum.fin 0)
  if !visibleComparisonChrome.truthy && state.pendingComparisonChromeHeight then
    JsNum.max (JsNum.fin 0) state.lastMeasuredComparisonChromeHeight
  else
    visibleComparisonChrome

/-- The built-in formula of `updateChartWrapperHeight`:
`Math.max(MIN_CHART_CANVAS_HEIGHT, viewportHeight - footerReserve - chromeBuffer)`. -/
def builtInEstimate (viewportHeight footerReserve chromeBuffer : JsNum) : JsNum :=
  JsNum.max (JsNum.fin MIN_CHART_CANVAS_HEIGHT)
    (JsNum.sub (JsNum.sub viewportHeight footerReserve) chromeBuffer)

/-- The function `updateChartWrapperHeight(contextLabel)`: the value it
returns (`none` is `undefined`) and the state after it. -/
def updateChartWrapperHeight (config : PageConfig) (dom : Dom) (state : LayoutState) :
    Nullable × LayoutState :=
  let viewportHeight := resolveViewportHeight config dom state
  let state1 :=
    if !config.isEmbedded then applyCssViewportHeightPx config viewportHeight state
    else state
  let footerReserve := footerReserveOf config dom state
  if !viewportHeight.truthy then
    (none, state1)
  else
    let measured := measureChartChromeHeight dom state1
    let chromeBufferForEstimate := JsNum.fin CHART_HEADER_BUFFER
    let estimatedChartHeight : Nullable :=
      match config.layoutHeightManager with
      | some manager =>
        manager.estimateChartHeight viewportHeight footerReserve chromeBufferForEstimate
      | none => some (builtInEstimate viewportHeight footerReserve chromeBufferForEstimate)
    (estimatedChartHeight, { measured.2 with lastChartHeight := estimatedChartHeight })

/-! ## Layout negotiation: the suppression window -/

/-- The value `duration` of `suppressWrapperHeightObserver(durationMs)`:
`Math.max(0, Number(durationMs) || 0)`.  The argument `JsVal.undefined` is a
call without argument, which takes the default `WRAPPER_OBSERVER_SUPPRESS_MS`. -/
def suppressDuration (durationMs : JsVal) : JsNum :=
  let argument :=
    if durationMs = JsVal.undefined then JsVal.num (JsNum.fin WRAPPER_OBSERVER_SUPPRESS_MS)
    else durationMs
  JsNum.max (JsNum.fin 0) (orNumber (some argument.toNumber) (JsNum.fin 0))

/-- The function `suppressWrapperHeightObserver(durationMs)` called while
`Date.now()` is `now` (milliseconds since the epoch). -/
def suppressWrapperHeightObserver (durationMs : JsVal) (now : Nat) (state : LayoutState) :
    LayoutState :=
  let duration := suppressDuration durationMs
  if JsNum.le duration (JsNum.fin 0) then
    { state with suppressWrapperObserverUntil := JsNum.fin 0 }
  else
    { state with suppressWrapperObserverUntil := JsNum.add (JsNum.fin (now : ℚ)) duration }

/-- The function `shouldIgnoreWrapperObserverTick()` called while
`Date.now()` is `now`. -/
def shouldIgnoreWrapperObserverTick (now : Nat) (state : LayoutState) : Bool :=
  if !state.suppressWrapperObserverUntil.truthy then
    false
  else if JsNum.lt (JsNum.fin (now : ℚ)) state.suppressWrapperObserverUntil then
    true
  else
    false

/-- The expiry after each call of a run of calls
`suppressWrapperHeightObserver(durationMs)`, each given with the value of
`Date.now()` at the call, in order. -/
def expiryTrace : List (Nat × JsVal) → LayoutState → List JsNum
  | [], _ => []
  | call :: rest, state =>
    (suppressWrapperHeightObserver call.2 call.1 state).suppressWrapperObserverUntil ::
      expiryTrace rest (suppressWrapperHeightObserver call.2 call.1 state)

/-! ## Layout negotiation: the content height and the parent -/

/-- The value of `preferredSource` in `measureBubbleContentHeight`. -/
inductive HeightSource where
  | noSource
  | chartShell
  | mainContent
  | chartWrapper
  | tutorialOverlay
  | document
  | fallback
  | fallbackMin
  deriving DecidableEq

/-- An entry of the array `candidates`. -/
structure HeightCandidate where
  label : HeightSource
  value : JsNum
  deriving DecidableEq

/-- The object `measureBubbleContentHeight` returns. -/
structure ContentMeasurement where
  height : JsNum
  source : HeightSource
  documentHeight : JsNum
  shellBottom : JsNum
  mainContentBottom : JsNum
  wrapperBottom : JsNum
  overlayBottom : JsNum
  overlayVisible : Bool
  fallbackEstimate : JsNum
  deriving DecidableEq

/-- The value `documentHeight` of `measureBubbleContentHeight`. -/
def documentHeightOf (dom : Dom) : JsNum :=
  JsNum.max
    (JsNum.max
      (JsNum.max (orNumber dom.bodyScrollHeight (JsNum.fin 0))
        (orNumber dom.bodyOffsetHeight (JsNum.fin 0)))
      (orNumber dom.htmlScrollHeight (JsNum.fin 0)))
    (orNumber dom.htmlOffsetHeight (JsNum.fin 0))

/-- The value `overlayVisible` of `measureBubbleContentHeight`. -/
def overlayVisibleOf (dom : Dom) : Bool :=
  dom.overlay.isSome
    && (dom.overlayApiActive || dom.overlayHasVisibleClass || dom.overlayAriaHiddenFalse)

/-- The element `wrapperEl` of `measureBubbleContentHeight`: the manager's
wrapper element, or else the `.chart-wrapper` element of the document. -/
def wrapperElementOf (config : PageConfig) (dom : Dom) : Option ElementRect :=
  (config.layoutHeightManager.bind (fun manager => manager.getWrapperElement))
    <|> dom.chartWrapper

/-- The array `candidates` of `measureBubbleContentHeight`. -/
def heightCandidates (config : PageConfig) (dom : Dom) : List HeightCandidate :=
  let overlayBottom :=
    if overlayVisibleOf dom then getElementBottom dom dom.overlay else JsNum.fin 0
  [ { label := HeightSource.chartShell, value := getElementBottom dom dom.chartShell },
    { label := HeightSource.mainContent, value := getElementBottom dom dom.mainContent },
    { label := HeightSource.chartWrapper,
      value := getElementBottom dom (wrapperElementOf config dom) } ]
  ++ (if overlayBottom.truthy then
        [{ label := HeightSource.tutorialOverlay, value := overlayBottom }]
      else [])

/-- The array `validCandidates`: the candidates with a finite value > 0. -/
def validCandidatesOf (candidates : List HeightCandidate) : List HeightCandidate :=
  candidates.filter
    (fun candidate => candidate.value.isFinite && JsNum.gt candidate.value (JsNum.fin 0))

/-- The call `validCandidates.reduce((prev, next) => next.value > prev.value
? next : prev)` on a non-empty array with the given first element. -/
def bestCandidateOf (first : HeightCandidate) (rest : List HeightCandidate) :
    HeightCandidate :=
  rest.foldl (fun prev next => if JsNum.gt next.value prev.value then next else prev) first

/-- The value `fallbackEstimate` of `measureBubbleContentHeight`. -/
def fallbackEstimateOf (config : PageConfig) (state : LayoutState) : JsNum :=
  JsNum.max
    (JsNum.fin (MIN_CHART_CANVAS_HEIGHT + CHART_HEADER_BUFFER + FOOTER_GAP))
    (orNumber (config.layoutHeightManager.bind (fun manager => manager.getLastEstimatedHeight))
      (orNumber state.lastChartHeight (JsNum.fin MIN_CHART_CANVAS_HEIGHT)))

/-- The function `measureBubbleContentHeight()`. -/
def measureBubbleContentHeight (config : PageConfig) (dom : Dom) (state : LayoutState) :
    ContentMeasurement :=
  let documentHeight := documentHeightOf dom
  let overlayVisible := overlayVisibleOf dom
  let validCandidates := validCandidatesOf (heightCandidates config dom)
  let fromAnchors : JsNum × HeightSource :=
    match validCandidates with
    | first :: rest =>
      ((bestCandidateOf first rest).value, (bestCandidateOf first rest).label)
    | [] => (JsNum.fin 0, HeightSource.noSource)
  let fallbackEstimate := fallbackEstimateOf config state
  let afterDocument : JsNum × HeightSource :=
    if !fromAnchors.1.truthy && documentHeight.truthy then
      (documentHeight, HeightSource.document)
    else fromAnchors
  let afterFallback : JsNum × HeightSource :=
    if !afterDocument.1.truthy then (fallbackEstimate, HeightSource.fallback)
    else afterDocument
  let afterMinimum : JsNum × HeightSource :=
    if JsNum.lt afterFallback.1 (JsNum.fin 300) then
      (JsNum.max (JsNum.fin 1100) fallbackEstimate, HeightSource.fallbackMin)
    else afterFallback
  { height := JsNum.round afterMinimum.1,
    source := afterMinimum.2,
    documentHeight := JsNum.round (orNumber (some documentHeight) (JsNum.fin 0)),
    shellBottom := getElementBottom dom dom.chartShell,
    mainContentBottom := getElementBottom dom dom.mainContent,
    wrapperBottom := getElementBottom dom (wrapperElementOf config dom),
    overlayBottom :=
      if overlayVisible then getElementBottom dom dom.overlay else JsNum.fin 0,
    overlayVisible := overlayVisible,
    fallbackEstimate := JsNum.round fallbackEstimate }

/-- A callback the module hands to `requestAnimationFrame`. -/
inductive FrameTask where
  | comparisonRedraw
  | comparisonChromeRefresh
  | updateWrapperHeight
  deriving DecidableEq

/-- A callback the module hands to `setTimeout`. -/
inductive TimerTask where
  | sendContentHeight (force : Bool)
  deriving DecidableEq

/-- A `contentHeight` message (`chart: 'bubble'`) that reached the parent. -/
structure ParentMessage where
  height : JsNum
  deriving DecidableEq

/-- The browser side of the page: the animation-frame callbacks waiting for
the next frame (with their handles), the handle the next request gets, the
timers set, the messages the parent received, whether `postMessage` throws,
and how often `updateChart` was called.  The fallback pair `setTimeout(cb, 16)`
/ `clearTimeout` of the two schedulers is the same queue. -/
structure Browser where
  frameCallbacks : List (Nat × FrameTask) := []
  nextHandle : Nat := 1
  timers : List (ℚ × TimerTask) := []
  outbox : List ParentMessage := []
  parentPostThrows : Bool := false
  updateChartCalls : Nat := 0
  deriving DecidableEq

/-- The module state together with the browser side. -/
structure Page where
  state : LayoutState := {}
  browser : Browser := {}
  deriving DecidableEq

/-- The call `requestAnimationFrame(callback)`: the handle and the browser
after it. -/
def requestFrame (task : FrameTask) (browser : Browser) : Nat × Browser :=
  (browser.nextHandle,
    { browser with
      frameCallbacks := browser.frameCallbacks ++ [(browser.nextHandle, task)],
      nextHandle := browser.nextHandle + 1 })

/-- The call `cancelAnimationFrame(handle)`. -/
def cancelFrame (handle : Nat) (browser : Browser) : Browser :=
  { browser with frameCallbacks := browser.frameCallbacks.filter (fun entry => entry.1 != handle) }

/-- Truthiness of a pending handle: `null` and `0` are falsy. -/
def handleTruthy : Option Nat → Bool
  | some handle => handle != 0
  | none => false

/-- The function `sendContentHeightToParent(force)`. -/
def sendContentHeightToParent (config : PageConfig) (dom : Dom) (force : Bool) (page : Page) :
    Page :=
  if !config.isEmbedded then
    page
  else
    let measurement := measureBubbleContentHeight config dom page.state
    let measuredHeight := JsNum.max (JsNum.fin MIN_CHART_CANVAS_HEIGHT) measurement.height
    if !force && page.state.lastSentHeight.truthy
        && JsNum.lt (JsNum.abs (JsNum.sub measuredHeight page.state.lastSentHeight))
            (JsNum.fin MIN_HEIGHT_DELTA) then
      page
    else
      let state1 := { page.state with lastSentHeight := measuredHeight }
      if page.browser.parentPostThrows then
        { page with state := state1 }
      else
        let posted :=
          { page.browser with outbox := page.browser.outbox ++ [{ height := measuredHeight }] }
        { state := state1, browser := (requestFrame FrameTask.updateWrapperHeight posted).2 }

/-! ## Layout negotiation: the two schedulers -/

/-- The statement `if (pending) { caf(pending); }` of the two schedulers. -/
def cancelPending (pending : Option Nat) (browser : Browser) : Browser :=
  match pending with
  | some handle => if handleTruthy (some handle) then cancelFrame handle browser else browser
  | none => browser

/-- The function `scheduleComparisonRedraw(reason)`: a pending request is
cancelled, a new one is made and its handle is kept. -/
def scheduleComparisonRedraw (page : Page) : Page :=
  let requested := requestFrame FrameTask.comparisonRedraw
    (cancelPending page.state.pendingComparisonRedraw page.browser)
  { state := { page.state with pendingComparisonRedraw := some requested.1 },
    browser := requested.2 }

/-- The function `scheduleComparisonChromeRefresh(reason)`. -/
def scheduleComparisonChromeRefresh (page : Page) : Page :=
  let requested := requestFrame FrameTask.comparisonChromeRefresh
    (cancelPending page.state.pendingComparisonChromeRefresh page.browser)
  { state := { page.state with pendingComparisonChromeRefresh := some requested.1 },
    browser := requested.2 }

/-- The function `setPendingComparisonChromeHeight(nextValue)`. -/
def setPendingComparisonChromeHeight (nextValue : Bool) (state : LayoutState) : LayoutState :=
  { state with pendingComparisonChromeHeight := nextValue }

/-- One animation-frame callback running.  The redraw callback clears its
handle and calls `updateChart`, which is recorded as a call and not followed
further.  The chrome-refresh callback clears its handle, re-estimates the
chart height, keeps a finite estimate as the pre-legend estimate, clears the
pending-chrome flag and sets the 80 ms timer for a forced height
notification.  The third callback is the one `sendContentHeightToParent`
requests. -/
def runFrameTask (config : PageConfig) (dom : Dom) (task : FrameTask) (page : Page) : Page :=
  match task with
  | FrameTask.comparisonRedraw =>
    { state := { page.state with pendingComparisonRedraw := none },
      browser := { page.browser with updateChartCalls := page.browser.updateChartCalls + 1 } }
  | FrameTask.comparisonChromeRefresh =>
    let cleared := { page.state with pendingComparisonChromeRefresh := none }
    let estimated := updateChartWrapperHeight config dom cleared
    let state1 :=
      if nullableIsFinite estimated.1 then { estimated.2 with preLegendEstimate := estimated.1 }
      else estimated.2
    { state := setPendingComparisonChromeHeight false state1,
      browser :=
        { page.browser with
          timers := page.browser.timers ++ [(80, TimerTask.sendContentHeight true)] } }
  | FrameTask.updateWrapperHeight =>
    { page with state := (updateChartWrapperHeight config dom page.state).2 }

/-- An animation frame: the callbacks waiting at its start run in the order
they were requested; callbacks requested meanwhile wait for the next frame. -/
def runFrame (config : PageConfig) (dom : Dom) (page : Page) : Page :=
  page.browser.frameCallbacks.foldl
    (fun current entry => runFrameTask config dom entry.2 current)
    { page with browser := { page.browser with frameCallbacks := [] } }

/-- The number of callbacks of a kind that wait for the next frame. -/
def pendingCount (task : FrameTask) (page : Page) : Nat :=
  page.browser.frameCallbacks.countP (fun entry => entry.2 = task)

/-- The number of 80 ms timers for a forced height notification. -/
def refreshTimerCount (page : Page) : Nat :=
  page.browser.timers.countP (fun timer => timer = (80, TimerTask.sendContentHeight true))

/-- The consistency of a pending handle with the frame queue: every waiting
callback of the kind carries the pending handle, at most one callback of the
kind waits, and a handle in the queue is positive and below the next handle. -/
def QueueConsistent (task : FrameTask) (pending : Option Nat) (browser : Browser) : Prop :=
  (∀ entry ∈ browser.frameCallbacks, entry.2 = task → pending = some entry.1) ∧
  browser.frameCallbacks.countP (fun entry => entry.2 = task) ≤ 1 ∧
  (∀ entry ∈ browser.frameCallbacks, 0 < entry.1 ∧ entry.1 < browser.nextHandle) ∧
  0 < browser.nextHandle

/-- The page after `count` calls of `scheduleComparisonRedraw`. -/
def redrawCalls : Nat → Page → Page
  | 0, page => page
  | count + 1, page => scheduleComparisonRedraw (redrawCalls count page)

/-- The page after `count` calls of `scheduleComparisonChromeRefresh`. -/
def chromeRefreshCalls : Nat → Page → Page
  | 0, page => page
  | count + 1, page => scheduleComparisonChromeRefresh (chromeRefreshCalls count page)

/-! ## Layout negotiation: the `parentViewportMetrics` message -/

/-- The function `applyCssFooterReserve(pixels)`.  With a layout height
manager the call is handed to the manager and the module sets nothing itself. -/
def applyCssFooterReserve (config : PageConfig) (pixels : JsNum) (state : LayoutState) :
    LayoutState :=
  match config.layoutHeightManager with
  | some _ => state
  | none =>
    let safePixels :=
      JsNum.max (JsNum.fin FOOTER_GAP) (JsNum.round (orNumber (some pixels) (JsNum.fin 0)))
    { state with cssFooterReserve := JsNum.add safePixels (JsNum.fin CSS_VISUAL_PADDING) }

/-- What the listener has done when it returns: the module state, and whether
it armed the 200 ms timer for the debounced redraw (whose callback is not
followed). -/
structure MetricsOutcome where
  state : LayoutState
  redrawTimerArmed : Bool
  deriving DecidableEq

/-- The `message` listener on an event whose data has the type
`parentViewportMetrics`. -/
def handleParentViewportMetrics (config : PageConfig) (dom : Dom) (data : ParentMetricsMessage)
    (state : LayoutState) : MetricsOutcome :=
  let handled : LayoutState × Bool :=
    match config.layoutHeightManager with
    | some manager =>
      let metrics := manager.handleParentMetrics data
      let state1 :=
        if metrics.footerHeight.isFinite then
          { state with
            parentFooterHeight :=
              JsNum.max metrics.footerHeight.toNumber (JsNum.fin FOOTER_GAP) }
        else state
      let state2 :=
        if metrics.viewportHeight.isFinite then
          { state1 with parentViewportHeight := metrics.viewportHeight.toNumber }
        else state1
      (state2, false)
    | none =>
      let previousFooter := state.parentFooterHeight
      let previousViewport := state.parentViewportHeight
      let footerCandidate := data.footerHeight.toNumber
      let viewportCandidate := data.viewportHeight.toNumber
      let state1 :=
        if footerCandidate.isFinite && JsNum.ge footerCandidate (JsNum.fin 0) then
          let stored := JsNum.max footerCandidate (JsNum.fin FOOTER_GAP)
          applyCssFooterReserve config (JsNum.add stored (JsNum.fin FOOTER_GAP))
            { state with parentFooterHeight := stored }
        else state
      let state2 :=
        if viewportCandidate.isFinite && JsNum.gt viewportCandidate (JsNum.fin 0) then
          applyCssViewportHeightPx config viewportCandidate
            { state1 with parentViewportHeight := viewportCandidate }
        else state1
      let footerDelta := JsNum.abs (JsNum.sub
        (orNumber (some state2.parentFooterHeight) (JsNum.fin 0))
        (orNumber (some previousFooter) (JsNum.fin 0)))
      let viewportDelta := JsNum.abs (JsNum.sub
        (orNumber (some state2.parentViewportHeight) (JsNum.fin 0))
        (orNumber (some previousViewport) (JsNum.fin 0)))
      (state2, JsNum.ge (JsNum.max footerDelta viewportDelta) (JsNum.fin RESIZE_THRESHOLD))
  { state := (updateChartWrapperHeight config dom handled.1).2,
    redrawTimerArmed := handled.2 }

/-- The module state after a sequence of `parentViewportMetrics` messages,
each with the document as it is when the message arrives. -/
def handleMessages (config : PageConfig) (events : List (Dom × ParentMetricsMessage))
    (state : LayoutState) : LayoutState :=
  events.foldl
    (fun current event => (handleParentViewportMetrics config event.1 event.2 current).state)
    state

/-- The stored parent metrics are sound: the viewport height is finite and
above 0, the footer height is at least `FOOTER_GAP`. -/
def ParentMetricsSound (state : LayoutState) : Prop :=
  state.parentViewportHeight.isFinite = true ∧
  JsNum.gt state.parentViewportHeight (JsNum.fin 0) = true ∧
  JsNum.ge state.parentFooterHeight (JsNum.fin FOOTER_GAP) = true

/-- The window heights a standalone page reads are not negative: each of
`window.visualViewport.height`, `window.innerHeight` and
`document.documentElement.clientHeight`, when present, is not below 0. -/
def WindowHeightsNonNegative (dom : Dom) : Prop :=
  (∀ x, dom.visualViewportHeight = some x → JsNum.lt x (JsNum.fin 0) = false) ∧
  (∀ x, dom.innerHeight = some x → JsNum.lt x (JsNum.fin 0) = false) ∧
  (∀ x, dom.clientHeight = some x → JsNum.lt x (JsNum.fin 0) = false)

/-! ## Layout negotiation: the comparison visibility -/

/-- A call of one of the two functions every visibility transition has to go
through. -/
inductive PipelineCall where
  | suppressWrapperHeightObserver
  | scheduleComparisonChromeRefresh
  deriving DecidableEq

/-- The page together with the calls of `suppressWrapperHeightObserver` and
`scheduleComparisonChromeRefresh` made so far, in order. -/
structure TracedPage where
  page : Page := {}
  calls : List PipelineCall := []
  deriving DecidableEq

/-- A call `suppressWrapperHeightObserver()` at the time `now`. -/
def callSuppress (now : Nat) (traced : TracedPage) : TracedPage :=
  { page :=
      { traced.page with
        state := suppressWrapperHeightObserver JsVal.undefined now traced.page.state },
    calls := traced.calls ++ [PipelineCall.suppressWrapperHeightObserver] }

/-- A call `scheduleComparisonChromeRefresh(reason)`. -/
def callChromeRefresh (traced : TracedPage) : TracedPage :=
  { page := scheduleComparisonChromeRefresh traced.page,
    calls := traced.calls ++ [PipelineCall.scheduleComparisonChromeRefresh] }

/-- The function `setComparisonStatementVisibility(nextVisible, reason)`
called at the time `now`. -/
def setComparisonStatementVisibility (nextVisible : Bool) (now : Nat) (traced : TracedPage) :
    TracedPage :=
  if traced.page.state.comparisonStatementVisible = nextVisible then traced
  else
    let flipped : TracedPage :=
      { traced with
        page :=
          { traced.page with
            state := setPendingComparisonChromeHeight true
              { traced.page.state with comparisonStatementVisible := nextVisible } } }
    callChromeRefresh (callSuppress now flipped)

/-- The function `updateComparisonMeasurement(markup)` for a non-empty markup;
`measured` is the height of the measurement element holding the markup.  It
returns the persisted height. -/
def updateComparisonMeasurement (measured : JsNum) (state : LayoutState) : LayoutState × JsNum :=
  let state1 :=
    if measured.isFinite && JsNum.ge measured (JsNum.fin 0) then
      (persistComparisonChromeHeight (JsVal.num measured) state).1
    else state
  (state1, state1.lastMeasuredComparisonChromeHeight)

/-- The layout part of `updateComparisonStatement(statement)`, called at the
time `now`: the flag `wasVisible`, then what follows the markup being built.
`measured` is the height of the measurement element, `visibleComparisonHeight`
the height of the comparison element with the new markup in it. -/
def updateComparisonStatement (measured visibleComparisonHeight : JsNum) (now : Nat)
    (traced : TracedPage) : TracedPage :=
  let wasVisible := traced.page.state.comparisonStatementVisible
  let measurement := updateComparisonMeasurement measured traced.page.state
  let measuredChromeHeight := measurement.2
  let state1 :=
    if visibleComparisonHeight.isFinite
        && JsNum.ge visibleComparisonHeight (JsNum.fin 0) then
      (persistComparisonChromeHeight (JsVal.num visibleComparisonHeight) measurement.1).1
    else if measuredChromeHeight.isFinite then
      (persistComparisonChromeHeight (JsVal.num measuredChromeHeight) measurement.1).1
    else measurement.1
  let persisted : TracedPage := { traced with page := { traced.page with state := state1 } }
  let updated : TracedPage :=
    if wasVisible then
      callChromeRefresh (callSuppress now
        { persisted with
          page :=
            { persisted.page with
              state := setPendingComparisonChromeHeight true persisted.page.state } })
    else persisted
  setComparisonStatementVisibility true now updated

/-- The function `hideComparisonStatement()` on a document that has the
comparison element, called at the time `now`. -/
def hideComparisonStatement (now : Nat) (traced : TracedPage) : TracedPage :=
  let cleared : TracedPage :=
    { traced with
      page :=
        { traced.page with
          state := (persistComparisonChromeHeight (JsVal.num (JsNum.fin 0))
            traced.page.state).1 } }
  setComparisonStatementVisibility false now cleared

/-! ## The comparison checkboxes -/

/-- The positions of the checked checkboxes, in document order
(`getCheckedBoxes()`); a checkbox is given by its `checked` flag. -/
def checkedIndices (checkboxes : List Bool) : List Nat :=
  (List.range checkboxes.length).filter (fun index => checkboxes.getD index false)

/-- The array `candidates` of one pass of the loop, after
`candidates.sort(...)`.  The triggering checkbox is given by its position; a
position past the end stands for an element that is not among the
checkboxes. -/
def uncheckCandidates (triggered : Option Nat) (checkboxes : List Bool) : List Nat :=
  let checkedBoxes := checkedIndices checkboxes
  let candidates :=
    match triggered with
    | some position =>
      if checkboxes.getD position false then
        let others := checkedBoxes.filter (fun index => index != position)
        if others.length != 0 then others else checkedBoxes
      else checkedBoxes
    | none => checkedBoxes
  List.insertionSort (fun a b => a ≤ b) candidates

/-- The loop `while (checkedBoxes.length > 2) {...}` of `refreshCheckboxes`,
run for at most `fuel` passes; `none` when the passes do not suffice. -/
def refreshLoop : Nat → Option Nat → List Bool → Option (List Bool)
  | 0, _, checkboxes =>
    if 2 < (checkedIndices checkboxes).length then none else some checkboxes
  | fuel + 1, triggered, checkboxes =>
    if 2 < (checkedIndices checkboxes).length then
      match (uncheckCandidates triggered checkboxes).head? with
      | none => some checkboxes
      | some toUncheck => refreshLoop fuel triggered (checkboxes.set toUncheck false)
    else some checkboxes

/-- The function `refreshCheckboxes(triggeredCheckbox, options)`, as far as
the `checked` flags go: one pass per checkbox is allowed for. -/
def refreshCheckboxes (triggered : Option Nat) (checkboxes : List Bool) :
    Option (List Bool) :=
  refreshLoop checkboxes.length triggered checkboxes

/-! ## Layout negotiation: example pages -/

/-- An embedded page without a layout height manager (the built-in path). -/
def embeddedBuiltIn : PageConfig := { isEmbedded := true, layoutHeightManager := none }

/-- A standalone page without a layout height manager. -/
def standaloneBuiltIn : PageConfig := { isEmbedded := false, layoutHeightManager := none }

/-- A state whose parent viewport height is 0.3 (it rounds to 0) and whose
cached chart height is 500. -/
def tinyViewportState : LayoutState :=
  { parentViewportHeight := JsNum.fin (3 / 10), lastChartHeight := some (JsNum.fin 500) }

/-- A document without any of the elements the module measures. -/
def emptyDom : Dom := {}

/-- A page right after load: the initial module state, nothing queued. -/
def emptyPage : Page := {}

/-- A document whose only anchor is a chart shell ending 250px below the
top; the page is not scrolled and the document is 250px high. -/
def shortShellDom : Dom :=
  { chartShell := some { height := JsNum.fin 250, bottom := JsNum.fin 250 },
    bodyScrollHeight := some (JsNum.fin 250),
    htmlScrollHeight := some (JsNum.fin 250) }

/-- A document with a chart shell ending at 800px, a main content element
ending at 650px and a hidden tutorial overlay ending at 2000px. -/
def tallShellDom : Dom :=
  { chartShell := some { height := JsNum.fin 700, bottom := JsNum.fin 800 },
    mainContent := some { height := JsNum.fin 650, bottom := JsNum.fin 650 },
    overlay := some { height := JsNum.fin 2000, bottom := JsNum.fin 2000 },
    bodyScrollHeight := some (JsNum.fin 900) }

/-- An embedded page that last sent the height 800 to its parent. -/
def sentPage : Page := { state := { lastSentHeight := JsNum.fin 800 } }

/-- A document with a title of height 30, a legend of height 40 and a
displayed comparison block of height 120. -/
def comparisonDom : Dom :=
  { chartTitle := some { height := JsNum.fin 30 },
    customLegend := some { height := JsNum.fin 40 },
    comparisonDiv := some { rect := { height := JsNum.fin 120 }, displayed := true } }

/-- The state right after the comparison block was hidden: a chrome change
is pending and the persisted comparison chrome height is 0. -/
def afterHideState : LayoutState :=
  { pendingComparisonChromeHeight := true,
    lastMeasuredComparisonChromeHeight := JsNum.fin 0 }

/-- Five comparison checkboxes, all but the third one checked. -/
def fiveBoxes : List Bool := [true, true, false, true, true]

/-- A polluter with pollution 5 and activity 0. -/
def idlePolluter : DataPoint :=
  { categoryId := JsVal.num (JsNum.fin 1), displayName := some "A",
    pollutantValue := JsVal.num (JsNum.fin 5), actDataValue := JsVal.num (JsNum.fin 0) }

/-- A page right after load whose parent cannot be posted to. -/
def unreachableParentPage : Page := { browser := { parentPostThrows := true } }

/-- Two `parentViewportMetrics` messages: one with a negative viewport height
and a negative footer height, one with a viewport height that is no number
and the footer height 0. -/
def oddMessages : List (Dom × ParentMetricsMessage) :=
  [ (emptyDom, { viewportHeight := JsVal.num (JsNum.fin (-5)),
                 footerHeight := JsVal.num (JsNum.fin (-1)) }),
    (emptyDom, { viewportHeight := JsVal.undefined,
                 footerHeight := JsVal.num (JsNum.fin 0) }) ]

/-- A polluter with pollution `2^1023` (about 8.99e307) and activity 1. -/
def giantPolluter : DataPoint :=
  { categoryId := JsVal.num (JsNum.fin 1), displayName := some "A",
    pollutantValue := JsVal.num (JsNum.fin (2 ^ 1023)), actDataValue := JsVal.num (JsNum.fin 1) }

/-- A baseline with pollution 1 and activity 3. -/
def tripleBaseline : DataPoint :=
  { categoryId := JsVal.num (JsNum.fin 2), displayName := some "B",
    pollutantValue := JsVal.num (JsNum.fin 1), actDataValue := JsVal.num (JsNum.fin 3) }

/-- A polluter with pollution 1 and activity 0. -/
def unitPolluter : DataPoint :=
  { categoryId := JsVal.num (JsNum.fin 1), displayName := some "A",
    pollutantValue := JsVal.num (JsNum.fin 1), actDataValue := JsVal.num (JsNum.fin 0) }

/-- A baseline with pollution 49 and activity 200. -/
def seventhBaseline : DataPoint :=
  { categoryId := JsVal.num (JsNum.fin 2), displayName := some "B",
    pollutantValue := JsVal.num (JsNum.fin 49), actDataValue := JsVal.num (JsNum.fin 200) }

/-! # Theorems -/

/-! ## Ranking lemmas -/

section Ranking
variable {α : Type} (metricAccessor : α → JsVal)

theorem rankBefore_iff (x y : JsNum) :
    rankBefore x y ↔
      y.isFinite = false ∨ (x.isFinite = true ∧ JsNum.le y x = true) := by
  cases x <;> cases y <;>
    simp [rankBefore, rankCompare, JsNum.gt, JsNum.lt, JsNum.le, JsNum.isFinite, JsNum.sub,
      JsNum.add, JsNum.neg]

theorem rankBefore_total (x y : JsNum) : rankBefore x y ∨ rankBefore y x := by
  cases x <;> cases y <;>
    simp [rankBefore, rankCompare, JsNum.gt, JsNum.lt, JsNum.isFinite, JsNum.sub,
      JsNum.add, JsNum.neg]
  exact le_total _ _

theorem rankBefore_trans {x y z : JsNum} (hxy : rankBefore x y) (hyz : rankBefore y z) :
    rankBefore x z := by
  cases x <;> cases y <;> cases z <;>
    simp_all [rankBefore, rankCompare, JsNum.gt, JsNum.lt, JsNum.isFinite, JsNum.sub,
      JsNum.add, JsNum.neg]
  exact le_trans hyz hxy

theorem staysBefore_iff (a b : α) :
    staysBefore (metricCompare metricAccessor) a b ↔
      rankBefore (metricAccessor a).toNumber (metricAccessor b).toNumber := Iff.rfl

theorem arraySort_perm (dataPoints : List α) :
    List.Perm (arraySort (metricCompare metricAccessor) dataPoints) dataPoints :=
  List.perm_insertionSort _ _

theorem arraySort_sorted (dataPoints : List α) :
    List.Sorted (staysBefore (metricCompare metricAccessor))
      (arraySort (metricCompare metricAccessor) dataPoints) := by
  haveI : IsTotal α (staysBefore (metricCompare metricAccessor)) :=
    ⟨fun a b => rankBefore_total _ _⟩
  haveI : IsTrans α (staysBefore (metricCompare metricAccessor)) :=
    ⟨fun a b c hab hbc => rankBefore_trans hab hbc⟩
  exact List.sorted_insertionSort _ _

theorem finiteCount_arraySort (dataPoints : List α) :
    finiteCount metricAccessor (arraySort (metricCompare metricAccessor) dataPoints)
      = finiteCount metricAccessor dataPoints :=
  (arraySort_perm metricAccessor dataPoints).countP_eq _

theorem arraySort_length {β : Type} (compareFn : β → β → JsNum) (array : List β) :
    (arraySort compareFn array).length = array.length :=
  List.length_insertionSort _ _

theorem selectLeaderFollower_ranked (dataPoints : List α) (h : 2 ≤ dataPoints.length) :
    ∃ x y rest, arraySort (metricCompare metricAccessor) dataPoints = x :: y :: rest ∧
      (selectLeaderFollower dataPoints metricAccessor).leader
        = (if (metricAccessor x).toNumber.isFinite then some x else none) ∧
      (selectLeaderFollower dataPoints metricAccessor).follower
        = (if (metricAccessor y).toNumber.isFinite then some y else none) := by
  have hlen := arraySort_length (metricCompare metricAccessor) dataPoints
  match hs : arraySort (metricCompare metricAccessor) dataPoints with
  | [] => rw [hs] at hlen; simp at hlen; omega
  | [_] => rw [hs] at hlen; simp at hlen; omega
  | x :: y :: rest =>
    refine ⟨x, y, rest, rfl, ?_, ?_⟩
    · have hs2 : arraySort (fun a b => rankCompare (metricAccessor a).toNumber
          (metricAccessor b).toNumber) dataPoints = x :: y :: rest := hs
      simp [selectLeaderFollower, Nat.not_lt.mpr h, hs2]
    · have hs2 : arraySort (fun a b => rankCompare (metricAccessor a).toNumber
          (metricAccessor b).toNumber) dataPoints = x :: y :: rest := hs
      simp [selectLeaderFollower, Nat.not_lt.mpr h, hs2]

theorem selectLeaderFollower_short (dataPoints : List α) (h : dataPoints.length < 2) :
    (selectLeaderFollower dataPoints metricAccessor).leader = none ∧
    (selectLeaderFollower dataPoints metricAccessor).follower = none := by
  simp [selectLeaderFollower, h]

theorem finiteCount_le_length (dataPoints : List α) :
    finiteCount metricAccessor dataPoints ≤ dataPoints.length :=
  List.countP_le_length _

/-- In a ranked list whose head has no finite metric value, no element has one. -/
theorem sorted_head_not_finite {x : α} {l : List α}
    (hs : List.Sorted (staysBefore (metricCompare metricAccessor)) (x :: l))
    (hx : (metricAccessor x).toNumber.isFinite = false) :
    finiteCount metricAccessor (x :: l) = 0 := by
  have hall := (List.sorted_cons.mp hs).1
  unfold finiteCount
  rw [List.countP_eq_zero]
  intro z hz
  rcases List.mem_cons.mp hz with rfl | hz
  · simp [hx]
  · have := (rankBefore_iff _ _).mp (hall z hz)
    rcases this with h | ⟨h, _⟩
    · simp [h]
    · rw [hx] at h; cases h

theorem finiteCount_cons (x : α) (l : List α) :
    finiteCount metricAccessor (x :: l)
      = finiteCount metricAccessor l + (if (metricAccessor x).toNumber.isFinite then 1 else 0) := by
  unfold finiteCount
  rw [List.countP_cons]

/-- With at least two finite metric values the two front places of the
ranking hold finite values, in descending order, and every further finite
value is at most the second. -/
theorem selectLeaderFollower_two_finite (dataPoints : List α)
    (h : 2 ≤ finiteCount metricAccessor dataPoints) :
    ∃ l f rest, arraySort (metricCompare metricAccessor) dataPoints = l :: f :: rest ∧
      (selectLeaderFollower dataPoints metricAccessor).leader = some l ∧
      (selectLeaderFollower dataPoints metricAccessor).follower = some f ∧
      (metricAccessor l).toNumber.isFinite = true ∧
      (metricAccessor f).toNumber.isFinite = true ∧
      JsNum.le (metricAccessor f).toNumber (metricAccessor l).toNumber = true ∧
      ∀ z ∈ rest, (metricAccessor z).toNumber.isFinite = true →
        JsNum.le (metricAccessor z).toNumber (metricAccessor f).toNumber = true := by
  have hlen : 2 ≤ dataPoints.length := le_trans h (finiteCount_le_length _ _)
  obtain ⟨x, y, rest, hs, hl, hf⟩ := selectLeaderFollower_ranked metricAccessor dataPoints hlen
  have hsorted := arraySort_sorted metricAccessor dataPoints
  have hcount := finiteCount_arraySort metricAccessor dataPoints
  rw [hs] at hsorted hcount
  have hx : (metricAccessor x).toNumber.isFinite = true := by
    by_contra hx
    have := sorted_head_not_finite metricAccessor hsorted (by simpa using hx)
    omega
  have hy : (metricAccessor y).toNumber.isFinite = true := by
    by_contra hy
    have h0 := sorted_head_not_finite metricAccessor (List.sorted_cons.mp hsorted).2
      (by simpa using hy)
    rw [finiteCount_cons, h0] at hcount
    split at hcount <;> omega
  have hxy : rankBefore (metricAccessor x).toNumber (metricAccessor y).toNumber :=
    (List.sorted_cons.mp hsorted).1 y (List.mem_cons_self _ _)
  refine ⟨x, y, rest, hs, by simp [hl, hx], by simp [hf, hy], hx, hy, ?_, ?_⟩
  · rcases (rankBefore_iff _ _).mp hxy with h1 | ⟨_, h1⟩
    · rw [hy] at h1; cases h1
    · exact h1
  · intro z hz hzfin
    have hyz : rankBefore (metricAccessor y).toNumber (metricAccessor z).toNumber :=
      (List.sorted_cons.mp (List.sorted_cons.mp hsorted).2).1 z hz
    rcases (rankBefore_iff _ _).mp hyz with h1 | ⟨_, h1⟩
    · rw [hzfin] at h1; cases h1
    · exact h1

/-- With fewer than two finite metric values there is no follower. -/
theorem selectLeaderFollower_follower_none (dataPoints : List α)
    (h : finiteCount metricAccessor dataPoints < 2) :
    (selectLeaderFollower dataPoints metricAccessor).follower = none := by
  by_cases hlen : dataPoints.length < 2
  · exact (selectLeaderFollower_short metricAccessor dataPoints hlen).2
  · obtain ⟨x, y, rest, hs, _, hf⟩ :=
      selectLeaderFollower_ranked metricAccessor dataPoints (Nat.not_lt.mp hlen)
    have hsorted := arraySort_sorted metricAccessor dataPoints
    have hcount := finiteCount_arraySort metricAccessor dataPoints
    rw [hs] at hsorted hcount
    have hy : (metricAccessor y).toNumber.isFinite = false := by
      by_contra hy
      have hy1 : (metricAccessor y).toNumber.isFinite = true := by simpa using hy
      have hxy : rankBefore (metricAccessor x).toNumber (metricAccessor y).toNumber :=
        (List.sorted_cons.mp hsorted).1 y (List.mem_cons_self _ _)
      have hx1 : (metricAccessor x).toNumber.isFinite = true := by
        rcases (rankBefore_iff _ _).mp hxy with h1 | ⟨h1, _⟩
        · rw [hy1] at h1; cases h1
        · exact h1
      rw [finiteCount_cons, finiteCount_cons, hx1, hy1] at hcount
      simp at hcount
      omega
    simp [hf, hy]

/-- Both places are filled exactly when at least two metric values are finite. -/
theorem selectLeaderFollower_both_iff (dataPoints : List α) :
    ((selectLeaderFollower dataPoints metricAccessor).leader.isSome = true ∧
      (selectLeaderFollower dataPoints metricAccessor).follower.isSome = true)
      ↔ 2 ≤ finiteCount metricAccessor dataPoints := by
  constructor
  · intro ⟨_, hf⟩
    by_contra hlt
    rw [selectLeaderFollower_follower_none metricAccessor dataPoints (Nat.not_le.mp hlt)] at hf
    cases hf
  · intro h
    obtain ⟨l, f, rest, _, hl, hf, _⟩ :=
      selectLeaderFollower_two_finite metricAccessor dataPoints h
    simp [hl, hf]

end Ranking

/-! ## The derivation along the energy pair -/

theorem enrichComparisonData_eq (comparisonData : List DataPoint) :
    enrichComparisonData comparisonData = comparisonData.map enrich := rfl

/-- The derivation, unfolded along the energy pair: a statement is built
exactly when the energy ranking has a leader and a follower, with the energy
follower in the left-leader place and the energy leader in every other
place the code reads. -/
theorem syncComparisonStatement_eq (supabaseModule : Option SupabaseModule)
    (labels : StatementLabels) (comparisonData : List DataPoint) :
    syncComparisonStatement supabaseModule labels comparisonData =
      match (selectLeaderFollower (enrichComparisonData comparisonData) energyAccessor).leader,
        (selectLeaderFollower (enrichComparisonData comparisonData) energyAccessor).follower with
      | some energyLeader, some energyFollower =>
        some (statementOf labels energyFollower energyLeader energyLeader energyFollower
          (pollutionComparison (some energyFollower) (some energyLeader)
            (selectLeaderFollower (enrichComparisonData comparisonData) pollutionAccessor))
          (safeRatio energyLeader.actDataValue energyFollower.actDataValue)
          (replacementBlock supabaseModule (some energyFollower) (some energyLeader)
            (some energyLeader)))
      | _, _ => none := by
  by_cases hlen : comparisonData.length < 2
  · have hlen2 : (enrichComparisonData comparisonData).length < 2 := by
      simpa [enrichComparisonData] using hlen
    have h := selectLeaderFollower_short energyAccessor _ hlen2
    simp [syncComparisonStatement, hlen, h.1, h.2]
  · simp only [syncComparisonStatement, hlen, if_false]
    cases hl : (selectLeaderFollower (enrichComparisonData comparisonData) energyAccessor).leader <;>
    cases hf : (selectLeaderFollower (enrichComparisonData comparisonData) energyAccessor).follower <;>
    simp [leftPair, energyRatioOf, hl, hf]

theorem finiteCount_energy_enrich (comparisonData : List DataPoint) :
    finiteCount energyAccessor (enrichComparisonData comparisonData)
      = finiteActivityCount comparisonData := by
  unfold finiteCount finiteActivityCount enrichComparisonData
  rw [List.countP_map]
  rfl

theorem bothFiniteCount_le (comparisonData : List DataPoint) :
    bothFiniteCount comparisonData ≤ finiteActivityCount comparisonData := by
  unfold bothFiniteCount finiteActivityCount
  apply List.countP_mono_left
  intro p _ hp
  simp only [Bool.and_eq_true] at hp
  exact hp.2

/-- A statement is built exactly when at least two activity values are finite. -/
theorem syncComparisonStatement_isSome_iff (supabaseModule : Option SupabaseModule)
    (labels : StatementLabels) (comparisonData : List DataPoint) :
    (syncComparisonStatement supabaseModule labels comparisonData).isSome = true
      ↔ 2 ≤ finiteActivityCount comparisonData := by
  rw [syncComparisonStatement_eq, ← finiteCount_energy_enrich,
    ← selectLeaderFollower_both_iff]
  cases (selectLeaderFollower (enrichComparisonData comparisonData) energyAccessor).leader <;>
  cases (selectLeaderFollower (enrichComparisonData comparisonData) energyAccessor).follower <;>
  simp

/-- What a built statement was built from: the energy pair `(leader, follower)`
of the enriched data, both with a finite activity value, the leader's at least
the follower's. -/
theorem syncComparisonStatement_some {supabaseModule : Option SupabaseModule}
    {labels : StatementLabels} {comparisonData : List DataPoint} {st : ComparisonStatement}
    (h : syncComparisonStatement supabaseModule labels comparisonData = some st) :
    ∃ energyLeader energyFollower,
      (selectLeaderFollower (enrichComparisonData comparisonData) energyAccessor).leader
        = some energyLeader ∧
      (selectLeaderFollower (enrichComparisonData comparisonData) energyAccessor).follower
        = some energyFollower ∧
      (normalizeNumber energyLeader.actDataValue).isFinite = true ∧
      (normalizeNumber energyFollower.actDataValue).isFinite = true ∧
      JsNum.le (normalizeNumber energyFollower.actDataValue)
        (normalizeNumber energyLeader.actDataValue) = true ∧
      st = statementOf labels energyFollower energyLeader energyLeader energyFollower
          (pollutionComparison (some energyFollower) (some energyLeader)
            (selectLeaderFollower (enrichComparisonData comparisonData) pollutionAccessor))
          (safeRatio energyLeader.actDataValue energyFollower.actDataValue)
          (replacementBlock supabaseModule (some energyFollower) (some energyLeader)
            (some energyLeader)) := by
  have hsome : (syncComparisonStatement supabaseModule labels comparisonData).isSome = true := by
    rw [h]; rfl
  have hcount := (syncComparisonStatement_isSome_iff _ _ _).mp hsome
  rw [← finiteCount_energy_enrich] at hcount
  obtain ⟨l, f, rest, _, hl, hf, hlfin, hffin, hle, _⟩ :=
    selectLeaderFollower_two_finite energyAccessor _ hcount
  refine ⟨l, f, hl, hf, hlfin, hffin, hle, ?_⟩
  rw [syncComparisonStatement_eq, hl, hf] at h
  exact (Option.some.inj h).symm

/-! ## The scenario and two-point rankings -/

theorem energy_ranking_scenario :
    selectLeaderFollower (enrichComparisonData [categoryA, categoryB]) energyAccessor
      = { leader := some (enrich categoryB), follower := some (enrich categoryA) } := by
  simp [selectLeaderFollower, enrichComparisonData, enrich, categoryA, categoryB, arraySort,
    List.insertionSort, List.orderedInsert, staysBefore, rankCompare, energyAccessor,
    normalizeNumber, JsVal.toNumber, JsNum.isFinite, JsNum.gt, JsNum.lt, JsNum.sub, JsNum.add,
    JsNum.neg]
  norm_num

theorem syncComparisonStatement_scenario :
    syncComparisonStatement none exampleLabels [categoryA, categoryB] = some scenarioStatement := by
  rw [syncComparisonStatement_eq, energy_ranking_scenario]
  simp [scenarioStatement, pollutionComparison, enrich, categoryA, categoryB, normalizeNumber, safeRatio, JsVal.toNumber, JsNum.isFinite, JsNum.isZero, JsNum.lt, JsNum.div, replacementBlock, buildReplacementInclusionNote, requestCategoryInclusionAssessment, baselineOnlyStep, fallThroughStep, estimateReplacementPollution, calculateEmissionFactor, sumActivityValues, nullableTruthy, nullableIsFinite, nullableToNumber, nullableToVal, JsNum.le, JsNum.add, JsNum.mul, JsNum.truthy, polluterEmissionFactorOf, JsVal.isFinite]
  norm_num

theorem isFinite_iff_fin (x : JsNum) : x.isFinite = true ↔ ∃ q, x = JsNum.fin q := by
  cases x <;> simp [JsNum.isFinite]

theorem energy_ranking_pair (a b : DataPoint)
    (ha : (normalizeNumber a.actDataValue).isFinite = true)
    (hb : (normalizeNumber b.actDataValue).isFinite = true)
    (hlt : JsNum.lt (normalizeNumber a.actDataValue) (normalizeNumber b.actDataValue) = true) :
    selectLeaderFollower (enrichComparisonData [a, b]) energyAccessor
        = { leader := some (enrich b), follower := some (enrich a) } ∧
    selectLeaderFollower (enrichComparisonData [b, a]) energyAccessor
        = { leader := some (enrich b), follower := some (enrich a) } := by
  obtain ⟨qa, hqa⟩ := (isFinite_iff_fin _).mp ha
  obtain ⟨qb, hqb⟩ := (isFinite_iff_fin _).mp hb
  rw [hqa, hqb] at hlt
  simp only [JsNum.lt, decide_eq_true_eq] at hlt
  have h1 : ¬ qb < qa := not_lt.mpr hlt.le
  constructor
  · simp [selectLeaderFollower, enrichComparisonData, arraySort, List.insertionSort,
      List.orderedInsert, staysBefore, rankCompare, energyAccessor, JsVal.toNumber, hqa, hqb,
      JsNum.isFinite, JsNum.gt, JsNum.lt, JsNum.sub, JsNum.add, JsNum.neg, enrich, hlt]
  · simp [selectLeaderFollower, enrichComparisonData, arraySort, List.insertionSort,
      List.orderedInsert, staysBefore, rankCompare, energyAccessor, JsVal.toNumber, hqa, hqb,
      JsNum.isFinite, JsNum.gt, JsNum.lt, JsNum.sub, JsNum.add, JsNum.neg, enrich, h1, hlt.le]

/-! ## Arithmetic of the replacement estimate -/

theorem sumActivityValues_step (t : ℚ) (value : JsVal) :
    (if !(normalizeNumber value).isFinite || JsNum.le (normalizeNumber value) (JsNum.fin 0) then
        JsNum.fin t
      else JsNum.add (JsNum.fin t) (normalizeNumber value))
      = JsNum.fin (t + positivePart (normalizeNumber value)) := by
  cases h : normalizeNumber value with
  | fin q =>
    by_cases hq : 0 < q
    · simp [JsNum.isFinite, JsNum.le, JsNum.lt, JsNum.add, positivePart, hq]
    · simp [JsNum.isFinite, JsNum.le, JsNum.lt, JsNum.add, positivePart, hq]
  | posInf => simp [JsNum.isFinite, positivePart]
  | negInf => simp [JsNum.isFinite, positivePart]
  | nan => simp [JsNum.isFinite, positivePart]

theorem sumActivityValues_foldl (values : List JsVal) (t : ℚ) :
    values.foldl
      (fun total value =>
        let numericValue := normalizeNumber value
        if !numericValue.isFinite || JsNum.le numericValue (JsNum.fin 0) then
          total
        else
          JsNum.add total numericValue)
      (JsNum.fin t)
      = JsNum.fin (t + (values.map (fun v => positivePart (normalizeNumber v))).sum) := by
  induction values generalizing t with
  | nil => simp
  | cons v rest ih =>
    simp only [List.foldl, List.map, List.sum_cons]
    rw [sumActivityValues_step, ih, add_assoc]

/-- The function `sumActivityValues` returns the sum of the values that are
finite and strictly positive. -/
theorem sumActivityValues_eq (values : List JsVal) :
    sumActivityValues values
      = JsNum.fin ((values.map (fun v => positivePart (normalizeNumber v))).sum) := by
  unfold sumActivityValues
  rw [sumActivityValues_foldl, zero_add]

theorem positivePart_nonneg (x : JsNum) : 0 ≤ positivePart x := by
  cases x with
  | fin q =>
    by_cases hq : 0 < q
    · simp [positivePart, hq, hq.le]
    · simp [positivePart, hq]
  | posInf => simp [positivePart]
  | negInf => simp [positivePart]
  | nan => simp [positivePart]

theorem sumActivityValues_pair (x y : JsVal) :
    sumActivityValues [x, y]
      = JsNum.fin (positivePart (normalizeNumber x) + positivePart (normalizeNumber y)) := by
  rw [sumActivityValues_eq]
  simp

theorem calculateEmissionFactor_isFinite (dataPoint : DataPoint) (x : JsNum)
    (h : calculateEmissionFactor (some dataPoint) = some x) : x.isFinite = true := by
  simp only [calculateEmissionFactor] at h
  split at h
  · cases h
  · rename_i hc
    cases hp : normalizeNumber dataPoint.pollutantValue <;>
    cases ha : normalizeNumber dataPoint.actDataValue <;>
      simp_all [JsNum.isFinite, JsNum.isZero, JsNum.div]
    rw [← h]

/-- The combined-activity estimate in closed form. -/
theorem estimateReplacementPollution_eq (source baseline : DataPoint) :
    estimateReplacementPollution (some source) (some baseline) =
      match normalizeNumber source.pollutantValue, normalizeNumber source.actDataValue with
      | JsNum.fin p, JsNum.fin a =>
        if a = 0 then none
        else if positivePart (JsNum.fin a)
            + positivePart (normalizeNumber baseline.actDataValue) ≤ 0 then none
        else some
          { value := JsNum.fin (p / a * (positivePart (JsNum.fin a)
              + positivePart (normalizeNumber baseline.actDataValue))),
            emissionFactor := some (JsNum.fin (p / a)),
            totalActivity := JsNum.fin (positivePart (JsNum.fin a)
              + positivePart (normalizeNumber baseline.actDataValue)) }
      | _, _ => none := by
  cases hp : normalizeNumber source.pollutantValue <;>
  cases ha : normalizeNumber source.actDataValue <;>
    simp [estimateReplacementPollution, hp, ha, JsNum.isFinite, JsNum.isZero]
  rename_i p a
  by_cases h0 : a = 0
  · simp [h0]
  · by_cases ht : positivePart (JsNum.fin a)
        + positivePart (normalizeNumber baseline.actDataValue) ≤ 0
    · simp [h0, ht, calculateEmissionFactor, normalizeNumber, sumActivityValues_pair,
        JsNum.isFinite, JsNum.isZero, JsNum.div, nullableIsFinite, nullableToNumber, JsNum.mul,
        JsNum.le, JsNum.lt, not_lt.mpr ht]
    · simp [h0, ht, calculateEmissionFactor, normalizeNumber, sumActivityValues_pair,
        JsNum.isFinite, JsNum.isZero, JsNum.div, nullableIsFinite, nullableToNumber, JsNum.mul,
        JsNum.le, JsNum.lt, not_le.mp ht]

/-! ## Leader and follower selection (C2, C3) -/

/-- C2: when at least two data points have a finite metric value,
`selectLeaderFollower` returns the first two places of the ranking, a
permutation of the input in which a point with a finite value is never behind
one without and finite values descend: the leader and the follower have finite
values, leader >= follower >= every other finite value.  For the metric values
`[NaN, 5, 10, NaN]` the leader is the point with 10, the follower the one with 5. -/
theorem selectLeaderFollower_greatest_and_second {α : Type} (dataPoints : List α)
    (metricAccessor : α → JsVal) (h : 2 ≤ finiteCount metricAccessor dataPoints) :
    (∃ leader follower rest,
      List.Perm (leader :: follower :: rest) dataPoints ∧
      List.Pairwise
        (fun a b => (metricAccessor b).toNumber.isFinite = true →
          (metricAccessor a).toNumber.isFinite = true ∧
          JsNum.le (metricAccessor b).toNumber (metricAccessor a).toNumber = true)
        (leader :: follower :: rest) ∧
      (selectLeaderFollower dataPoints metricAccessor).leader = some leader ∧
      (selectLeaderFollower dataPoints metricAccessor).follower = some follower ∧
      (metricAccessor leader).toNumber.isFinite = true ∧
      (metricAccessor follower).toNumber.isFinite = true ∧
      JsNum.le (metricAccessor follower).toNumber (metricAccessor leader).toNumber = true ∧
      ∀ z ∈ rest, (metricAccessor z).toNumber.isFinite = true →
        JsNum.le (metricAccessor z).toNumber (metricAccessor follower).toNumber = true) ∧
    (selectLeaderFollower rankingExample indexedMetric).leader
      = some (2, JsVal.num (JsNum.fin 10)) ∧
    (selectLeaderFollower rankingExample indexedMetric).follower
      = some (1, JsVal.num (JsNum.fin 5)) := by
  refine ⟨?_, ?_, ?_⟩
  · obtain ⟨l, f, rest, hs, hl, hf, hlfin, hffin, hle, hrest⟩ :=
      selectLeaderFollower_two_finite metricAccessor dataPoints h
    refine ⟨l, f, rest, ?_, ?_, hl, hf, hlfin, hffin, hle, hrest⟩
    · rw [← hs]; exact arraySort_perm metricAccessor dataPoints
    · have hsorted := arraySort_sorted metricAccessor dataPoints
      rw [hs] at hsorted
      refine List.Pairwise.imp ?_ hsorted
      intro a b hab hb
      rcases (rankBefore_iff _ _).mp hab with h1 | h1
      · rw [hb] at h1; cases h1
      · exact h1
  · simp [selectLeaderFollower, rankingExample, indexedMetric, arraySort, List.insertionSort,
      List.orderedInsert, staysBefore, rankCompare, JsVal.toNumber, JsNum.isFinite, JsNum.gt,
      JsNum.lt, JsNum.sub, JsNum.add, JsNum.neg]
  · simp [selectLeaderFollower, rankingExample, indexedMetric, arraySort, List.insertionSort,
      List.orderedInsert, staysBefore, rankCompare, JsVal.toNumber, JsNum.isFinite, JsNum.gt,
      JsNum.lt, JsNum.sub, JsNum.add, JsNum.neg]

/-- Witness of C2 on the metric values `[NaN, 5, 10, NaN]`, which hold two finite values. -/
theorem selectLeaderFollower_greatest_and_second_witness :
    2 ≤ finiteCount indexedMetric rankingExample ∧
    ∃ leader follower rest,
      List.Perm (leader :: follower :: rest) rankingExample ∧
      (selectLeaderFollower rankingExample indexedMetric).leader = some leader ∧
      (selectLeaderFollower rankingExample indexedMetric).follower = some follower ∧
      JsNum.le (indexedMetric follower).toNumber (indexedMetric leader).toNumber = true :=
  ⟨by decide,
   match (selectLeaderFollower_greatest_and_second rankingExample indexedMetric
      (by decide)).1 with
   | ⟨l, f, rest, hp, _, hl, hf, _, _, hle, _⟩ => ⟨l, f, rest, hp, hl, hf, hle⟩⟩

theorem selectLeaderFollower_leader_none_iff {α : Type} (metricAccessor : α → JsVal)
    (dataPoints : List α) :
    (selectLeaderFollower dataPoints metricAccessor).leader = none
      ↔ dataPoints.length < 2 ∨ finiteCount metricAccessor dataPoints = 0 := by
  by_cases hlen : dataPoints.length < 2
  · simp [(selectLeaderFollower_short metricAccessor dataPoints hlen).1, hlen]
  · obtain ⟨x, y, rest, hs, hl, _⟩ :=
      selectLeaderFollower_ranked metricAccessor dataPoints (Nat.not_lt.mp hlen)
    have hsorted := arraySort_sorted metricAccessor dataPoints
    have hcount := finiteCount_arraySort metricAccessor dataPoints
    rw [hs] at hsorted hcount
    rw [hl]
    constructor
    · intro h
      right
      have hx : (metricAccessor x).toNumber.isFinite = false := by
        by_contra hx
        simp [hx] at h
      rw [← hcount]
      exact sorted_head_not_finite metricAccessor hsorted hx
    · intro h
      rcases h with h | h
      · exact absurd h hlen
      · rw [← hcount, finiteCount_cons] at h
        split at h
        · omega
        · rename_i hx
          simp [hx]

theorem selectLeaderFollower_leader_mem {α : Type} (metricAccessor : α → JsVal)
    (dataPoints : List α) (leader : α)
    (h : (selectLeaderFollower dataPoints metricAccessor).leader = some leader) :
    leader ∈ dataPoints ∧ (metricAccessor leader).toNumber.isFinite = true := by
  by_cases hlen : dataPoints.length < 2
  · rw [(selectLeaderFollower_short metricAccessor dataPoints hlen).1] at h
    cases h
  · obtain ⟨x, y, rest, hs, hl, _⟩ :=
      selectLeaderFollower_ranked metricAccessor dataPoints (Nat.not_lt.mp hlen)
    rw [hl] at h
    split at h
    · rename_i hx
      cases h
      refine ⟨?_, hx⟩
      have hp := arraySort_perm metricAccessor dataPoints
      rw [hs] at hp
      exact hp.subset (List.mem_cons_self _ _)
    · cases h

/-- C3 (the claim as stated fails): the list with the metric values `[5, NaN]`
has one finite value, and `selectLeaderFollower` returns the point with 5 as
leader, not `null`. -/
theorem selectLeaderFollower_one_finite_leader_not_null :
    finiteCount indexedMetric oneFiniteExample < 2 ∧
    (selectLeaderFollower oneFiniteExample indexedMetric).leader
      = some (0, JsVal.num (JsNum.fin 5)) ∧
    ¬ ((selectLeaderFollower oneFiniteExample indexedMetric).leader = none ∧
       (selectLeaderFollower oneFiniteExample indexedMetric).follower = none) := by
  have hl : (selectLeaderFollower oneFiniteExample indexedMetric).leader
      = some (0, JsVal.num (JsNum.fin 5)) := by
    simp [selectLeaderFollower, oneFiniteExample, indexedMetric, arraySort, List.insertionSort,
      List.orderedInsert, staysBefore, rankCompare, JsVal.toNumber, JsNum.isFinite, JsNum.gt,
      JsNum.lt]
  refine ⟨by decide, hl, ?_⟩
  rw [hl]
  simp

/-- C3 (amended): when fewer than two data points have a finite metric value,
`selectLeaderFollower` returns follower = null; the leader is null exactly
when the list has fewer than two points or no finite value at all, and
otherwise (at least two points, exactly one finite value) the leader is the
point with the finite value. -/
theorem selectLeaderFollower_fewer_than_two_finite {α : Type} (dataPoints : List α)
    (metricAccessor : α → JsVal) (h : finiteCount metricAccessor dataPoints < 2) :
    (selectLeaderFollower dataPoints metricAccessor).follower = none ∧
    ((selectLeaderFollower dataPoints metricAccessor).leader = none
      ↔ dataPoints.length < 2 ∨ finiteCount metricAccessor dataPoints = 0) ∧
    (2 ≤ dataPoints.length → finiteCount metricAccessor dataPoints = 1 →
      ∃ leader, (selectLeaderFollower dataPoints metricAccessor).leader = some leader ∧
        leader ∈ dataPoints ∧ (metricAccessor leader).toNumber.isFinite = true) := by
  refine ⟨selectLeaderFollower_follower_none metricAccessor dataPoints h,
    selectLeaderFollower_leader_none_iff metricAccessor dataPoints, ?_⟩
  intro hlen hone
  cases hl : (selectLeaderFollower dataPoints metricAccessor).leader with
  | none =>
    rcases (selectLeaderFollower_leader_none_iff metricAccessor dataPoints).mp hl with h1 | h1
    · omega
    · omega
  | some leader =>
    exact ⟨leader, rfl, selectLeaderFollower_leader_mem metricAccessor dataPoints leader hl⟩

/-- Witness of the amended C3 on the metric values `[5, NaN]`. -/
theorem selectLeaderFollower_fewer_than_two_finite_witness :
    finiteCount indexedMetric oneFiniteExample < 2 ∧
    (selectLeaderFollower oneFiniteExample indexedMetric).follower = none ∧
    ∃ leader, (selectLeaderFollower oneFiniteExample indexedMetric).leader = some leader ∧
      leader ∈ oneFiniteExample ∧ (indexedMetric leader).toNumber.isFinite = true :=
  ⟨by decide,
   (selectLeaderFollower_fewer_than_two_finite oneFiniteExample indexedMetric (by decide)).1,
   (selectLeaderFollower_fewer_than_two_finite oneFiniteExample indexedMetric (by decide)).2.2
     (by decide) (by decide)⟩

/-! ## Safe ratio (C10) -/

/-- C10: `safeRatio(n, d)` is total (it always returns a number): it returns
`Infinity` when `Number(n)` is not finite, when `Number(d)` is not finite and
when `Number(d)` is `0`, and the exact quotient otherwise; `safeRatio(10, 0)`
is `Infinity` and `safeRatio(NaN, 5)` is not finite. -/
theorem safeRatio_total_and_infinity_convention (n d : JsVal) :
    (n.toNumber.isFinite = false → safeRatio n d = JsNum.posInf) ∧
    (d.toNumber.isFinite = false → safeRatio n d = JsNum.posInf) ∧
    (d.toNumber = JsNum.fin 0 → safeRatio n d = JsNum.posInf) ∧
    (∀ a b : ℚ, n.toNumber = JsNum.fin a → d.toNumber = JsNum.fin b → b ≠ 0 →
      safeRatio n d = JsNum.fin (a / b)) ∧
    safeRatio (JsVal.num (JsNum.fin 10)) (JsVal.num (JsNum.fin 0)) = JsNum.posInf ∧
    (safeRatio (JsVal.num JsNum.nan) (JsVal.num (JsNum.fin 5))).isFinite = false := by
  refine ⟨?_, ?_, ?_, ?_, ?_, ?_⟩
  · intro h
    simp [safeRatio, h]
  · intro h
    simp [safeRatio, h]
  · intro h
    simp [safeRatio, h, JsNum.isZero]
  · intro a b ha hb hne
    simp [safeRatio, ha, hb, JsNum.isFinite, JsNum.isZero, JsNum.div, hne]
  · simp [safeRatio, JsVal.toNumber, JsNum.isZero]
  · simp [safeRatio, JsVal.toNumber, JsNum.isFinite]

/-- Witness of C10: one input for each of the four cases. -/
theorem safeRatio_total_and_infinity_convention_witness :
    safeRatio (JsVal.num JsNum.posInf) (JsVal.num (JsNum.fin 5)) = JsNum.posInf ∧
    safeRatio (JsVal.num (JsNum.fin 1)) JsVal.undefined = JsNum.posInf ∧
    safeRatio (JsVal.num (JsNum.fin 7)) JsVal.null = JsNum.posInf ∧
    safeRatio (JsVal.num (JsNum.fin 100)) (JsVal.num (JsNum.fin 40)) = JsNum.fin (100 / 40) :=
  ⟨(safeRatio_total_and_infinity_convention _ _).1 rfl,
   (safeRatio_total_and_infinity_convention _ _).2.1 rfl,
   (safeRatio_total_and_infinity_convention _ _).2.2.1 rfl,
   (safeRatio_total_and_infinity_convention _ _).2.2.2.1 100 40 rfl rfl (by norm_num)⟩

/-! ## When a statement is built, and its pollution ratio (C1, C4, C5) -/

/-- C1 (the claim as stated fails): two data points with finite activity
values and no pollutant value.  No point has both values finite, yet the
derivation builds a statement (with `pollutionRatio = NaN` and
`pollutionRelation = null`) instead of hiding the block. -/
theorem syncComparisonStatement_without_pollution_values :
    bothFiniteCount [unmeasuredA, unmeasuredB] = 0 ∧
    ∃ st, syncComparisonStatement (some excludingService) exampleLabels
        [unmeasuredA, unmeasuredB] = some st ∧
      st.pollutionRatio = JsNum.nan ∧ st.pollutionRelation = none ∧
      st.energyRatio = JsNum.fin 4 ∧
      st.pollutionLeaderName = some "A" ∧ st.energyLeaderName = some "B" := by
  refine ⟨by decide, ?_⟩
  have hlt : JsNum.lt (normalizeNumber unmeasuredA.actDataValue)
      (normalizeNumber unmeasuredB.actDataValue) = true := by
    simp [unmeasuredA, unmeasuredB, normalizeNumber, JsNum.lt]
    norm_num
  have hrank := (energy_ranking_pair unmeasuredA unmeasuredB (by decide) (by decide) hlt).1
  rw [syncComparisonStatement_eq, hrank]
  refine ⟨_, rfl, ?_, ?_, ?_, ?_, ?_⟩
  · simp [statementOf, pollutionComparison, enrich, unmeasuredA, unmeasuredB, normalizeNumber,
      JsNum.isFinite]
  · simp [statementOf, pollutionComparison, enrich, unmeasuredA, unmeasuredB, normalizeNumber,
      JsNum.isFinite]
  · simp [statementOf, safeRatio, enrich, unmeasuredA, unmeasuredB, JsVal.toNumber,
      JsNum.isFinite, JsNum.isZero, JsNum.div]
    norm_num
  · simp [statementOf, enrich, unmeasuredA]
  · simp [statementOf, enrich, unmeasuredB]

/-- C1 (amended): the derivation builds a statement exactly when at least two
of the compared data points have a finite activity value; finite pollutant
values are not required.  So a statement is built whenever at least two points
have both values finite, and none is built (the block is hidden) whenever
fewer than two points have a finite activity value. -/
theorem syncComparisonStatement_built_iff_two_finite_activities
    (supabaseModule : Option SupabaseModule) (labels : StatementLabels)
    (comparisonData : List DataPoint) :
    ((syncComparisonStatement supabaseModule labels comparisonData).isSome = true
      ↔ 2 ≤ finiteActivityCount comparisonData) ∧
    (2 ≤ bothFiniteCount comparisonData →
      (syncComparisonStatement supabaseModule labels comparisonData).isSome = true) ∧
    (finiteActivityCount comparisonData < 2 →
      syncComparisonStatement supabaseModule labels comparisonData = none) := by
  have hiff := syncComparisonStatement_isSome_iff supabaseModule labels comparisonData
  refine ⟨hiff, ?_, ?_⟩
  · intro h
    exact hiff.mpr (le_trans h (bothFiniteCount_le comparisonData))
  · intro h
    cases hs : syncComparisonStatement supabaseModule labels comparisonData with
    | none => rfl
    | some st =>
      have : 2 ≤ finiteActivityCount comparisonData := hiff.mp (by rw [hs]; rfl)
      omega

/-- Witness of the amended C1: the scenario builds a statement, a single point builds none. -/
theorem syncComparisonStatement_built_iff_two_finite_activities_witness :
    2 ≤ bothFiniteCount [categoryA, categoryB] ∧
    (syncComparisonStatement none exampleLabels [categoryA, categoryB]).isSome = true ∧
    finiteActivityCount [categoryA] < 2 ∧
    syncComparisonStatement none exampleLabels [categoryA] = none :=
  ⟨by decide,
   (syncComparisonStatement_built_iff_two_finite_activities none exampleLabels
      [categoryA, categoryB]).2.1 (by decide),
   by decide,
   (syncComparisonStatement_built_iff_two_finite_activities none exampleLabels
      [categoryA]).2.2 (by decide)⟩

/-- C4: in every statement the derivation builds, when the pollution values
`pL` of the left leader and `pF` of the left follower are both finite: if
`pL < pF` then `pollutionRatio = safeRatio(pF, pL)` and `pollutionRelation =
"lower"`, otherwise `pollutionRatio = safeRatio(pL, pF)` and
`pollutionRelation = "higher"`. -/
theorem pollution_ratio_of_left_pair (supabaseModule : Option SupabaseModule)
    (labels : StatementLabels) (comparisonData : List DataPoint) (st : ComparisonStatement)
    (h : syncComparisonStatement supabaseModule labels comparisonData = some st)
    (hL : (normalizeNumber st.leftPrimary.pollutantValue).isFinite = true)
    (hF : (normalizeNumber st.leftSecondary.pollutantValue).isFinite = true) :
    (JsNum.lt (normalizeNumber st.leftPrimary.pollutantValue)
        (normalizeNumber st.leftSecondary.pollutantValue) = true →
      st.pollutionRatio = safeRatio (JsVal.num (normalizeNumber st.leftSecondary.pollutantValue))
          (JsVal.num (normalizeNumber st.leftPrimary.pollutantValue)) ∧
      st.pollutionRelation = some PollutionRelation.lower) ∧
    (JsNum.lt (normalizeNumber st.leftPrimary.pollutantValue)
        (normalizeNumber st.leftSecondary.pollutantValue) = false →
      st.pollutionRatio = safeRatio (JsVal.num (normalizeNumber st.leftPrimary.pollutantValue))
          (JsVal.num (normalizeNumber st.leftSecondary.pollutantValue)) ∧
      st.pollutionRelation = some PollutionRelation.higher) := by
  obtain ⟨energyLeader, energyFollower, _, _, _, _, _, hst⟩ := syncComparisonStatement_some h
  subst hst
  simp only [statementOf] at hL hF ⊢
  constructor
  · intro hlt
    simp [pollutionComparison, hL, hF, hlt]
  · intro hlt
    simp [pollutionComparison, hL, hF, hlt]

/-- Witness of C4 on the scenario, whose left pair has the pollution values 100 and 40. -/
theorem pollution_ratio_of_left_pair_witness :
    syncComparisonStatement none exampleLabels [categoryA, categoryB] = some scenarioStatement ∧
    (normalizeNumber scenarioStatement.leftPrimary.pollutantValue).isFinite = true ∧
    (normalizeNumber scenarioStatement.leftSecondary.pollutantValue).isFinite = true ∧
    JsNum.lt (normalizeNumber scenarioStatement.leftPrimary.pollutantValue)
        (normalizeNumber scenarioStatement.leftSecondary.pollutantValue) = false ∧
    scenarioStatement.pollutionRatio
      = safeRatio (JsVal.num (normalizeNumber scenarioStatement.leftPrimary.pollutantValue))
          (JsVal.num (normalizeNumber scenarioStatement.leftSecondary.pollutantValue)) ∧
    scenarioStatement.pollutionRelation = some PollutionRelation.higher :=
  have hlt : JsNum.lt (normalizeNumber scenarioStatement.leftPrimary.pollutantValue)
        (normalizeNumber scenarioStatement.leftSecondary.pollutantValue) = false := by
    simp [scenarioStatement, statementOf, enrich, categoryA, categoryB, normalizeNumber, JsNum.lt]
    norm_num
  ⟨syncComparisonStatement_scenario, by decide, by decide, hlt,
   (pollution_ratio_of_left_pair none exampleLabels [categoryA, categoryB] scenarioStatement
      syncComparisonStatement_scenario (by decide) (by decide)).2 hlt⟩

/-- C5 (the claim as stated fails): for the pollution values `[100, 40]` and
the activity values `[50, 200]` the derivation reports the relation "higher",
not "lower", with the ratio 2.5: the left pair is (A, B), the energy follower
first. -/
theorem scenario_relation_is_higher :
    ∃ st, syncComparisonStatement (some excludingService) exampleLabels
        [categoryA, categoryB] = some st ∧
      st.energyPrimary = enrich categoryB ∧ st.energySecondary = enrich categoryA ∧
      st.energyRatio = JsNum.fin 4 ∧
      st.pollutionRelation = some PollutionRelation.higher ∧
      st.pollutionRelation ≠ some PollutionRelation.lower ∧
      st.pollutionRatio = JsNum.fin (5 / 2) := by
  rw [syncComparisonStatement_eq, energy_ranking_scenario]
  have hcmp : ∀ pol : LeaderFollower DataPoint,
      pollutionComparison (some (enrich categoryA)) (some (enrich categoryB)) pol
        = (JsNum.fin (5 / 2), some PollutionRelation.higher) := by
    intro pol
    simp [pollutionComparison, enrich, categoryA, categoryB, normalizeNumber, JsNum.isFinite,
      JsNum.lt, safeRatio, JsVal.toNumber, JsNum.isZero, JsNum.div]
    norm_num
  refine ⟨_, rfl, rfl, rfl, ?_, ?_, ?_, ?_⟩
  · simp [statementOf, safeRatio, enrich, categoryA, categoryB, JsVal.toNumber, JsNum.isFinite,
      JsNum.isZero, JsNum.div]
    norm_num
  · simp only [statementOf, hcmp]
  · simp only [statementOf, hcmp]
    simp
  · simp only [statementOf, hcmp]

/-- C5 (amended): for two compared categories A and B with finite values
where B has the larger activity, B is the energy leader and A the energy
follower, and the pollution relation is computed on the left pair (A then B),
the energy follower first: when B's pollution is lower than A's the statement
has `pollutionRelation = "higher"` and `pollutionRatio = safeRatio(A's
pollution, B's pollution)`, which is A's pollution ÷ B's pollution unless B's
pollution is 0; when A's pollution is lower than B's it has "lower" and
`safeRatio(B's pollution, A's pollution)`.  The order of the two points in the
input does not matter. -/
theorem pollution_relation_on_left_pair (supabaseModule : Option SupabaseModule)
    (labels : StatementLabels) (a b : DataPoint) (pa pb : ℚ)
    (hpa : normalizeNumber a.pollutantValue = JsNum.fin pa)
    (hpb : normalizeNumber b.pollutantValue = JsNum.fin pb)
    (ha : (normalizeNumber a.actDataValue).isFinite = true)
    (hb : (normalizeNumber b.actDataValue).isFinite = true)
    (hlt : JsNum.lt (normalizeNumber a.actDataValue) (normalizeNumber b.actDataValue) = true) :
    ∃ st, syncComparisonStatement supabaseModule labels [a, b] = some st ∧
      syncComparisonStatement supabaseModule labels [b, a] = some st ∧
      st.energyPrimary = enrich b ∧ st.energySecondary = enrich a ∧
      st.leftPrimary = enrich a ∧ st.leftSecondary = enrich b ∧
      (pb < pa → st.pollutionRelation = some PollutionRelation.higher ∧
        st.pollutionRatio = safeRatio (JsVal.num (JsNum.fin pa)) (JsVal.num (JsNum.fin pb)) ∧
        (pb ≠ 0 → st.pollutionRatio = JsNum.fin (pa / pb))) ∧
      (pa < pb → st.pollutionRelation = some PollutionRelation.lower ∧
        st.pollutionRatio = safeRatio (JsVal.num (JsNum.fin pb)) (JsVal.num (JsNum.fin pa)) ∧
        (pa ≠ 0 → st.pollutionRatio = JsNum.fin (pb / pa))) := by
  obtain ⟨h1, h2⟩ := energy_ranking_pair a b ha hb hlt
  have e1 := syncComparisonStatement_eq supabaseModule labels [a, b]
  have e2 := syncComparisonStatement_eq supabaseModule labels [b, a]
  rw [h1] at e1
  rw [h2] at e2
  have hcmp : ∀ pol : LeaderFollower DataPoint,
      pollutionComparison (some (enrich a)) (some (enrich b)) pol
        = if pa < pb then
            (safeRatio (JsVal.num (JsNum.fin pb)) (JsVal.num (JsNum.fin pa)),
              some PollutionRelation.lower)
          else
            (safeRatio (JsVal.num (JsNum.fin pa)) (JsVal.num (JsNum.fin pb)),
              some PollutionRelation.higher) := by
    intro pol
    simp [pollutionComparison, enrich, hpa, hpb, JsNum.isFinite, JsNum.lt]
  simp only [hcmp] at e1 e2
  refine ⟨_, e1, e2, rfl, rfl, rfl, rfl, ?_, ?_⟩
  · intro hlt2
    have hn : ¬ pa < pb := not_lt.mpr hlt2.le
    refine ⟨by simp [statementOf, hn], by simp [statementOf, hn], ?_⟩
    intro hne
    simp [statementOf, hn, safeRatio, JsVal.toNumber, JsNum.isFinite, JsNum.isZero, JsNum.div,
      hne]
  · intro hlt2
    refine ⟨by simp [statementOf, hlt2], by simp [statementOf, hlt2], ?_⟩
    intro hne
    simp [statementOf, hlt2, safeRatio, JsVal.toNumber, JsNum.isFinite, JsNum.isZero, JsNum.div,
      hne]

/-- Witness of the amended C5 on the scenario: relation "higher", ratio 100 ÷ 40. -/
theorem pollution_relation_on_left_pair_witness :
    normalizeNumber categoryA.pollutantValue = JsNum.fin 100 ∧
    normalizeNumber categoryB.pollutantValue = JsNum.fin 40 ∧
    JsNum.lt (normalizeNumber categoryA.actDataValue)
      (normalizeNumber categoryB.actDataValue) = true ∧
    ∃ st, syncComparisonStatement none exampleLabels [categoryA, categoryB] = some st ∧
      st.pollutionRelation = some PollutionRelation.higher ∧
      st.pollutionRatio = JsNum.fin (100 / 40) :=
  have hlt : JsNum.lt (normalizeNumber categoryA.actDataValue)
      (normalizeNumber categoryB.actDataValue) = true := by
    simp [categoryA, categoryB, normalizeNumber, JsNum.lt]
    norm_num
  ⟨rfl, rfl, hlt,
   match pollution_relation_on_left_pair none exampleLabels categoryA categoryB 100 40 rfl rfl
      (by decide) (by decide) hlt with
   | ⟨st, h1, _, _, _, _, _, hhigh, _⟩ =>
     ⟨st, h1, (hhigh (by norm_num)).1, (hhigh (by norm_num)).2.2 (by norm_num)⟩⟩

/-! ## The combined-activity estimate (C8) -/

/-- C8 (the claim as stated fails): for a polluter with pollution 8 and
activity -10 and a baseline with activity 250 the estimate is produced with
`totalActivity = 250` and `value = -200`, while polluter activity + baseline
activity is 240 and emission factor × 240 is -192. -/
theorem estimate_leaves_out_negative_activity :
    ∃ est, estimateReplacementPollution (some negativeActivityPolluter) (some largeBaseline)
        = some est ∧
      est.emissionFactor = some (JsNum.fin (-4 / 5)) ∧
      est.totalActivity = JsNum.fin 250 ∧
      est.value = JsNum.fin (-200) ∧
      JsNum.add (normalizeNumber negativeActivityPolluter.actDataValue)
        (normalizeNumber largeBaseline.actDataValue) = JsNum.fin 240 ∧
      est.totalActivity ≠ JsNum.add (normalizeNumber negativeActivityPolluter.actDataValue)
        (normalizeNumber largeBaseline.actDataValue) ∧
      est.value ≠ JsNum.mul (JsNum.fin (-4 / 5))
        (JsNum.add (normalizeNumber negativeActivityPolluter.actDataValue)
          (normalizeNumber largeBaseline.actDataValue)) := by
  rw [estimateReplacementPollution_eq]
  simp [negativeActivityPolluter, largeBaseline, normalizeNumber, positivePart, JsNum.add,
    JsNum.mul]
  norm_num

/-- C8 (amended): whenever `estimateReplacementPollution` produces an
estimate, its emission factor is polluter pollution ÷ polluter activity, its
`totalActivity` is the sum of those of the two activity values that are finite
and strictly positive (a value that is not is left out), which is > 0, and its
value is emission factor × `totalActivity`.  When both activity values are
strictly positive, `totalActivity` = polluter activity + baseline activity and
the value is emission factor × (polluter activity + baseline activity). -/
theorem estimate_value_and_total (source baseline : DataPoint) (est : ReplacementEstimate)
    (h : estimateReplacementPollution (some source) (some baseline) = some est) :
    ∃ p a : ℚ, normalizeNumber source.pollutantValue = JsNum.fin p ∧
      normalizeNumber source.actDataValue = JsNum.fin a ∧ a ≠ 0 ∧
      est.emissionFactor = some (JsNum.fin (p / a)) ∧
      est.totalActivity = JsNum.fin (positivePart (JsNum.fin a)
        + positivePart (normalizeNumber baseline.actDataValue)) ∧
      0 < positivePart (JsNum.fin a) + positivePart (normalizeNumber baseline.actDataValue) ∧
      est.value = JsNum.fin (p / a * (positivePart (JsNum.fin a)
        + positivePart (normalizeNumber baseline.actDataValue))) ∧
      (∀ b : ℚ, normalizeNumber baseline.actDataValue = JsNum.fin b → 0 < a → 0 < b →
        est.totalActivity = JsNum.fin (a + b) ∧ est.value = JsNum.fin (p / a * (a + b))) := by
  rw [estimateReplacementPollution_eq] at h
  cases hp : normalizeNumber source.pollutantValue <;>
  cases ha : normalizeNumber source.actDataValue <;>
    simp only [hp, ha] at h <;> try cases h
  rename_i p a
  split at h
  · cases h
  · rename_i h0
    split at h
    · cases h
    · rename_i ht
      cases h
      refine ⟨p, a, rfl, rfl, h0, rfl, rfl, not_le.mp ht, rfl, ?_⟩
      intro b hb hapos hbpos
      simp [hb, positivePart, hapos, hbpos]

/-- Witness of the amended C8 on the scenario: emission factor 2, total activity 250, value 500. -/
theorem estimate_value_and_total_witness :
    estimateReplacementPollution (some categoryA) (some categoryB)
      = some { value := JsNum.fin 500, emissionFactor := some (JsNum.fin 2),
               totalActivity := JsNum.fin 250 } ∧
    ∃ p a : ℚ, normalizeNumber categoryA.pollutantValue = JsNum.fin p ∧
      normalizeNumber categoryA.actDataValue = JsNum.fin a ∧
      (∀ b : ℚ, normalizeNumber categoryB.actDataValue = JsNum.fin b → 0 < a → 0 < b →
        JsNum.fin 250 = JsNum.fin (a + b) ∧ JsNum.fin 500 = JsNum.fin (p / a * (a + b))) :=
  have h : estimateReplacementPollution (some categoryA) (some categoryB)
      = some { value := JsNum.fin 500, emissionFactor := some (JsNum.fin 2),
               totalActivity := JsNum.fin 250 } := by
    rw [estimateReplacementPollution_eq]
    simp [categoryA, categoryB, normalizeNumber, positivePart]
    norm_num
  ⟨h, match estimate_value_and_total categoryA categoryB _ h with
      | ⟨p, a, hp, ha, _, _, _, _, _, hb⟩ => ⟨p, a, hp, ha, hb⟩⟩

/-! ## The replacement block -/

theorem requestCategoryInclusionAssessment_failed (supabaseModule : Option SupabaseModule)
    (polluter baseline : DataPoint)
    (h : containmentFailedOrNegative supabaseModule polluter baseline) :
    requestCategoryInclusionAssessment supabaseModule polluter.categoryId baseline.categoryId
        = none ∨
    ∃ answer, requestCategoryInclusionAssessment supabaseModule polluter.categoryId
        baseline.categoryId = some answer ∧ answer.included = false := by
  unfold requestCategoryInclusionAssessment
  rcases h with h | h | h | ⟨supabase, hs, h⟩
  · simp [h]
  · cases supabaseModule <;> simp [h]
  · cases supabaseModule <;> simp [h]
  · subst hs
    rcases h with h | ⟨assessor, ha, h | h | ⟨answer, h, hinc⟩⟩
    · left; simp only [h]; split <;> rfl
    · left; simp only [ha, h]; split <;> rfl
    · left; simp only [ha, h]; split <;> rfl
    · simp only [ha, h]
      split
      · left; rfl
      · right; exact ⟨answer, rfl, hinc⟩

/-- A failed or negative containment check yields no inclusion note. -/
theorem buildReplacementInclusionNote_failed (supabaseModule : Option SupabaseModule)
    (polluter baseline : DataPoint)
    (h : containmentFailedOrNegative supabaseModule polluter baseline) :
    buildReplacementInclusionNote supabaseModule (some polluter) (some baseline) = none := by
  unfold buildReplacementInclusionNote
  rcases requestCategoryInclusionAssessment_failed supabaseModule polluter baseline h with
    h | ⟨answer, h, hinc⟩
  · simp [h]
  · simp [h, hinc]

/-- An inclusion note is only built from an answer with a truthy `included`. -/
theorem buildReplacementInclusionNote_some (supabaseModule : Option SupabaseModule)
    (polluter baseline : DataPoint) (note : InclusionNote)
    (h : buildReplacementInclusionNote supabaseModule (some polluter) (some baseline)
      = some note) :
    ∃ answer, requestCategoryInclusionAssessment supabaseModule polluter.categoryId
        baseline.categoryId = some answer ∧ answer.included = true := by
  unfold buildReplacementInclusionNote at h
  cases hreq : requestCategoryInclusionAssessment supabaseModule polluter.categoryId
      baseline.categoryId with
  | none => simp [hreq] at h
  | some answer =>
    refine ⟨answer, rfl, ?_⟩
    by_contra hinc
    simp [hreq, hinc] at h

/-- Without an inclusion note the replacement block is the fall-through
chain started from unassigned variables. -/
theorem replacementBlock_without_note (supabaseModule : Option SupabaseModule)
    (polluter baseline : DataPoint) (warningFallback : Option DataPoint)
    (h : buildReplacementInclusionNote supabaseModule (some polluter) (some baseline) = none) :
    replacementBlock supabaseModule (some polluter) (some baseline) warningFallback
      = fallThroughStep polluter baseline warningFallback noReplacement := by
  simp [replacementBlock, h, baselineOnlyStep, nullableTruthy, noReplacement]

/-- The four ways the fall-through chain ends: the combined-activity estimate,
the summed-activity fallback, the ratio fallback, or no assignment. -/
theorem fallThroughStep_cases (polluter baseline : DataPoint)
    (warningFallback : Option DataPoint) (current : ReplacementState) :
    (∃ est, estimateReplacementPollution (some polluter) (some baseline) = some est ∧
      (fallThroughStep polluter baseline warningFallback current).replacementPollution
        = some est.value ∧
      (fallThroughStep polluter baseline warningFallback current).replacementDetails.map
        (fun d => d.calcSource) = some CalcSource.ef) ∨
    (estimateReplacementPollution (some polluter) (some baseline) = none ∧
      (nullableIsFinite (polluterEmissionFactorOf polluter)
        && JsNum.gt (sumActivityValues [polluter.actDataValue, baseline.actDataValue])
            (JsNum.fin 0)) = true ∧
      (fallThroughStep polluter baseline warningFallback current).replacementPollution
        = some (JsNum.mul (nullableToNumber (polluterEmissionFactorOf polluter))
            (sumActivityValues [polluter.actDataValue, baseline.actDataValue])) ∧
      (fallThroughStep polluter baseline warningFallback current).replacementDetails.map
        (fun d => d.calcSource) = some CalcSource.fallbackEnergy) ∨
    (estimateReplacementPollution (some polluter) (some baseline) = none ∧
      (nullableIsFinite (polluterEmissionFactorOf polluter)
        && JsNum.gt (sumActivityValues [polluter.actDataValue, baseline.actDataValue])
            (JsNum.fin 0)) = false ∧
      ∃ fallback, warningFallback = some fallback ∧
        (safeRatio polluter.pollutantValue fallback.pollutantValue).isFinite = true ∧
        (JsNum.mul (safeRatio polluter.pollutantValue fallback.pollutantValue)
          fallback.pollutantValue.toNumber).isFinite = true ∧
        (fallThroughStep polluter baseline warningFallback current).replacementPollution
          = some (JsNum.mul (safeRatio polluter.pollutantValue fallback.pollutantValue)
              fallback.pollutantValue.toNumber) ∧
        (fallThroughStep polluter baseline warningFallback current).replacementDetails.map
          (fun d => d.calcSource) = some CalcSource.ratioFallback) ∨
    (estimateReplacementPollution (some polluter) (some baseline) = none ∧
      (nullableIsFinite (polluterEmissionFactorOf polluter)
        && JsNum.gt (sumActivityValues [polluter.actDataValue, baseline.actDataValue])
            (JsNum.fin 0)) = false ∧
      (∀ fallback, warningFallback = some fallback →
        (safeRatio polluter.pollutantValue fallback.pollutantValue).isFinite = true →
        (JsNum.mul (safeRatio polluter.pollutantValue fallback.pollutantValue)
          fallback.pollutantValue.toNumber).isFinite = false) ∧
      fallThroughStep polluter baseline warningFallback current = current) := by
  unfold fallThroughStep
  dsimp only
  cases hest : estimateReplacementPollution (some polluter) (some baseline) with
  | some est =>
    left
    exact ⟨est, rfl, rfl, rfl⟩
  | none =>
    right
    dsimp only
    cases hc : (nullableIsFinite (polluterEmissionFactorOf polluter)
        && JsNum.gt (sumActivityValues [polluter.actDataValue, baseline.actDataValue])
            (JsNum.fin 0)) with
    | true =>
      left
      simp
    | false =>
      right
      cases warningFallback with
      | none =>
        right
        simp
      | some fallback =>
        dsimp only
        cases hr : (safeRatio polluter.pollutantValue fallback.pollutantValue).isFinite with
        | false =>
          right
          simp [nullableIsFinite, hr]
        | true =>
          cases hm : (JsNum.mul (safeRatio polluter.pollutantValue fallback.pollutantValue)
            fallback.pollutantValue.toNumber).isFinite with
          | false =>
            right
            simp [nullableIsFinite, hm, hr]
          | true =>
            left
            simp [nullableIsFinite, hm, hr]

/-- The two ways the baseline-only step ends. -/
theorem baselineOnlyStep_cases (note : Option InclusionNote) (polluter baseline : DataPoint) :
    ((note.isSome && (normalizeNumber baseline.actDataValue).isFinite
        && JsNum.gt (normalizeNumber baseline.actDataValue) (JsNum.fin 0)
        && nullableIsFinite (polluterEmissionFactorOf polluter)) = true ∧
      baselineOnlyStep note polluter baseline =
        { replacementPollution := some (JsNum.mul
            (nullableToNumber (polluterEmissionFactorOf polluter))
            (normalizeNumber baseline.actDataValue)),
          replacementDetails := some
            { polluter := polluter, baseline := baseline,
              emissionFactor := polluterEmissionFactorOf polluter,
              totalActivity := some (normalizeNumber baseline.actDataValue),
              calcSource := CalcSource.baselineOnly },
          replacementInclusion := note }) ∨
    ((note.isSome && (normalizeNumber baseline.actDataValue).isFinite
        && JsNum.gt (normalizeNumber baseline.actDataValue) (JsNum.fin 0)
        && nullableIsFinite (polluterEmissionFactorOf polluter)) = false ∧
      baselineOnlyStep note polluter baseline =
        { replacementPollution := none, replacementDetails := none,
          replacementInclusion := note }) := by
  unfold baselineOnlyStep
  dsimp only
  cases hc : (note.isSome && (normalizeNumber baseline.actDataValue).isFinite
        && JsNum.gt (normalizeNumber baseline.actDataValue) (JsNum.fin 0)
        && nullableIsFinite (polluterEmissionFactorOf polluter)) with
  | true => left; simp
  | false => right; simp

theorem replacementBlock_eq (supabaseModule : Option SupabaseModule)
    (polluter baseline : DataPoint) (warningFallback : Option DataPoint) :
    replacementBlock supabaseModule (some polluter) (some baseline) warningFallback =
      if (!nullableTruthy (baselineOnlyStep
          (buildReplacementInclusionNote supabaseModule (some polluter) (some baseline))
          polluter baseline).replacementPollution) = true then
        fallThroughStep polluter baseline warningFallback
          (baselineOnlyStep
            (buildReplacementInclusionNote supabaseModule (some polluter) (some baseline))
            polluter baseline)
      else
        baselineOnlyStep
          (buildReplacementInclusionNote supabaseModule (some polluter) (some baseline))
          polluter baseline := rfl

theorem fallThroughStep_inclusion (polluter baseline : DataPoint)
    (warningFallback : Option DataPoint) (current : ReplacementState) :
    (fallThroughStep polluter baseline warningFallback current).replacementInclusion
      = current.replacementInclusion := by
  unfold fallThroughStep
  dsimp only
  repeat' split
  all_goals rfl

theorem baselineOnlyStep_inclusion (note : Option InclusionNote) (polluter baseline : DataPoint) :
    (baselineOnlyStep note polluter baseline).replacementInclusion = note := by
  rcases baselineOnlyStep_cases note polluter baseline with ⟨_, h⟩ | ⟨_, h⟩ <;> rw [h]

/-- The replacement block keeps the inclusion note it was given. -/
theorem replacementBlock_inclusion (supabaseModule : Option SupabaseModule)
    (polluter baseline : DataPoint) (warningFallback : Option DataPoint) :
    (replacementBlock supabaseModule (some polluter) (some baseline)
        warningFallback).replacementInclusion
      = buildReplacementInclusionNote supabaseModule (some polluter) (some baseline) := by
  rw [replacementBlock_eq]
  split
  · rw [fallThroughStep_inclusion, baselineOnlyStep_inclusion]
  · rw [baselineOnlyStep_inclusion]

/-- The source `baseline-only` is only reported when the baseline-only
condition held. -/
theorem replacementBlock_baselineOnly (supabaseModule : Option SupabaseModule)
    (polluter baseline : DataPoint) (warningFallback : Option DataPoint)
    (h : (replacementBlock supabaseModule (some polluter) (some baseline)
        warningFallback).replacementDetails.map (fun d => d.calcSource)
      = some CalcSource.baselineOnly) :
    ((buildReplacementInclusionNote supabaseModule (some polluter) (some baseline)).isSome
        && (normalizeNumber baseline.actDataValue).isFinite
        && JsNum.gt (normalizeNumber baseline.actDataValue) (JsNum.fin 0)
        && nullableIsFinite (polluterEmissionFactorOf polluter)) = true := by
  rw [replacementBlock_eq] at h
  rcases baselineOnlyStep_cases
    (buildReplacementInclusionNote supabaseModule (some polluter) (some baseline))
    polluter baseline with ⟨hc, hstep⟩ | ⟨_, hstep⟩
  · exact hc
  · exfalso
    rw [hstep] at h
    simp only [nullableTruthy, Bool.not_false, if_true] at h
    rcases fallThroughStep_cases polluter baseline warningFallback
      { replacementPollution := none, replacementDetails := none,
        replacementInclusion :=
          buildReplacementInclusionNote supabaseModule (some polluter) (some baseline) } with
      ⟨_, _, _, h1⟩ | ⟨_, _, _, h1⟩ | ⟨_, _, _, _, _, _, _, h1⟩ | ⟨_, _, _, h1⟩
    · rw [h1] at h; cases h
    · rw [h1] at h; cases h
    · rw [h1] at h; cases h
    · rw [h1] at h; cases h

/-! ## The containment check and the baseline-only strategy (C6, C9) -/

theorem energy_ranking_small_wide :
    selectLeaderFollower (enrichComparisonData [smallPolluter, wideBaseline]) energyAccessor
      = { leader := some (enrich wideBaseline), follower := some (enrich smallPolluter) } := by
  refine (energy_ranking_pair smallPolluter wideBaseline (by decide) (by decide) ?_).1
  simp [smallPolluter, wideBaseline, normalizeNumber, JsNum.lt]
  norm_num

theorem syncComparisonStatement_small_wide (supabaseModule : Option SupabaseModule) :
    syncComparisonStatement supabaseModule exampleLabels [smallPolluter, wideBaseline]
      = some (smallWideStatement supabaseModule) := by
  rw [syncComparisonStatement_eq, energy_ranking_small_wide]
  rfl

theorem including_scenario :
    ∃ st, syncComparisonStatement (some includingService) exampleLabels
        [smallPolluter, wideBaseline] = some st ∧
      st.warningDetails.inclusion
        = some { text := "A is already included in B", reason := "evaluated" } ∧
      st.warningDetails.emissionFactor = some (JsNum.fin (4 / 5)) ∧
      sumActivityValues [smallPolluter.actDataValue, wideBaseline.actDataValue]
        = JsNum.fin 250 ∧
      st.replacementPollution = some (JsNum.fin 160) ∧
      st.replacementPollution ≠ some (JsNum.fin 200) ∧
      st.warningDetails.calcSource = some CalcSource.baselineOnly := by
  rw [syncComparisonStatement_eq, energy_ranking_small_wide]
  refine ⟨_, rfl, ?_, ?_, ?_, ?_, ?_, ?_⟩
  all_goals
    simp [statementOf, replacementBlock, buildReplacementInclusionNote,
      requestCategoryInclusionAssessment, includingService, baselineOnlyStep, enrich,
      smallPolluter, wideBaseline, normalizeNumber, JsVal.toNumber, JsNum.isFinite,
      JsNum.gt, JsNum.lt, nameOr, nameTruthy, polluterEmissionFactorOf, calculateEmissionFactor,
      nullableToVal, nullableIsFinite, nullableToNumber, nullableTruthy, JsVal.isFinite,
      JsNum.isZero, JsNum.div, JsNum.mul, JsNum.truthy, sumActivityValues_pair, positivePart]
  all_goals norm_num

/-- C6 (the claim as stated fails): polluter emission factor 0.8 (40 ÷ 50),
baseline activity 200, combined activity 250.  With a positive containment
answer the derivation does not fall through to the combined-activity estimate:
it reports `replacementPollution = 160` (0.8 × 200) with `calcSource =
"baseline-only"`, not 200. -/
theorem positive_containment_selects_baseline_only :
    ∃ st, syncComparisonStatement (some includingService) exampleLabels
        [smallPolluter, wideBaseline] = some st ∧
      st.warningDetails.inclusion
        = some { text := "A is already included in B", reason := "evaluated" } ∧
      st.warningDetails.emissionFactor = some (JsNum.fin (4 / 5)) ∧
      sumActivityValues [smallPolluter.actDataValue, wideBaseline.actDataValue]
        = JsNum.fin 250 ∧
      st.replacementPollution = some (JsNum.fin 160) ∧
      st.replacementPollution ≠ some (JsNum.fin 200) ∧
      st.warningDetails.calcSource = some CalcSource.baselineOnly :=
  including_scenario

/-- C6 (amended): the baseline-only strategy is chosen only when the baseline
activity is positive and the containment check reports that the polluter's
category IS already included in the baseline (an inclusion note exists); a
negative or failed containment answer disqualifies baseline-only, so that with
a negative answer, polluter emission factor 0.8 and combined activity 250 the
result is `replacementPollution = 200` obtained from the combined-activity
strategy (`calcSource = "ef"`). -/
theorem baseline_only_needs_positive_containment (supabaseModule : Option SupabaseModule)
    (labels : StatementLabels) (comparisonData : List DataPoint) (st : ComparisonStatement)
    (h : syncComparisonStatement supabaseModule labels comparisonData = some st)
    (hsrc : st.warningDetails.calcSource = some CalcSource.baselineOnly) :
    (∃ answer, requestCategoryInclusionAssessment supabaseModule
        st.energySecondary.categoryId st.energyPrimary.categoryId = some answer ∧
      answer.included = true) ∧
    st.warningDetails.inclusion.isSome = true ∧
    (∃ b : ℚ, normalizeNumber st.energyPrimary.actDataValue = JsNum.fin b ∧ 0 < b) ∧
    ¬ containmentFailedOrNegative supabaseModule st.energySecondary st.energyPrimary ∧
    (∃ st2, syncComparisonStatement (some excludingService) exampleLabels
        [smallPolluter, wideBaseline] = some st2 ∧
      st2.warningDetails.inclusion = none ∧
      st2.warningDetails.emissionFactor = some (JsNum.fin (4 / 5)) ∧
      st2.warningDetails.totalActivity = some (JsNum.fin 250) ∧
      st2.replacementPollution = some (JsNum.fin 200) ∧
      st2.warningDetails.calcSource = some CalcSource.ef) := by
  obtain ⟨energyLeader, energyFollower, _, _, _, _, _, hst⟩ := syncComparisonStatement_some h
  subst hst
  simp only [statementOf] at hsrc ⊢
  have hc := replacementBlock_baselineOnly supabaseModule energyFollower energyLeader
    (some energyLeader) hsrc
  simp only [Bool.and_eq_true] at hc
  obtain ⟨⟨⟨hnote, hfin⟩, hgt⟩, _⟩ := hc
  obtain ⟨note, hnote2⟩ := Option.isSome_iff_exists.mp hnote
  refine ⟨buildReplacementInclusionNote_some _ _ _ note hnote2, ?_, ?_, ?_, ?_⟩
  · rw [replacementBlock_inclusion]
    exact hnote
  · obtain ⟨b, hb⟩ := (isFinite_iff_fin _).mp hfin
    refine ⟨b, hb, ?_⟩
    rw [hb] at hgt
    simpa [JsNum.gt, JsNum.lt] using hgt
  · intro hfail
    rw [buildReplacementInclusionNote_failed _ _ _ hfail] at hnote2
    cases hnote2
  · rw [syncComparisonStatement_eq, energy_ranking_small_wide]
    refine ⟨_, rfl, ?_, ?_, ?_, ?_, ?_⟩
    all_goals
      simp [statementOf, replacementBlock, buildReplacementInclusionNote,
        requestCategoryInclusionAssessment, excludingService, baselineOnlyStep, fallThroughStep,
        estimateReplacementPollution_eq, enrich,
        smallPolluter, wideBaseline, normalizeNumber, JsVal.toNumber, JsNum.isFinite,
        JsNum.gt, JsNum.lt, polluterEmissionFactorOf, calculateEmissionFactor,
        nullableToVal, nullableIsFinite, nullableToNumber, nullableTruthy, JsVal.isFinite,
        JsNum.isZero, JsNum.div, JsNum.mul, JsNum.truthy, sumActivityValues_pair, positivePart]
    all_goals norm_num

/-- Witness of the amended C6: with a positive containment answer the source is `baseline-only`. -/
theorem baseline_only_needs_positive_containment_witness :
    syncComparisonStatement (some includingService) exampleLabels [smallPolluter, wideBaseline]
      = some (smallWideStatement (some includingService)) ∧
    (smallWideStatement (some includingService)).warningDetails.calcSource
      = some CalcSource.baselineOnly ∧
    (∃ answer, requestCategoryInclusionAssessment (some includingService)
        (smallWideStatement (some includingService)).energySecondary.categoryId
        (smallWideStatement (some includingService)).energyPrimary.categoryId = some answer ∧
      answer.included = true) ∧
    ¬ containmentFailedOrNegative (some includingService)
        (smallWideStatement (some includingService)).energySecondary
        (smallWideStatement (some includingService)).energyPrimary :=
  have hsrc : (smallWideStatement (some includingService)).warningDetails.calcSource
      = some CalcSource.baselineOnly := by
    simp [smallWideStatement, statementOf, replacementBlock, buildReplacementInclusionNote,
      requestCategoryInclusionAssessment, includingService, baselineOnlyStep, enrich,
      smallPolluter, wideBaseline, normalizeNumber, JsVal.toNumber, JsNum.isFinite,
      JsNum.gt, JsNum.lt, nameOr, nameTruthy, polluterEmissionFactorOf, calculateEmissionFactor,
      nullableToVal, nullableIsFinite, nullableToNumber, nullableTruthy, JsVal.isFinite,
      JsNum.isZero, JsNum.div, JsNum.mul, JsNum.truthy]
  ⟨syncComparisonStatement_small_wide _, hsrc,
   (baseline_only_needs_positive_containment (some includingService) exampleLabels
      [smallPolluter, wideBaseline] _ (syncComparisonStatement_small_wide _) hsrc).1,
   (baseline_only_needs_positive_containment (some includingService) exampleLabels
      [smallPolluter, wideBaseline] _ (syncComparisonStatement_small_wide _) hsrc).2.2.2.1⟩

/-- C9: when the containment check fails or is negative (the inclusion module
or the assessor is missing, a category id is not a finite number, the assessor
throws, or it answers that the polluter is not included), the baseline-only
strategy is skipped: no inclusion note is recorded, the replacement value and
`calcSource` are exactly those of the fall-through chain started from
unassigned variables (the combined-activity estimate with `calcSource = "ef"`
whenever it produces one), and every other failed or negative containment
check yields the same statement. -/
theorem failed_containment_falls_through (supabaseModule : Option SupabaseModule)
    (labels : StatementLabels) (comparisonData : List DataPoint) (st : ComparisonStatement)
    (h : syncComparisonStatement supabaseModule labels comparisonData = some st)
    (hfail : containmentFailedOrNegative supabaseModule st.energySecondary st.energyPrimary) :
    st.warningDetails.inclusion = none ∧
    st.replacementPollution
      = (fallThroughStep st.energySecondary st.energyPrimary (some st.energyPrimary)
          noReplacement).replacementPollution ∧
    st.warningDetails.calcSource
      = (fallThroughStep st.energySecondary st.energyPrimary (some st.energyPrimary)
          noReplacement).replacementDetails.map (fun d => d.calcSource) ∧
    (∀ est, estimateReplacementPollution (some st.energySecondary) (some st.energyPrimary)
        = some est →
      st.replacementPollution = some est.value ∧
      st.warningDetails.calcSource = some CalcSource.ef) ∧
    st.warningDetails.calcSource ≠ some CalcSource.baselineOnly ∧
    (∀ otherModule : Option SupabaseModule,
      containmentFailedOrNegative otherModule st.energySecondary st.energyPrimary →
      syncComparisonStatement otherModule labels comparisonData = some st) := by
  obtain ⟨energyLeader, energyFollower, hl, hf, _, _, _, hst⟩ := syncComparisonStatement_some h
  subst hst
  simp only [statementOf] at hfail ⊢
  have hnote := buildReplacementInclusionNote_failed _ _ _ hfail
  have hblock := replacementBlock_without_note supabaseModule energyFollower energyLeader
    (some energyLeader) hnote
  refine ⟨?_, ?_, ?_, ?_, ?_, ?_⟩
  · rw [replacementBlock_inclusion, hnote]
  · rw [hblock]
  · rw [hblock]
  · intro est hest
    rw [hblock]
    rcases fallThroughStep_cases energyFollower energyLeader (some energyLeader)
      noReplacement with ⟨e, he, h1, h2⟩ | ⟨he, _⟩ | ⟨he, _⟩ | ⟨he, _⟩
    · rw [hest] at he
      cases he
      exact ⟨h1, h2⟩
    · rw [hest] at he; cases he
    · rw [hest] at he; cases he
    · rw [hest] at he; cases he
  · intro hsrc
    have hc := replacementBlock_baselineOnly supabaseModule energyFollower energyLeader
      (some energyLeader) hsrc
    rw [hnote] at hc
    simp at hc
  · intro otherModule hother
    have hnote2 := buildReplacementInclusionNote_failed _ _ _ hother
    have hblock2 := replacementBlock_without_note otherModule energyFollower energyLeader
      (some energyLeader) hnote2
    rw [syncComparisonStatement_eq, hl, hf]
    simp only [statementOf, hblock, hblock2]

/-- Witness of C9: an assessor that throws gives 200 from the combined-activity estimate, and so does a missing module. -/
theorem failed_containment_falls_through_witness :
    syncComparisonStatement (some throwingService) exampleLabels [smallPolluter, wideBaseline]
      = some (smallWideStatement (some throwingService)) ∧
    containmentFailedOrNegative (some throwingService)
      (smallWideStatement (some throwingService)).energySecondary
      (smallWideStatement (some throwingService)).energyPrimary ∧
    (smallWideStatement (some throwingService)).replacementPollution = some (JsNum.fin 200) ∧
    (smallWideStatement (some throwingService)).warningDetails.calcSource
      = some CalcSource.ef ∧
    syncComparisonStatement none exampleLabels [smallPolluter, wideBaseline]
      = some (smallWideStatement (some throwingService)) :=
  have hfail : containmentFailedOrNegative (some throwingService)
      (smallWideStatement (some throwingService)).energySecondary
      (smallWideStatement (some throwingService)).energyPrimary :=
    Or.inr (Or.inr (Or.inr ⟨throwingService, rfl, Or.inr ⟨_, rfl, Or.inl rfl⟩⟩))
  have hest : estimateReplacementPollution
      (some (smallWideStatement (some throwingService)).energySecondary)
      (some (smallWideStatement (some throwingService)).energyPrimary)
      = some { value := JsNum.fin 200, emissionFactor := some (JsNum.fin (4 / 5)),
               totalActivity := JsNum.fin 250 } := by
    rw [estimateReplacementPollution_eq]
    simp [smallWideStatement, statementOf, enrich, smallPolluter, wideBaseline, normalizeNumber,
      positivePart]
    norm_num
  ⟨syncComparisonStatement_small_wide _, hfail,
   ((failed_containment_falls_through (some throwingService) exampleLabels
      [smallPolluter, wideBaseline] _ (syncComparisonStatement_small_wide _) hfail).2.2.2.1
      _ hest).1,
   ((failed_containment_falls_through (some throwingService) exampleLabels
      [smallPolluter, wideBaseline] _ (syncComparisonStatement_small_wide _) hfail).2.2.2.1
      _ hest).2,
   (failed_containment_falls_through (some throwingService) exampleLabels
      [smallPolluter, wideBaseline] _ (syncComparisonStatement_small_wide _) hfail).2.2.2.2.2
      none (Or.inl rfl)⟩

/-! ## The energy ratio (C11) -/

theorem selectLeaderFollower_leader_greatest {α : Type} (metricAccessor : α → JsVal)
    (dataPoints : List α) (h : 2 ≤ finiteCount metricAccessor dataPoints) :
    ∃ leader, (selectLeaderFollower dataPoints metricAccessor).leader = some leader ∧
      ∀ z ∈ dataPoints, (metricAccessor z).toNumber.isFinite = true →
        JsNum.le (metricAccessor z).toNumber (metricAccessor leader).toNumber = true := by
  obtain ⟨l, f, rest, hs, hl, _, hlfin, hffin, hle, hrest⟩ :=
    selectLeaderFollower_two_finite metricAccessor dataPoints h
  refine ⟨l, hl, ?_⟩
  intro z hz hzfin
  have hp := arraySort_perm metricAccessor dataPoints
  rw [hs] at hp
  have hz2 : z ∈ l :: f :: rest := hp.symm.subset hz
  obtain ⟨ql, hql⟩ := (isFinite_iff_fin _).mp hlfin
  obtain ⟨qf, hqf⟩ := (isFinite_iff_fin _).mp hffin
  obtain ⟨qz, hqz⟩ := (isFinite_iff_fin _).mp hzfin
  rw [hql, hqf] at hle
  have hfl : qf ≤ ql := by simpa [JsNum.le, JsNum.lt] using hle
  rcases List.mem_cons.mp hz2 with rfl | hz3
  · rw [hql]; simp [JsNum.le, JsNum.lt]
  · rcases List.mem_cons.mp hz3 with rfl | hz4
    · rw [hql, hqf]
      simpa [JsNum.le, JsNum.lt] using hfl
    · have := hrest z hz4 hzfin
      rw [hqz, hqf] at this
      have hzf : qz ≤ qf := by simpa [JsNum.le, JsNum.lt] using this
      rw [hqz, hql]
      simpa [JsNum.le, JsNum.lt] using le_trans hzf hfl

/-- C11: in every statement the derivation builds (the energy leader and the
energy follower both exist), `energyRatio = safeRatio(energy leader's
activity, energy follower's activity)`; the energy leader has the greatest
finite activity value of the compared points and the follower's is at most
the leader's.  For the activity values `[50, 200]` the energy leader is the
category with 200, the follower the one with 50, and `energyRatio = 4`. -/
theorem energy_ratio_of_energy_pair (supabaseModule : Option SupabaseModule)
    (labels : StatementLabels) (comparisonData : List DataPoint) (st : ComparisonStatement)
    (h : syncComparisonStatement supabaseModule labels comparisonData = some st) :
    st.energyRatio = safeRatio st.energyPrimary.actDataValue st.energySecondary.actDataValue ∧
    (selectLeaderFollower (enrichComparisonData comparisonData) energyAccessor).leader
      = some st.energyPrimary ∧
    (selectLeaderFollower (enrichComparisonData comparisonData) energyAccessor).follower
      = some st.energySecondary ∧
    (∀ z ∈ comparisonData, (normalizeNumber z.actDataValue).isFinite = true →
      JsNum.le (normalizeNumber z.actDataValue)
        (normalizeNumber st.energyPrimary.actDataValue) = true) ∧
    JsNum.le (normalizeNumber st.energySecondary.actDataValue)
      (normalizeNumber st.energyPrimary.actDataValue) = true ∧
    (∃ st2, syncComparisonStatement (some excludingService) exampleLabels
        [categoryA, categoryB] = some st2 ∧
      st2.energyPrimary = enrich categoryB ∧ st2.energySecondary = enrich categoryA ∧
      st2.energyRatio = JsNum.fin 4) := by
  obtain ⟨energyLeader, energyFollower, hl, hf, _, _, hle, hst⟩ :=
    syncComparisonStatement_some h
  subst hst
  simp only [statementOf]
  refine ⟨trivial, hl, hf, ?_, hle, ?_⟩
  · intro z hz hzfin
    have hcount : 2 ≤ finiteCount energyAccessor (enrichComparisonData comparisonData) := by
      rw [finiteCount_energy_enrich]
      exact (syncComparisonStatement_isSome_iff supabaseModule labels comparisonData).mp
        (by rw [h]; rfl)
    obtain ⟨leader, hleader, hmax⟩ :=
      selectLeaderFollower_leader_greatest energyAccessor _ hcount
    rw [hl] at hleader
    cases hleader
    have hmem : enrich z ∈ enrichComparisonData comparisonData := by
      rw [enrichComparisonData_eq]
      exact List.mem_map_of_mem _ hz
    exact hmax (enrich z) hmem hzfin
  · rw [syncComparisonStatement_eq, energy_ranking_scenario]
    refine ⟨_, rfl, rfl, rfl, ?_⟩
    simp [statementOf, safeRatio, enrich, categoryA, categoryB, JsVal.toNumber, JsNum.isFinite,
      JsNum.isZero, JsNum.div]
    norm_num

/-- Witness of C11 on the scenario: the leader has activity 200, the follower 50. -/
theorem energy_ratio_of_energy_pair_witness :
    syncComparisonStatement none exampleLabels [categoryA, categoryB] = some scenarioStatement ∧
    scenarioStatement.energyRatio
      = safeRatio scenarioStatement.energyPrimary.actDataValue
          scenarioStatement.energySecondary.actDataValue ∧
    JsNum.le (normalizeNumber scenarioStatement.energySecondary.actDataValue)
      (normalizeNumber scenarioStatement.energyPrimary.actDataValue) = true :=
  ⟨syncComparisonStatement_scenario,
   (energy_ratio_of_energy_pair none exampleLabels [categoryA, categoryB] scenarioStatement
      syncComparisonStatement_scenario).1,
   (energy_ratio_of_energy_pair none exampleLabels [categoryA, categoryB] scenarioStatement
      syncComparisonStatement_scenario).2.2.2.2.1⟩

/-! ## The chart-height estimate (C12, C13) -/

theorem JsNum.max_fin_not_lt (a : ℚ) (y : JsNum) :
    JsNum.lt (JsNum.max (JsNum.fin a) y) (JsNum.fin a) = false := by
  cases y with
  | fin b =>
    by_cases hab : a < b
    · simp [JsNum.max, JsNum.lt, hab, hab.le]
    · simp [JsNum.max, JsNum.lt, hab]
  | posInf => simp [JsNum.max, JsNum.lt]
  | negInf => simp [JsNum.max, JsNum.lt]
  | nan => simp [JsNum.max, JsNum.lt]

theorem JsNum.max_fin_ge (a : ℚ) (y : JsNum) (hy : y ≠ JsNum.nan) :
    JsNum.ge (JsNum.max (JsNum.fin a) y) (JsNum.fin a) = true := by
  cases y with
  | fin b =>
    by_cases hab : a < b
    · simp [JsNum.max, JsNum.ge, JsNum.le, JsNum.lt, hab, hab.le]
    · simp [JsNum.max, JsNum.ge, JsNum.le, JsNum.lt, hab]
  | posInf => simp [JsNum.max, JsNum.ge, JsNum.le, JsNum.lt]
  | negInf => simp [JsNum.max, JsNum.ge, JsNum.le, JsNum.lt]
  | nan => exact absurd rfl hy

theorem JsNum.max_fin_fin (a b : ℚ) :
    JsNum.max (JsNum.fin a) (JsNum.fin b) = JsNum.fin (Max.max a b) := by
  by_cases hab : a < b
  · simp [JsNum.max, JsNum.lt, hab, max_eq_right hab.le]
  · simp [JsNum.max, JsNum.lt, hab, max_eq_left (not_lt.mp hab)]

theorem truthy_ne_nan {x : JsNum} (h : x.truthy = true) : x ≠ JsNum.nan := by
  intro hx
  rw [hx] at h
  cases h

/-- A difference is `NaN` only for a `NaN` operand or two infinities. -/
theorem sub_ne_nan_of_isFinite {x y : JsNum} (hx : x ≠ JsNum.nan) (hy : y.isFinite = true) :
    JsNum.sub x y ≠ JsNum.nan := by
  cases x <;> cases y <;> simp_all [JsNum.sub, JsNum.add, JsNum.neg, JsNum.isFinite]

theorem add_fin_isFinite {x : JsNum} (a : ℚ) (hx : x.isFinite = true) :
    (JsNum.add x (JsNum.fin a)).isFinite = true := by
  cases x <;> simp_all [JsNum.add, JsNum.isFinite]

/-- Measuring the chrome leaves the cached chart height alone. -/
theorem measureChartChromeHeight_lastChartHeight (dom : Dom) (state : LayoutState) :
    (measureChartChromeHeight dom state).2.lastChartHeight = state.lastChartHeight := by
  unfold measureChartChromeHeight
  dsimp only
  repeat' split
  all_goals rfl

theorem applyCssViewportHeightPx_lastChartHeight (config : PageConfig) (pixels : JsNum)
    (state : LayoutState) :
    (applyCssViewportHeightPx config pixels state).lastChartHeight = state.lastChartHeight := by
  unfold applyCssViewportHeightPx
  split <;> rfl

/-- The function `updateChartWrapperHeight` on the built-in path, unfolded. -/
theorem updateChartWrapperHeight_builtIn (config : PageConfig) (dom : Dom)
    (state : LayoutState) (hbuilt : config.layoutHeightManager = none) :
    (updateChartWrapperHeight config dom state).1 =
      (if (resolveViewportHeight config dom state).truthy then
        some (builtInEstimate (resolveViewportHeight config dom state)
          (footerReserveOf config dom state) (JsNum.fin CHART_HEADER_BUFFER))
       else none) ∧
    (updateChartWrapperHeight config dom state).2.lastChartHeight =
      (if (resolveViewportHeight config dom state).truthy then
        some (builtInEstimate (resolveViewportHeight config dom state)
          (footerReserveOf config dom state) (JsNum.fin CHART_HEADER_BUFFER))
       else state.lastChartHeight) := by
  unfold updateChartWrapperHeight
  dsimp only
  cases hv : (resolveViewportHeight config dom state).truthy
  · simp only [Bool.not_false, if_true]
    refine ⟨by simp, ?_⟩
    split
    · simp [applyCssViewportHeightPx_lastChartHeight]
    · simp
  · simp [hbuilt]

theorem round_fin_intCast (n : ℤ) : JsNum.round (JsNum.fin (n : ℚ)) = JsNum.fin (n : ℚ) := by
  have h : ⌊(n : ℚ) + 1 / 2⌋ = n := by
    rw [Int.floor_eq_iff]
    constructor
    · linarith
    · linarith
  simp only [JsNum.round, h]

/-- C12: on the built-in formula path every chart-height estimate
`updateChartWrapperHeight` returns is never below `MIN_CHART_CANVAS_HEIGHT` =
420, whatever the viewport, footer and chrome readings are; for a footer
height that is a finite number (the only kind the module stores or measures)
the estimate is a number >= 420. -/
theorem chart_height_estimate_at_least_minimum (config : PageConfig) (dom : Dom)
    (state : LayoutState) (hbuilt : config.layoutHeightManager = none) :
    MIN_CHART_CANVAS_HEIGHT = 420 ∧
    (∀ e, (updateChartWrapperHeight config dom state).1 = some e →
      JsNum.lt e (JsNum.fin MIN_CHART_CANVAS_HEIGHT) = false) ∧
    ((footerHeightOf config dom state).isFinite = true →
      ∀ e, (updateChartWrapperHeight config dom state).1 = some e →
        JsNum.ge e (JsNum.fin MIN_CHART_CANVAS_HEIGHT) = true) := by
  have hres := (updateChartWrapperHeight_builtIn config dom state hbuilt).1
  refine ⟨rfl, ?_, ?_⟩
  · intro e he
    rw [hres] at he
    split at he
    · cases he
      exact JsNum.max_fin_not_lt _ _
    · cases he
  · intro hfooter e he
    rw [hres] at he
    split at he
    · rename_i hv
      cases he
      apply JsNum.max_fin_ge
      refine sub_ne_nan_of_isFinite ?_ (rfl : (JsNum.fin CHART_HEADER_BUFFER).isFinite = true)
      exact sub_ne_nan_of_isFinite (truthy_ne_nan hv) (add_fin_isFinite _ hfooter)
    · cases he

/-- Witness of C12: an embedded page with the default parent metrics
(viewport 900, footer 140). -/
theorem chart_height_estimate_at_least_minimum_witness :
    embeddedBuiltIn.layoutHeightManager = none ∧
    (footerHeightOf embeddedBuiltIn emptyDom {}).isFinite = true ∧
    ∀ e, (updateChartWrapperHeight embeddedBuiltIn emptyDom {}).1 = some e →
      JsNum.ge e (JsNum.fin MIN_CHART_CANVAS_HEIGHT) = true :=
  ⟨rfl, rfl,
   (chart_height_estimate_at_least_minimum embeddedBuiltIn emptyDom {} rfl).2.2 rfl⟩

/-- C13: on the built-in formula path, for every non-zero resolved viewport
height `v` and footer height `f` (the parent-supplied footer height when
embedded, the measured one when standalone) the estimate
`updateChartWrapperHeight` returns is `Math.max(MIN_CHART_CANVAS_HEIGHT, v -
(f + FOOTER_GAP) - CHART_HEADER_BUFFER)` with the constants 420, 6 and 10, and
the same value is cached as the last chart height. -/
theorem chart_height_estimate_formula (config : PageConfig) (dom : Dom)
    (state : LayoutState) (hbuilt : config.layoutHeightManager = none)
    (hv : (resolveViewportHeight config dom state).truthy = true) :
    (updateChartWrapperHeight config dom state).1
      = some (JsNum.max (JsNum.fin 420)
          (JsNum.sub
            (JsNum.sub (resolveViewportHeight config dom state)
              (JsNum.add (footerHeightOf config dom state) (JsNum.fin 6)))
            (JsNum.fin 10))) ∧
    (updateChartWrapperHeight config dom state).2.lastChartHeight
      = (updateChartWrapperHeight config dom state).1 ∧
    footerHeightOf config dom state
      = (if config.isEmbedded then state.parentFooterHeight
         else getStandaloneFooterHeight dom) ∧
    (∀ v f : ℚ, resolveViewportHeight config dom state = JsNum.fin v →
      footerHeightOf config dom state = JsNum.fin f →
      (updateChartWrapperHeight config dom state).1
        = some (JsNum.fin (Max.max 420 (v - (f + 6) - 10)))) := by
  obtain ⟨hres, hcache⟩ := updateChartWrapperHeight_builtIn config dom state hbuilt
  simp only [hv, if_true] at hres hcache
  refine ⟨hres, by rw [hres, hcache], rfl, ?_⟩
  intro v f hqv hqf
  rw [hres, builtInEstimate, footerReserveOf, hqv, hqf]
  simp only [JsNum.add, JsNum.sub, JsNum.neg, MIN_CHART_CANVAS_HEIGHT, FOOTER_GAP,
    CHART_HEADER_BUFFER, JsNum.max_fin_fin]
  congr 2
  ring_nf

theorem round_fin_900 : JsNum.round (JsNum.fin 900) = JsNum.fin 900 := by
  have h := round_fin_intCast 900
  simpa using h

theorem resolveViewportHeight_default :
    resolveViewportHeight embeddedBuiltIn emptyDom {} = JsNum.fin 900 := by
  simp only [resolveViewportHeight, embeddedBuiltIn, if_true, DEFAULT_PARENT_VIEWPORT]
  exact round_fin_900

/-- Witness of C13: an embedded page with the default parent metrics
(viewport 900, footer 140) gets the estimate 900 - 146 - 10 = 744. -/
theorem chart_height_estimate_formula_witness :
    embeddedBuiltIn.layoutHeightManager = none ∧
    (resolveViewportHeight embeddedBuiltIn emptyDom {}).truthy = true ∧
    (updateChartWrapperHeight embeddedBuiltIn emptyDom {}).1 = some (JsNum.fin 744) ∧
    (updateChartWrapperHeight embeddedBuiltIn emptyDom {}).2.lastChartHeight
      = some (JsNum.fin 744) :=
  have hv : (resolveViewportHeight embeddedBuiltIn emptyDom {}).truthy = true := by
    rw [resolveViewportHeight_default]
    simp [JsNum.truthy]
  have h := chart_height_estimate_formula embeddedBuiltIn emptyDom {} rfl hv
  have h744 : (updateChartWrapperHeight embeddedBuiltIn emptyDom {}).1
      = some (JsNum.fin 744) := by
    rw [h.2.2.2 900 140 resolveViewportHeight_default rfl]
    norm_num
  ⟨rfl, hv, h744, by rw [h.2.1, h744]⟩

theorem round_fin_zero : JsNum.round (JsNum.fin 0) = JsNum.fin 0 := by
  have h := round_fin_intCast 0
  simpa using h

/-- A falsy resolved viewport height makes `updateChartWrapperHeight` return
`undefined` and keep the cached chart height, with or without a manager. -/
theorem updateChartWrapperHeight_skipped (config : PageConfig) (dom : Dom)
    (state : LayoutState) (hv : (resolveViewportHeight config dom state).truthy = false) :
    (updateChartWrapperHeight config dom state).1 = none ∧
    (updateChartWrapperHeight config dom state).2.lastChartHeight = state.lastChartHeight := by
  unfold updateChartWrapperHeight
  dsimp only
  simp only [hv, Bool.not_false, if_true]
  refine ⟨trivial, ?_⟩
  split
  · exact applyCssViewportHeightPx_lastChartHeight _ _ _
  · rfl

/-- The function `updateChartWrapperHeight` for a viewport height that passes
the guard: the estimate of the manager, or of the built-in formula, is
returned and cached. -/
theorem updateChartWrapperHeight_run (config : PageConfig) (dom : Dom)
    (state : LayoutState) (hv : (resolveViewportHeight config dom state).truthy = true) :
    (updateChartWrapperHeight config dom state).1 =
      (match config.layoutHeightManager with
        | some manager =>
          manager.estimateChartHeight (resolveViewportHeight config dom state)
            (footerReserveOf config dom state) (JsNum.fin CHART_HEADER_BUFFER)
        | none =>
          some (builtInEstimate (resolveViewportHeight config dom state)
            (footerReserveOf config dom state) (JsNum.fin CHART_HEADER_BUFFER))) ∧
    (updateChartWrapperHeight config dom state).2.lastChartHeight
      = (updateChartWrapperHeight config dom state).1 := by
  unfold updateChartWrapperHeight
  dsimp only
  simp only [hv, Bool.not_true, Bool.false_eq_true, if_false]
  exact ⟨trivial, trivial⟩

/-- The parent metrics are left alone by `updateChartWrapperHeight`. -/
theorem updateChartWrapperHeight_parentMetrics (config : PageConfig) (dom : Dom)
    (state : LayoutState) :
    (updateChartWrapperHeight config dom state).2.parentViewportHeight
        = state.parentViewportHeight ∧
    (updateChartWrapperHeight config dom state).2.parentFooterHeight
        = state.parentFooterHeight := by
  unfold updateChartWrapperHeight measureChartChromeHeight applyCssViewportHeightPx
    persistComparisonChromeHeight
  dsimp only
  constructor <;> (repeat' split) <;> rfl

/-! ## The suppression window (C15, C16) -/

/-- The expiry a call sets, in closed form; it does not depend on the state
the call is made in. -/
theorem suppress_expiry (durationMs : JsVal) (now : Nat) (state : LayoutState) :
    (suppressWrapperHeightObserver durationMs now state).suppressWrapperObserverUntil
      = (if JsNum.le (suppressDuration durationMs) (JsNum.fin 0) then JsNum.fin 0
         else JsNum.add (JsNum.fin (now : ℚ)) (suppressDuration durationMs)) := by
  unfold suppressWrapperHeightObserver
  dsimp only
  split <;> rfl

theorem suppressDuration_pos (d : ℚ) (hd : 0 < d) :
    suppressDuration (JsVal.num (JsNum.fin d)) = JsNum.fin d := by
  have hne : d ≠ 0 := ne_of_gt hd
  simp [suppressDuration, orNumber, JsVal.toNumber, JsNum.truthy, hne, JsNum.max, JsNum.lt, hd]

theorem suppressDuration_default :
    suppressDuration JsVal.undefined = JsNum.fin 450 := by
  simp [suppressDuration, orNumber, JsVal.toNumber, JsNum.truthy,
    WRAPPER_OBSERVER_SUPPRESS_MS, JsNum.max, JsNum.lt]

/-- The expiry a call with a positive finite duration sets. -/
theorem suppress_expiry_pos (d : ℚ) (hd : 0 < d) (now : Nat) (state : LayoutState) :
    (suppressWrapperHeightObserver (JsVal.num (JsNum.fin d)) now
        state).suppressWrapperObserverUntil = JsNum.fin ((now : ℚ) + d) := by
  rw [suppress_expiry, suppressDuration_pos d hd]
  simp [JsNum.le, JsNum.lt, hd, JsNum.add]

/-- The expiry a call without argument sets: `now` + 450. -/
theorem suppress_expiry_default (now : Nat) (state : LayoutState) :
    (suppressWrapperHeightObserver JsVal.undefined now state).suppressWrapperObserverUntil
      = JsNum.fin ((now : ℚ) + 450) := by
  rw [suppress_expiry, suppressDuration_default]
  simp [JsNum.le, JsNum.lt, JsNum.add]

/-- C15: after `suppressWrapperHeightObserver(d)` with a duration `d > 0` at
time `t0`, and no further suppress call, `shouldIgnoreWrapperObserverTick` at
time `t` returns true if and only if `t < t0 + d` (for every `t`, so for every
`t >= t0`); a call without argument is a call with `d = 450`, and for `d =
Infinity` the answer is always true. -/
theorem suppression_window_active_iff (state : LayoutState) (t0 t : Nat) :
    (∀ d : ℚ, 0 < d →
      (shouldIgnoreWrapperObserverTick t
          (suppressWrapperHeightObserver (JsVal.num (JsNum.fin d)) t0 state) = true
        ↔ (t : ℚ) < (t0 : ℚ) + d)) ∧
    (shouldIgnoreWrapperObserverTick t
        (suppressWrapperHeightObserver JsVal.undefined t0 state) = true
      ↔ (t : ℚ) < (t0 : ℚ) + 450) ∧
    shouldIgnoreWrapperObserverTick t
      (suppressWrapperHeightObserver (JsVal.num JsNum.posInf) t0 state) = true := by
  refine ⟨?_, ?_, ?_⟩
  · intro d hd
    have hpos : (0 : ℚ) < (t0 : ℚ) + d := by positivity
    unfold shouldIgnoreWrapperObserverTick
    rw [suppress_expiry_pos d hd]
    simp [JsNum.truthy, ne_of_gt hpos, JsNum.lt]
  · have hpos : (0 : ℚ) < (t0 : ℚ) + 450 := by positivity
    unfold shouldIgnoreWrapperObserverTick
    rw [suppress_expiry_default]
    simp [JsNum.truthy, ne_of_gt hpos, JsNum.lt]
  · simp [shouldIgnoreWrapperObserverTick, suppressWrapperHeightObserver, suppressDuration,
      orNumber, JsVal.toNumber, JsNum.truthy, JsNum.max, JsNum.lt, JsNum.le, JsNum.add]

/-- Witness of C15: suppress(450) at time 1000 mutes the tick at 1449 and no
longer the tick at 1450. -/
theorem suppression_window_active_iff_witness :
    shouldIgnoreWrapperObserverTick 1449
      (suppressWrapperHeightObserver (JsVal.num (JsNum.fin 450)) 1000 {}) = true ∧
    shouldIgnoreWrapperObserverTick 1450
      (suppressWrapperHeightObserver (JsVal.num (JsNum.fin 450)) 1000 {}) ≠ true :=
  ⟨((suppression_window_active_iff {} 1000 1449).1 450 (by norm_num)).mpr (by norm_num),
   fun h => absurd
     (((suppression_window_active_iff {} 1000 1450).1 450 (by norm_num)).mp h)
     (by norm_num)⟩

theorem orNumber_ne_nan (a : Nullable) (fallback : JsNum) (h : fallback ≠ JsNum.nan) :
    orNumber a fallback ≠ JsNum.nan := by
  unfold orNumber
  split
  · split
    · rename_i x hx
      exact truthy_ne_nan hx
    · exact h
  · exact h

theorem max_ne_nan {x y : JsNum} (hx : x ≠ JsNum.nan) (hy : y ≠ JsNum.nan) :
    JsNum.max x y ≠ JsNum.nan := by
  cases x <;> cases y <;> simp_all [JsNum.max] <;> split <;> simp

theorem suppressDuration_ne_nan (durationMs : JsVal) :
    suppressDuration durationMs ≠ JsNum.nan := by
  unfold suppressDuration
  exact max_ne_nan (by simp) (orNumber_ne_nan _ _ (by simp))

/-- For a fixed argument the expiry a call sets does not decrease with the
time of the call. -/
theorem suppress_expiry_mono (durationMs : JsVal) (t1 t2 : Nat) (h : t1 ≤ t2)
    (s1 s2 : LayoutState) :
    JsNum.le (suppressWrapperHeightObserver durationMs t1 s1).suppressWrapperObserverUntil
      (suppressWrapperHeightObserver durationMs t2 s2).suppressWrapperObserverUntil = true := by
  have hq : (t1 : ℚ) ≤ (t2 : ℚ) := by exact_mod_cast h
  rw [suppress_expiry, suppress_expiry]
  cases hd : suppressDuration durationMs with
  | fin d =>
    by_cases hpos : 0 < d
    · simp [JsNum.le, JsNum.lt, hpos, JsNum.add, h]
    · simp [JsNum.le, JsNum.lt, hpos]
  | posInf => simp [JsNum.le, JsNum.lt, JsNum.add]
  | negInf => simp [JsNum.le, JsNum.lt]
  | nan => exact absurd hd (suppressDuration_ne_nan durationMs)

theorem expiryTrace_eq_map (calls : List (Nat × JsVal)) (state : LayoutState) :
    expiryTrace calls state
      = calls.map (fun call =>
          (suppressWrapperHeightObserver call.2 call.1 {}).suppressWrapperObserverUntil) := by
  induction calls generalizing state with
  | nil => rfl
  | cons call rest ih =>
    simp only [expiryTrace, List.map_cons, ih]
    rw [suppress_expiry, suppress_expiry]

/-- C16 (the claim as stated fails): `suppressWrapperHeightObserver(450)` at
time 1000 sets the expiry 1450; at time 1100 the window is active, and
`suppressWrapperHeightObserver(100)` replaces the expiry by 1200, a lower
value; `suppressWrapperHeightObserver(0)` resets it to 0. -/
theorem shorter_suppress_lowers_expiry :
    (suppressWrapperHeightObserver (JsVal.num (JsNum.fin 450)) 1000
      {}).suppressWrapperObserverUntil = JsNum.fin 1450 ∧
    shouldIgnoreWrapperObserverTick 1100
      (suppressWrapperHeightObserver (JsVal.num (JsNum.fin 450)) 1000 {}) = true ∧
    (suppressWrapperHeightObserver (JsVal.num (JsNum.fin 100)) 1100
      (suppressWrapperHeightObserver (JsVal.num (JsNum.fin 450)) 1000
        {})).suppressWrapperObserverUntil = JsNum.fin 1200 ∧
    JsNum.lt (JsNum.fin 1200) (JsNum.fin 1450) = true ∧
    (suppressWrapperHeightObserver (JsVal.num (JsNum.fin 0)) 1100
      (suppressWrapperHeightObserver (JsVal.num (JsNum.fin 450)) 1000
        {})).suppressWrapperObserverUntil = JsNum.fin 0 := by
  refine ⟨?_, ?_, ?_, ?_, ?_⟩
  · rw [suppress_expiry_pos 450 (by norm_num)]
    norm_num
  · unfold shouldIgnoreWrapperObserverTick
    rw [suppress_expiry_pos 450 (by norm_num)]
    simp [JsNum.truthy, JsNum.lt]
    norm_num
  · rw [suppress_expiry_pos 100 (by norm_num)]
    norm_num
  · simp [JsNum.lt]
    norm_num
  · rw [suppress_expiry]
    simp [suppressDuration, orNumber, JsVal.toNumber, JsNum.truthy, JsNum.max, JsNum.lt,
      JsNum.le]

/-- C16 (amended): for every run of `suppressWrapperHeightObserver` calls that
all pass the same argument (every call site of the module calls it without
argument, which is 450 ms) at non-decreasing times, the expiry never
decreases from one call to a later one, so no call replaces the expiry by a
lower value; without argument the expiry after the call at time `t` is `t +
450`. -/
theorem same_duration_never_lowers_expiry (durationMs : JsVal) (times : List Nat)
    (hsorted : times.Sorted (fun a b => a ≤ b)) (state : LayoutState) :
    (expiryTrace (times.map (fun t => (t, durationMs))) state).Pairwise
      (fun earlier later => JsNum.le earlier later = true) ∧
    expiryTrace (times.map (fun t => (t, JsVal.undefined))) state
      = times.map (fun (t : Nat) => JsNum.fin ((t : ℚ) + 450)) ∧
    (∀ t1 t2 : Nat, t1 ≤ t2 →
      JsNum.le
        (suppressWrapperHeightObserver durationMs t1 state).suppressWrapperObserverUntil
        (suppressWrapperHeightObserver durationMs t2
          (suppressWrapperHeightObserver durationMs t1 state)).suppressWrapperObserverUntil
        = true) := by
  refine ⟨?_, ?_, ?_⟩
  · rw [expiryTrace_eq_map, List.map_map]
    rw [List.pairwise_map]
    exact List.Pairwise.imp (fun {a b} hab => suppress_expiry_mono durationMs a b hab {} {})
      hsorted
  · rw [expiryTrace_eq_map, List.map_map]
    apply List.map_congr_left
    intro t _
    exact suppress_expiry_default t {}
  · intro t1 t2 h12
    exact suppress_expiry_mono durationMs t1 t2 h12 _ _

/-- Witness of the amended C16: four calls without argument at the times
1000, 1100, 1100 and 1600. -/
theorem same_duration_never_lowers_expiry_witness :
    [1000, 1100, 1100, 1600].Sorted (fun a b : Nat => a ≤ b) ∧
    (expiryTrace ([1000, 1100, 1100, 1600].map (fun t => (t, JsVal.undefined))) {}).Pairwise
      (fun earlier later => JsNum.le earlier later = true) ∧
    expiryTrace ([1000, 1100, 1100, 1600].map (fun t => (t, JsVal.undefined))) {}
      = [1000, 1100, 1100, 1600].map (fun (t : Nat) => JsNum.fin ((t : ℚ) + 450)) :=
  ⟨by decide,
   (same_duration_never_lowers_expiry JsVal.undefined [1000, 1100, 1100, 1600]
      (by decide) {}).1,
   (same_duration_never_lowers_expiry JsVal.undefined [1000, 1100, 1100, 1600]
      (by decide) {}).2.1⟩

/-! ## The two coalescing queues (C17) -/

theorem countP_append_singleton {α : Type} (p : α → Bool) (l : List α) (a : α) :
    (l ++ [a]).countP p = l.countP p + (if p a then 1 else 0) := by
  rw [List.countP_append, List.countP_cons, List.countP_nil]
  simp

/-- Cancelling the pending handle of a consistent queue leaves no callback of
the kind waiting. -/
theorem cancelPending_count (task : FrameTask) (pending : Option Nat) (browser : Browser)
    (h : QueueConsistent task pending browser) :
    (cancelPending pending browser).frameCallbacks.countP (fun entry => entry.2 = task) = 0 := by
  obtain ⟨hall, _, hhandles, _⟩ := h
  rw [List.countP_eq_zero]
  intro entry hentry
  simp only [decide_eq_true_eq]
  intro htask
  unfold cancelPending at hentry
  cases pending with
  | none =>
    have hmem : entry ∈ browser.frameCallbacks := hentry
    have := hall entry hmem htask
    cases this
  | some handle =>
    simp only [handleTruthy] at hentry
    by_cases h0 : handle = 0
    · subst h0
      have hmem : entry ∈ browser.frameCallbacks := by simpa using hentry
      have h1 := hall entry hmem htask
      have h2 := (hhandles entry hmem).1
      simp only [Option.some.injEq] at h1
      omega
    · have hne : (handle != 0) = true := by simpa using h0
      simp only [hne, if_true, cancelFrame, List.mem_filter] at hentry
      have h1 := hall entry hentry.1 htask
      simp only [Option.some.injEq] at h1
      have h2 := hentry.2
      simp [h1] at h2

theorem cancelPending_subset (pending : Option Nat) (browser : Browser) :
    ∀ entry ∈ (cancelPending pending browser).frameCallbacks,
      entry ∈ browser.frameCallbacks := by
  intro entry hentry
  unfold cancelPending at hentry
  split at hentry
  · split at hentry
    · exact (List.mem_filter.mp hentry).1
    · exact hentry
  · exact hentry

theorem cancelPending_nextHandle (pending : Option Nat) (browser : Browser) :
    (cancelPending pending browser).nextHandle = browser.nextHandle := by
  unfold cancelPending
  split
  · split <;> rfl
  · rfl

theorem cancelPending_sublist (pending : Option Nat) (browser : Browser) :
    List.Sublist (cancelPending pending browser).frameCallbacks browser.frameCallbacks := by
  unfold cancelPending
  split
  · split
    · exact List.filter_sublist _
    · exact List.Sublist.refl _
  · exact List.Sublist.refl _

/-- Cancel-and-request on a consistent queue: exactly one callback of the
kind waits afterwards, under the new handle, and the queue is consistent. -/
theorem request_after_cancel (task : FrameTask) (pending : Option Nat) (browser : Browser)
    (h : QueueConsistent task pending browser) :
    (requestFrame task (cancelPending pending browser)).2.frameCallbacks.countP
        (fun entry => entry.2 = task) = 1 ∧
    QueueConsistent task (some (requestFrame task (cancelPending pending browser)).1)
      (requestFrame task (cancelPending pending browser)).2 := by
  have hzero := cancelPending_count task pending browser h
  obtain ⟨_, _, hhandles, hnext⟩ := h
  have hcount : (requestFrame task (cancelPending pending browser)).2.frameCallbacks.countP
      (fun entry => entry.2 = task) = 1 := by
    simp only [requestFrame, countP_append_singleton, hzero]
    simp
  refine ⟨hcount, ?_, by omega, ?_, ?_⟩
  · intro entry hentry htask
    simp only [requestFrame, List.mem_append, List.mem_singleton] at hentry
    rcases hentry with hmem | rfl
    · exfalso
      have := (List.countP_eq_zero.mp hzero) entry hmem
      simp [htask] at this
    · rfl
  · intro entry hentry
    simp only [requestFrame, List.mem_append, List.mem_singleton] at hentry
    simp only [requestFrame, cancelPending_nextHandle]
    rcases hentry with hmem | rfl
    · have := hhandles entry (cancelPending_subset pending browser entry hmem)
      omega
    · simp only [cancelPending_nextHandle]
      omega
  · simp only [requestFrame, cancelPending_nextHandle]
    omega

/-- Cancel-and-request for one kind keeps the queue of another kind consistent. -/
theorem request_after_cancel_other (task other : FrameTask) (hne : task ≠ other)
    (pending pendingOther : Option Nat) (browser : Browser)
    (h : QueueConsistent other pendingOther browser) :
    QueueConsistent other pendingOther (requestFrame task (cancelPending pending browser)).2 := by
  obtain ⟨hall, hle, hhandles, hnext⟩ := h
  refine ⟨?_, ?_, ?_, ?_⟩
  · intro entry hentry hkind
    simp only [requestFrame, List.mem_append, List.mem_singleton] at hentry
    rcases hentry with hmem | rfl
    · exact hall entry (cancelPending_subset pending browser entry hmem) hkind
    · exact absurd hkind hne
  · simp only [requestFrame, countP_append_singleton]
    have hsub := (cancelPending_sublist pending browser).countP_le
      (fun entry : Nat × FrameTask => decide (entry.2 = other))
    simp only [decide_eq_true_eq, hne, if_false]
    omega
  · intro entry hentry
    simp only [requestFrame, List.mem_append, List.mem_singleton] at hentry
    simp only [requestFrame, cancelPending_nextHandle]
    rcases hentry with hmem | rfl
    · have := hhandles entry (cancelPending_subset pending browser entry hmem)
      omega
    · simp only [cancelPending_nextHandle]
      omega
  · simp only [requestFrame, cancelPending_nextHandle]
    omega

theorem updateChartWrapperHeight_pending (config : PageConfig) (dom : Dom)
    (state : LayoutState) :
    (updateChartWrapperHeight config dom state).2.pendingComparisonRedraw
        = state.pendingComparisonRedraw ∧
    (updateChartWrapperHeight config dom state).2.pendingComparisonChromeRefresh
        = state.pendingComparisonChromeRefresh := by
  unfold updateChartWrapperHeight measureChartChromeHeight applyCssViewportHeightPx
    persistComparisonChromeHeight
  dsimp only
  constructor <;> (repeat' split) <;> rfl

/-- What one callback does to the counters and the handles. -/
theorem runFrameTask_effect (config : PageConfig) (dom : Dom) (task : FrameTask)
    (page : Page) :
    (runFrameTask config dom task page).browser.frameCallbacks = page.browser.frameCallbacks ∧
    (runFrameTask config dom task page).browser.updateChartCalls
      = page.browser.updateChartCalls + (if task = FrameTask.comparisonRedraw then 1 else 0) ∧
    refreshTimerCount (runFrameTask config dom task page)
      = refreshTimerCount page + (if task = FrameTask.comparisonChromeRefresh then 1 else 0) ∧
    (runFrameTask config dom task page).state.pendingComparisonRedraw
      = (if task = FrameTask.comparisonRedraw then none
         else page.state.pendingComparisonRedraw) ∧
    (runFrameTask config dom task page).state.pendingComparisonChromeRefresh
      = (if task = FrameTask.comparisonChromeRefresh then none
         else page.state.pendingComparisonChromeRefresh) := by
  cases task with
  | comparisonRedraw =>
    simp [runFrameTask, refreshTimerCount]
  | comparisonChromeRefresh =>
    refine ⟨rfl, by simp [runFrameTask], ?_, ?_, ?_⟩
    · simp [runFrameTask, refreshTimerCount, countP_append_singleton]
    · simp only [runFrameTask, setPendingComparisonChromeHeight]
      split
      · simp [(updateChartWrapperHeight_pending config dom _).1]
      · simp [(updateChartWrapperHeight_pending config dom _).1]
    · simp only [runFrameTask, setPendingComparisonChromeHeight]
      split
      · simp [(updateChartWrapperHeight_pending config dom _).2]
      · simp [(updateChartWrapperHeight_pending config dom _).2]
  | updateWrapperHeight =>
    refine ⟨rfl, by simp [runFrameTask], by simp [runFrameTask, refreshTimerCount], ?_, ?_⟩
    · simp [runFrameTask, (updateChartWrapperHeight_pending config dom _).1]
    · simp [runFrameTask, (updateChartWrapperHeight_pending config dom _).2]

/-- What running a list of callbacks does to the counters and the handles. -/
theorem runTasks_effect (config : PageConfig) (dom : Dom)
    (callbacks : List (Nat × FrameTask)) (page : Page) :
    (callbacks.foldl (fun current entry => runFrameTask config dom entry.2 current)
        page).browser.frameCallbacks = page.browser.frameCallbacks ∧
    (callbacks.foldl (fun current entry => runFrameTask config dom entry.2 current)
        page).browser.updateChartCalls
      = page.browser.updateChartCalls
        + callbacks.countP (fun entry => entry.2 = FrameTask.comparisonRedraw) ∧
    refreshTimerCount
        (callbacks.foldl (fun current entry => runFrameTask config dom entry.2 current) page)
      = refreshTimerCount page
        + callbacks.countP (fun entry => entry.2 = FrameTask.comparisonChromeRefresh) ∧
    (0 < callbacks.countP (fun entry => entry.2 = FrameTask.comparisonRedraw) →
      (callbacks.foldl (fun current entry => runFrameTask config dom entry.2 current)
        page).state.pendingComparisonRedraw = none) ∧
    (0 < callbacks.countP (fun entry => entry.2 = FrameTask.comparisonChromeRefresh) →
      (callbacks.foldl (fun current entry => runFrameTask config dom entry.2 current)
        page).state.pendingComparisonChromeRefresh = none) ∧
    (page.state.pendingComparisonRedraw = none →
      (callbacks.foldl (fun current entry => runFrameTask config dom entry.2 current)
        page).state.pendingComparisonRedraw = none) ∧
    (page.state.pendingComparisonChromeRefresh = none →
      (callbacks.foldl (fun current entry => runFrameTask config dom entry.2 current)
        page).state.pendingComparisonChromeRefresh = none) := by
  induction callbacks generalizing page with
  | nil => simp
  | cons entry rest ih =>
    obtain ⟨h1, h2, h3, h4, h5⟩ := runFrameTask_effect config dom entry.2 page
    obtain ⟨i1, i2, i3, i4, i5, i6, i7⟩ := ih (runFrameTask config dom entry.2 page)
    simp only [List.foldl_cons, List.countP_cons]
    refine ⟨by rw [i1, h1], by rw [i2, h2]; simp only [decide_eq_true_eq]; omega,
      by rw [i3, h3]; simp only [decide_eq_true_eq]; omega, ?_, ?_, ?_, ?_⟩
    · intro hpos
      by_cases hkind : entry.2 = FrameTask.comparisonRedraw
      · apply i6
        rw [h4]
        simp [hkind]
      · apply i4
        simpa [hkind] using hpos
    · intro hpos
      by_cases hkind : entry.2 = FrameTask.comparisonChromeRefresh
      · apply i7
        rw [h5]
        simp [hkind]
      · apply i5
        simpa [hkind] using hpos
    · intro hnone
      apply i6
      rw [h4]
      split
      · rfl
      · exact hnone
    · intro hnone
      apply i7
      rw [h5]
      split
      · rfl
      · exact hnone

theorem cancelPending_counters (pending : Option Nat) (browser : Browser) :
    (cancelPending pending browser).updateChartCalls = browser.updateChartCalls ∧
    (cancelPending pending browser).timers = browser.timers := by
  unfold cancelPending
  split
  · split <;> exact ⟨rfl, rfl⟩
  · exact ⟨rfl, rfl⟩

/-- After any number of `scheduleComparisonRedraw` calls the redraw queue is
consistent, at most one redraw waits (exactly one after the first call), and
neither `updateChart` was called nor a timer set. -/
theorem redrawCalls_spec (page : Page)
    (h : QueueConsistent FrameTask.comparisonRedraw page.state.pendingComparisonRedraw
      page.browser) (count : Nat) :
    QueueConsistent FrameTask.comparisonRedraw
      (redrawCalls count page).state.pendingComparisonRedraw (redrawCalls count page).browser ∧
    pendingCount FrameTask.comparisonRedraw (redrawCalls count page) ≤ 1 ∧
    (1 ≤ count → pendingCount FrameTask.comparisonRedraw (redrawCalls count page) = 1) ∧
    (redrawCalls count page).browser.updateChartCalls = page.browser.updateChartCalls := by
  induction count with
  | zero => exact ⟨h, h.2.1, fun hc => absurd hc (by omega), rfl⟩
  | succ k ih =>
    obtain ⟨hcons, _, _, hcalls⟩ := ih
    obtain ⟨hone, hnew⟩ := request_after_cancel FrameTask.comparisonRedraw _ _ hcons
    refine ⟨hnew, ?_, fun _ => hone, ?_⟩
    · exact le_of_eq hone
    · simp only [redrawCalls, scheduleComparisonRedraw, requestFrame]
      rw [(cancelPending_counters _ _).1, hcalls]

/-- The same for `scheduleComparisonChromeRefresh`. -/
theorem chromeRefreshCalls_spec (page : Page)
    (h : QueueConsistent FrameTask.comparisonChromeRefresh
      page.state.pendingComparisonChromeRefresh page.browser) (count : Nat) :
    QueueConsistent FrameTask.comparisonChromeRefresh
      (chromeRefreshCalls count page).state.pendingComparisonChromeRefresh
      (chromeRefreshCalls count page).browser ∧
    pendingCount FrameTask.comparisonChromeRefresh (chromeRefreshCalls count page) ≤ 1 ∧
    (1 ≤ count →
      pendingCount FrameTask.comparisonChromeRefresh (chromeRefreshCalls count page) = 1) ∧
    refreshTimerCount (chromeRefreshCalls count page) = refreshTimerCount page := by
  induction count with
  | zero => exact ⟨h, h.2.1, fun hc => absurd hc (by omega), rfl⟩
  | succ k ih =>
    obtain ⟨hcons, _, _, htimers⟩ := ih
    obtain ⟨hone, hnew⟩ := request_after_cancel FrameTask.comparisonChromeRefresh _ _ hcons
    refine ⟨hnew, ?_, fun _ => hone, ?_⟩
    · exact le_of_eq hone
    · rw [← htimers]
      simp only [chromeRefreshCalls, scheduleComparisonChromeRefresh, requestFrame,
        refreshTimerCount]
      rw [(cancelPending_counters _ _).2]

/-- What a frame does: every waiting callback runs once and none waits after it. -/
theorem runFrame_effect (config : PageConfig) (dom : Dom) (page : Page) :
    (runFrame config dom page).browser.frameCallbacks = [] ∧
    (runFrame config dom page).browser.updateChartCalls
      = page.browser.updateChartCalls + pendingCount FrameTask.comparisonRedraw page ∧
    refreshTimerCount (runFrame config dom page)
      = refreshTimerCount page + pendingCount FrameTask.comparisonChromeRefresh page ∧
    (0 < pendingCount FrameTask.comparisonRedraw page →
      (runFrame config dom page).state.pendingComparisonRedraw = none) ∧
    (0 < pendingCount FrameTask.comparisonChromeRefresh page →
      (runFrame config dom page).state.pendingComparisonChromeRefresh = none) := by
  obtain ⟨h1, h2, h3, h4, h5, _, _⟩ := runTasks_effect config dom page.browser.frameCallbacks
    { page with browser := { page.browser with frameCallbacks := [] } }
  exact ⟨h1, h2, h3, h4, h5⟩

theorem queueConsistent_emptyPage (task : FrameTask) :
    QueueConsistent task none emptyPage.browser := by
  refine ⟨?_, ?_, ?_, ?_⟩
  · intro entry hentry
    cases hentry
  · simp [emptyPage]
  · intro entry hentry
    cases hentry
  · simp [emptyPage]

/-- C17: for each of the two queues and every `N >= 1`, starting from a page
whose pending handle agrees with the frame queue: after each of the `N` calls
made before a frame runs at most one callback of the queue waits (none right
after the pending one is cancelled, exactly one after the new request), and
the next frame runs the queued work exactly once: one `updateChart` call for
the redraw queue, one 80 ms height-notification timer for the chrome-refresh
queue; afterwards the handle is `null` and nothing of the queue waits.  The
chrome-refresh part is stated for frames in which no redraw waits, since what
`updateChart` does after being called is not followed. -/
theorem coalescing_queues (config : PageConfig) (dom : Dom) (page : Page)
    (hR : QueueConsistent FrameTask.comparisonRedraw page.state.pendingComparisonRedraw
      page.browser)
    (hC : QueueConsistent FrameTask.comparisonChromeRefresh
      page.state.pendingComparisonChromeRefresh page.browser)
    (n : Nat) (hn : 1 ≤ n) :
    ((∀ k ≤ n,
        pendingCount FrameTask.comparisonRedraw (redrawCalls k page) ≤ 1 ∧
        (cancelPending (redrawCalls k page).state.pendingComparisonRedraw
          (redrawCalls k page).browser).frameCallbacks.countP
            (fun entry => entry.2 = FrameTask.comparisonRedraw) = 0) ∧
      pendingCount FrameTask.comparisonRedraw (redrawCalls n page) = 1 ∧
      (runFrame config dom (redrawCalls n page)).browser.updateChartCalls
        = page.browser.updateChartCalls + 1 ∧
      (runFrame config dom (redrawCalls n page)).state.pendingComparisonRedraw = none ∧
      pendingCount FrameTask.comparisonRedraw (runFrame config dom (redrawCalls n page)) = 0) ∧
    (pendingCount FrameTask.comparisonRedraw page = 0 →
      (∀ k ≤ n,
        pendingCount FrameTask.comparisonChromeRefresh (chromeRefreshCalls k page) ≤ 1 ∧
        (cancelPending (chromeRefreshCalls k page).state.pendingComparisonChromeRefresh
          (chromeRefreshCalls k page).browser).frameCallbacks.countP
            (fun entry => entry.2 = FrameTask.comparisonChromeRefresh) = 0) ∧
      pendingCount FrameTask.comparisonChromeRefresh (chromeRefreshCalls n page) = 1 ∧
      refreshTimerCount (runFrame config dom (chromeRefreshCalls n page))
        = refreshTimerCount page + 1 ∧
      (runFrame config dom (chromeRefreshCalls n page)).state.pendingComparisonChromeRefresh
        = none ∧
      pendingCount FrameTask.comparisonChromeRefresh
        (runFrame config dom (chromeRefreshCalls n page)) = 0) := by
  constructor
  · obtain ⟨_, _, hone, hcalls⟩ := redrawCalls_spec page hR n
    obtain ⟨f1, f2, _, f4, _⟩ := runFrame_effect config dom (redrawCalls n page)
    have hcount := hone hn
    refine ⟨?_, hcount, ?_, f4 (by omega), ?_⟩
    · intro k _
      obtain ⟨hcons, hle, _, _⟩ := redrawCalls_spec page hR k
      exact ⟨hle, cancelPending_count _ _ _ hcons⟩
    · rw [f2, hcount, hcalls]
    · simp [pendingCount, f1]
  · intro _
    obtain ⟨_, _, hone, htimers⟩ := chromeRefreshCalls_spec page hC n
    obtain ⟨f1, _, f3, _, f5⟩ := runFrame_effect config dom (chromeRefreshCalls n page)
    have hcount := hone hn
    refine ⟨?_, hcount, ?_, f5 (by omega), ?_⟩
    · intro k _
      obtain ⟨hcons, hle, _, _⟩ := chromeRefreshCalls_spec page hC k
      exact ⟨hle, cancelPending_count _ _ _ hcons⟩
    · rw [f3, hcount, htimers]
    · simp [pendingCount, f1]

/-- Witness of C17: three requests on a freshly loaded page. -/
theorem coalescing_queues_witness :
    QueueConsistent FrameTask.comparisonRedraw emptyPage.state.pendingComparisonRedraw
      emptyPage.browser ∧
    QueueConsistent FrameTask.comparisonChromeRefresh
      emptyPage.state.pendingComparisonChromeRefresh emptyPage.browser ∧
    pendingCount FrameTask.comparisonRedraw emptyPage = 0 ∧
    pendingCount FrameTask.comparisonRedraw (redrawCalls 3 emptyPage) = 1 ∧
    (runFrame embeddedBuiltIn emptyDom (redrawCalls 3 emptyPage)).browser.updateChartCalls
      = emptyPage.browser.updateChartCalls + 1 ∧
    refreshTimerCount (runFrame embeddedBuiltIn emptyDom (chromeRefreshCalls 3 emptyPage))
      = refreshTimerCount emptyPage + 1 :=
  ⟨queueConsistent_emptyPage _, queueConsistent_emptyPage _, rfl,
   (coalescing_queues embeddedBuiltIn emptyDom emptyPage (queueConsistent_emptyPage _)
      (queueConsistent_emptyPage _) 3 (by decide)).1.2.1,
   (coalescing_queues embeddedBuiltIn emptyDom emptyPage (queueConsistent_emptyPage _)
      (queueConsistent_emptyPage _) 3 (by decide)).1.2.2.1,
   ((coalescing_queues embeddedBuiltIn emptyDom emptyPage (queueConsistent_emptyPage _)
      (queueConsistent_emptyPage _) 3 (by decide)).2 rfl).2.2.1⟩

/-! ## The content height and its notifier (C18, C19, C20) -/

/-- The candidate `reduce` keeps is one of the candidates and no candidate
with a finite value exceeds it, provided its own value is finite. -/
theorem bestCandidateOf_spec (rest : List HeightCandidate) (first : HeightCandidate)
    (hfin : ∀ c ∈ first :: rest, c.value.isFinite = true) :
    bestCandidateOf first rest ∈ first :: rest ∧
    ∀ c ∈ first :: rest, JsNum.le c.value (bestCandidateOf first rest).value = true := by
  induction rest generalizing first with
  | nil =>
    refine ⟨List.mem_singleton.mpr rfl, ?_⟩
    intro c hc
    rw [List.mem_singleton.mp hc]
    obtain ⟨q, hq⟩ := (isFinite_iff_fin _).mp (hfin first (List.mem_singleton.mpr rfl))
    simp [bestCandidateOf, hq, JsNum.le, JsNum.lt]
  | cons next rest ih =>
    obtain ⟨qf, hqf⟩ := (isFinite_iff_fin _).mp (hfin first (List.mem_cons_self _ _))
    obtain ⟨qn, hqn⟩ := (isFinite_iff_fin _).mp
      (hfin next (List.mem_cons_of_mem _ (List.mem_cons_self _ _)))
    have hstep : bestCandidateOf first (next :: rest)
        = bestCandidateOf (if JsNum.gt next.value first.value then next else first) rest := rfl
    rw [hstep]
    by_cases hgt : qf < qn
    · have hg : JsNum.gt next.value first.value = true := by
        simp [JsNum.gt, JsNum.lt, hqf, hqn, hgt]
      simp only [hg, if_true]
      obtain ⟨hmem, hmax⟩ := ih next (by
        intro c hc
        exact hfin c (List.mem_cons_of_mem _ hc))
      refine ⟨List.mem_cons_of_mem _ hmem, ?_⟩
      intro c hc
      rcases List.mem_cons.mp hc with rfl | hc2
      · have hn := hmax next (List.mem_cons_self _ _)
        obtain ⟨qb, hqb⟩ := (isFinite_iff_fin _).mp
          (hfin _ (List.mem_cons_of_mem _ hmem))
        rw [hqn, hqb] at hn
        rw [hqf, hqb]
        have : qn ≤ qb := by simpa [JsNum.le, JsNum.lt] using hn
        simpa [JsNum.le, JsNum.lt] using le_trans hgt.le this
      · exact hmax c hc2
    · have hg : JsNum.gt next.value first.value = false := by
        simp [JsNum.gt, JsNum.lt, hqf, hqn, hgt]
      simp only [hg]
      obtain ⟨hmem, hmax⟩ := ih first (by
        intro c hc
        rcases List.mem_cons.mp hc with rfl | hc2
        · exact hfin _ (List.mem_cons_self _ _)
        · exact hfin c (List.mem_cons_of_mem _ (List.mem_cons_of_mem _ hc2)))
      have hmem2 : bestCandidateOf first rest ∈ first :: next :: rest := by
        rcases List.mem_cons.mp hmem with h | h
        · rw [h]; exact List.mem_cons_self _ _
        · exact List.mem_cons_of_mem _ (List.mem_cons_of_mem _ h)
      refine ⟨by simpa using hmem2, ?_⟩
      intro c hc
      rcases List.mem_cons.mp hc with rfl | hc2
      · simpa using hmax c (List.mem_cons_self _ _)
      · rcases List.mem_cons.mp hc2 with rfl | hc3
        · have hf := hmax first (List.mem_cons_self _ _)
          obtain ⟨qb, hqb⟩ := (isFinite_iff_fin _).mp (hfin _ hmem2)
          simp only [Bool.false_eq_true, if_false]
          rw [hqf, hqb] at hf
          rw [hqn, hqb]
          have : qf ≤ qb := by simpa [JsNum.le, JsNum.lt] using hf
          simpa [JsNum.le, JsNum.lt] using le_trans (not_lt.mp hgt) this
        · simpa using hmax c (List.mem_cons_of_mem _ hc3)

theorem validCandidatesOf_valid (candidates : List HeightCandidate) :
    ∀ c ∈ validCandidatesOf candidates,
      c ∈ candidates ∧ c.value.isFinite = true ∧ JsNum.gt c.value (JsNum.fin 0) = true := by
  intro c hc
  unfold validCandidatesOf at hc
  obtain ⟨hmem, hp⟩ := List.mem_filter.mp hc
  simp only [Bool.and_eq_true] at hp
  exact ⟨hmem, hp.1, hp.2⟩

/-- The fallback estimate is a number, at least 436. -/
theorem fallbackEstimateOf_ge (config : PageConfig) (state : LayoutState) :
    JsNum.ge (fallbackEstimateOf config state) (JsNum.fin 436) = true ∧
    fallbackEstimateOf config state ≠ JsNum.nan := by
  have hx : orNumber (config.layoutHeightManager.bind
      (fun manager => manager.getLastEstimatedHeight))
      (orNumber state.lastChartHeight (JsNum.fin MIN_CHART_CANVAS_HEIGHT)) ≠ JsNum.nan :=
    orNumber_ne_nan _ _ (orNumber_ne_nan _ _ (by simp))
  have h436 : MIN_CHART_CANVAS_HEIGHT + CHART_HEADER_BUFFER + FOOTER_GAP = 436 := by
    norm_num [MIN_CHART_CANVAS_HEIGHT, CHART_HEADER_BUFFER, FOOTER_GAP]
  unfold fallbackEstimateOf
  rw [h436]
  exact ⟨JsNum.max_fin_ge _ _ hx, max_ne_nan (by simp) hx⟩

theorem lt_300_of_ge_436 {x : JsNum} (h : JsNum.ge x (JsNum.fin 436) = true) :
    JsNum.lt x (JsNum.fin 300) = false := by
  cases x with
  | fin q =>
    have hq : (436 : ℚ) ≤ q := by simpa [JsNum.ge, JsNum.le, JsNum.lt] using h
    have : ¬ q < 300 := by linarith
    simp [JsNum.lt, this]
  | posInf => rfl
  | negInf => simp [JsNum.ge, JsNum.le, JsNum.lt] at h
  | nan => rfl

theorem truthy_of_valid {x : JsNum} (hfin : x.isFinite = true)
    (hpos : JsNum.gt x (JsNum.fin 0) = true) : x.truthy = true := by
  obtain ⟨q, rfl⟩ := (isFinite_iff_fin _).mp hfin
  have hq : (0 : ℚ) < q := by simpa [JsNum.gt, JsNum.lt] using hpos
  simp [JsNum.truthy, hq.ne']

/-- With a valid anchor the best anchor is the measured height, unless it is
below 300. -/
theorem measure_anchor (config : PageConfig) (dom : Dom) (state : LayoutState)
    (first : HeightCandidate) (rest : List HeightCandidate)
    (hv : validCandidatesOf (heightCandidates config dom) = first :: rest) :
    (JsNum.lt (bestCandidateOf first rest).value (JsNum.fin 300) = false →
      (measureBubbleContentHeight config dom state).height
          = JsNum.round (bestCandidateOf first rest).value ∧
      (measureBubbleContentHeight config dom state).source
          = (bestCandidateOf first rest).label) ∧
    (JsNum.lt (bestCandidateOf first rest).value (JsNum.fin 300) = true →
      (measureBubbleContentHeight config dom state).height
          = JsNum.round (JsNum.max (JsNum.fin 1100) (fallbackEstimateOf config state)) ∧
      (measureBubbleContentHeight config dom state).source = HeightSource.fallbackMin) := by
  have hvalid := validCandidatesOf_valid (heightCandidates config dom)
  rw [hv] at hvalid
  have hspec := bestCandidateOf_spec rest first (fun c hc => (hvalid c hc).2.1)
  have hbest := hvalid _ hspec.1
  have ht := truthy_of_valid hbest.2.1 hbest.2.2
  constructor
  · intro hlt
    simp [measureBubbleContentHeight, hv, ht, hlt]
  · intro hlt
    simp [measureBubbleContentHeight, hv, ht, hlt]

/-- Without a valid anchor a truthy document height is the measured height,
unless it is below 300. -/
theorem measure_document (config : PageConfig) (dom : Dom) (state : LayoutState)
    (hv : validCandidatesOf (heightCandidates config dom) = [])
    (hd : (documentHeightOf dom).truthy = true) :
    (JsNum.lt (documentHeightOf dom) (JsNum.fin 300) = false →
      (measureBubbleContentHeight config dom state).height
          = JsNum.round (documentHeightOf dom) ∧
      (measureBubbleContentHeight config dom state).source = HeightSource.document) ∧
    (JsNum.lt (documentHeightOf dom) (JsNum.fin 300) = true →
      (measureBubbleContentHeight config dom state).height
          = JsNum.round (JsNum.max (JsNum.fin 1100) (fallbackEstimateOf config state)) ∧
      (measureBubbleContentHeight config dom state).source = HeightSource.fallbackMin) := by
  have h0 : (JsNum.fin 0).truthy = false := by simp [JsNum.truthy]
  constructor
  · intro hlt
    simp [measureBubbleContentHeight, hv, hd, hlt, h0]
  · intro hlt
    simp [measureBubbleContentHeight, hv, hd, hlt, h0]

/-- Without a valid anchor and without a document height the fallback
estimate is the measured height. -/
theorem measure_fallback (config : PageConfig) (dom : Dom) (state : LayoutState)
    (hv : validCandidatesOf (heightCandidates config dom) = [])
    (hd : (documentHeightOf dom).truthy = false) :
    (measureBubbleContentHeight config dom state).height
        = JsNum.round (fallbackEstimateOf config state) ∧
    (measureBubbleContentHeight config dom state).source = HeightSource.fallback := by
  have hF := fallbackEstimateOf_ge config state
  have hlt := lt_300_of_ge_436 hF.1
  have h0 : (JsNum.fin 0).truthy = false := by simp [JsNum.truthy]
  simp [measureBubbleContentHeight, hv, hd, hlt, h0]

/-- The tutorial overlay is a candidate only while it is visible. -/
theorem overlay_candidate_visible (config : PageConfig) (dom : Dom)
    (h : overlayVisibleOf dom = false) :
    ∀ c ∈ heightCandidates config dom, c.label ≠ HeightSource.tutorialOverlay := by
  intro c hc
  simp [heightCandidates, h, JsNum.truthy] at hc
  rcases hc with rfl | rfl | rfl <;> simp

theorem round_fin_ofNat (n : ℕ) [n.AtLeastTwo] :
    JsNum.round (JsNum.fin (OfNat.ofNat n)) = JsNum.fin (OfNat.ofNat n) := by
  have h := round_fin_intCast (n : ℤ)
  simpa using h

theorem getElementBottom_unscrolled (dom : Dom) (rect : ElementRect) (n : ℕ) [n.AtLeastTwo]
    (hy : dom.scrollY = none) (hp : dom.pageYOffset = none)
    (hb : rect.bottom = JsNum.fin (OfNat.ofNat n)) :
    getElementBottom dom (some rect) = JsNum.fin (OfNat.ofNat n) := by
  have hn : (0 : ℚ) < (OfNat.ofNat n : ℚ) := by
    have h2 : (2 : ℚ) ≤ (n : ℚ) := by exact_mod_cast (Nat.AtLeastTwo.prop : 2 ≤ n)
    have : (OfNat.ofNat n : ℚ) = (n : ℚ) := (Nat.cast_ofNat).symm
    rw [this]; linarith
  simp [getElementBottom, hy, hp, hb, orNumber, JsNum.truthy, hn.ne', JsNum.add,
    round_fin_ofNat, JsNum.max, JsNum.lt, hn]

theorem shortShell_candidates (config : PageConfig) (hm : config.layoutHeightManager = none) :
    validCandidatesOf (heightCandidates config shortShellDom)
      = [{ label := HeightSource.chartShell, value := JsNum.fin 250 }] := by
  have hs : getElementBottom shortShellDom shortShellDom.chartShell = JsNum.fin 250 :=
    getElementBottom_unscrolled shortShellDom _ 250 rfl rfl rfl
  simp [heightCandidates, validCandidatesOf, hs, overlayVisibleOf, wrapperElementOf, hm]
  simp [shortShellDom, getElementBottom, JsNum.truthy, JsNum.isFinite, JsNum.gt, JsNum.lt]

theorem fallbackEstimate_initial (config : PageConfig) (state : LayoutState)
    (hm : config.layoutHeightManager = none) (hc : state.lastChartHeight = none) :
    fallbackEstimateOf config state = JsNum.fin 436 := by
  simp [fallbackEstimateOf, hm, hc, orNumber, MIN_CHART_CANVAS_HEIGHT,
    CHART_HEADER_BUFFER, FOOTER_GAP, JsNum.max_fin_fin]
  norm_num

theorem tallShell_candidates (config : PageConfig) (hm : config.layoutHeightManager = none) :
    validCandidatesOf (heightCandidates config tallShellDom)
      = [{ label := HeightSource.chartShell, value := JsNum.fin 800 },
         { label := HeightSource.mainContent, value := JsNum.fin 650 }] := by
  have hs : getElementBottom tallShellDom tallShellDom.chartShell = JsNum.fin 800 :=
    getElementBottom_unscrolled tallShellDom _ 800 rfl rfl rfl
  have hcfg := hm
  have hm : getElementBottom tallShellDom tallShellDom.mainContent = JsNum.fin 650 :=
    getElementBottom_unscrolled tallShellDom _ 650 rfl rfl rfl
  simp [heightCandidates, validCandidatesOf, hs, hm, hcfg, overlayVisibleOf,
    wrapperElementOf]
  simp [tallShellDom, getElementBottom, JsNum.truthy, JsNum.isFinite, JsNum.gt, JsNum.lt]

theorem shortShell_measurement (config : PageConfig) (state : LayoutState)
    (hm : config.layoutHeightManager = none) (hc : state.lastChartHeight = none) :
    (measureBubbleContentHeight config shortShellDom state).height = JsNum.fin 1100 ∧
    (measureBubbleContentHeight config shortShellDom state).source
      = HeightSource.fallbackMin := by
  have h := (measure_anchor config shortShellDom state _ []
    (shortShell_candidates config hm)).2 (by simp [bestCandidateOf, JsNum.lt]; norm_num)
  rw [fallbackEstimate_initial config state hm hc] at h
  have hr : JsNum.round (JsNum.max (JsNum.fin 1100) (JsNum.fin 436)) = JsNum.fin 1100 := by
    rw [JsNum.max_fin_fin]
    have : Max.max (1100 : ℚ) 436 = 1100 := by norm_num
    rw [this]
    exact round_fin_ofNat 1100
  rw [hr] at h
  exact h

theorem tallShell_measurement (config : PageConfig) (state : LayoutState)
    (hm : config.layoutHeightManager = none) :
    (measureBubbleContentHeight config tallShellDom state).height = JsNum.fin 800 ∧
    (measureBubbleContentHeight config tallShellDom state).source
      = HeightSource.chartShell := by
  have hb : bestCandidateOf { label := HeightSource.chartShell, value := JsNum.fin 800 }
      [{ label := HeightSource.mainContent, value := JsNum.fin 650 }]
      = { label := HeightSource.chartShell, value := JsNum.fin 800 } := by
    simp [bestCandidateOf, JsNum.gt, JsNum.lt]
    norm_num
  have h := (measure_anchor config tallShellDom state _ _ (tallShell_candidates config hm)).1
    (by rw [hb]; simp [JsNum.lt]; norm_num)
  rw [hb] at h
  have hr : JsNum.round (JsNum.fin 800) = JsNum.fin 800 := round_fin_ofNat 800
  simpa [hr] using h

theorem emptyDom_measurement :
    (measureBubbleContentHeight embeddedBuiltIn emptyDom {}).height = JsNum.fin 436 ∧
    (measureBubbleContentHeight embeddedBuiltIn emptyDom {}).source = HeightSource.fallback := by
  have hv : validCandidatesOf (heightCandidates embeddedBuiltIn emptyDom) = [] := by
    simp [heightCandidates, validCandidatesOf, overlayVisibleOf, wrapperElementOf,
      embeddedBuiltIn, emptyDom, getElementBottom, JsNum.truthy, JsNum.isFinite, JsNum.gt,
      JsNum.lt]
  have hd : (documentHeightOf emptyDom).truthy = false := by
    simp [documentHeightOf, emptyDom, orNumber, JsNum.max_fin_fin, JsNum.truthy]
  have h := measure_fallback embeddedBuiltIn emptyDom {} hv hd
  rw [fallbackEstimate_initial embeddedBuiltIn {} rfl rfl] at h
  have hr : JsNum.round (JsNum.fin 436) = JsNum.fin 436 := round_fin_ofNat 436
  simpa [hr] using h

/-- C20 (counterexample): a document whose only positive anchor is a chart
shell ending at 250px (document height 250) has the valid anchor list
`[chartShell = 250]`, yet the measured height is 1100 with the source
`fallback-min`, not the maximum of the anchor bottoms. -/
theorem short_anchor_is_replaced :
    validCandidatesOf (heightCandidates embeddedBuiltIn shortShellDom)
      = [{ label := HeightSource.chartShell, value := JsNum.fin 250 }] ∧
    (measureBubbleContentHeight embeddedBuiltIn shortShellDom {}).height = JsNum.fin 1100 ∧
    (measureBubbleContentHeight embeddedBuiltIn shortShellDom {}).source
      = HeightSource.fallbackMin ∧
    (measureBubbleContentHeight embeddedBuiltIn shortShellDom {}).height ≠ JsNum.fin 250 := by
  have hm := shortShell_measurement embeddedBuiltIn {} rfl rfl
  refine ⟨shortShell_candidates embeddedBuiltIn rfl, hm.1, hm.2, ?_⟩
  rw [hm.1]
  intro h
  injection h with h
  norm_num at h

/-- C20 (amended): `measureBubbleContentHeight` picks a value and rounds it.
With a valid anchor (finite and above 0; the tutorial overlay only while
visible) the pick is the greatest valid anchor bottom; without one it is the
document height when that is truthy; otherwise it is the fallback estimate
`max(436, manager estimate || cached estimate || 420)`, which is at least 436.
A pick below 300 is replaced by `max(1100, fallback estimate)` with the source
`fallback-min`. -/
theorem content_height_selection (config : PageConfig) (dom : Dom) (state : LayoutState) :
    (fallbackEstimateOf config state
        = JsNum.max (JsNum.fin 436)
            (orNumber (config.layoutHeightManager.bind
                (fun manager => manager.getLastEstimatedHeight))
              (orNumber state.lastChartHeight (JsNum.fin 420))) ∧
      JsNum.ge (fallbackEstimateOf config state) (JsNum.fin 436) = true) ∧
    (overlayVisibleOf dom = false →
      ∀ c ∈ validCandidatesOf (heightCandidates config dom),
        c.label ≠ HeightSource.tutorialOverlay) ∧
    (∀ first rest, validCandidatesOf (heightCandidates config dom) = first :: rest →
      (bestCandidateOf first rest ∈ validCandidatesOf (heightCandidates config dom) ∧
        ∀ c ∈ validCandidatesOf (heightCandidates config dom),
          JsNum.le c.value (bestCandidateOf first rest).value = true) ∧
      (JsNum.lt (bestCandidateOf first rest).value (JsNum.fin 300) = false →
        (measureBubbleContentHeight config dom state).height
            = JsNum.round (bestCandidateOf first rest).value ∧
        (measureBubbleContentHeight config dom state).source
            = (bestCandidateOf first rest).label) ∧
      (JsNum.lt (bestCandidateOf first rest).value (JsNum.fin 300) = true →
        (measureBubbleContentHeight config dom state).height
            = JsNum.round (JsNum.max (JsNum.fin 1100) (fallbackEstimateOf config state)) ∧
        (measureBubbleContentHeight config dom state).source = HeightSource.fallbackMin)) ∧
    (validCandidatesOf (heightCandidates config dom) = [] →
      (documentHeightOf dom).truthy = true →
      (JsNum.lt (documentHeightOf dom) (JsNum.fin 300) = false →
        (measureBubbleContentHeight config dom state).height
            = JsNum.round (documentHeightOf dom) ∧
        (measureBubbleContentHeight config dom state).source = HeightSource.document) ∧
      (JsNum.lt (documentHeightOf dom) (JsNum.fin 300) = true →
        (measureBubbleContentHeight config dom state).height
            = JsNum.round (JsNum.max (JsNum.fin 1100) (fallbackEstimateOf config state)) ∧
        (measureBubbleContentHeight config dom state).source = HeightSource.fallbackMin)) ∧
    (validCandidatesOf (heightCandidates config dom) = [] →
      (documentHeightOf dom).truthy = false →
      (measureBubbleContentHeight config dom state).height
          = JsNum.round (fallbackEstimateOf config state) ∧
      (measureBubbleContentHeight config dom state).source = HeightSource.fallback) := by
  refine ⟨⟨?_, (fallbackEstimateOf_ge config state).1⟩, ?_, ?_, ?_, ?_⟩
  · have h436 : MIN_CHART_CANVAS_HEIGHT + CHART_HEADER_BUFFER + FOOTER_GAP = 436 := by
      norm_num [MIN_CHART_CANVAS_HEIGHT, CHART_HEADER_BUFFER, FOOTER_GAP]
    unfold fallbackEstimateOf
    rw [h436]
    rfl
  · intro h c hc
    exact overlay_candidate_visible config dom h c
      (validCandidatesOf_valid (heightCandidates config dom) c hc).1
  · intro first rest hv
    have hvalid := validCandidatesOf_valid (heightCandidates config dom)
    rw [hv] at hvalid
    have hspec := bestCandidateOf_spec rest first (fun c hc => (hvalid c hc).2.1)
    refine ⟨?_, measure_anchor config dom state first rest hv⟩
    rw [hv]
    exact hspec
  · intro hv hd
    exact measure_document config dom state hv hd
  · intro hv hd
    exact measure_fallback config dom state hv hd

/-- C20 (witness): the document with anchors at 800 and 650 and a hidden
overlay at 2000 measures 800 from the chart shell; the document with the single
anchor at 250 measures 1100. -/
theorem content_height_selection_witness :
    (measureBubbleContentHeight embeddedBuiltIn tallShellDom {}).height
        = JsNum.round (JsNum.fin 800) ∧
    (measureBubbleContentHeight embeddedBuiltIn shortShellDom {}).height
        = JsNum.round (JsNum.max (JsNum.fin 1100) (fallbackEstimateOf embeddedBuiltIn {})) := by
  have hb : bestCandidateOf { label := HeightSource.chartShell, value := JsNum.fin 800 }
      [{ label := HeightSource.mainContent, value := JsNum.fin 650 }]
      = { label := HeightSource.chartShell, value := JsNum.fin 800 } := by
    simp [bestCandidateOf, JsNum.gt, JsNum.lt]
    norm_num
  constructor
  · have h := ((content_height_selection embeddedBuiltIn tallShellDom {}).2.2.1 _ _
      (tallShell_candidates embeddedBuiltIn rfl)).2.1 (by rw [hb]; simp [JsNum.lt]; norm_num)
    rw [hb] at h
    exact h.1
  · exact (((content_height_selection embeddedBuiltIn shortShellDom {}).2.2.1 _ _
      (shortShell_candidates embeddedBuiltIn rfl)).2.2 (by simp [bestCandidateOf, JsNum.lt]; norm_num)).1

theorem round_ne_nan {x : JsNum} (h : x ≠ JsNum.nan) : JsNum.round x ≠ JsNum.nan := by
  cases x <;> simp_all [JsNum.round]

/-- The measured content height is never `NaN`. -/
theorem measure_height_ne_nan (config : PageConfig) (dom : Dom) (state : LayoutState) :
    (measureBubbleContentHeight config dom state).height ≠ JsNum.nan := by
  have hF := fallbackEstimateOf_ge config state
  have hmin : JsNum.round (JsNum.max (JsNum.fin 1100) (fallbackEstimateOf config state))
      ≠ JsNum.nan := round_ne_nan (max_ne_nan (by simp) hF.2)
  cases hv : validCandidatesOf (heightCandidates config dom) with
  | cons first rest =>
    have hvalid := validCandidatesOf_valid (heightCandidates config dom)
    rw [hv] at hvalid
    have hspec := bestCandidateOf_spec rest first (fun c hc => (hvalid c hc).2.1)
    have hbest := hvalid _ hspec.1
    have hb : (bestCandidateOf first rest).value ≠ JsNum.nan := by
      intro h
      have := hbest.2.1
      rw [h] at this
      cases this
    have h := measure_anchor config dom state first rest hv
    cases hlt : JsNum.lt (bestCandidateOf first rest).value (JsNum.fin 300) with
    | false => rw [(h.1 hlt).1]; exact round_ne_nan hb
    | true => rw [(h.2 hlt).1]; exact hmin
  | nil =>
    cases hd : (documentHeightOf dom).truthy with
    | true =>
      have h := measure_document config dom state hv hd
      cases hlt : JsNum.lt (documentHeightOf dom) (JsNum.fin 300) with
      | false => rw [(h.1 hlt).1]; exact round_ne_nan (truthy_ne_nan hd)
      | true => rw [(h.2 hlt).1]; exact hmin
    | false =>
      rw [(measure_fallback config dom state hv hd).1]
      exact round_ne_nan hF.2

/-- The value `measuredHeight` of `sendContentHeightToParent`. -/
theorem sentHeight_spec (config : PageConfig) (dom : Dom) (state : LayoutState) :
    JsNum.max (JsNum.fin MIN_CHART_CANVAS_HEIGHT)
        (measureBubbleContentHeight config dom state).height ≠ JsNum.nan ∧
    JsNum.ge (JsNum.max (JsNum.fin MIN_CHART_CANVAS_HEIGHT)
        (measureBubbleContentHeight config dom state).height) (JsNum.fin 420) = true :=
  ⟨max_ne_nan (by simp) (measure_height_ne_nan config dom state),
    JsNum.max_fin_ge _ _ (measure_height_ne_nan config dom state)⟩

/-- A height of at least 420 is not within 8 of a falsy last sent height. -/
theorem not_close_of_falsy {h s : JsNum} (hh : JsNum.ge h (JsNum.fin 420) = true)
    (hs : s.truthy = false) :
    JsNum.lt (JsNum.abs (JsNum.sub h s)) (JsNum.fin MIN_HEIGHT_DELTA) = false := by
  cases s with
  | fin q =>
    have hq : q = 0 := by simpa [JsNum.truthy] using hs
    subst hq
    cases h with
    | fin a =>
      have ha : (420 : ℚ) ≤ a := by simpa [JsNum.ge, JsNum.le, JsNum.lt] using hh
      have habs : |a| = a := abs_of_nonneg (by linarith)
      have : ¬ a < 8 := by linarith
      simp [JsNum.sub, JsNum.neg, JsNum.add, JsNum.abs, JsNum.lt, MIN_HEIGHT_DELTA, habs, this]
    | posInf => simp [JsNum.sub, JsNum.neg, JsNum.add, JsNum.abs, JsNum.lt]
    | negInf => simp [JsNum.ge, JsNum.le, JsNum.lt] at hh
    | nan => simp [JsNum.ge, JsNum.le] at hh
  | posInf => simp [JsNum.truthy] at hs
  | negInf => simp [JsNum.truthy] at hs
  | nan => cases h <;> simp [JsNum.sub, JsNum.neg, JsNum.add, JsNum.abs, JsNum.lt]

/-- A number that is not below 8 and not `NaN` is at least 8. -/
theorem ge_of_not_lt {x : JsNum} (hx : x ≠ JsNum.nan)
    (h : JsNum.lt x (JsNum.fin MIN_HEIGHT_DELTA) = false) :
    JsNum.ge x (JsNum.fin MIN_HEIGHT_DELTA) = true := by
  cases x <;> simp_all [JsNum.ge, JsNum.le, JsNum.lt]

theorem abs_ne_nan {x : JsNum} (hx : x ≠ JsNum.nan) : JsNum.abs x ≠ JsNum.nan := by
  cases x <;> simp_all [JsNum.abs]

/-- A call that is not embedded leaves the page alone. -/
theorem send_standalone (config : PageConfig) (dom : Dom) (force : Bool) (page : Page)
    (he : config.isEmbedded = false) :
    sendContentHeightToParent config dom force page = page := by
  simp [sendContentHeightToParent, he]

/-- A non-forced call whose height is within 8 of a truthy last sent height
leaves the page alone. -/
theorem send_gated (config : PageConfig) (dom : Dom) (page : Page)
    (hlt : JsNum.lt (JsNum.abs (JsNum.sub
        (JsNum.max (JsNum.fin MIN_CHART_CANVAS_HEIGHT)
          (measureBubbleContentHeight config dom page.state).height)
        page.state.lastSentHeight)) (JsNum.fin MIN_HEIGHT_DELTA) = true) :
    sendContentHeightToParent config dom false page = page := by
  have hs : page.state.lastSentHeight.truthy = true := by
    cases hs : page.state.lastSentHeight.truthy with
    | true => rfl
    | false =>
      rw [not_close_of_falsy (sentHeight_spec config dom page.state).2 hs] at hlt
      cases hlt
  cases he : config.isEmbedded with
  | false => exact send_standalone config dom false page he
  | true => simp [sendContentHeightToParent, he, hs, hlt]

/-- An embedded call that passes the gate records the height and, unless
posting throws, appends one message and requests one frame. -/
theorem send_passes (config : PageConfig) (dom : Dom) (force : Bool) (page : Page)
    (he : config.isEmbedded = true)
    (hgate : force = true ∨ JsNum.lt (JsNum.abs (JsNum.sub
        (JsNum.max (JsNum.fin MIN_CHART_CANVAS_HEIGHT)
          (measureBubbleContentHeight config dom page.state).height)
        page.state.lastSentHeight)) (JsNum.fin MIN_HEIGHT_DELTA) = false) :
    (sendContentHeightToParent config dom force page).state
      = { page.state with lastSentHeight :=
            (JsNum.max (JsNum.fin MIN_CHART_CANVAS_HEIGHT)
              (measureBubbleContentHeight config dom page.state).height) } ∧
    (page.browser.parentPostThrows = true →
      (sendContentHeightToParent config dom force page).browser = page.browser) ∧
    (page.browser.parentPostThrows = false →
      (sendContentHeightToParent config dom force page).browser
        = { page.browser with
            outbox := page.browser.outbox ++
              [{ height := (JsNum.max (JsNum.fin MIN_CHART_CANVAS_HEIGHT)
                  (measureBubbleContentHeight config dom page.state).height) }],
            frameCallbacks := page.browser.frameCallbacks ++
              [(page.browser.nextHandle, FrameTask.updateWrapperHeight)],
            nextHandle := page.browser.nextHandle + 1 }) := by
  have hcond : (!force && page.state.lastSentHeight.truthy
      && JsNum.lt (JsNum.abs (JsNum.sub
        (JsNum.max (JsNum.fin MIN_CHART_CANVAS_HEIGHT)
          (measureBubbleContentHeight config dom page.state).height)
        page.state.lastSentHeight)) (JsNum.fin MIN_HEIGHT_DELTA)) = false := by
    rcases hgate with h | h
    · simp [h]
    · simp [h]
  unfold sendContentHeightToParent
  simp only [he, Bool.not_true, Bool.false_eq_true, if_false, hcond]
  cases ht : page.browser.parentPostThrows <;> simp [requestFrame]

theorem tallShell_sentHeight (config : PageConfig) (state : LayoutState)
    (hm : config.layoutHeightManager = none) :
    JsNum.max (JsNum.fin MIN_CHART_CANVAS_HEIGHT)
      (measureBubbleContentHeight config tallShellDom state).height = JsNum.fin 800 := by
  rw [(tallShell_measurement config state hm).1, JsNum.max_fin_fin]
  simp [MIN_CHART_CANVAS_HEIGHT]
  norm_num

/-- C18: for a call `sendContentHeightToParent()` without force, with `h` the
measured height (at least 420) and `s` the last sent height: when
`|h - s| < 8` the call changes nothing, so no message is sent and the last sent
height stays `s`; when the call did send a message, `|h - s| < 8` is false, and
`|h - s| >= 8` for a finite `s`; and an embedded call with `|h - s| < 8` false
whose post does not throw appends one message carrying `h`. -/
theorem non_forced_send_gate (config : PageConfig) (dom : Dom) (page : Page) :
    (JsNum.lt (JsNum.abs (JsNum.sub
        (JsNum.max (JsNum.fin MIN_CHART_CANVAS_HEIGHT)
          (measureBubbleContentHeight config dom page.state).height)
        page.state.lastSentHeight)) (JsNum.fin MIN_HEIGHT_DELTA) = true →
      sendContentHeightToParent config dom false page = page) ∧
    ((sendContentHeightToParent config dom false page).browser.outbox ≠ page.browser.outbox →
      JsNum.lt (JsNum.abs (JsNum.sub
        (JsNum.max (JsNum.fin MIN_CHART_CANVAS_HEIGHT)
          (measureBubbleContentHeight config dom page.state).height)
        page.state.lastSentHeight)) (JsNum.fin MIN_HEIGHT_DELTA) = false ∧
      (page.state.lastSentHeight.isFinite = true →
        JsNum.ge (JsNum.abs (JsNum.sub
          (JsNum.max (JsNum.fin MIN_CHART_CANVAS_HEIGHT)
            (measureBubbleContentHeight config dom page.state).height)
          page.state.lastSentHeight)) (JsNum.fin MIN_HEIGHT_DELTA) = true)) ∧
    (config.isEmbedded = true → page.browser.parentPostThrows = false →
      JsNum.lt (JsNum.abs (JsNum.sub
        (JsNum.max (JsNum.fin MIN_CHART_CANVAS_HEIGHT)
          (measureBubbleContentHeight config dom page.state).height)
        page.state.lastSentHeight)) (JsNum.fin MIN_HEIGHT_DELTA) = false →
      (sendContentHeightToParent config dom false page).browser.outbox
        = page.browser.outbox ++
          [{ height := (JsNum.max (JsNum.fin MIN_CHART_CANVAS_HEIGHT)
              (measureBubbleContentHeight config dom page.state).height) }] ∧
      (sendContentHeightToParent config dom false page).state.lastSentHeight
        = JsNum.max (JsNum.fin MIN_CHART_CANVAS_HEIGHT)
            (measureBubbleContentHeight config dom page.state).height) := by
  refine ⟨send_gated config dom page, ?_, ?_⟩
  · intro hsent
    have hlt : JsNum.lt (JsNum.abs (JsNum.sub
        (JsNum.max (JsNum.fin MIN_CHART_CANVAS_HEIGHT)
          (measureBubbleContentHeight config dom page.state).height)
        page.state.lastSentHeight)) (JsNum.fin MIN_HEIGHT_DELTA) = false := by
      cases hlt : JsNum.lt (JsNum.abs (JsNum.sub
        (JsNum.max (JsNum.fin MIN_CHART_CANVAS_HEIGHT)
          (measureBubbleContentHeight config dom page.state).height)
        page.state.lastSentHeight)) (JsNum.fin MIN_HEIGHT_DELTA) with
      | false => rfl
      | true =>
        exfalso
        apply hsent
        rw [send_gated config dom page hlt]
    refine ⟨hlt, ?_⟩
    intro hs
    exact ge_of_not_lt
      (abs_ne_nan (sub_ne_nan_of_isFinite (sentHeight_spec config dom page.state).1 hs)) hlt
  · intro he ht hlt
    have h := send_passes config dom false page he (Or.inr hlt)
    rw [h.1, h.2.2 ht]
    exact ⟨rfl, rfl⟩

/-- C18 (witness): with 800 last sent and 800 measured the non-forced call
changes nothing. -/
theorem non_forced_send_gate_witness :
    JsNum.lt (JsNum.abs (JsNum.sub
        (JsNum.max (JsNum.fin MIN_CHART_CANVAS_HEIGHT)
          (measureBubbleContentHeight embeddedBuiltIn tallShellDom sentPage.state).height)
        sentPage.state.lastSentHeight)) (JsNum.fin MIN_HEIGHT_DELTA) = true ∧
    sendContentHeightToParent embeddedBuiltIn tallShellDom false sentPage = sentPage := by
  have hlt : JsNum.lt (JsNum.abs (JsNum.sub
        (JsNum.max (JsNum.fin MIN_CHART_CANVAS_HEIGHT)
          (measureBubbleContentHeight embeddedBuiltIn tallShellDom sentPage.state).height)
        sentPage.state.lastSentHeight)) (JsNum.fin MIN_HEIGHT_DELTA) = true := by
    rw [tallShell_sentHeight embeddedBuiltIn sentPage.state rfl]
    simp [sentPage, JsNum.sub, JsNum.neg, JsNum.add, JsNum.abs, JsNum.lt, MIN_HEIGHT_DELTA]
  exact ⟨hlt, (non_forced_send_gate embeddedBuiltIn tallShellDom sentPage).1 hlt⟩

/-- C19 (counterexample): on a standalone page the forced call measures 800
but posts nothing and leaves the last sent height at 0. -/
theorem forced_send_standalone_is_silent :
    JsNum.max (JsNum.fin MIN_CHART_CANVAS_HEIGHT)
        (measureBubbleContentHeight standaloneBuiltIn tallShellDom emptyPage.state).height
      = JsNum.fin 800 ∧
    sendContentHeightToParent standaloneBuiltIn tallShellDom true emptyPage = emptyPage ∧
    (sendContentHeightToParent standaloneBuiltIn tallShellDom true emptyPage).browser.outbox
      = [] ∧
    (sendContentHeightToParent standaloneBuiltIn tallShellDom true emptyPage).state.lastSentHeight
      = JsNum.fin 0 := by
  have h := send_standalone standaloneBuiltIn tallShellDom true emptyPage rfl
  refine ⟨tallShell_sentHeight standaloneBuiltIn emptyPage.state rfl, h, ?_, ?_⟩
  · rw [h]; rfl
  · rw [h]; rfl

/-- C19 (amended): a forced call `sendContentHeightToParent(true)` on a page
that is not embedded changes nothing.  On an embedded page it records the
measured height `h` as the last sent height for every state; when posting does
not throw it appends exactly one message carrying `h` and requests one frame
for `updateChartWrapperHeight`; when posting throws, the browser side is left
as it was. -/
theorem forced_send_when_embedded (config : PageConfig) (dom : Dom) (page : Page) :
    (config.isEmbedded = false →
      sendContentHeightToParent config dom true page = page) ∧
    (config.isEmbedded = true →
      (sendContentHeightToParent config dom true page).state
        = { page.state with lastSentHeight :=
              (JsNum.max (JsNum.fin MIN_CHART_CANVAS_HEIGHT)
                (measureBubbleContentHeight config dom page.state).height) } ∧
      (page.browser.parentPostThrows = false →
        (sendContentHeightToParent config dom true page).browser
          = { page.browser with
              outbox := page.browser.outbox ++
                [{ height := (JsNum.max (JsNum.fin MIN_CHART_CANVAS_HEIGHT)
                    (measureBubbleContentHeight config dom page.state).height) }],
              frameCallbacks := page.browser.frameCallbacks ++
                [(page.browser.nextHandle, FrameTask.updateWrapperHeight)],
              nextHandle := page.browser.nextHandle + 1 }) ∧
      (page.browser.parentPostThrows = true →
        (sendContentHeightToParent config dom true page).browser = page.browser)) := by
  refine ⟨send_standalone config dom true page, ?_⟩
  intro he
  have h := send_passes config dom true page he (Or.inl rfl)
  exact ⟨h.1, h.2.2, h.2.1⟩

/-- C19 (witness): the forced call on the embedded page that has sent nothing
yet posts the single message 800 and records 800. -/
theorem forced_send_when_embedded_witness :
    (sendContentHeightToParent embeddedBuiltIn tallShellDom true emptyPage).browser.outbox
      = [{ height := JsNum.fin 800 }] ∧
    (sendContentHeightToParent embeddedBuiltIn tallShellDom true emptyPage).state.lastSentHeight
      = JsNum.fin 800 := by
  have h := (forced_send_when_embedded embeddedBuiltIn tallShellDom emptyPage).2 rfl
  rw [h.1, h.2.1 rfl, tallShell_sentHeight embeddedBuiltIn emptyPage.state rfl]
  exact ⟨rfl, rfl⟩

/-! ## The comparison visibility pipeline (C21) -/

/-- A call without argument only sets the expiry, to `now` + 450. -/
theorem suppress_default_eq (now : Nat) (state : LayoutState) :
    suppressWrapperHeightObserver JsVal.undefined now state
      = { state with suppressWrapperObserverUntil := JsNum.fin ((now : ℚ) + 450) } := by
  unfold suppressWrapperHeightObserver
  rw [suppressDuration_default]
  simp [JsNum.le, JsNum.lt, JsNum.add, WRAPPER_OBSERVER_SUPPRESS_MS]

/-- A visibility change, written out: the flag, the pending flag and the
expiry are set, then the chrome refresh is scheduled; one call of each of the
two pipeline functions is made. -/
theorem setComparisonStatementVisibility_change (nextVisible : Bool) (now : Nat)
    (traced : TracedPage)
    (h : traced.page.state.comparisonStatementVisible ≠ nextVisible) :
    setComparisonStatementVisibility nextVisible now traced
      = { page := scheduleComparisonChromeRefresh
            { traced.page with
              state :=
                { traced.page.state with
                  comparisonStatementVisible := nextVisible,
                  pendingComparisonChromeHeight := true,
                  suppressWrapperObserverUntil := JsNum.fin ((now : ℚ) + 450) } },
          calls := traced.calls ++ [PipelineCall.suppressWrapperHeightObserver,
            PipelineCall.scheduleComparisonChromeRefresh] } := by
  simp [setComparisonStatementVisibility, h, callChromeRefresh, callSuppress,
    suppress_default_eq, setPendingComparisonChromeHeight]

theorem setComparisonStatementVisibility_same (nextVisible : Bool) (now : Nat)
    (traced : TracedPage)
    (h : traced.page.state.comparisonStatementVisible = nextVisible) :
    setComparisonStatementVisibility nextVisible now traced = traced := by
  simp [setComparisonStatementVisibility, h]

/-- What scheduling a chrome refresh on a consistent queue leaves behind. -/
theorem scheduleComparisonChromeRefresh_spec (page : Page)
    (h : QueueConsistent FrameTask.comparisonChromeRefresh
      page.state.pendingComparisonChromeRefresh page.browser) :
    pendingCount FrameTask.comparisonChromeRefresh (scheduleComparisonChromeRefresh page) = 1 ∧
    (scheduleComparisonChromeRefresh page).state
      = { page.state with pendingComparisonChromeRefresh := some page.browser.nextHandle } ∧
    (scheduleComparisonChromeRefresh page).browser.nextHandle = page.browser.nextHandle + 1 ∧
    (scheduleComparisonChromeRefresh page).browser.outbox = page.browser.outbox ∧
    (scheduleComparisonChromeRefresh page).browser.timers = page.browser.timers ∧
    QueueConsistent FrameTask.comparisonChromeRefresh
      (scheduleComparisonChromeRefresh page).state.pendingComparisonChromeRefresh
      (scheduleComparisonChromeRefresh page).browser := by
  obtain ⟨hone, hnew⟩ := request_after_cancel FrameTask.comparisonChromeRefresh _ _ h
  have hout : (cancelPending page.state.pendingComparisonChromeRefresh page.browser).outbox
      = page.browser.outbox := by
    unfold cancelPending
    split
    · split <;> rfl
    · rfl
  refine ⟨hone, ?_, ?_, ?_, ?_, hnew⟩
  · simp [scheduleComparisonChromeRefresh, requestFrame, cancelPending_nextHandle]
  · simp [scheduleComparisonChromeRefresh, requestFrame, cancelPending_nextHandle]
  · simp [scheduleComparisonChromeRefresh, requestFrame, hout]
  · simp [scheduleComparisonChromeRefresh, requestFrame, (cancelPending_counters _ _).2]

/-- Everything a visibility change leaves behind. -/
theorem visibility_change_spec (nextVisible : Bool) (now : Nat) (traced : TracedPage)
    (hC : QueueConsistent FrameTask.comparisonChromeRefresh
      traced.page.state.pendingComparisonChromeRefresh traced.page.browser)
    (h : traced.page.state.comparisonStatementVisible ≠ nextVisible) :
    (setComparisonStatementVisibility nextVisible now traced).page.state
      = { traced.page.state with
          comparisonStatementVisible := nextVisible,
          pendingComparisonChromeHeight := true,
          suppressWrapperObserverUntil := JsNum.fin ((now : ℚ) + 450),
          pendingComparisonChromeRefresh := some traced.page.browser.nextHandle } ∧
    (setComparisonStatementVisibility nextVisible now traced).calls
      = traced.calls ++ [PipelineCall.suppressWrapperHeightObserver,
          PipelineCall.scheduleComparisonChromeRefresh] ∧
    pendingCount FrameTask.comparisonChromeRefresh
      (setComparisonStatementVisibility nextVisible now traced).page = 1 ∧
    (setComparisonStatementVisibility nextVisible now traced).page.browser.outbox
      = traced.page.browser.outbox ∧
    (setComparisonStatementVisibility nextVisible now traced).page.browser.timers
      = traced.page.browser.timers := by
  rw [setComparisonStatementVisibility_change nextVisible now traced h]
  have hs := scheduleComparisonChromeRefresh_spec
    { traced.page with
      state :=
        { traced.page.state with
          comparisonStatementVisible := nextVisible,
          pendingComparisonChromeHeight := true,
          suppressWrapperObserverUntil := JsNum.fin ((now : ℚ) + 450) } } hC
  exact ⟨hs.2.1, rfl, hs.1, hs.2.2.2.1, hs.2.2.2.2.1⟩

/-- The persisting steps of `updateComparisonStatement` only write the
persisted comparison chrome height. -/
theorem updateComparisonStatement_persisted (measured visibleComparisonHeight : JsNum)
    (state : LayoutState) :
    ∃ x, (if visibleComparisonHeight.isFinite
            && JsNum.ge visibleComparisonHeight (JsNum.fin 0) then
          (persistComparisonChromeHeight (JsVal.num visibleComparisonHeight)
            (updateComparisonMeasurement measured state).1).1
        else if (updateComparisonMeasurement measured state).2.isFinite then
          (persistComparisonChromeHeight
            (JsVal.num (updateComparisonMeasurement measured state).2)
            (updateComparisonMeasurement measured state).1).1
        else (updateComparisonMeasurement measured state).1)
      = { state with lastMeasuredComparisonChromeHeight := x } := by
  have hm : ∃ y, (updateComparisonMeasurement measured state).1
      = { state with lastMeasuredComparisonChromeHeight := y } := by
    unfold updateComparisonMeasurement
    dsimp only
    split
    · exact ⟨_, rfl⟩
    · exact ⟨state.lastMeasuredComparisonChromeHeight, rfl⟩
  obtain ⟨y, hy⟩ := hm
  rw [hy]
  split
  · exact ⟨_, rfl⟩
  · split
    · exact ⟨_, rfl⟩
    · exact ⟨y, rfl⟩

/-- C21: from a page whose pending chrome-refresh handle agrees with the frame
queue, `setComparisonStatementVisibility(next)` with `next` different from the
flag flips the flag, calls `suppressWrapperHeightObserver` once (expiry = now +
450) and `scheduleComparisonChromeRefresh` once, leaves exactly one chrome
refresh waiting, and neither posts a height message nor sets a timer; with
`next` equal to the flag it changes nothing.  A hidden-to-visible toggle via
`updateComparisonStatement` and a visible-to-hidden one via
`hideComparisonStatement` make exactly these two calls, once each. -/
theorem visibility_transition_pipeline (now : Nat) (traced : TracedPage)
    (hC : QueueConsistent FrameTask.comparisonChromeRefresh
      traced.page.state.pendingComparisonChromeRefresh traced.page.browser) :
    (∀ nextVisible, traced.page.state.comparisonStatementVisible ≠ nextVisible →
      (setComparisonStatementVisibility nextVisible now traced).page.state
        = { traced.page.state with
            comparisonStatementVisible := nextVisible,
            pendingComparisonChromeHeight := true,
            suppressWrapperObserverUntil := JsNum.fin ((now : ℚ) + 450),
            pendingComparisonChromeRefresh := some traced.page.browser.nextHandle } ∧
      (setComparisonStatementVisibility nextVisible now traced).calls
        = traced.calls ++ [PipelineCall.suppressWrapperHeightObserver,
            PipelineCall.scheduleComparisonChromeRefresh] ∧
      pendingCount FrameTask.comparisonChromeRefresh
        (setComparisonStatementVisibility nextVisible now traced).page = 1 ∧
      (setComparisonStatementVisibility nextVisible now traced).page.browser.outbox
        = traced.page.browser.outbox ∧
      (setComparisonStatementVisibility nextVisible now traced).page.browser.timers
        = traced.page.browser.timers) ∧
    (∀ nextVisible, traced.page.state.comparisonStatementVisible = nextVisible →
      setComparisonStatementVisibility nextVisible now traced = traced) ∧
    (∀ measured visibleComparisonHeight,
      traced.page.state.comparisonStatementVisible = false →
      (updateComparisonStatement measured visibleComparisonHeight now
          traced).page.state.comparisonStatementVisible = true ∧
      (updateComparisonStatement measured visibleComparisonHeight now
          traced).page.state.suppressWrapperObserverUntil = JsNum.fin ((now : ℚ) + 450) ∧
      (updateComparisonStatement measured visibleComparisonHeight now traced).calls
        = traced.calls ++ [PipelineCall.suppressWrapperHeightObserver,
            PipelineCall.scheduleComparisonChromeRefresh] ∧
      pendingCount FrameTask.comparisonChromeRefresh
        (updateComparisonStatement measured visibleComparisonHeight now traced).page = 1 ∧
      (updateComparisonStatement measured visibleComparisonHeight now
          traced).page.browser.outbox = traced.page.browser.outbox ∧
      (updateComparisonStatement measured visibleComparisonHeight now
          traced).page.browser.timers = traced.page.browser.timers) ∧
    (traced.page.state.comparisonStatementVisible = true →
      (hideComparisonStatement now traced).page.state.comparisonStatementVisible = false ∧
      (hideComparisonStatement now traced).page.state.suppressWrapperObserverUntil
        = JsNum.fin ((now : ℚ) + 450) ∧
      (hideComparisonStatement now traced).calls
        = traced.calls ++ [PipelineCall.suppressWrapperHeightObserver,
            PipelineCall.scheduleComparisonChromeRefresh] ∧
      pendingCount FrameTask.comparisonChromeRefresh (hideComparisonStatement now traced).page
        = 1 ∧
      (hideComparisonStatement now traced).page.browser.outbox = traced.page.browser.outbox ∧
      (hideComparisonStatement now traced).page.browser.timers
        = traced.page.browser.timers) := by
  refine ⟨fun nextVisible h => visibility_change_spec nextVisible now traced hC h,
    fun nextVisible h => setComparisonStatementVisibility_same nextVisible now traced h, ?_, ?_⟩
  · intro measured visibleComparisonHeight hflag
    obtain ⟨x, hx⟩ := updateComparisonStatement_persisted measured visibleComparisonHeight
      traced.page.state
    have hupd : updateComparisonStatement measured visibleComparisonHeight now traced
        = setComparisonStatementVisibility true now
            { traced with
              page :=
                { traced.page with
                  state :=
                    { traced.page.state with lastMeasuredComparisonChromeHeight := x } } } := by
      unfold updateComparisonStatement
      simp only [hflag, Bool.false_eq_true, if_false]
      rw [hx]
      simp only [hflag]
    rw [hupd]
    have hs := visibility_change_spec true now
      { traced with
        page :=
          { traced.page with
            state :=
              { traced.page.state with lastMeasuredComparisonChromeHeight := x } } }
      hC (by simp [hflag])
    obtain ⟨hstate, hcalls, hcount, hout, htimers⟩ := hs
    refine ⟨?_, ?_, hcalls, hcount, hout, htimers⟩
    · rw [hstate]
    · rw [hstate]
  · intro hflag
    have hs := visibility_change_spec false now
      { traced with
        page :=
          { traced.page with
            state := (persistComparisonChromeHeight (JsVal.num (JsNum.fin 0))
              traced.page.state).1 } }
      hC (by simp [persistComparisonChromeHeight, hflag])
    obtain ⟨hstate, hcalls, hcount, hout, htimers⟩ := hs
    unfold hideComparisonStatement
    refine ⟨?_, ?_, hcalls, hcount, hout, htimers⟩
    · rw [hstate]
    · rw [hstate]

/-- C21 (witness): showing the statement on the page right after load, at
time 1000: the flag is set, the expiry is 1450 and one chrome refresh waits. -/
theorem visibility_transition_pipeline_witness :
    (setComparisonStatementVisibility true 1000 {}).page.state.comparisonStatementVisible
        = true ∧
    (setComparisonStatementVisibility true 1000 {}).page.state.suppressWrapperObserverUntil
        = JsNum.fin ((1000 : ℕ) + 450) ∧
    (setComparisonStatementVisibility true 1000 {}).calls
        = [PipelineCall.suppressWrapperHeightObserver,
            PipelineCall.scheduleComparisonChromeRefresh] ∧
    pendingCount FrameTask.comparisonChromeRefresh
      (setComparisonStatementVisibility true 1000 {}).page = 1 := by
  have h := (visibility_transition_pipeline 1000 {}
    (queueConsistent_emptyPage FrameTask.comparisonChromeRefresh)).1 true (by decide)
  obtain ⟨hstate, hcalls, hcount, _, _⟩ := h
  refine ⟨?_, ?_, hcalls, hcount⟩
  · rw [hstate]
  · rw [hstate]

/-! ## The left pair (C22) -/

/-- After the enrichment every data point has a finite `Number(emissionFactor)`:
a finite quotient, or `Number(null)` = 0. -/
theorem emissionFactor_enrich_isFinite (dataPoint : DataPoint) :
    (emissionFactorAccessor (enrich dataPoint)).toNumber.isFinite = true := by
  cases h : calculateEmissionFactor (some dataPoint) with
  | none => simp [emissionFactorAccessor, enrich, h, nullableToVal, JsVal.toNumber, JsNum.isFinite]
  | some x =>
    have hx := calculateEmissionFactor_isFinite dataPoint x h
    simp [emissionFactorAccessor, enrich, h, nullableToVal, JsVal.toNumber, hx]

theorem finiteCount_emission_enrich (comparisonData : List DataPoint) :
    finiteCount emissionFactorAccessor (enrichComparisonData comparisonData)
      = comparisonData.length := by
  rw [enrichComparisonData_eq]
  unfold finiteCount
  rw [List.countP_map, List.countP_eq_length]
  intro dataPoint _
  exact emissionFactor_enrich_isFinite dataPoint

/-- C22: the left pair is the energy pair, follower first.  In every statement
the derivation builds the left leader is the energy follower and the left
follower the energy leader, the one with the lower activity first.  For the
pair `leftLeader, leftFollower` the derivation computes: when the energy leader
and follower both exist it is (energy follower, energy leader); when one of
them is missing it is the emission-factor (leader, follower) pair when that
exists, and the pollution (leader, follower) pair when the emission-factor pair
is missing.  With two or more compared points the emission-factor pair always
exists. -/
theorem left_pair_follows_energy_pair (supabaseModule : Option SupabaseModule)
    (labels : StatementLabels) (comparisonData : List DataPoint) :
    (∀ st, syncComparisonStatement supabaseModule labels comparisonData = some st →
      (selectLeaderFollower (enrichComparisonData comparisonData) energyAccessor).follower
        = some st.leftPrimary ∧
      (selectLeaderFollower (enrichComparisonData comparisonData) energyAccessor).leader
        = some st.leftSecondary ∧
      st.leftPrimary = st.energySecondary ∧ st.leftSecondary = st.energyPrimary ∧
      JsNum.le (normalizeNumber st.leftPrimary.actDataValue)
        (normalizeNumber st.leftSecondary.actDataValue) = true) ∧
    (∀ (pollution energy emission : LeaderFollower DataPoint) energyLeader energyFollower,
      energy.leader = some energyLeader → energy.follower = some energyFollower →
      leftPair pollution energy emission = (some energyFollower, some energyLeader)) ∧
    (∀ (pollution energy emission : LeaderFollower DataPoint),
      (energy.leader = none ∨ energy.follower = none) →
      (∀ efLeader efFollower,
        emission.leader = some efLeader → emission.follower = some efFollower →
        leftPair pollution energy emission = (some efLeader, some efFollower)) ∧
      (emission.leader = none → emission.follower = none →
        leftPair pollution energy emission = (pollution.leader, pollution.follower))) ∧
    (2 ≤ comparisonData.length →
      (selectLeaderFollower (enrichComparisonData comparisonData)
        emissionFactorAccessor).leader.isSome = true ∧
      (selectLeaderFollower (enrichComparisonData comparisonData)
        emissionFactorAccessor).follower.isSome = true) := by
  refine ⟨?_, ?_, ?_, ?_⟩
  · intro st h
    obtain ⟨energyLeader, energyFollower, hl, hf, _, _, hle, hst⟩ :=
      syncComparisonStatement_some h
    subst hst
    exact ⟨hf, hl, rfl, rfl, hle⟩
  · intro pollution energy emission energyLeader energyFollower hl hf
    simp [leftPair, hl, hf]
  · intro pollution energy emission hmissing
    have hcond : (energy.follower.isNone || energy.leader.isNone) = true := by
      rcases hmissing with h | h <;> simp [h]
    constructor
    · intro efLeader efFollower hl hf
      simp [leftPair, hcond, hl, hf]
    · intro hl hf
      simp [leftPair, hcond, hl, hf]
  · intro hlen
    apply (selectLeaderFollower_both_iff emissionFactorAccessor _).mpr
    rw [finiteCount_emission_enrich]
    exact hlen

/-- C22 (witness): in the scenario the left pair is (A, B), the energy
follower first. -/
theorem left_pair_follows_energy_pair_witness :
    syncComparisonStatement none exampleLabels [categoryA, categoryB] = some scenarioStatement ∧
    scenarioStatement.leftPrimary = scenarioStatement.energySecondary ∧
    scenarioStatement.leftSecondary = scenarioStatement.energyPrimary :=
  ⟨syncComparisonStatement_scenario,
   ((left_pair_follows_energy_pair none exampleLabels [categoryA, categoryB]).1
      scenarioStatement syncComparisonStatement_scenario).2.2.1,
   ((left_pair_follows_energy_pair none exampleLabels [categoryA, categoryB]).1
      scenarioStatement syncComparisonStatement_scenario).2.2.2.1⟩

/-! ## The anticipated comparison chrome and the estimate (C23, C25) -/

theorem comparisonDom_metrics :
    (measureChartChromeHeight comparisonDom {}).1.comparison = JsNum.fin 120 := by
  have hr : JsNum.round (JsNum.fin 120) = JsNum.fin 120 := round_fin_ofNat 120
  simp [measureChartChromeHeight, comparisonDom, getElementHeight, orNumber, JsNum.truthy, hr]

theorem getElementHeight_ne_nan (el : Option ElementRect) :
    getElementHeight el ≠ JsNum.nan := by
  unfold getElementHeight
  split
  · simp
  · exact round_ne_nan (orNumber_ne_nan _ _ (by simp))

/-- The visible comparison height `measureChartChromeHeight` reports is a
number, and measuring leaves the pending flag alone. -/
theorem measureChartChromeHeight_comparison (dom : Dom) (state : LayoutState) :
    (measureChartChromeHeight dom state).1.comparison ≠ JsNum.nan ∧
    (measureChartChromeHeight dom state).2.pendingComparisonChromeHeight
      = state.pendingComparisonChromeHeight := by
  unfold measureChartChromeHeight
  dsimp only
  split
  · refine ⟨?_, ?_⟩
    · dsimp only
      exact getElementHeight_ne_nan _
    · dsimp only
      split <;> rfl
  · exact ⟨by simp, rfl⟩

theorem not_truthy_iff_zero {x : JsNum} (hx : x ≠ JsNum.nan) :
    x.truthy = false ↔ x = JsNum.fin 0 := by
  cases x <;> simp_all [JsNum.truthy]

/-- A finite element height is a whole number. -/
theorem getElementHeight_whole (el : Option ElementRect)
    (hfin : (getElementHeight el).isFinite = true) :
    ∃ n : ℤ, getElementHeight el = JsNum.fin (n : ℚ) := by
  unfold getElementHeight at hfin ⊢
  cases el with
  | none => exact ⟨0, by simp⟩
  | some rect =>
    dsimp only at hfin ⊢
    cases hx : orNumber (some rect.height) (JsNum.fin 0) with
    | fin q => exact ⟨⌊q + 1 / 2⌋, rfl⟩
    | posInf => rw [hx] at hfin; cases hfin
    | negInf => rw [hx] at hfin; cases hfin
    | nan => rw [hx] at hfin; cases hfin

/-- Persisting a finite whole height that is not negative stores that height. -/
theorem persist_whole (n : ℤ) (state : LayoutState)
    (hge : JsNum.ge (JsNum.fin (n : ℚ)) (JsNum.fin 0) = true) :
    (persistComparisonChromeHeight (JsVal.num (JsNum.fin (n : ℚ)))
        state).1.lastMeasuredComparisonChromeHeight = JsNum.fin (n : ℚ) := by
  have hn : (0 : ℚ) ≤ (n : ℚ) := by
    simpa [JsNum.ge, JsNum.le, JsNum.lt] using hge
  unfold persistComparisonChromeHeight
  dsimp only [JsVal.toNumber]
  by_cases hpos : (0 : ℚ) < (n : ℚ)
  · have hgt : JsNum.gt (JsNum.fin (n : ℚ)) (JsNum.fin 0) = true := by
      simp [JsNum.gt, JsNum.lt, hpos]
    simp only [JsNum.isFinite, hgt, Bool.and_self, if_true]
    exact round_fin_intCast n
  · have hz : (n : ℚ) = 0 := le_antisymm (not_lt.mp hpos) hn
    have hgt : JsNum.gt (JsNum.fin (n : ℚ)) (JsNum.fin 0) = false := by
      simp [JsNum.gt, JsNum.lt, hz]
    simp only [JsNum.isFinite, hgt, Bool.and_false, Bool.false_eq_true, if_false]
    rw [hz]

/-- What `measureChartChromeHeight` persists: the height of a displayed
comparison block when it is finite and not negative; nothing when the block
is hidden or absent. -/
theorem measureChartChromeHeight_persisted (dom : Dom) (state : LayoutState) :
    (∀ div, dom.comparisonDiv = some div → div.displayed = true →
      (measureChartChromeHeight dom state).1.comparison.isFinite = true →
      JsNum.ge (measureChartChromeHeight dom state).1.comparison (JsNum.fin 0) = true →
      (measureChartChromeHeight dom state).2.lastMeasuredComparisonChromeHeight
        = (measureChartChromeHeight dom state).1.comparison) ∧
    ((∀ div, dom.comparisonDiv = some div → div.displayed = false) →
      (measureChartChromeHeight dom state).1.comparison = JsNum.fin 0 ∧
      (measureChartChromeHeight dom state).2 = state) := by
  refine ⟨?_, ?_⟩
  · intro div hdiv hshown
    unfold measureChartChromeHeight
    simp only [hdiv, hshown, if_true]
    intro hfin hge
    simp only [hfin, hge, Bool.and_self, if_true]
    obtain ⟨n, hn⟩ := getElementHeight_whole (some div.rect) hfin
    rw [hn] at hge ⊢
    exact persist_whole n state hge
  · intro hhidden
    unfold measureChartChromeHeight
    cases hdiv : dom.comparisonDiv with
    | none => exact ⟨rfl, rfl⟩
    | some div =>
      have := hhidden div hdiv
      simp only [this, Bool.false_eq_true, if_false]
      exact ⟨trivial, trivial⟩

theorem default_estimate (dom : Dom) :
    (updateChartWrapperHeight embeddedBuiltIn dom {}).1 = some (JsNum.fin 744) := by
  have hres : resolveViewportHeight embeddedBuiltIn dom {} = JsNum.fin 900 :=
    resolveViewportHeight_default
  have hv : (resolveViewportHeight embeddedBuiltIn dom {}).truthy = true := by
    rw [hres]
    simp [JsNum.truthy]
  rw [(updateChartWrapperHeight_run embeddedBuiltIn dom {} hv).1, hres]
  simp [embeddedBuiltIn, builtInEstimate, footerReserveOf, footerHeightOf, JsNum.max, JsNum.sub,
    JsNum.add, JsNum.neg, JsNum.lt, DEFAULT_PARENT_FOOTER, FOOTER_GAP, CHART_HEADER_BUFFER,
    MIN_CHART_CANVAS_HEIGHT]
  norm_num

theorem comparisonDom_base :
    (measureChartChromeHeight comparisonDom {}).1.base = JsNum.fin 80 := by
  have h30 : JsNum.round (JsNum.fin 30) = JsNum.fin 30 := round_fin_ofNat 30
  have h40 : JsNum.round (JsNum.fin 40) = JsNum.fin 40 := round_fin_ofNat 40
  simp [measureChartChromeHeight, comparisonDom, getElementHeight, orNumber, JsNum.truthy, h30,
    h40, JsNum.add, CHART_HEADER_BUFFER]
  norm_num

/-- C23 (counterexample): on an embedded page with the default parent metrics
the anticipated comparison chrome is 120 with the displayed comparison block
and 0 without it, yet the estimate is 744 = 900 - 146 - 10 both times; it is
not the 554 = 900 - 146 - (80 + 120) that the base chrome plus the anticipated
comparison chrome would give. -/
theorem anticipated_chrome_is_not_used :
    anticipatedComparisonChromeOf (measureChartChromeHeight comparisonDom {}).1
        (measureChartChromeHeight comparisonDom {}).2 = JsNum.fin 120 ∧
    anticipatedComparisonChromeOf (measureChartChromeHeight emptyDom {}).1
        (measureChartChromeHeight emptyDom {}).2 = JsNum.fin 0 ∧
    (updateChartWrapperHeight embeddedBuiltIn comparisonDom {}).1 = some (JsNum.fin 744) ∧
    (updateChartWrapperHeight embeddedBuiltIn emptyDom {}).1 = some (JsNum.fin 744) ∧
    builtInEstimate (resolveViewportHeight embeddedBuiltIn comparisonDom {})
        (footerReserveOf embeddedBuiltIn comparisonDom {})
        (JsNum.add (measureChartChromeHeight comparisonDom {}).1.base
          (anticipatedComparisonChromeOf (measureChartChromeHeight comparisonDom {}).1
            (measureChartChromeHeight comparisonDom {}).2)) = JsNum.fin 554 := by
  have h120 : anticipatedComparisonChromeOf (measureChartChromeHeight comparisonDom {}).1
      (measureChartChromeHeight comparisonDom {}).2 = JsNum.fin 120 := by
    simp [anticipatedComparisonChromeOf, comparisonDom_metrics, orNumber, JsNum.truthy]
  have hres : resolveViewportHeight embeddedBuiltIn comparisonDom {} = JsNum.fin 900 :=
    resolveViewportHeight_default
  refine ⟨h120, ?_, default_estimate _, default_estimate _, ?_⟩
  · simp [anticipatedComparisonChromeOf, measureChartChromeHeight, emptyDom, orNumber,
      JsNum.truthy]
  · rw [h120, comparisonDom_base, hres]
    simp [embeddedBuiltIn, builtInEstimate, footerReserveOf, footerHeightOf, JsNum.max,
      JsNum.sub, JsNum.add, JsNum.neg, JsNum.lt, DEFAULT_PARENT_FOOTER, FOOTER_GAP,
      MIN_CHART_CANVAS_HEIGHT]
    norm_num

/-- C23 (amended): in `updateChartWrapperHeight`, with the chrome metrics just
measured: when the visible comparison height is 0 and a comparison-chrome
change is pending, the value `anticipatedComparisonChrome` is
`Math.max(0, lastMeasuredComparisonChromeHeight)`, the persisted height; in
every other case it is the visible comparison height.  The persisted height
is the height of the displayed comparison block when measuring found one
(finite, not negative), and is left as it was when the block is hidden or
absent.  The value goes to the debug log only: the estimate returned for a
viewport height that passes the guard is computed from the viewport height,
the footer reserve and the fixed chrome buffer `CHART_HEADER_BUFFER`. -/
theorem anticipated_chrome_value (config : PageConfig) (dom : Dom) (state : LayoutState) :
    ((measureChartChromeHeight dom state).1.comparison = JsNum.fin 0 →
      state.pendingComparisonChromeHeight = true →
      anticipatedComparisonChromeOf (measureChartChromeHeight dom state).1
          (measureChartChromeHeight dom state).2
        = JsNum.max (JsNum.fin 0)
            (measureChartChromeHeight dom state).2.lastMeasuredComparisonChromeHeight) ∧
    (¬ ((measureChartChromeHeight dom state).1.comparison = JsNum.fin 0
          ∧ state.pendingComparisonChromeHeight = true) →
      anticipatedComparisonChromeOf (measureChartChromeHeight dom state).1
          (measureChartChromeHeight dom state).2
        = (measureChartChromeHeight dom state).1.comparison) ∧
    (∀ div, dom.comparisonDiv = some div → div.displayed = true →
      (measureChartChromeHeight dom state).1.comparison.isFinite = true →
      JsNum.ge (measureChartChromeHeight dom state).1.comparison (JsNum.fin 0) = true →
      (measureChartChromeHeight dom state).2.lastMeasuredComparisonChromeHeight
        = (measureChartChromeHeight dom state).1.comparison) ∧
    ((∀ div, dom.comparisonDiv = some div → div.displayed = false) →
      (measureChartChromeHeight dom state).1.comparison = JsNum.fin 0 ∧
      (measureChartChromeHeight dom state).2.lastMeasuredComparisonChromeHeight
        = state.lastMeasuredComparisonChromeHeight) ∧
    ((resolveViewportHeight config dom state).truthy = true →
      (updateChartWrapperHeight config dom state).1 =
        (match config.layoutHeightManager with
          | some manager =>
            manager.estimateChartHeight (resolveViewportHeight config dom state)
              (footerReserveOf config dom state) (JsNum.fin CHART_HEADER_BUFFER)
          | none =>
            some (builtInEstimate (resolveViewportHeight config dom state)
              (footerReserveOf config dom state) (JsNum.fin CHART_HEADER_BUFFER)))) := by
  have h0 : (JsNum.fin 0).truthy = false := by simp [JsNum.truthy]
  obtain ⟨hnan, hpend⟩ := measureChartChromeHeight_comparison dom state
  obtain ⟨hshown, hhidden⟩ := measureChartChromeHeight_persisted dom state
  refine ⟨?_, ?_, hshown, ?_, fun hv => (updateChartWrapperHeight_run config dom state hv).1⟩
  · intro hc hp
    simp [anticipatedComparisonChromeOf, orNumber, hc, hpend, hp, h0]
  · intro hnot
    cases ht : (measureChartChromeHeight dom state).1.comparison.truthy with
    | true => simp [anticipatedComparisonChromeOf, orNumber, ht]
    | false =>
      have hz := (not_truthy_iff_zero hnan).mp ht
      have hp : state.pendingComparisonChromeHeight = false := by
        cases hp : state.pendingComparisonChromeHeight with
        | false => rfl
        | true => exact absurd ⟨hz, hp⟩ hnot
      simp [anticipatedComparisonChromeOf, orNumber, ht, hpend, hp, h0, hz]
  · intro hh
    obtain ⟨hc, hs⟩ := hhidden hh
    exact ⟨hc, by rw [hs]⟩

/-- C23 (witness): right after the comparison block was hidden the anticipated
comparison chrome is `Math.max(0, 0)`; with the displayed block of height 120
it is 120, and 120 is what measuring persisted. -/
theorem anticipated_chrome_value_witness :
    anticipatedComparisonChromeOf (measureChartChromeHeight emptyDom afterHideState).1
        (measureChartChromeHeight emptyDom afterHideState).2
      = JsNum.max (JsNum.fin 0) (JsNum.fin 0) ∧
    anticipatedComparisonChromeOf (measureChartChromeHeight comparisonDom {}).1
        (measureChartChromeHeight comparisonDom {}).2 = JsNum.fin 120 ∧
    (measureChartChromeHeight comparisonDom {}).2.lastMeasuredComparisonChromeHeight
      = JsNum.fin 120 := by
  refine ⟨(anticipated_chrome_value embeddedBuiltIn emptyDom afterHideState).1 rfl rfl, ?_, ?_⟩
  · rw [(anticipated_chrome_value embeddedBuiltIn comparisonDom {}).2.1
      (by rw [comparisonDom_metrics]; simp), comparisonDom_metrics]
  · rw [(anticipated_chrome_value embeddedBuiltIn comparisonDom {}).2.2.1 _ rfl rfl
      (by rw [comparisonDom_metrics]; rfl)
      (by rw [comparisonDom_metrics]; simp [JsNum.ge, JsNum.le, JsNum.lt]),
      comparisonDom_metrics]

/-- C25: the estimate `updateChartWrapperHeight` returns depends on the
viewport height and the footer reserve only: two runs on the same page load
with the same resolved viewport height and the same footer reserve return the
same estimate, and so does a run in which the title, the legend, the
comparison block, the persisted comparison chrome height and the pending flag
are replaced by any others. -/
theorem estimate_independent_of_chrome (config : PageConfig) (dom1 dom2 : Dom)
    (state1 state2 : LayoutState) :
    (resolveViewportHeight config dom1 state1 = resolveViewportHeight config dom2 state2 →
      footerReserveOf config dom1 state1 = footerReserveOf config dom2 state2 →
      (updateChartWrapperHeight config dom1 state1).1
        = (updateChartWrapperHeight config dom2 state2).1) ∧
    (∀ (title legend : Option ElementRect) (comparison : Option ComparisonDiv)
        (persisted : JsNum) (pending : Bool),
      (updateChartWrapperHeight config
          { dom1 with chartTitle := title, customLegend := legend, comparisonDiv := comparison }
          { state1 with
            lastMeasuredComparisonChromeHeight := persisted,
            pendingComparisonChromeHeight := pending }).1
        = (updateChartWrapperHeight config dom1 state1).1) := by
  have key : ∀ (domA domB : Dom) (stateA stateB : LayoutState),
      resolveViewportHeight config domA stateA = resolveViewportHeight config domB stateB →
      footerReserveOf config domA stateA = footerReserveOf config domB stateB →
      (updateChartWrapperHeight config domA stateA).1
        = (updateChartWrapperHeight config domB stateB).1 := by
    intro domA domB stateA stateB hv hf
    cases ht : (resolveViewportHeight config domB stateB).truthy with
    | false =>
      rw [(updateChartWrapperHeight_skipped config domB stateB ht).1,
        (updateChartWrapperHeight_skipped config domA stateA (by rw [hv]; exact ht)).1]
    | true =>
      rw [(updateChartWrapperHeight_run config domB stateB ht).1,
        (updateChartWrapperHeight_run config domA stateA (by rw [hv]; exact ht)).1, hv, hf]
  refine ⟨key dom1 dom2 state1 state2, ?_⟩
  intro title legend comparison persisted pending
  exact key _ _ _ _ rfl rfl

/-- C25 (witness): with the default parent metrics the page with title,
legend and comparison block gets the same estimate as the page without. -/
theorem estimate_independent_of_chrome_witness :
    (updateChartWrapperHeight embeddedBuiltIn comparisonDom {}).1
      = (updateChartWrapperHeight embeddedBuiltIn emptyDom {}).1 :=
  (estimate_independent_of_chrome embeddedBuiltIn comparisonDom emptyDom {} {}).1 rfl rfl

/-! ## The comparison checkboxes (C24) -/

theorem getD_true_lt {checkboxes : List Bool} {index : Nat}
    (h : checkboxes.getD index false = true) : index < checkboxes.length := by
  by_contra hge
  rw [List.getD_eq_default _ _ (Nat.le_of_not_lt hge)] at h
  cases h

theorem mem_checkedIndices (checkboxes : List Bool) (index : Nat) :
    index ∈ checkedIndices checkboxes ↔ checkboxes.getD index false = true := by
  unfold checkedIndices
  rw [List.mem_filter, List.mem_range]
  constructor
  · exact fun h => h.2
  · exact fun h => ⟨getD_true_lt h, h⟩

theorem checkedIndices_nodup (checkboxes : List Bool) : (checkedIndices checkboxes).Nodup :=
  (List.nodup_range _).filter _

/-- Unchecking: the flag at the position becomes false, the others stay. -/
theorem getD_set_false (checkboxes : List Bool) (position index : Nat) :
    (checkboxes.set position false).getD index false
      = (if index = position then false else checkboxes.getD index false) := by
  by_cases h : index = position
  · subst h
    simp only [if_true]
    by_cases hlt : index < checkboxes.length
    · simp [List.getD_eq_getElem?_getD, List.getElem?_set, hlt]
    · rw [List.getD_eq_default _ _ (by simpa using Nat.le_of_not_lt hlt)]
  · simp only [h, if_false]
    simp [List.getD_eq_getElem?_getD, List.getElem?_set, Ne.symm h]

theorem checkedIndices_set (checkboxes : List Bool) (position : Nat) :
    checkedIndices (checkboxes.set position false)
      = (checkedIndices checkboxes).filter (fun index => index != position) := by
  unfold checkedIndices
  rw [List.length_set, List.filter_filter]
  apply List.filter_congr
  intro index _
  rw [getD_set_false]
  by_cases h : index = position <;> simp [h]

theorem length_filter_ne {l : List Nat} (hl : l.Nodup) {a : Nat} (ha : a ∈ l) :
    (l.filter (fun index => index != a)).length + 1 = l.length := by
  have h := List.Nodup.erase_eq_filter hl a
  rw [← h, List.length_erase_of_mem ha]
  have : 0 < l.length := List.length_pos_of_mem ha
  omega

/-- Unchecking a checked checkbox lowers the number of checked ones by one. -/
theorem checkedIndices_set_length (checkboxes : List Bool) (position : Nat)
    (h : checkboxes.getD position false = true) :
    (checkedIndices (checkboxes.set position false)).length + 1
      = (checkedIndices checkboxes).length := by
  rw [checkedIndices_set]
  exact length_filter_ne (checkedIndices_nodup checkboxes)
    ((mem_checkedIndices checkboxes position).mpr h)

/-- The first element of a sorted non-empty array of positions is one of
them and the least. -/
theorem head_insertionSort (l : List Nat) (hl : l ≠ []) :
    ∃ first, (List.insertionSort (fun a b => a ≤ b) l).head? = some first ∧ first ∈ l ∧
      ∀ other ∈ l, first ≤ other := by
  have hperm := List.perm_insertionSort (fun a b : Nat => a ≤ b) l
  have hsorted := List.sorted_insertionSort (fun a b : Nat => a ≤ b) l
  cases hs : List.insertionSort (fun a b => a ≤ b) l with
  | nil =>
    rw [hs] at hperm
    exact absurd (List.Perm.eq_nil (List.Perm.symm hperm)) hl
  | cons first rest =>
    rw [hs] at hperm hsorted
    refine ⟨first, rfl, hperm.subset (List.mem_cons_self _ _), ?_⟩
    intro other hother
    have hmem : other ∈ first :: rest := hperm.symm.subset hother
    rcases List.mem_cons.mp hmem with rfl | hrest
    · exact le_refl _
    · exact List.rel_of_sorted_cons hsorted other hrest

/-- The checkbox a pass unchecks, when more than two are checked: a checked
one, not the checked triggering one, and the first in document order among the
checked ones other than the triggering one. -/
theorem uncheckCandidates_head (triggered : Option Nat) (checkboxes : List Bool)
    (hmany : 2 < (checkedIndices checkboxes).length) :
    ∃ toUncheck, (uncheckCandidates triggered checkboxes).head? = some toUncheck ∧
      checkboxes.getD toUncheck false = true ∧
      (∀ position, triggered = some position → checkboxes.getD position false = true →
        toUncheck ≠ position) ∧
      (∀ other, checkboxes.getD other false = true → triggered ≠ some other →
        toUncheck ≤ other) := by
  have hne : checkedIndices checkboxes ≠ [] := by
    intro h
    rw [h] at hmany
    simp at hmany
  have plain : ∀ (hcand : uncheckCandidates triggered checkboxes
        = List.insertionSort (fun a b => a ≤ b) (checkedIndices checkboxes))
      (_ : ∀ position, triggered = some position →
        checkboxes.getD position false = false),
      ∃ toUncheck, (uncheckCandidates triggered checkboxes).head? = some toUncheck ∧
        checkboxes.getD toUncheck false = true ∧
        (∀ position, triggered = some position → checkboxes.getD position false = true →
          toUncheck ≠ position) ∧
        (∀ other, checkboxes.getD other false = true → triggered ≠ some other →
          toUncheck ≤ other) := by
    intro hcand hoff
    obtain ⟨first, hhead, hmem, hleast⟩ := head_insertionSort _ hne
    refine ⟨first, by rw [hcand]; exact hhead, (mem_checkedIndices _ _).mp hmem, ?_, ?_⟩
    · intro position ht hchecked
      rw [hoff position ht] at hchecked
      cases hchecked
    · intro other hother _
      exact hleast other ((mem_checkedIndices _ _).mpr hother)
  cases ht : triggered with
  | none =>
    subst ht
    exact plain (by simp [uncheckCandidates]) (by intro position h; cases h)
  | some position =>
    subst ht
    cases hp : checkboxes.getD position false with
    | false =>
      apply plain (by
        unfold uncheckCandidates
        simp only [hp, Bool.false_eq_true, if_false])
      intro q hq
      cases hq
      exact hp
    | true =>
      have hlen := length_filter_ne (checkedIndices_nodup checkboxes)
        ((mem_checkedIndices checkboxes position).mpr hp)
      have hothers : (checkedIndices checkboxes).filter (fun index => index != position)
          ≠ [] := by
        intro h
        rw [h] at hlen
        simp at hlen
        omega
      have hcand : uncheckCandidates (some position) checkboxes
          = List.insertionSort (fun a b => a ≤ b)
              ((checkedIndices checkboxes).filter (fun index => index != position)) := by
        have hl : ((checkedIndices checkboxes).filter
            (fun index => index != position)).length ≠ 0 := by
          intro h
          exact hothers (List.length_eq_zero.mp h)
        have hb : (((checkedIndices checkboxes).filter
            (fun index => index != position)).length != 0) = true := by
          simpa using hl
        unfold uncheckCandidates
        simp only [hp, if_true, hb]
      obtain ⟨first, hhead, hmem, hleast⟩ := head_insertionSort _ hothers
      have hmem2 := List.mem_filter.mp hmem
      refine ⟨first, by rw [hcand]; exact hhead, (mem_checkedIndices _ _).mp hmem2.1, ?_, ?_⟩
      · intro q hq _
        cases hq
        simpa using hmem2.2
      · intro other hother hne2
        apply hleast
        apply List.mem_filter.mpr
        refine ⟨(mem_checkedIndices _ _).mpr hother, ?_⟩
        have : other ≠ position := by
          intro h
          exact hne2 (by rw [h])
        simpa using this

/-- The loop with enough passes allowed: it returns, and what it returns. -/
theorem refreshLoop_spec (triggered : Option Nat) :
    ∀ (fuel : Nat) (checkboxes : List Bool),
      (checkedIndices checkboxes).length ≤ fuel + 2 →
      ∃ result, refreshLoop fuel triggered checkboxes = some result ∧
        result.length = checkboxes.length ∧
        (checkedIndices result).length ≤ 2 ∧
        (∀ index, result.getD index false = true → checkboxes.getD index false = true) ∧
        ((checkedIndices checkboxes).length ≤ 2 → result = checkboxes) ∧
        (2 < (checkedIndices checkboxes).length → (checkedIndices result).length = 2) ∧
        (∀ position, triggered = some position → checkboxes.getD position false = true →
          result.getD position false = true) ∧
        (∀ unchecked kept, checkboxes.getD unchecked false = true →
          result.getD unchecked false = false → result.getD kept false = true →
          triggered ≠ some kept → unchecked < kept) := by
  have stay : ∀ (checkboxes : List Bool), (checkedIndices checkboxes).length ≤ 2 →
      checkboxes.length = checkboxes.length ∧
      (checkedIndices checkboxes).length ≤ 2 ∧
      (∀ index, checkboxes.getD index false = true → checkboxes.getD index false = true) ∧
      ((checkedIndices checkboxes).length ≤ 2 → checkboxes = checkboxes) ∧
      (2 < (checkedIndices checkboxes).length → (checkedIndices checkboxes).length = 2) ∧
      (∀ position, triggered = some position → checkboxes.getD position false = true →
        checkboxes.getD position false = true) ∧
      (∀ unchecked kept, checkboxes.getD unchecked false = true →
        checkboxes.getD unchecked false = false → checkboxes.getD kept false = true →
        triggered ≠ some kept → unchecked < kept) := by
    intro checkboxes hfew
    refine ⟨rfl, hfew, fun _ h => h, fun _ => rfl, fun h => absurd hfew (by omega),
      fun _ _ h => h, ?_⟩
    intro unchecked kept h1 h2
    rw [h1] at h2
    cases h2
  intro fuel
  induction fuel with
  | zero =>
    intro checkboxes hle
    have hfew : (checkedIndices checkboxes).length ≤ 2 := by omega
    refine ⟨checkboxes, ?_, stay checkboxes hfew⟩
    simp [refreshLoop, Nat.not_lt.mpr hfew]
  | succ fuel ih =>
    intro checkboxes hle
    by_cases hmany : 2 < (checkedIndices checkboxes).length
    · obtain ⟨toUncheck, hhead, hchecked, hnotTrigger, hleast⟩ :=
        uncheckCandidates_head triggered checkboxes hmany
      have hlen := checkedIndices_set_length checkboxes toUncheck hchecked
      obtain ⟨result, hrun, hl, hcount, hsub, hsame, htwo, htrig, hord⟩ :=
        ih (checkboxes.set toUncheck false) (by omega)
      refine ⟨result, ?_, ?_, hcount, ?_, ?_, ?_, ?_, ?_⟩
      · simp only [refreshLoop, hmany, if_true, hhead]
        exact hrun
      · rw [hl, List.length_set]
      · intro index hindex
        have h := hsub index hindex
        rw [getD_set_false] at h
        by_cases hi : index = toUncheck
        · simp [hi] at h
        · simpa [hi] using h
      · intro hfew
        omega
      · intro _
        by_cases hmany2 : 2 < (checkedIndices (checkboxes.set toUncheck false)).length
        · exact htwo hmany2
        · rw [hsame (Nat.le_of_not_lt hmany2)]
          omega
      · intro position ht hp
        apply htrig position ht
        rw [getD_set_false]
        have hne : position ≠ toUncheck := fun h => hnotTrigger position ht hp h.symm
        simpa [hne] using hp
      · intro unchecked kept hu hr hk hnt
        have hkept := hsub kept hk
        rw [getD_set_false] at hkept
        by_cases hkeq : kept = toUncheck
        · simp [hkeq] at hkept
        · have hkb : checkboxes.getD kept false = true := by simpa [hkeq] using hkept
          by_cases hueq : unchecked = toUncheck
          · rw [hueq]
            have := hleast kept hkb hnt
            omega
          · apply hord unchecked kept ?_ hr hk hnt
            rw [getD_set_false]
            simpa [hueq] using hu
    · have hfew : (checkedIndices checkboxes).length ≤ 2 := Nat.le_of_not_lt hmany
      refine ⟨checkboxes, ?_, stay checkboxes hfew⟩
      simp [refreshLoop, hmany]

/-- More passes allowed do not change what the loop returns. -/
theorem refreshLoop_more_fuel (triggered : Option Nat) :
    ∀ (fuel : Nat) (checkboxes result : List Bool),
      refreshLoop fuel triggered checkboxes = some result →
      ∀ extra, refreshLoop (fuel + extra) triggered checkboxes = some result := by
  intro fuel
  induction fuel with
  | zero =>
    intro checkboxes result h extra
    by_cases hmany : 2 < (checkedIndices checkboxes).length
    · simp [refreshLoop, hmany] at h
    · simp only [refreshLoop, hmany, if_false] at h
      cases extra with
      | zero => simp [refreshLoop, hmany, h]
      | succ k => simpa [refreshLoop, hmany] using h
  | succ fuel ih =>
    intro checkboxes result h extra
    have hsucc : fuel + 1 + extra = (fuel + extra) + 1 := by omega
    rw [hsucc]
    by_cases hmany : 2 < (checkedIndices checkboxes).length
    · simp only [refreshLoop, hmany, if_true] at h ⊢
      cases hhead : (uncheckCandidates triggered checkboxes).head? with
      | none =>
        rw [hhead] at h
        exact h
      | some toUncheck =>
        rw [hhead] at h
        exact ih _ _ h extra
    · simpa [refreshLoop, hmany] using h

theorem checkedIndices_length_le (checkboxes : List Bool) :
    (checkedIndices checkboxes).length ≤ checkboxes.length := by
  unfold checkedIndices
  have h := List.length_filter_le (fun index => checkboxes.getD index false)
    (List.range checkboxes.length)
  simpa using h

theorem refreshCheckboxes_fiveBoxes :
    refreshCheckboxes (some 0) fiveBoxes = some [true, false, false, false, true] ∧
    refreshCheckboxes none fiveBoxes = some [false, false, false, true, true] := by
  constructor <;> decide

/-- C24: for every list of comparison checkboxes and any (or no) triggering
checkbox, `refreshCheckboxes` returns (the loop ends within one pass per
checkbox, and allowing more passes changes nothing) with at most two
checkboxes checked and none newly checked; a triggering checkbox that was
checked is still checked; every checkbox that got unchecked comes before every
checkbox that stayed checked, the triggering one apart; with at most two
checked at the start nothing changes, with more exactly two stay checked. -/
theorem refreshCheckboxes_keeps_two (triggered : Option Nat) (checkboxes : List Bool) :
    ∃ result, refreshCheckboxes triggered checkboxes = some result ∧
      (∀ fuel, checkboxes.length ≤ fuel →
        refreshLoop fuel triggered checkboxes = some result) ∧
      result.length = checkboxes.length ∧
      (checkedIndices result).length ≤ 2 ∧
      (∀ index, result.getD index false = true → checkboxes.getD index false = true) ∧
      (∀ position, triggered = some position → checkboxes.getD position false = true →
        result.getD position false = true) ∧
      (∀ unchecked kept, checkboxes.getD unchecked false = true →
        result.getD unchecked false = false → result.getD kept false = true →
        triggered ≠ some kept → unchecked < kept) ∧
      ((checkedIndices checkboxes).length ≤ 2 → result = checkboxes) ∧
      (2 < (checkedIndices checkboxes).length → (checkedIndices result).length = 2) := by
  obtain ⟨result, hrun, hl, hcount, hsub, hsame, htwo, htrig, hord⟩ :=
    refreshLoop_spec triggered checkboxes.length checkboxes
      (le_trans (checkedIndices_length_le checkboxes) (Nat.le_add_right _ _))
  refine ⟨result, hrun, ?_, hl, hcount, hsub, htrig, hord, hsame, htwo⟩
  intro fuel hfuel
  have h := refreshLoop_more_fuel triggered checkboxes.length checkboxes result hrun
    (fuel - checkboxes.length)
  rwa [Nat.add_sub_cancel' hfuel] at h

/-- C24 (witness): five checkboxes, all but the third checked, the first one
triggering: the second and the fourth get unchecked, the first stays. -/
theorem refreshCheckboxes_keeps_two_witness :
    ∃ result, refreshCheckboxes (some 0) fiveBoxes = some result ∧
      result = [true, false, false, false, true] ∧
      (checkedIndices result).length ≤ 2 ∧
      result.getD 0 false = true := by
  obtain ⟨result, hrun, _, _, hcount, _, htrig, _, _, _⟩ :=
    refreshCheckboxes_keeps_two (some 0) fiveBoxes
  refine ⟨result, hrun, ?_, hcount, htrig 0 rfl rfl⟩
  rw [refreshCheckboxes_fiveBoxes.1] at hrun
  exact (Option.some.inj hrun).symm

/-! ## A failed post (C28) -/

/-- C28: `sendContentHeightToParent` is not atomic on failure.  On an embedded
page whose parent cannot be posted to, a call that passes the gate (forced, or
with a height not within 8 of the last sent one) records the measured height
`h` as the last sent height although nothing was sent: the browser side,
outbox included, is as before.  A following call without force, in whatever
browser state, whose measured height is within `MIN_HEIGHT_DELTA` of `h`
changes nothing, so it sends nothing either. -/
theorem failed_post_still_records (config : PageConfig) (dom : Dom) (force : Bool)
    (page : Page) (he : config.isEmbedded = true)
    (hthrows : page.browser.parentPostThrows = true)
    (hgate : force = true ∨ JsNum.lt (JsNum.abs (JsNum.sub
        (JsNum.max (JsNum.fin MIN_CHART_CANVAS_HEIGHT)
          (measureBubbleContentHeight config dom page.state).height)
        page.state.lastSentHeight)) (JsNum.fin MIN_HEIGHT_DELTA) = false) :
    (sendContentHeightToParent config dom force page).state.lastSentHeight
      = JsNum.max (JsNum.fin MIN_CHART_CANVAS_HEIGHT)
          (measureBubbleContentHeight config dom page.state).height ∧
    (sendContentHeightToParent config dom force page).browser = page.browser ∧
    (sendContentHeightToParent config dom force page).browser.outbox = page.browser.outbox ∧
    (∀ (nextDom : Dom) (nextBrowser : Browser),
      JsNum.lt (JsNum.abs (JsNum.sub
        (JsNum.max (JsNum.fin MIN_CHART_CANVAS_HEIGHT)
          (measureBubbleContentHeight config nextDom
            (sendContentHeightToParent config dom force page).state).height)
        (JsNum.max (JsNum.fin MIN_CHART_CANVAS_HEIGHT)
          (measureBubbleContentHeight config dom page.state).height)))
        (JsNum.fin MIN_HEIGHT_DELTA) = true →
      sendContentHeightToParent config nextDom false
          { state := (sendContentHeightToParent config dom force page).state,
            browser := nextBrowser }
        = { state := (sendContentHeightToParent config dom force page).state,
            browser := nextBrowser }) := by
  obtain ⟨hstate, hkeep, _⟩ := send_passes config dom force page he hgate
  have hlast : (sendContentHeightToParent config dom force page).state.lastSentHeight
      = JsNum.max (JsNum.fin MIN_CHART_CANVAS_HEIGHT)
          (measureBubbleContentHeight config dom page.state).height := by
    rw [hstate]
  refine ⟨hlast, hkeep hthrows, by rw [hkeep hthrows], ?_⟩
  intro nextDom nextBrowser hclose
  apply send_gated
  simp only [hlast]
  exact hclose

/-- C28 (witness): the forced call on the page whose parent cannot be posted
to records 800 and sends nothing; the next call without force, with the parent
back and the same document, sends nothing either. -/
theorem failed_post_still_records_witness :
    (sendContentHeightToParent embeddedBuiltIn tallShellDom true
        unreachableParentPage).state.lastSentHeight = JsNum.fin 800 ∧
    (sendContentHeightToParent embeddedBuiltIn tallShellDom true
        unreachableParentPage).browser.outbox = [] ∧
    (sendContentHeightToParent embeddedBuiltIn tallShellDom false
        { state := (sendContentHeightToParent embeddedBuiltIn tallShellDom true
            unreachableParentPage).state,
          browser := {} }).browser.outbox = [] := by
  have h := failed_post_still_records embeddedBuiltIn tallShellDom true unreachableParentPage
    rfl rfl (Or.inl rfl)
  obtain ⟨hlast, _, hout, hnext⟩ := h
  refine ⟨?_, hout, ?_⟩
  · rw [hlast, tallShell_sentHeight embeddedBuiltIn _ rfl]
  · rw [hnext tallShellDom {} (by
      rw [tallShell_sentHeight embeddedBuiltIn _ rfl, tallShell_sentHeight embeddedBuiltIn _ rfl]
      simp [JsNum.sub, JsNum.neg, JsNum.add, JsNum.abs, JsNum.lt, MIN_HEIGHT_DELTA])]

/-! ## The headline ratios (C29) -/

/-- The ratio of a numerator at least as large as a positive denominator is
at least 1. -/
theorem safeRatio_ge_one (a b : ℚ) (hb : 0 < b) (hab : b ≤ a) :
    JsNum.ge (safeRatio (JsVal.num (JsNum.fin a)) (JsVal.num (JsNum.fin b))) (JsNum.fin 1)
      = true := by
  have hne : b ≠ 0 := ne_of_gt hb
  have hone : (1 : ℚ) ≤ a / b := by
    rw [le_div_iff₀ hb]
    linarith
  simp [safeRatio, JsVal.toNumber, JsNum.isFinite, JsNum.isZero, JsNum.div, hne, JsNum.ge,
    JsNum.le, JsNum.lt, hone]

/-- Whatever `Number()` makes of two activity values that read as `aL >= aF >
0`: when it agrees with `normalizeNumber` wherever it is finite, the ratio is
at least 1 (it is `Infinity` when `Number()` gives no finite value). -/
theorem energy_ratio_ge_one (leaderValue followerValue : JsVal) (aL aF : ℚ)
    (hL : normalizeNumber leaderValue = JsNum.fin aL)
    (hF : normalizeNumber followerValue = JsNum.fin aF)
    (hLc : leaderValue.toNumber.isFinite = true →
      leaderValue.toNumber = normalizeNumber leaderValue)
    (hFc : followerValue.toNumber.isFinite = true →
      followerValue.toNumber = normalizeNumber followerValue)
    (hpos : 0 < aF) (hle : aF ≤ aL) :
    JsNum.ge (safeRatio leaderValue followerValue) (JsNum.fin 1) = true := by
  cases hl : leaderValue.toNumber.isFinite with
  | false => simp [safeRatio, hl, JsNum.ge, JsNum.le, JsNum.lt]
  | true =>
    cases hf : followerValue.toNumber.isFinite with
    | false => simp [safeRatio, hl, hf, JsNum.ge, JsNum.le, JsNum.lt]
    | true =>
      have h1 := hLc hl
      have h2 := hFc hf
      rw [hL] at h1
      rw [hF] at h2
      have h := safeRatio_ge_one aL aF hpos hle
      unfold safeRatio at h ⊢
      simp only [h1, h2]
      exact h

/-- C29: on positive data the headline ratios are never below 1.  In every
statement the derivation builds: when the pollution values of the left pair
are both finite and strictly positive, `pollutionRatio >= 1`; when the activity
values of the energy pair are both finite and strictly positive, `energyRatio
>= 1` (for values `Number()` and `normalizeNumber` read alike wherever
`Number()` gives a finite value, which is so for every number). -/
theorem headline_ratios_at_least_one (supabaseModule : Option SupabaseModule)
    (labels : StatementLabels) (comparisonData : List DataPoint) (st : ComparisonStatement)
    (h : syncComparisonStatement supabaseModule labels comparisonData = some st) :
    (∀ pL pF : ℚ, normalizeNumber st.leftPrimary.pollutantValue = JsNum.fin pL →
      normalizeNumber st.leftSecondary.pollutantValue = JsNum.fin pF →
      0 < pL → 0 < pF → JsNum.ge st.pollutionRatio (JsNum.fin 1) = true) ∧
    (∀ aL aF : ℚ, normalizeNumber st.energyPrimary.actDataValue = JsNum.fin aL →
      normalizeNumber st.energySecondary.actDataValue = JsNum.fin aF →
      0 < aL → 0 < aF →
      (st.energyPrimary.actDataValue.toNumber.isFinite = true →
        st.energyPrimary.actDataValue.toNumber
          = normalizeNumber st.energyPrimary.actDataValue) →
      (st.energySecondary.actDataValue.toNumber.isFinite = true →
        st.energySecondary.actDataValue.toNumber
          = normalizeNumber st.energySecondary.actDataValue) →
      JsNum.ge st.energyRatio (JsNum.fin 1) = true) ∧
    (∀ x : JsNum, (JsVal.num x).toNumber = normalizeNumber (JsVal.num x)) := by
  obtain ⟨energyLeader, energyFollower, _, _, _, _, hle, hst⟩ := syncComparisonStatement_some h
  subst hst
  simp only [statementOf]
  refine ⟨?_, ?_, fun _ => rfl⟩
  · intro pL pF hL hF hLpos hFpos
    by_cases hlt : pL < pF
    · have hr := safeRatio_ge_one pF pL hLpos hlt.le
      simpa [pollutionComparison, hL, hF, JsNum.isFinite, JsNum.lt, hlt] using hr
    · have hr := safeRatio_ge_one pL pF hFpos (not_lt.mp hlt)
      simpa [pollutionComparison, hL, hF, JsNum.isFinite, JsNum.lt, hlt] using hr
  · intro aL aF hL hF _ hFpos hLc hFc
    rw [hL, hF] at hle
    have hab : aF ≤ aL := by simpa [JsNum.le, JsNum.lt] using hle
    exact energy_ratio_ge_one _ _ aL aF hL hF hLc hFc hFpos hab

/-- C29 (witness): in the scenario (pollution 100 and 40, activity 200 and 50)
both ratios are at least 1. -/
theorem headline_ratios_at_least_one_witness :
    syncComparisonStatement none exampleLabels [categoryA, categoryB] = some scenarioStatement ∧
    JsNum.ge scenarioStatement.pollutionRatio (JsNum.fin 1) = true ∧
    JsNum.ge scenarioStatement.energyRatio (JsNum.fin 1) = true :=
  ⟨syncComparisonStatement_scenario,
   (headline_ratios_at_least_one none exampleLabels [categoryA, categoryB] scenarioStatement
      syncComparisonStatement_scenario).1 100 40 rfl rfl (by norm_num) (by norm_num),
   (headline_ratios_at_least_one none exampleLabels [categoryA, categoryB] scenarioStatement
      syncComparisonStatement_scenario).2.1 200 50 rfl rfl (by norm_num) (by norm_num)
      (fun _ => rfl) (fun _ => rfl)⟩

/-! ## The parent metrics (C30) -/

/-- The two stored parent metrics after the built-in handler has run. -/
theorem handle_builtIn_metrics (config : PageConfig) (dom : Dom) (data : ParentMetricsMessage)
    (state : LayoutState) (hbuilt : config.layoutHeightManager = none) :
    (handleParentViewportMetrics config dom data state).state.parentViewportHeight
      = (if data.viewportHeight.toNumber.isFinite
            && JsNum.gt data.viewportHeight.toNumber (JsNum.fin 0) then
          data.viewportHeight.toNumber
         else state.parentViewportHeight) ∧
    (handleParentViewportMetrics config dom data state).state.parentFooterHeight
      = (if data.footerHeight.toNumber.isFinite
            && JsNum.ge data.footerHeight.toNumber (JsNum.fin 0) then
          JsNum.max data.footerHeight.toNumber (JsNum.fin FOOTER_GAP)
         else state.parentFooterHeight) := by
  unfold handleParentViewportMetrics
  simp only [hbuilt]
  rw [(updateChartWrapperHeight_parentMetrics config dom _).1,
    (updateChartWrapperHeight_parentMetrics config dom _).2]
  unfold applyCssViewportHeightPx applyCssFooterReserve
  simp only [hbuilt]
  constructor
  · split
    · rfl
    · split <;> rfl
  · split
    · split <;> rfl
    · split <;> rfl

/-- A footer height the handler accepts is stored as a number >= 6. -/
theorem max_footer_ge (x : JsNum) (hx : x.isFinite = true) :
    JsNum.ge (JsNum.max x (JsNum.fin FOOTER_GAP)) (JsNum.fin FOOTER_GAP) = true := by
  obtain ⟨q, rfl⟩ := (isFinite_iff_fin _).mp hx
  by_cases h : q < FOOTER_GAP
  · simp [JsNum.max, JsNum.lt, h, JsNum.ge, JsNum.le]
  · simp [JsNum.max, JsNum.lt, h, JsNum.ge, JsNum.le]

theorem handle_builtIn_sound (config : PageConfig) (dom : Dom) (data : ParentMetricsMessage)
    (state : LayoutState) (hbuilt : config.layoutHeightManager = none)
    (h : ParentMetricsSound state) :
    ParentMetricsSound (handleParentViewportMetrics config dom data state).state := by
  obtain ⟨hv, hf⟩ := handle_builtIn_metrics config dom data state hbuilt
  obtain ⟨h1, h2, h3⟩ := h
  unfold ParentMetricsSound
  rw [hv, hf]
  refine ⟨?_, ?_, ?_⟩
  · split
    · rename_i hc
      simp only [Bool.and_eq_true] at hc
      exact hc.1
    · exact h1
  · split
    · rename_i hc
      simp only [Bool.and_eq_true] at hc
      exact hc.2
    · exact h2
  · split
    · rename_i hc
      simp only [Bool.and_eq_true] at hc
      exact max_footer_ge _ hc.1
    · exact h3

theorem handleMessages_sound (config : PageConfig) (hbuilt : config.layoutHeightManager = none)
    (events : List (Dom × ParentMetricsMessage)) :
    ∀ state, ParentMetricsSound state → ParentMetricsSound (handleMessages config events state) := by
  induction events with
  | nil => intro state h; exact h
  | cons event rest ih =>
    intro state h
    exact ih _ (handle_builtIn_sound config event.1 event.2 state hbuilt h)

theorem initial_metrics_sound : ParentMetricsSound {} := by
  refine ⟨rfl, ?_, ?_⟩
  · simp [JsNum.gt, JsNum.lt, DEFAULT_PARENT_VIEWPORT]
  · simp [JsNum.ge, JsNum.le, JsNum.lt, DEFAULT_PARENT_FOOTER, FOOTER_GAP]
    norm_num

/-- C30: with the built-in message handler (no layout height manager), after
every sequence of `parentViewportMetrics` messages with any payloads the
stored parent viewport height is finite and above 0 and the stored parent
footer height is at least `FOOTER_GAP` = 6 (both hold at load and every message
keeps them).  A `viewportHeight` that is not finite or is <= 0 leaves the
stored viewport height as it is, a `footerHeight` that is not finite or is
negative leaves the stored footer height as it is; an accepted viewport height
is stored as it is, an accepted footer height as `Math.max(footerHeight, 6)`. -/
theorem parent_metrics_stay_sound (config : PageConfig)
    (hbuilt : config.layoutHeightManager = none) :
    FOOTER_GAP = 6 ∧
    ParentMetricsSound {} ∧
    (∀ events state, ParentMetricsSound state →
      ParentMetricsSound (handleMessages config events state)) ∧
    (∀ dom data state,
      (data.viewportHeight.toNumber.isFinite = false
        ∨ JsNum.le data.viewportHeight.toNumber (JsNum.fin 0) = true) →
      (handleParentViewportMetrics config dom data state).state.parentViewportHeight
        = state.parentViewportHeight) ∧
    (∀ dom data state,
      (data.footerHeight.toNumber.isFinite = false
        ∨ JsNum.lt data.footerHeight.toNumber (JsNum.fin 0) = true) →
      (handleParentViewportMetrics config dom data state).state.parentFooterHeight
        = state.parentFooterHeight) ∧
    (∀ dom data state, data.viewportHeight.toNumber.isFinite = true →
      JsNum.gt data.viewportHeight.toNumber (JsNum.fin 0) = true →
      (handleParentViewportMetrics config dom data state).state.parentViewportHeight
        = data.viewportHeight.toNumber) ∧
    (∀ dom data state, data.footerHeight.toNumber.isFinite = true →
      JsNum.ge data.footerHeight.toNumber (JsNum.fin 0) = true →
      (handleParentViewportMetrics config dom data state).state.parentFooterHeight
        = JsNum.max data.footerHeight.toNumber (JsNum.fin FOOTER_GAP)) := by
  refine ⟨rfl, initial_metrics_sound, handleMessages_sound config hbuilt, ?_, ?_, ?_, ?_⟩
  · intro dom data state hbad
    rw [(handle_builtIn_metrics config dom data state hbuilt).1]
    have hc : (data.viewportHeight.toNumber.isFinite
        && JsNum.gt data.viewportHeight.toNumber (JsNum.fin 0)) = false := by
      rcases hbad with h | h
      · simp [h]
      · cases hx : data.viewportHeight.toNumber <;>
          simp_all [JsNum.isFinite, JsNum.gt, JsNum.lt, JsNum.le]
    simp [hc]
  · intro dom data state hbad
    rw [(handle_builtIn_metrics config dom data state hbuilt).2]
    have hc : (data.footerHeight.toNumber.isFinite
        && JsNum.ge data.footerHeight.toNumber (JsNum.fin 0)) = false := by
      rcases hbad with h | h
      · simp [h]
      · cases hx : data.footerHeight.toNumber <;>
          simp_all [JsNum.isFinite, JsNum.ge, JsNum.lt, JsNum.le]
    simp [hc]
  · intro dom data state hfin hpos
    rw [(handle_builtIn_metrics config dom data state hbuilt).1]
    simp [hfin, hpos]
  · intro dom data state hfin hpos
    rw [(handle_builtIn_metrics config dom data state hbuilt).2]
    simp [hfin, hpos]

/-- C30 (witness): after a message with the viewport height -5 and the footer
height -1 and a message with no viewport height and the footer height 0, the
stored viewport height is still 900 and the stored footer height is 6. -/
theorem parent_metrics_stay_sound_witness :
    ParentMetricsSound (handleMessages embeddedBuiltIn oddMessages {}) ∧
    (handleParentViewportMetrics embeddedBuiltIn emptyDom
        { viewportHeight := JsVal.num (JsNum.fin (-5)),
          footerHeight := JsVal.num (JsNum.fin (-1)) } {}).state.parentViewportHeight
      = JsNum.fin 900 ∧
    (handleParentViewportMetrics embeddedBuiltIn emptyDom
        { viewportHeight := JsVal.undefined,
          footerHeight := JsVal.num (JsNum.fin 0) } {}).state.parentFooterHeight
      = JsNum.fin 6 := by
  have h := parent_metrics_stay_sound embeddedBuiltIn rfl
  refine ⟨h.2.2.1 oddMessages {} h.2.1, ?_, ?_⟩
  · rw [h.2.2.2.1 emptyDom
      ({ viewportHeight := JsVal.num (JsNum.fin (-5)),
         footerHeight := JsVal.num (JsNum.fin (-1)) } : ParentMetricsMessage) {}
      (Or.inr (by simp [JsVal.toNumber, JsNum.le, JsNum.lt]))]
    rfl
  · rw [h.2.2.2.2.2.2 emptyDom
      ({ viewportHeight := JsVal.undefined,
         footerHeight := JsVal.num (JsNum.fin 0) } : ParentMetricsMessage) {}
      rfl (by simp [JsVal.toNumber, JsNum.ge, JsNum.le, JsNum.lt])]
    simp [JsVal.toNumber, JsNum.max, JsNum.lt, FOOTER_GAP]

/-! ## Skipping the estimate (C14) -/

/-- Rounding a number that is not negative gives a number that is not
negative, and 0 when it is not above 0. -/
theorem round_nonneg {x : JsNum} (hnan : x ≠ JsNum.nan)
    (hneg : JsNum.lt x (JsNum.fin 0) = false) :
    JsNum.lt (JsNum.round x) (JsNum.fin 0) = false ∧
    (JsNum.gt (JsNum.round x) (JsNum.fin 0) = false → (JsNum.round x).truthy = false) := by
  cases x with
  | fin q =>
    have hq : 0 ≤ q := by simpa [JsNum.lt] using hneg
    have hfloor : (0 : ℤ) ≤ ⌊q + 1 / 2⌋ := Int.floor_nonneg.mpr (by linarith)
    have hcast : (0 : ℚ) ≤ ((⌊q + 1 / 2⌋ : ℤ) : ℚ) := by exact_mod_cast hfloor
    have hround : JsNum.round (JsNum.fin q) = JsNum.fin ((⌊q + 1 / 2⌋ : ℤ) : ℚ) := rfl
    rw [hround]
    refine ⟨?_, ?_⟩
    · simp only [JsNum.lt, decide_eq_false_iff_not, not_lt]
      exact hcast
    · intro hgt
      have hle : ((⌊q + 1 / 2⌋ : ℤ) : ℚ) ≤ 0 := by
        simpa only [JsNum.gt, JsNum.lt, decide_eq_false_iff_not, not_lt] using hgt
      have hzero : ((⌊q + 1 / 2⌋ : ℤ) : ℚ) = 0 := le_antisymm hle hcast
      rw [hzero]
      rfl
  | posInf => simp [JsNum.round, JsNum.lt, JsNum.gt]
  | negInf => simp [JsNum.lt] at hneg
  | nan => exact absurd rfl hnan

theorem orNumber_nonneg (a : Nullable) (fallback : JsNum)
    (ha : ∀ x, a = some x → JsNum.lt x (JsNum.fin 0) = false)
    (hf : JsNum.lt fallback (JsNum.fin 0) = false) :
    JsNum.lt (orNumber a fallback) (JsNum.fin 0) = false := by
  unfold orNumber
  split
  · split
    · exact ha _ rfl
    · exact hf
  · exact hf

/-- On a page whose stored parent viewport height is sound (embedded) or
whose window heights are not negative (standalone), the value the viewport
height is rounded from is a number that is not negative. -/
theorem viewportSource_nonneg (config : PageConfig) (dom : Dom) (state : LayoutState)
    (hembedded : config.isEmbedded = true → ParentMetricsSound state)
    (hwindow : config.isEmbedded = false → WindowHeightsNonNegative dom) :
    JsNum.lt (resolveViewportHeight config dom state) (JsNum.fin 0) = false ∧
    (JsNum.gt (resolveViewportHeight config dom state) (JsNum.fin 0) = false →
      (resolveViewportHeight config dom state).truthy = false) := by
  unfold resolveViewportHeight
  cases he : config.isEmbedded with
  | true =>
    obtain ⟨hfin, hpos, _⟩ := hembedded he
    simp only [if_true]
    apply round_nonneg
    · intro h
      rw [h] at hfin
      cases hfin
    · obtain ⟨q, hq⟩ := (isFinite_iff_fin _).mp hfin
      rw [hq] at hpos ⊢
      have : 0 < q := by simpa [JsNum.gt, JsNum.lt] using hpos
      simp [JsNum.lt, this.le]
  | false =>
    obtain ⟨h1, h2, h3⟩ := hwindow he
    simp only [Bool.false_eq_true, if_false]
    apply round_nonneg
    · exact orNumber_ne_nan _ _ (orNumber_ne_nan _ _ (orNumber_ne_nan _ _ (by simp)))
    · exact orNumber_nonneg _ _ h1
        (orNumber_nonneg _ _ h2 (orNumber_nonneg _ _ h3 (by simp [JsNum.lt])))

theorem tinyViewport_sound : ParentMetricsSound tinyViewportState := by
  refine ⟨rfl, ?_, ?_⟩
  · simp [tinyViewportState, JsNum.gt, JsNum.lt]
  · simp [tinyViewportState, JsNum.ge, JsNum.le, JsNum.lt, DEFAULT_PARENT_FOOTER, FOOTER_GAP]
    norm_num

theorem tinyViewport_resolved :
    resolveViewportHeight embeddedBuiltIn emptyDom tinyViewportState = JsNum.fin 0 := by
  have hfloor : ⌊(3 / 10 : ℚ) + 1 / 2⌋ = 0 := by
    rw [Int.floor_eq_iff]
    constructor <;> norm_num
  have hround : JsNum.round (JsNum.fin (3 / 10)) = JsNum.fin ((⌊(3 / 10 : ℚ) + 1 / 2⌋ : ℤ) : ℚ) :=
    rfl
  simp only [resolveViewportHeight, embeddedBuiltIn, tinyViewportState, if_true, hround, hfloor,
    Int.cast_zero]

theorem emptyDom_window : WindowHeightsNonNegative emptyDom :=
  ⟨fun _ hx => (nomatch hx), fun _ hx => (nomatch hx), fun _ hx => (nomatch hx)⟩

/-- C14: on every state the module can be in without a layout height manager
(embedded: the stored parent viewport height is finite and above 0, which the
message listener keeps; standalone: the window heights read are not negative)
the resolved viewport height is never negative, and whenever it is not
strictly positive `updateChartWrapperHeight` skips the estimation pass: it
returns no estimate and leaves the cached chart-height estimate unchanged. -/
theorem nonpositive_viewport_skips_estimation (config : PageConfig) (dom : Dom)
    (state : LayoutState)
    (hembedded : config.isEmbedded = true → ParentMetricsSound state)
    (hwindow : config.isEmbedded = false → WindowHeightsNonNegative dom) :
    JsNum.lt (resolveViewportHeight config dom state) (JsNum.fin 0) = false ∧
    (JsNum.gt (resolveViewportHeight config dom state) (JsNum.fin 0) = false →
      (updateChartWrapperHeight config dom state).1 = none ∧
      (updateChartWrapperHeight config dom state).2.lastChartHeight
        = state.lastChartHeight) ∧
    (config.layoutHeightManager = none →
      ∀ events initial, ParentMetricsSound initial →
        ParentMetricsSound (handleMessages config events initial)) ∧
    ParentMetricsSound {} := by
  obtain ⟨hneg, hzero⟩ := viewportSource_nonneg config dom state hembedded hwindow
  refine ⟨hneg, ?_, fun hbuilt events => handleMessages_sound config hbuilt events,
    initial_metrics_sound⟩
  intro hgt
  exact updateChartWrapperHeight_skipped config dom state (hzero hgt)

/-- C14 (witness): an embedded page whose parent reported the viewport height
0.3 (it rounds to 0) and a standalone page whose window has no height: the
pass is skipped and the cached 500 stays. -/
theorem nonpositive_viewport_skips_estimation_witness :
    resolveViewportHeight embeddedBuiltIn emptyDom tinyViewportState = JsNum.fin 0 ∧
    (updateChartWrapperHeight embeddedBuiltIn emptyDom tinyViewportState).1 = none ∧
    (updateChartWrapperHeight embeddedBuiltIn emptyDom tinyViewportState).2.lastChartHeight
      = some (JsNum.fin 500) ∧
    (updateChartWrapperHeight standaloneBuiltIn emptyDom tinyViewportState).1 = none := by
  have h1 := (nonpositive_viewport_skips_estimation embeddedBuiltIn emptyDom tinyViewportState
    (fun _ => tinyViewport_sound) (fun h => by cases h)).2.1
    (by rw [tinyViewport_resolved]; simp [JsNum.gt, JsNum.lt])
  have h2 := (nonpositive_viewport_skips_estimation standaloneBuiltIn emptyDom
    tinyViewportState (fun h => by cases h)
    (fun _ => emptyDom_window)).2.1
    (by
      have hr : JsNum.round (JsNum.fin 0) = JsNum.fin 0 := round_fin_zero
      simp [resolveViewportHeight, standaloneBuiltIn, emptyDom, orNumber, hr, JsNum.gt,
        JsNum.lt])
  exact ⟨tinyViewport_resolved, h1.1, h1.2, h2.1⟩

/-! ## Rounding to a double -/

theorem log_two_eq {r : ℚ} {e : ℤ} (hlo : (2 : ℚ) ^ e ≤ r) (hhi : r < (2 : ℚ) ^ (e + 1)) :
    Int.log 2 r = e := by
  have hr : 0 < r := lt_of_lt_of_le (by positivity) hlo
  have h1 : e ≤ Int.log 2 r := (Int.zpow_le_iff_le_log (by norm_num) hr).mp (by exact_mod_cast hlo)
  have h2 : Int.log 2 r < e + 1 := (Int.lt_zpow_iff_log_lt (by norm_num) hr).mp (by exact_mod_cast hhi)
  omega

theorem roundHalfEven_intCast (n : ℤ) : roundHalfEven (n : ℚ) = n := by
  simp [roundHalfEven]

theorem roundHalfEven_near (x : ℚ) : |(roundHalfEven x : ℚ) - x| ≤ 1 / 2 := by
  have h1 := Int.floor_le x
  have h2 := Int.lt_floor_add_one x
  unfold roundHalfEven
  dsimp only
  split
  · rw [abs_le]; constructor <;> linarith
  · split
    · push_cast; rw [abs_le]; constructor <;> linarith
    · have : x - ⌊x⌋ = 1 / 2 := by
        rename_i ha hb
        exact le_antisymm (not_lt.mp hb) (not_lt.mp ha)
      split
      · rw [abs_le]; constructor <;> linarith
      · push_cast; rw [abs_le]; constructor <;> linarith

theorem roundHalfEven_nonneg {x : ℚ} (hx : 0 ≤ x) : 0 ≤ roundHalfEven x := by
  have h0 : (0 : ℤ) ≤ ⌊x⌋ := Int.floor_nonneg.mpr hx
  unfold roundHalfEven
  dsimp only
  split
  · exact h0
  · split
    · omega
    · split
      · exact h0
      · omega

/-- The integer within less than a half of `x` is what `x` rounds to. -/
theorem roundHalfEven_eq {x : ℚ} {n : ℤ} (h : |x - n| < 1 / 2) : roundHalfEven x = n := by
  rw [abs_lt] at h
  obtain ⟨hl, hu⟩ := h
  unfold roundHalfEven
  dsimp only
  by_cases hn : (n : ℚ) ≤ x
  · have hf : ⌊x⌋ = n := by
      rw [Int.floor_eq_iff]
      constructor <;> linarith
    rw [hf]
    have : x - (n : ℚ) < 1 / 2 := hu
    simp only [this, if_true]
  · have hn2 : x < n := not_le.mp hn
    have hf : ⌊x⌋ = n - 1 := by
      rw [Int.floor_eq_iff]
      push_cast
      constructor <;> linarith
    rw [hf]
    push_cast
    have h1 : ¬ (x - ((n : ℚ) - 1) < 1 / 2) := by
      intro hc
      linarith
    have h2 : 1 / 2 < x - ((n : ℚ) - 1) := by linarith
    simp only [h1, h2, if_false, if_true]
    ring

theorem roundToDouble_zero : roundToDouble 0 = JsNum.fin 0 := by
  simp [roundToDouble]

theorem roundToDouble_ne_nan (q : ℚ) : roundToDouble q ≠ JsNum.nan := by
  unfold roundToDouble
  dsimp only
  split
  · simp
  · split
    · split <;> simp
    · simp

/-- The double nearest to a positive rational, from its binary exponent `e`
and the rounded significand `n`. -/
theorem roundToDouble_pos {q : ℚ} {e quantum n : ℤ} (hlo : (2 : ℚ) ^ e ≤ q)
    (hhi : q < (2 : ℚ) ^ (e + 1)) (hquantum : quantum = max e (-1022) - 52)
    (hn : roundHalfEven (q / (2 : ℚ) ^ quantum) = n) :
    roundToDouble q =
      if (2 : ℚ) ^ (1024 : ℤ) ≤ (n : ℚ) * (2 : ℚ) ^ quantum then JsNum.posInf
      else JsNum.fin ((n : ℚ) * (2 : ℚ) ^ quantum) := by
  have hq : 0 < q := lt_of_lt_of_le (by positivity) hlo
  have habs : |q| = q := abs_of_pos hq
  have hlog : Int.log 2 |q| = e := by
    rw [habs]
    exact log_two_eq hlo hhi
  unfold roundToDouble
  dsimp only
  rw [if_neg (ne_of_gt hq), hlog, habs, ← hquantum, hn]
  simp only [hq, if_true]

theorem roundToDouble_neg (q : ℚ) : roundToDouble (-q) = JsNum.neg (roundToDouble q) := by
  by_cases h0 : q = 0
  · subst h0
    simp [roundToDouble, JsNum.neg]
  · have hneg : -q ≠ 0 := neg_ne_zero.mpr h0
    unfold roundToDouble
    dsimp only
    rw [if_neg h0, if_neg hneg, abs_neg]
    rcases lt_or_gt_of_ne h0 with hlt | hgt
    · have h1 : 0 < -q := by linarith
      have h2 : ¬ 0 < q := by linarith
      simp only [h1, h2, if_true, if_false]
      split <;> simp [JsNum.neg]
    · have h1 : ¬ 0 < -q := by linarith
      simp only [h1, hgt, if_true, if_false]
      split <;> simp [JsNum.neg]

/-- A rational that is not negative rounds to `+Infinity` or to a double that
is not negative. -/
theorem roundToDouble_nonneg {q : ℚ} (hq : 0 ≤ q) :
    roundToDouble q = JsNum.posInf ∨ ∃ v : ℚ, roundToDouble q = JsNum.fin v ∧ 0 ≤ v := by
  by_cases h0 : q = 0
  · right
    exact ⟨0, by rw [h0, roundToDouble_zero], le_refl _⟩
  · have hpos : 0 < q := lt_of_le_of_ne hq (Ne.symm h0)
    unfold roundToDouble
    dsimp only
    rw [if_neg h0]
    simp only [hpos, if_true]
    split
    · left; rfl
    · right
      refine ⟨_, rfl, ?_⟩
      have hn : 0 ≤ roundHalfEven (|q| / (2 : ℚ) ^ (max (Int.log 2 |q|) (-1022) - 52)) :=
        roundHalfEven_nonneg (by positivity)
      have hc : (0 : ℚ) ≤
          (roundHalfEven (|q| / (2 : ℚ) ^ (max (Int.log 2 |q|) (-1022) - 52)) : ℚ) := by
        exact_mod_cast hn
      positivity

theorem scaled_near (m u : ℚ) (hu : 0 < u) :
    |(roundHalfEven (m / u) : ℚ) * u - m| ≤ u * (1 / 2) := by
  have hnear := roundHalfEven_near (m / u)
  have heq : (roundHalfEven (m / u) : ℚ) * u - m = ((roundHalfEven (m / u) : ℚ) - m / u) * u := by
    field_simp
  rw [heq, abs_mul, abs_of_pos hu, mul_comm]
  exact mul_le_mul_of_nonneg_left hnear hu.le

theorem quantum_bound {m : ℚ} (hm : 0 < m) :
    (2 : ℚ) ^ (max (Int.log 2 m) (-1022) - 52) * (1 / 2)
      ≤ (2 : ℚ) ^ (-53 : ℤ) * m + (2 : ℚ) ^ (-1075 : ℤ) := by
  have hlog : (2 : ℚ) ^ (Int.log 2 m) ≤ m := Int.zpow_log_le_self (by norm_num) hm
  have hstep : ∀ quantum : ℤ, (2 : ℚ) ^ (quantum - 52) * (1 / 2)
      = (2 : ℚ) ^ (-53 : ℤ) * (2 : ℚ) ^ quantum := by
    intro quantum
    have h2 : (1 / 2 : ℚ) = (2 : ℚ) ^ (-1 : ℤ) := by norm_num
    rw [h2, ← zpow_add₀ (by norm_num : (2 : ℚ) ≠ 0), ← zpow_add₀ (by norm_num : (2 : ℚ) ≠ 0)]
    congr 1
    ring
  rw [hstep]
  rcases le_total (Int.log 2 m) (-1022) with hsmall | hlarge
  · rw [max_eq_right hsmall]
    have h1 : (2 : ℚ) ^ (-53 : ℤ) * (2 : ℚ) ^ (-1022 : ℤ) = (2 : ℚ) ^ (-1075 : ℤ) := by
      rw [← zpow_add₀ (by norm_num : (2 : ℚ) ≠ 0)]
      norm_num
    rw [h1]
    have : 0 ≤ (2 : ℚ) ^ (-53 : ℤ) * m := by positivity
    linarith
  · rw [max_eq_left hlarge]
    have h2 : (2 : ℚ) ^ (-53 : ℤ) * (2 : ℚ) ^ (Int.log 2 m) ≤ (2 : ℚ) ^ (-53 : ℤ) * m :=
      mul_le_mul_of_nonneg_left hlog (by positivity)
    have : (0 : ℚ) ≤ (2 : ℚ) ^ (-1075 : ℤ) := by positivity
    linarith

/-- The rounding error of a finite result: at most `2^-53` of the exact value,
plus half the spacing `2^-1074` of the smallest doubles. -/
theorem roundToDouble_error {q v : ℚ} (h : roundToDouble q = JsNum.fin v) :
    |v - q| ≤ (2 : ℚ) ^ (-53 : ℤ) * |q| + (2 : ℚ) ^ (-1075 : ℤ) := by
  by_cases h0 : q = 0
  · subst h0
    rw [roundToDouble_zero] at h
    cases h
    simp
    positivity
  · have habspos : 0 < |q| := abs_pos.mpr h0
    have hmag := le_trans
      (scaled_near (|q|) ((2 : ℚ) ^ (max (Int.log 2 |q|) (-1022) - 52)) (by positivity))
      (quantum_bound habspos)
    unfold roundToDouble at h
    dsimp only at h
    rw [if_neg h0] at h
    split at h
    · split at h <;> cases h
    · simp only [JsNum.fin.injEq] at h
      rcases lt_or_gt_of_ne h0 with hlt | hgt
      · have hn : ¬ 0 < q := by linarith
        simp only [hn, if_false] at h
        rw [← h]
        have habs : |q| = -q := abs_of_neg hlt
        rw [habs] at hmag ⊢
        rw [← abs_neg]
        have he : ∀ x : ℚ, -(-x - q) = x - -q := by intro x; ring
        rw [he]
        exact hmag
      · simp only [hgt, if_true] at h
        rw [← h]
        have habs : |q| = q := abs_of_pos hgt
        rw [habs] at hmag ⊢
        exact hmag

/-- A positive rational whose significand at its own exponent is a whole
number is a double: it rounds to itself. -/
theorem roundToDouble_exact {q : ℚ} (e n : ℤ) (hlo : (2 : ℚ) ^ e ≤ q)
    (hhi : q < (2 : ℚ) ^ (e + 1)) (hmin : -1022 ≤ e) (hmax : e ≤ 1023)
    (hn : q / (2 : ℚ) ^ (e - 52) = (n : ℚ)) :
    roundToDouble q = JsNum.fin q := by
  have hquantum : e - 52 = max e (-1022) - 52 := by rw [max_eq_left hmin]
  have hround : roundHalfEven (q / (2 : ℚ) ^ (e - 52)) = n := by
    rw [hn]
    exact roundHalfEven_intCast n
  have hback : (n : ℚ) * (2 : ℚ) ^ (e - 52) = q := by
    rw [← hn]
    field_simp
  have hfin : ¬ ((2 : ℚ) ^ (1024 : ℤ) ≤ q) := by
    have : (2 : ℚ) ^ (e + 1) ≤ (2 : ℚ) ^ (1024 : ℤ) :=
      zpow_le_zpow_right₀ (by norm_num) (by omega)
    intro hc
    linarith
  rw [roundToDouble_pos hlo hhi hquantum hround, hback, if_neg hfin]

theorem roundToDouble_two : roundToDouble 2 = JsNum.fin 2 :=
  roundToDouble_exact 1 (2 ^ 52) (by norm_num) (by norm_num) (by norm_num) (by norm_num)
    (by norm_num)

theorem roundToDouble_three : roundToDouble 3 = JsNum.fin 3 :=
  roundToDouble_exact 1 (3 * 2 ^ 51) (by norm_num) (by norm_num) (by norm_num) (by norm_num)
    (by norm_num)

theorem roundToDouble_big : roundToDouble (2 ^ 1023) = JsNum.fin (2 ^ 1023) :=
  roundToDouble_exact 1023 (2 ^ 52) (by norm_num) (by norm_num) (by norm_num) (by norm_num)
    (by norm_num)

theorem roundToDouble_overflow : roundToDouble (2 ^ 1023 * 4) = JsNum.posInf := by
  have hround : roundHalfEven ((2 ^ 1023 * 4 : ℚ) / (2 : ℚ) ^ (973 : ℤ)) = 2 ^ 52 := by
    have : (2 ^ 1023 * 4 : ℚ) / (2 : ℚ) ^ (973 : ℤ) = ((2 ^ 52 : ℤ) : ℚ) := by norm_num
    rw [this]
    exact roundHalfEven_intCast _
  rw [roundToDouble_pos (by norm_num : (2 : ℚ) ^ (1025 : ℤ) ≤ 2 ^ 1023 * 4) (by norm_num)
    (by norm_num : (973 : ℤ) = max 1025 (-1022) - 52) hround]
  norm_num

/-! ## The derivation on doubles -/

theorem double_selectLeaderFollower_short {α : Type} (metricAccessor : α → JsVal)
    (dataPoints : List α) (h : dataPoints.length < 2) :
    (Double.selectLeaderFollower dataPoints metricAccessor).leader = none ∧
    (Double.selectLeaderFollower dataPoints metricAccessor).follower = none := by
  simp [Double.selectLeaderFollower, h]

theorem double_follower_mem {α : Type} (metricAccessor : α → JsVal)
    (dataPoints : List α) (follower : α)
    (h : (Double.selectLeaderFollower dataPoints metricAccessor).follower = some follower) :
    follower ∈ dataPoints := by
  unfold Double.selectLeaderFollower at h
  split at h
  · cases h
  · dsimp only at h
    split at h
    · rename_i leader second rest hs
      dsimp only at h
      split at h
      · cases h
        have hp : List.Perm (arraySort (fun a b =>
            Double.rankCompare (metricAccessor a).toNumber (metricAccessor b).toNumber)
            dataPoints) dataPoints := List.perm_insertionSort _ _
        rw [hs] at hp
        exact hp.subset (List.mem_cons_of_mem _ (List.mem_cons_self _ _))
      · cases h
    · cases h

theorem double_enrichComparisonData_eq (comparisonData : List DataPoint) :
    Double.enrichComparisonData comparisonData = comparisonData.map Double.enrich := rfl

/-- The derivation, unfolded along the energy pair: a statement is built
exactly when the energy ranking has a leader and a follower, with the energy
follower in the left-leader place and the energy leader in every other
place the code reads. -/
theorem double_syncComparisonStatement_eq (supabaseModule : Option SupabaseModule)
    (labels : StatementLabels) (comparisonData : List DataPoint) :
    Double.syncComparisonStatement supabaseModule labels comparisonData =
      match (Double.selectLeaderFollower (Double.enrichComparisonData comparisonData) energyAccessor).leader,
        (Double.selectLeaderFollower (Double.enrichComparisonData comparisonData) energyAccessor).follower with
      | some energyLeader, some energyFollower =>
        some (Double.statementOf labels energyFollower energyLeader energyLeader energyFollower
          (Double.pollutionComparison (some energyFollower) (some energyLeader)
            (Double.selectLeaderFollower (Double.enrichComparisonData comparisonData) pollutionAccessor))
          (Double.safeRatio energyLeader.actDataValue energyFollower.actDataValue)
          (Double.replacementBlock supabaseModule (some energyFollower) (some energyLeader)
            (some energyLeader)))
      | _, _ => none := by
  by_cases hlen : comparisonData.length < 2
  · have hlen2 : (Double.enrichComparisonData comparisonData).length < 2 := by
      simpa [Double.enrichComparisonData] using hlen
    have h := double_selectLeaderFollower_short energyAccessor _ hlen2
    simp [Double.syncComparisonStatement, hlen, h.1, h.2]
  · simp only [Double.syncComparisonStatement, hlen, if_false]
    cases hl : (Double.selectLeaderFollower (Double.enrichComparisonData comparisonData) energyAccessor).leader <;>
    cases hf : (Double.selectLeaderFollower (Double.enrichComparisonData comparisonData) energyAccessor).follower <;>
    simp [leftPair, Double.energyRatioOf, hl, hf]

theorem double_mem_enrichComparisonData {comparisonData : List DataPoint} {dataPoint : DataPoint}
    (h : dataPoint ∈ Double.enrichComparisonData comparisonData) :
    ∃ original ∈ comparisonData, dataPoint = Double.enrich original := by
  rw [double_enrichComparisonData_eq] at h
  obtain ⟨original, hmem, heq⟩ := List.mem_map.mp h
  exact ⟨original, hmem, heq.symm⟩

/-- The two ways the baseline-only step ends. -/
theorem double_baselineOnlyStep_cases (note : Option InclusionNote) (polluter baseline : DataPoint) :
    ((note.isSome && (normalizeNumber baseline.actDataValue).isFinite
        && JsNum.gt (normalizeNumber baseline.actDataValue) (JsNum.fin 0)
        && nullableIsFinite (Double.polluterEmissionFactorOf polluter)) = true ∧
      Double.baselineOnlyStep note polluter baseline =
        { replacementPollution := some (Double.mul
            (nullableToNumber (Double.polluterEmissionFactorOf polluter))
            (normalizeNumber baseline.actDataValue)),
          replacementDetails := some
            { polluter := polluter, baseline := baseline,
              emissionFactor := Double.polluterEmissionFactorOf polluter,
              totalActivity := some (normalizeNumber baseline.actDataValue),
              calcSource := CalcSource.baselineOnly },
          replacementInclusion := note }) ∨
    ((note.isSome && (normalizeNumber baseline.actDataValue).isFinite
        && JsNum.gt (normalizeNumber baseline.actDataValue) (JsNum.fin 0)
        && nullableIsFinite (Double.polluterEmissionFactorOf polluter)) = false ∧
      Double.baselineOnlyStep note polluter baseline =
        { replacementPollution := none, replacementDetails := none,
          replacementInclusion := note }) := by
  unfold Double.baselineOnlyStep
  dsimp only
  cases hc : (note.isSome && (normalizeNumber baseline.actDataValue).isFinite
        && JsNum.gt (normalizeNumber baseline.actDataValue) (JsNum.fin 0)
        && nullableIsFinite (Double.polluterEmissionFactorOf polluter)) with
  | true => left; simp
  | false => right; simp

/-- The four ways the fall-through chain ends: the combined-activity estimate,
the summed-activity fallback, the ratio fallback, or no assignment. -/
theorem double_fallThroughStep_cases (polluter baseline : DataPoint)
    (warningFallback : Option DataPoint) (current : ReplacementState) :
    (∃ est, Double.estimateReplacementPollution (some polluter) (some baseline) = some est ∧
      (Double.fallThroughStep polluter baseline warningFallback current).replacementPollution
        = some est.value ∧
      (Double.fallThroughStep polluter baseline warningFallback current).replacementDetails.map
        (fun d => d.calcSource) = some CalcSource.ef) ∨
    (Double.estimateReplacementPollution (some polluter) (some baseline) = none ∧
      (nullableIsFinite (Double.polluterEmissionFactorOf polluter)
        && JsNum.gt (Double.sumActivityValues [polluter.actDataValue, baseline.actDataValue])
            (JsNum.fin 0)) = true ∧
      (Double.fallThroughStep polluter baseline warningFallback current).replacementPollution
        = some (Double.mul (nullableToNumber (Double.polluterEmissionFactorOf polluter))
            (Double.sumActivityValues [polluter.actDataValue, baseline.actDataValue])) ∧
      (Double.fallThroughStep polluter baseline warningFallback current).replacementDetails.map
        (fun d => d.calcSource) = some CalcSource.fallbackEnergy) ∨
    (Double.estimateReplacementPollution (some polluter) (some baseline) = none ∧
      (nullableIsFinite (Double.polluterEmissionFactorOf polluter)
        && JsNum.gt (Double.sumActivityValues [polluter.actDataValue, baseline.actDataValue])
            (JsNum.fin 0)) = false ∧
      ∃ fallback, warningFallback = some fallback ∧
        (Double.safeRatio polluter.pollutantValue fallback.pollutantValue).isFinite = true ∧
        (Double.mul (Double.safeRatio polluter.pollutantValue fallback.pollutantValue)
          fallback.pollutantValue.toNumber).isFinite = true ∧
        (Double.fallThroughStep polluter baseline warningFallback current).replacementPollution
          = some (Double.mul (Double.safeRatio polluter.pollutantValue fallback.pollutantValue)
              fallback.pollutantValue.toNumber) ∧
        (Double.fallThroughStep polluter baseline warningFallback current).replacementDetails.map
          (fun d => d.calcSource) = some CalcSource.ratioFallback) ∨
    (Double.estimateReplacementPollution (some polluter) (some baseline) = none ∧
      (nullableIsFinite (Double.polluterEmissionFactorOf polluter)
        && JsNum.gt (Double.sumActivityValues [polluter.actDataValue, baseline.actDataValue])
            (JsNum.fin 0)) = false ∧
      (∀ fallback, warningFallback = some fallback →
        (Double.safeRatio polluter.pollutantValue fallback.pollutantValue).isFinite = true →
        (Double.mul (Double.safeRatio polluter.pollutantValue fallback.pollutantValue)
          fallback.pollutantValue.toNumber).isFinite = false) ∧
      Double.fallThroughStep polluter baseline warningFallback current = current) := by
  unfold Double.fallThroughStep
  dsimp only
  cases hest : Double.estimateReplacementPollution (some polluter) (some baseline) with
  | some est =>
    left
    exact ⟨est, rfl, rfl, rfl⟩
  | none =>
    right
    dsimp only
    cases hc : (nullableIsFinite (Double.polluterEmissionFactorOf polluter)
        && JsNum.gt (Double.sumActivityValues [polluter.actDataValue, baseline.actDataValue])
            (JsNum.fin 0)) with
    | true =>
      left
      simp
    | false =>
      right
      cases warningFallback with
      | none =>
        right
        simp
      | some fallback =>
        dsimp only
        cases hr : (Double.safeRatio polluter.pollutantValue fallback.pollutantValue).isFinite with
        | false =>
          right
          simp [nullableIsFinite, hr]
        | true =>
          cases hm : (Double.mul (Double.safeRatio polluter.pollutantValue fallback.pollutantValue)
            fallback.pollutantValue.toNumber).isFinite with
          | false =>
            right
            simp [nullableIsFinite, hm, hr]
          | true =>
            left
            simp [nullableIsFinite, hm, hr]

theorem double_replacementBlock_eq (supabaseModule : Option SupabaseModule)
    (polluter baseline : DataPoint) (warningFallback : Option DataPoint) :
    Double.replacementBlock supabaseModule (some polluter) (some baseline) warningFallback =
      if (!nullableTruthy (Double.baselineOnlyStep
          (buildReplacementInclusionNote supabaseModule (some polluter) (some baseline))
          polluter baseline).replacementPollution) = true then
        Double.fallThroughStep polluter baseline warningFallback
          (Double.baselineOnlyStep
            (buildReplacementInclusionNote supabaseModule (some polluter) (some baseline))
            polluter baseline)
      else
        Double.baselineOnlyStep
          (buildReplacementInclusionNote supabaseModule (some polluter) (some baseline))
          polluter baseline := rfl

theorem double_fallThroughStep_inclusion (polluter baseline : DataPoint)
    (warningFallback : Option DataPoint) (current : ReplacementState) :
    (Double.fallThroughStep polluter baseline warningFallback current).replacementInclusion
      = current.replacementInclusion := by
  unfold Double.fallThroughStep
  dsimp only
  repeat' split
  all_goals rfl

theorem double_baselineOnlyStep_inclusion (note : Option InclusionNote) (polluter baseline : DataPoint) :
    (Double.baselineOnlyStep note polluter baseline).replacementInclusion = note := by
  rcases double_baselineOnlyStep_cases note polluter baseline with ⟨_, h⟩ | ⟨_, h⟩ <;> rw [h]

/-- The replacement block keeps the inclusion note it was given. -/
theorem double_replacementBlock_inclusion (supabaseModule : Option SupabaseModule)
    (polluter baseline : DataPoint) (warningFallback : Option DataPoint) :
    (Double.replacementBlock supabaseModule (some polluter) (some baseline)
        warningFallback).replacementInclusion
      = buildReplacementInclusionNote supabaseModule (some polluter) (some baseline) := by
  rw [double_replacementBlock_eq]
  split
  · rw [double_fallThroughStep_inclusion, double_baselineOnlyStep_inclusion]
  · rw [double_baselineOnlyStep_inclusion]

theorem double_baselineOnlyStep_calcSource (note : Option InclusionNote)
    (polluter baseline : DataPoint) :
    (Double.baselineOnlyStep note polluter baseline).replacementDetails.map (fun d => d.calcSource)
        = some CalcSource.baselineOnly ∨
    ((Double.baselineOnlyStep note polluter baseline).replacementDetails = none ∧
      (Double.baselineOnlyStep note polluter baseline).replacementPollution = none) := by
  rcases double_baselineOnlyStep_cases note polluter baseline with ⟨_, h⟩ | ⟨_, h⟩
  · left; rw [h]; rfl
  · right; rw [h]; exact ⟨rfl, rfl⟩

/-- Without an inclusion note the replacement block is the fall-through
chain started from unassigned variables. -/
theorem double_replacementBlock_without_note (supabaseModule : Option SupabaseModule)
    (polluter baseline : DataPoint) (warningFallback : Option DataPoint)
    (h : buildReplacementInclusionNote supabaseModule (some polluter) (some baseline) = none) :
    Double.replacementBlock supabaseModule (some polluter) (some baseline) warningFallback
      = Double.fallThroughStep polluter baseline warningFallback noReplacement := by
  simp [Double.replacementBlock, h, Double.baselineOnlyStep, nullableTruthy, noReplacement]

/-- What a statement built on doubles was built from: the energy pair
`(leader, follower)` of the enriched data. -/
theorem double_syncComparisonStatement_some {supabaseModule : Option SupabaseModule}
    {labels : StatementLabels} {comparisonData : List DataPoint} {st : ComparisonStatement}
    (h : Double.syncComparisonStatement supabaseModule labels comparisonData = some st) :
    ∃ energyLeader energyFollower,
      (Double.selectLeaderFollower (Double.enrichComparisonData comparisonData)
        energyAccessor).leader = some energyLeader ∧
      (Double.selectLeaderFollower (Double.enrichComparisonData comparisonData)
        energyAccessor).follower = some energyFollower ∧
      st = Double.statementOf labels energyFollower energyLeader energyLeader energyFollower
          (Double.pollutionComparison (some energyFollower) (some energyLeader)
            (Double.selectLeaderFollower (Double.enrichComparisonData comparisonData)
              pollutionAccessor))
          (Double.safeRatio energyLeader.actDataValue energyFollower.actDataValue)
          (Double.replacementBlock supabaseModule (some energyFollower) (some energyLeader)
            (some energyLeader)) := by
  rw [double_syncComparisonStatement_eq] at h
  cases hl : (Double.selectLeaderFollower (Double.enrichComparisonData comparisonData)
      energyAccessor).leader with
  | none => rw [hl] at h; cases h
  | some energyLeader =>
    cases hf : (Double.selectLeaderFollower (Double.enrichComparisonData comparisonData)
        energyAccessor).follower with
    | none => rw [hl, hf] at h; cases h
    | some energyFollower =>
      rw [hl, hf] at h
      exact ⟨energyLeader, energyFollower, rfl, rfl, (Option.some.inj h).symm⟩

theorem double_calculateEmissionFactor_enrich (dataPoint : DataPoint) :
    Double.calculateEmissionFactor (some (Double.enrich dataPoint))
      = Double.calculateEmissionFactor (some dataPoint) := rfl

/-- The emission factor the replacement block reads from an enriched point is
the one `calculateEmissionFactor` gives for the point. -/
theorem double_polluterEmissionFactorOf_enrich (dataPoint : DataPoint) :
    Double.polluterEmissionFactorOf (Double.enrich dataPoint)
      = Double.calculateEmissionFactor (some dataPoint) := by
  unfold Double.polluterEmissionFactorOf
  rw [double_calculateEmissionFactor_enrich]
  cases h : Double.calculateEmissionFactor (some dataPoint) with
  | none => simp [Double.enrich, h, nullableToVal, JsVal.isFinite]
  | some x =>
    cases hx : x.isFinite with
    | true => simp [Double.enrich, h, nullableToVal, JsVal.isFinite, hx, JsVal.toNumber]
    | false => simp [Double.enrich, h, nullableToVal, JsVal.isFinite, hx]

theorem normalizeNumber_num (x : JsNum) : normalizeNumber (JsVal.num x) = x := rfl

/-- The sum of two activity values only reads their normalised numbers. -/
theorem double_sumActivityValues_normalized (a b : JsVal) :
    Double.sumActivityValues [JsVal.num (normalizeNumber a), JsVal.num (normalizeNumber b)]
      = Double.sumActivityValues [a, b] := rfl

/-- The combined-activity estimate on doubles, in terms of the emission
factor and the activity sum of the two data points. -/
theorem double_estimate_eq (source baseline : DataPoint) :
    Double.estimateReplacementPollution (some source) (some baseline) =
      if (!nullableIsFinite (Double.calculateEmissionFactor (some source))
          || !(Double.sumActivityValues [source.actDataValue, baseline.actDataValue]).isFinite
          || JsNum.le (Double.sumActivityValues [source.actDataValue, baseline.actDataValue])
              (JsNum.fin 0)
          || !(Double.mul (nullableToNumber (Double.calculateEmissionFactor (some source)))
              (Double.sumActivityValues
                [source.actDataValue, baseline.actDataValue])).isFinite) = true then none
      else some
        { value := Double.mul (nullableToNumber (Double.calculateEmissionFactor (some source)))
            (Double.sumActivityValues [source.actDataValue, baseline.actDataValue]),
          emissionFactor := Double.calculateEmissionFactor (some source),
          totalActivity :=
            Double.sumActivityValues [source.actDataValue, baseline.actDataValue] } := by
  unfold Double.estimateReplacementPollution
  dsimp only
  rw [double_sumActivityValues_normalized]
  have hcalc : Double.calculateEmissionFactor
      (some { pollutantValue := JsVal.num (normalizeNumber source.pollutantValue),
              actDataValue := JsVal.num (normalizeNumber source.actDataValue) })
      = Double.calculateEmissionFactor (some source) := rfl
  rw [hcalc]
  cases hguard : (!(normalizeNumber source.pollutantValue).isFinite
      || !(normalizeNumber source.actDataValue).isFinite
      || (normalizeNumber source.actDataValue).isZero) with
  | true =>
    have hnone : Double.calculateEmissionFactor (some source) = none := by
      unfold Double.calculateEmissionFactor
      dsimp only
      rw [hguard]
      rfl
    simp [hnone, nullableIsFinite]
  | false =>
    simp only [Bool.false_eq_true, if_false]
    cases h1 : nullableIsFinite (Double.calculateEmissionFactor (some source)) <;>
    cases h2 : (Double.sumActivityValues [source.actDataValue, baseline.actDataValue]).isFinite <;>
    cases h3 : JsNum.le (Double.sumActivityValues [source.actDataValue, baseline.actDataValue])
      (JsNum.fin 0) <;>
    cases h4 : (Double.mul (nullableToNumber (Double.calculateEmissionFactor (some source)))
      (Double.sumActivityValues [source.actDataValue, baseline.actDataValue])).isFinite <;>
    simp

/-! ## The summed-activity fallback on doubles (C26) -/

theorem roundToDouble_one : roundToDouble 1 = JsNum.fin 1 :=
  roundToDouble_exact 0 (2 ^ 52) (by norm_num) (by norm_num) (by norm_num) (by norm_num)
    (by norm_num)

theorem roundToDouble_four : roundToDouble 4 = JsNum.fin 4 :=
  roundToDouble_exact 2 (2 ^ 52) (by norm_num) (by norm_num) (by norm_num) (by norm_num)
    (by norm_num)

/-- The sum of two strictly positive activity values, the first of them a
double. -/
theorem double_sum_pair (x y : JsVal) (a b : ℚ) (hx : normalizeNumber x = JsNum.fin a)
    (hy : normalizeNumber y = JsNum.fin b) (ha : 0 < a) (hb : 0 < b)
    (hra : roundToDouble a = JsNum.fin a) :
    Double.sumActivityValues [x, y] = roundToDouble (a + b) := by
  have h1 : JsNum.le (JsNum.fin a) (JsNum.fin 0) = false := by
    simp [JsNum.le, JsNum.lt, ha]
  have h2 : JsNum.le (JsNum.fin b) (JsNum.fin 0) = false := by
    simp [JsNum.le, JsNum.lt, hb]
  simp only [Double.sumActivityValues, List.foldl, hx, hy, JsNum.isFinite, h1, h2, Bool.not_true,
    Bool.or_false, Bool.false_eq_true, if_false, Double.add, zero_add, hra]

/-- The energy ranking of two enriched data points on doubles, the second
with the larger activity. -/
theorem double_energy_ranking_pair (a b : DataPoint) (qa qb : ℚ)
    (ha : normalizeNumber a.actDataValue = JsNum.fin qa)
    (hb : normalizeNumber b.actDataValue = JsNum.fin qb)
    (hgt : JsNum.gt (roundToDouble (qb + -qa)) (JsNum.fin 0) = true) :
    Double.selectLeaderFollower (Double.enrichComparisonData [a, b]) energyAccessor
      = { leader := some (Double.enrich b), follower := some (Double.enrich a) } := by
  have hcmp : Double.rankCompare (JsNum.fin qa) (JsNum.fin qb) = roundToDouble (qb + -qa) := by
    simp [Double.rankCompare, JsNum.isFinite, Double.sub, Double.add, JsNum.neg]
  have hstay : ¬ staysBefore (fun x y : DataPoint =>
      Double.rankCompare (energyAccessor x).toNumber (energyAccessor y).toNumber)
      (Double.enrich a) (Double.enrich b) := by
    unfold staysBefore
    have h1 : (energyAccessor (Double.enrich a)).toNumber = JsNum.fin qa := ha
    have h2 : (energyAccessor (Double.enrich b)).toNumber = JsNum.fin qb := hb
    dsimp only
    rw [h1, h2, hcmp, hgt]
    simp
  have h1 : (energyAccessor (Double.enrich a)).toNumber = JsNum.fin qa := ha
  have h2 : (energyAccessor (Double.enrich b)).toNumber = JsNum.fin qb := hb
  have hsort : arraySort (fun x y : DataPoint =>
      Double.rankCompare (energyAccessor x).toNumber (energyAccessor y).toNumber)
      [Double.enrich a, Double.enrich b] = [Double.enrich b, Double.enrich a] := by
    simp only [arraySort, List.insertionSort, List.orderedInsert, hstay, if_false]
  have hen : Double.enrichComparisonData [a, b] = [Double.enrich a, Double.enrich b] := rfl
  rw [hen]
  unfold Double.selectLeaderFollower
  simp only [List.length_cons, List.length_nil, hsort, h1, h2, JsNum.isFinite, if_true]
  simp

theorem le_zero_of_gt {x : JsNum} (h : JsNum.gt x (JsNum.fin 0) = true) :
    JsNum.le x (JsNum.fin 0) = false := by
  cases x <;> simp_all [JsNum.gt, JsNum.le, JsNum.lt]

/-- For an enriched polluter the replacement block reports the source
`fallback-energy` only when the activity sum or the product of emission factor
and activity sum is not finite. -/
theorem double_fallbackEnergy_overflow (supabaseModule : Option SupabaseModule)
    (original baseline : DataPoint) (warningFallback : Option DataPoint)
    (h : (Double.replacementBlock supabaseModule (some (Double.enrich original)) (some baseline)
        warningFallback).replacementDetails.map (fun d => d.calcSource)
      = some CalcSource.fallbackEnergy) :
    nullableIsFinite (Double.polluterEmissionFactorOf (Double.enrich original)) = true ∧
    JsNum.gt (Double.sumActivityValues
      [(Double.enrich original).actDataValue, baseline.actDataValue]) (JsNum.fin 0) = true ∧
    ((Double.sumActivityValues
        [(Double.enrich original).actDataValue, baseline.actDataValue]).isFinite = false ∨
      (Double.mul (nullableToNumber (Double.polluterEmissionFactorOf (Double.enrich original)))
        (Double.sumActivityValues
          [(Double.enrich original).actDataValue, baseline.actDataValue])).isFinite = false) := by
  have hbase := double_baselineOnlyStep_calcSource
    (buildReplacementInclusionNote supabaseModule (some (Double.enrich original))
      (some baseline)) (Double.enrich original) baseline
  have hnot : (Double.baselineOnlyStep
      (buildReplacementInclusionNote supabaseModule (some (Double.enrich original))
        (some baseline)) (Double.enrich original) baseline).replacementDetails.map
      (fun d => d.calcSource) ≠ some CalcSource.fallbackEnergy := by
    rcases hbase with hb | ⟨hb, _⟩
    · rw [hb]; simp
    · rw [hb]; simp
  rw [double_replacementBlock_eq] at h
  split at h
  · rcases double_fallThroughStep_cases (Double.enrich original) baseline warningFallback
      (Double.baselineOnlyStep
        (buildReplacementInclusionNote supabaseModule (some (Double.enrich original))
          (some baseline)) (Double.enrich original) baseline) with
      ⟨_, _, _, h2⟩ | ⟨he, hcond, _, _⟩ | ⟨_, _, _, _, _, _, _, h2⟩ | ⟨_, _, _, hsame⟩
    · rw [h2] at h; cases h
    · simp only [Bool.and_eq_true] at hcond
      refine ⟨hcond.1, hcond.2, ?_⟩
      rw [double_estimate_eq] at he
      have hfactor := hcond.1
      rw [double_polluterEmissionFactorOf_enrich] at hfactor ⊢
      rw [double_calculateEmissionFactor_enrich] at he
      split at he
      · rename_i hguard
        simp only [hfactor, le_zero_of_gt hcond.2, Bool.not_true, Bool.false_or, Bool.or_false,
          Bool.or_eq_true, Bool.not_eq_true'] at hguard
        exact hguard
      · cases he
    · rw [h2] at h; cases h
    · rw [hsame] at h
      exact absurd h hnot
  · exact absurd h hnot

theorem giant_ranking :
    Double.selectLeaderFollower (Double.enrichComparisonData [giantPolluter, tripleBaseline])
        energyAccessor
      = { leader := some (Double.enrich tripleBaseline),
          follower := some (Double.enrich giantPolluter) } := by
  apply double_energy_ranking_pair giantPolluter tripleBaseline 1 3 rfl rfl
  have h : (3 : ℚ) + -1 = 2 := by norm_num
  rw [h, roundToDouble_two]
  simp [JsNum.gt, JsNum.lt]

theorem giant_factor :
    Double.calculateEmissionFactor (some giantPolluter) = some (JsNum.fin (2 ^ 1023)) := by
  have h : Double.calculateEmissionFactor (some giantPolluter)
      = some (roundToDouble (2 ^ 1023 / 1)) := by
    simp [Double.calculateEmissionFactor, giantPolluter, normalizeNumber, JsNum.isFinite,
      JsNum.isZero, Double.div]
  rw [h, div_one, roundToDouble_big]

theorem giant_sum :
    Double.sumActivityValues [giantPolluter.actDataValue, tripleBaseline.actDataValue]
      = JsNum.fin 4 := by
  rw [double_sum_pair giantPolluter.actDataValue tripleBaseline.actDataValue 1 3 rfl rfl
    (by norm_num) (by norm_num) roundToDouble_one]
  have h : (1 : ℚ) + 3 = 4 := by norm_num
  rw [h, roundToDouble_four]

theorem giant_estimate :
    Double.estimateReplacementPollution (some (Double.enrich giantPolluter))
      (some (Double.enrich tripleBaseline)) = none := by
  rw [double_estimate_eq, double_calculateEmissionFactor_enrich, giant_factor]
  have hsum : Double.sumActivityValues
      [(Double.enrich giantPolluter).actDataValue, (Double.enrich tripleBaseline).actDataValue]
      = JsNum.fin 4 := giant_sum
  rw [hsum]
  have hmul : Double.mul (nullableToNumber (some (JsNum.fin (2 ^ 1023)))) (JsNum.fin 4)
      = JsNum.posInf := roundToDouble_overflow
  rw [hmul]
  simp [JsNum.isFinite]

theorem excluding_fails (polluter baseline : DataPoint) :
    containmentFailedOrNegative (some excludingService) polluter baseline :=
  Or.inr (Or.inr (Or.inr ⟨excludingService, rfl,
    Or.inr ⟨_, rfl, Or.inr (Or.inr ⟨_, rfl, rfl⟩)⟩⟩))

theorem double_statementOf_calcSource (labels : StatementLabels)
    (leftLeader leftFollower energyLeader energyFollower : DataPoint)
    (comparison : JsNum × Option PollutionRelation) (energyRatio : JsNum)
    (replacement : ReplacementState) :
    (Double.statementOf labels leftLeader leftFollower energyLeader energyFollower comparison
      energyRatio replacement).warningDetails.calcSource
      = replacement.replacementDetails.map (fun d => d.calcSource) := rfl

theorem double_statementOf_replacementPollution (labels : StatementLabels)
    (leftLeader leftFollower energyLeader energyFollower : DataPoint)
    (comparison : JsNum × Option PollutionRelation) (energyRatio : JsNum)
    (replacement : ReplacementState) :
    (Double.statementOf labels leftLeader leftFollower energyLeader energyFollower comparison
      energyRatio replacement).replacementPollution = replacement.replacementPollution := rfl

theorem giant_block :
    Double.replacementBlock (some excludingService) (some (Double.enrich giantPolluter))
        (some (Double.enrich tripleBaseline)) (some (Double.enrich tripleBaseline))
      = Double.fallThroughStep (Double.enrich giantPolluter) (Double.enrich tripleBaseline)
          (some (Double.enrich tripleBaseline)) noReplacement :=
  double_replacementBlock_without_note (some excludingService)
    (Double.enrich giantPolluter) (Double.enrich tripleBaseline)
    (some (Double.enrich tripleBaseline))
    (buildReplacementInclusionNote_failed _ _ _ (excluding_fails _ _))

theorem giant_polluter_factor :
    Double.polluterEmissionFactorOf (Double.enrich giantPolluter)
      = some (JsNum.fin (2 ^ 1023)) := by
  rw [double_polluterEmissionFactorOf_enrich, giant_factor]

theorem giant_enriched_sum :
    Double.sumActivityValues
      [(Double.enrich giantPolluter).actDataValue, (Double.enrich tripleBaseline).actDataValue]
      = JsNum.fin 4 := giant_sum

theorem giant_condition :
    (nullableIsFinite (Double.polluterEmissionFactorOf (Double.enrich giantPolluter))
      && JsNum.gt (Double.sumActivityValues
          [(Double.enrich giantPolluter).actDataValue,
            (Double.enrich tripleBaseline).actDataValue])
        (JsNum.fin 0)) = true := by
  rw [giant_polluter_factor, giant_enriched_sum]
  simp only [nullableIsFinite, JsNum.isFinite, JsNum.gt, JsNum.lt, Bool.true_and,
    decide_eq_true_eq]
  norm_num

/-- The fall-through chain of the overflowing pair ends in the summed-activity
fallback, with the figure `Infinity`. -/
theorem giant_fallThrough :
    (Double.fallThroughStep (Double.enrich giantPolluter) (Double.enrich tripleBaseline)
      (some (Double.enrich tripleBaseline)) noReplacement).replacementDetails.map
        (fun d => d.calcSource) = some CalcSource.fallbackEnergy ∧
    (Double.fallThroughStep (Double.enrich giantPolluter) (Double.enrich tripleBaseline)
      (some (Double.enrich tripleBaseline)) noReplacement).replacementPollution
        = some JsNum.posInf := by
  have hmul : Double.mul (nullableToNumber (some (JsNum.fin (2 ^ 1023)))) (JsNum.fin 4)
      = JsNum.posInf := roundToDouble_overflow
  rcases double_fallThroughStep_cases (Double.enrich giantPolluter)
      (Double.enrich tripleBaseline) (some (Double.enrich tripleBaseline)) noReplacement with
      ⟨est, he, _, _⟩ | ⟨_, _, h1, h2⟩ | ⟨_, hcond, _⟩ | ⟨_, hcond, _⟩
  · rw [giant_estimate] at he; cases he
  · refine ⟨h2, ?_⟩
    rw [h1, giant_polluter_factor, giant_enriched_sum, hmul]
  · rw [giant_condition] at hcond; cases hcond
  · rw [giant_condition] at hcond; cases hcond

/-- The polluter with pollution `2^1023` against the baseline with activity 3:
the statement reports the source `fallback-energy` and the figure `Infinity`. -/
theorem giant_statement :
    ∃ st, Double.syncComparisonStatement (some excludingService) exampleLabels
        [giantPolluter, tripleBaseline] = some st ∧
      st.warningDetails.calcSource = some CalcSource.fallbackEnergy ∧
      st.replacementPollution = some JsNum.posInf := by
  rw [double_syncComparisonStatement_eq, giant_ranking]
  refine ⟨_, rfl, ?_, ?_⟩
  · rw [double_statementOf_calcSource, giant_block]
    exact giant_fallThrough.1
  · rw [double_statementOf_replacementPollution, giant_block]
    exact giant_fallThrough.2

/-- C26 (counterexample): a polluter with pollution `2^1023` (about 8.99e307)
and activity 1 against a baseline with pollution 1 and activity 3, in double
arithmetic.  The polluter's emission factor `2^1023` is finite and the sum of
the activity values is 4, yet their product overflows, so
`estimateReplacementPollution` returns `null`, and the statement reports
`calcSource = 'fallback-energy'` (with the figure `Infinity`). -/
theorem fallback_energy_is_reached :
    ∃ st, Double.syncComparisonStatement (some excludingService) exampleLabels
        [giantPolluter, tripleBaseline] = some st ∧
      Double.calculateEmissionFactor (some giantPolluter) = some (JsNum.fin (2 ^ 1023)) ∧
      Double.sumActivityValues [giantPolluter.actDataValue, tripleBaseline.actDataValue]
        = JsNum.fin 4 ∧
      Double.estimateReplacementPollution (some (Double.enrich giantPolluter))
        (some (Double.enrich tripleBaseline)) = none ∧
      st.warningDetails.calcSource = some CalcSource.fallbackEnergy ∧
      st.replacementPollution = some JsNum.posInf := by
  obtain ⟨st, hst, hsource, hvalue⟩ := giant_statement
  exact ⟨st, hst, giant_factor, giant_sum, giant_estimate, hsource, hvalue⟩

/-- C26 (amended): in double arithmetic the `fallback-energy` strategy is
reached only through overflow.  For every polluter and baseline, whenever the
polluter's emission factor is finite, the sum of the positive activity values
is finite and above 0 and the product of the two is finite,
`estimateReplacementPollution` returns an estimate, whose value is that
product; so every statement `syncComparisonStatement` builds with `calcSource =
'fallback-energy'` has a finite emission factor and an activity sum above 0
for which the sum or the product is not finite. -/
theorem fallback_energy_needs_overflow (supabaseModule : Option SupabaseModule)
    (labels : StatementLabels) (comparisonData : List DataPoint) :
    (∀ polluter baseline : DataPoint,
      nullableIsFinite (Double.calculateEmissionFactor (some polluter)) = true →
      (Double.sumActivityValues [polluter.actDataValue, baseline.actDataValue]).isFinite
        = true →
      JsNum.gt (Double.sumActivityValues [polluter.actDataValue, baseline.actDataValue])
        (JsNum.fin 0) = true →
      (Double.mul (nullableToNumber (Double.calculateEmissionFactor (some polluter)))
        (Double.sumActivityValues [polluter.actDataValue, baseline.actDataValue])).isFinite
        = true →
      ∃ est, Double.estimateReplacementPollution (some polluter) (some baseline) = some est ∧
        est.value = Double.mul (nullableToNumber (Double.calculateEmissionFactor (some polluter)))
          (Double.sumActivityValues [polluter.actDataValue, baseline.actDataValue])) ∧
    (∀ st, Double.syncComparisonStatement supabaseModule labels comparisonData = some st →
      st.warningDetails.calcSource = some CalcSource.fallbackEnergy →
      nullableIsFinite (Double.polluterEmissionFactorOf st.energySecondary) = true ∧
      JsNum.gt (Double.sumActivityValues
        [st.energySecondary.actDataValue, st.energyPrimary.actDataValue]) (JsNum.fin 0) = true ∧
      ((Double.sumActivityValues
          [st.energySecondary.actDataValue, st.energyPrimary.actDataValue]).isFinite = false ∨
        (Double.mul (nullableToNumber (Double.polluterEmissionFactorOf st.energySecondary))
          (Double.sumActivityValues
            [st.energySecondary.actDataValue, st.energyPrimary.actDataValue])).isFinite
          = false)) := by
  refine ⟨?_, ?_⟩
  · intro polluter baseline hfactor hfin hpos hmul
    rw [double_estimate_eq]
    simp only [hfactor, hfin, le_zero_of_gt hpos, hmul, Bool.not_true, Bool.or_self,
      Bool.false_eq_true, if_false]
    exact ⟨_, rfl, rfl⟩
  · intro st h hsource
    obtain ⟨energyLeader, energyFollower, _, hf, hst⟩ := double_syncComparisonStatement_some h
    obtain ⟨original, _, horig⟩ := double_mem_enrichComparisonData
      (double_follower_mem energyAccessor _ energyFollower hf)
    subst hst
    subst horig
    simp only [Double.statementOf] at hsource ⊢
    exact double_fallbackEnergy_overflow supabaseModule original energyLeader _ hsource

theorem roundToDouble_fifty : roundToDouble 50 = JsNum.fin 50 :=
  roundToDouble_exact 5 (25 * 2 ^ 48) (by norm_num) (by norm_num) (by norm_num) (by norm_num)
    (by norm_num)

theorem roundToDouble_250 : roundToDouble 250 = JsNum.fin 250 :=
  roundToDouble_exact 7 (125 * 2 ^ 46) (by norm_num) (by norm_num) (by norm_num) (by norm_num)
    (by norm_num)

theorem roundToDouble_500 : roundToDouble 500 = JsNum.fin 500 :=
  roundToDouble_exact 8 (125 * 2 ^ 46) (by norm_num) (by norm_num) (by norm_num) (by norm_num)
    (by norm_num)

theorem scenario_factor :
    Double.calculateEmissionFactor (some categoryA) = some (JsNum.fin 2) := by
  have h : Double.calculateEmissionFactor (some categoryA) = some (roundToDouble (100 / 50)) := by
    simp [Double.calculateEmissionFactor, categoryA, normalizeNumber, JsNum.isFinite,
      JsNum.isZero, Double.div]
  have h2 : (100 : ℚ) / 50 = 2 := by norm_num
  rw [h, h2, roundToDouble_two]

theorem scenario_sum :
    Double.sumActivityValues [categoryA.actDataValue, categoryB.actDataValue]
      = JsNum.fin 250 := by
  rw [double_sum_pair categoryA.actDataValue categoryB.actDataValue 50 200 rfl rfl
    (by norm_num) (by norm_num) roundToDouble_fifty]
  have h : (50 : ℚ) + 200 = 250 := by norm_num
  rw [h, roundToDouble_250]

theorem scenario_product :
    Double.mul (nullableToNumber (some (JsNum.fin 2))) (JsNum.fin 250) = JsNum.fin 500 := by
  have h : Double.mul (nullableToNumber (some (JsNum.fin 2))) (JsNum.fin 250)
      = roundToDouble (2 * 250) := rfl
  have h2 : (2 : ℚ) * 250 = 500 := by norm_num
  rw [h, h2, roundToDouble_500]

/-- C26 (witness): in the scenario the polluter A (emission factor 2, summed
activity 250, product 500) gets the estimate 500; and the statement of the
overflowing pair, which reports `fallback-energy`, has a product that is not
finite. -/
theorem fallback_energy_needs_overflow_witness :
    (∃ est, Double.estimateReplacementPollution (some categoryA) (some categoryB) = some est ∧
      est.value = JsNum.fin 500) ∧
    ∃ st, Double.syncComparisonStatement (some excludingService) exampleLabels
        [giantPolluter, tripleBaseline] = some st ∧
      st.warningDetails.calcSource = some CalcSource.fallbackEnergy ∧
      ((Double.sumActivityValues
          [st.energySecondary.actDataValue, st.energyPrimary.actDataValue]).isFinite = false ∨
        (Double.mul (nullableToNumber (Double.polluterEmissionFactorOf st.energySecondary))
          (Double.sumActivityValues
            [st.energySecondary.actDataValue, st.energyPrimary.actDataValue])).isFinite
          = false) := by
  constructor
  · obtain ⟨est, hest, hvalue⟩ :=
      (fallback_energy_needs_overflow none exampleLabels [categoryA, categoryB]).1
        categoryA categoryB
        (by rw [scenario_factor]; rfl)
        (by rw [scenario_sum]; rfl)
        (by rw [scenario_sum]; simp [JsNum.gt, JsNum.lt])
        (by rw [scenario_factor, scenario_sum, scenario_product]; rfl)
    refine ⟨est, hest, ?_⟩
    rw [hvalue, scenario_factor, scenario_sum, scenario_product]
  · obtain ⟨st, hst, hsource, _⟩ := giant_statement
    exact ⟨st, hst, hsource,
      ((fallback_energy_needs_overflow (some excludingService) exampleLabels
        [giantPolluter, tripleBaseline]).2 st hst hsource).2.2⟩

/-! ## The ratio fallback on doubles (C27) -/

/-- The double nearest to a positive rational whose significand lies within
less than a half of the whole number `n`. -/
theorem roundToDouble_near {q : ℚ} (e quantum n : ℤ) (hlo : (2 : ℚ) ^ e ≤ q)
    (hhi : q < (2 : ℚ) ^ (e + 1)) (hquantum : quantum = max e (-1022) - 52)
    (hnear : |q / (2 : ℚ) ^ quantum - (n : ℚ)| < 1 / 2)
    (hfin : (n : ℚ) * (2 : ℚ) ^ quantum < (2 : ℚ) ^ (1024 : ℤ)) :
    roundToDouble q = JsNum.fin ((n : ℚ) * (2 : ℚ) ^ quantum) := by
  rw [roundToDouble_pos hlo hhi hquantum (roundHalfEven_eq hnear), if_neg (not_le.mpr hfin)]

theorem roundToDouble_200 : roundToDouble 200 = JsNum.fin 200 :=
  roundToDouble_exact 7 (25 * 2 ^ 48) (by norm_num) (by norm_num) (by norm_num) (by norm_num)
    (by norm_num)

theorem roundToDouble_five : roundToDouble 5 = JsNum.fin 5 :=
  roundToDouble_exact 2 (5 * 2 ^ 50) (by norm_num) (by norm_num) (by norm_num) (by norm_num)
    (by norm_num)

theorem roundToDouble_eighth : roundToDouble (5 / 40) = JsNum.fin (5 / 40) :=
  roundToDouble_exact (-3) (2 ^ 52) (by norm_num) (by norm_num) (by norm_num) (by norm_num)
    (by norm_num)

/-- The double quotient `1 / 49` is `5882252574524729 * 2^-58`. -/
theorem roundToDouble_one_49th :
    roundToDouble (1 / 49) = JsNum.fin (5882252574524729 * (2 : ℚ) ^ (-58 : ℤ)) := by
  have h := roundToDouble_near (-6) (-58) 5882252574524729
    (by norm_num : (2 : ℚ) ^ (-6 : ℤ) ≤ 1 / 49) (by norm_num) (by norm_num)
    (by rw [abs_lt]; constructor <;> norm_num) (by norm_num)
  simpa using h

/-- The double product of that quotient and 49 is `(2^53 - 1) * 2^-53`. -/
theorem roundToDouble_49_49ths :
    roundToDouble (5882252574524729 * (2 : ℚ) ^ (-58 : ℤ) * 49)
      = JsNum.fin (9007199254740991 * (2 : ℚ) ^ (-53 : ℤ)) := by
  have h := roundToDouble_near (-1) (-53) 9007199254740991
    (by norm_num : (2 : ℚ) ^ (-1 : ℤ) ≤ 5882252574524729 * (2 : ℚ) ^ (-58 : ℤ) * 49)
    (by norm_num) (by norm_num)
    (by rw [abs_lt]; constructor <;> norm_num) (by norm_num)
  simpa using h

theorem roundtrip_bound {ε η A B a b d1 d2 m : ℚ} (hε : 0 ≤ ε) (ha : 0 ≤ a) (hb : 0 ≤ b)
    (hA : 2 * ε + ε * ε ≤ A) (hB1 : η * (1 + ε) ≤ B) (hB2 : η ≤ B)
    (h1 : d1 ≤ ε * a + η * b) (hm : m ≤ a + d1) (h2 : d2 ≤ ε * m + η) :
    d2 + d1 ≤ A * a + B * (1 + b) := by
  have e1 := mul_le_mul_of_nonneg_right hA ha
  have e2 := mul_le_mul_of_nonneg_right hB1 hb
  have e3 := mul_le_mul_of_nonneg_left hm hε
  have e4 := mul_le_mul_of_nonneg_left h1 hε
  nlinarith [e1, e2, e3, e4]

/-- Dividing by `q` and multiplying by `q` again, each with one rounding,
returns `p` up to `2^-51` of `p` plus `2^-1074 * (1 + |q|)`. -/
theorem ratio_roundtrip_error {p q r v : ℚ} (hq : q ≠ 0)
    (hr : roundToDouble (p / q) = JsNum.fin r) (hv : roundToDouble (r * q) = JsNum.fin v) :
    |v - p| ≤ (2 : ℚ) ^ (-51 : ℤ) * |p| + (2 : ℚ) ^ (-1074 : ℤ) * (1 + |q|) := by
  have e1 := roundToDouble_error hr
  have e2 := roundToDouble_error hv
  have hqpos : 0 < |q| := abs_pos.mpr hq
  have hd1 : |r * q - p| ≤ (2 : ℚ) ^ (-53 : ℤ) * |p| + (2 : ℚ) ^ (-1075 : ℤ) * |q| := by
    have heq : r * q - p = (r - p / q) * q := by field_simp
    have hpq : |p / q| * |q| = |p| := by
      rw [← abs_mul]
      congr 1
      field_simp
    rw [heq, abs_mul]
    calc |r - p / q| * |q|
        ≤ ((2 : ℚ) ^ (-53 : ℤ) * |p / q| + (2 : ℚ) ^ (-1075 : ℤ)) * |q| :=
          mul_le_mul_of_nonneg_right e1 hqpos.le
      _ = (2 : ℚ) ^ (-53 : ℤ) * (|p / q| * |q|) + (2 : ℚ) ^ (-1075 : ℤ) * |q| := by ring
      _ = (2 : ℚ) ^ (-53 : ℤ) * |p| + (2 : ℚ) ^ (-1075 : ℤ) * |q| := by rw [hpq]
  have hm : |r * q| ≤ |p| + |r * q - p| := by
    have h := abs_add (r * q - p) p
    have heq : r * q - p + p = r * q := by ring
    rw [heq] at h
    linarith
  have htri : |v - p| ≤ |v - r * q| + |r * q - p| := by
    have h := abs_add (v - r * q) (r * q - p)
    have heq : v - r * q + (r * q - p) = v - p := by ring
    rw [heq] at h
    exact h
  have hbound := roundtrip_bound (by positivity : (0 : ℚ) ≤ (2 : ℚ) ^ (-53 : ℤ))
    (abs_nonneg p) (abs_nonneg q)
    (by norm_num : 2 * (2 : ℚ) ^ (-53 : ℤ) + (2 : ℚ) ^ (-53 : ℤ) * (2 : ℚ) ^ (-53 : ℤ)
      ≤ (2 : ℚ) ^ (-51 : ℤ))
    (by norm_num : (2 : ℚ) ^ (-1075 : ℤ) * (1 + (2 : ℚ) ^ (-53 : ℤ)) ≤ (2 : ℚ) ^ (-1074 : ℤ))
    (by norm_num : (2 : ℚ) ^ (-1075 : ℤ) ≤ (2 : ℚ) ^ (-1074 : ℤ))
    hd1 hm e2
  exact le_trans htri hbound

/-- A finite ratio comes from two finite numbers, the second one not 0, and
is their rounded quotient. -/
theorem double_safeRatio_finite (x y : JsVal) (h : (Double.safeRatio x y).isFinite = true) :
    ∃ p q : ℚ, x.toNumber = JsNum.fin p ∧ y.toNumber = JsNum.fin q ∧ q ≠ 0 ∧
      Double.safeRatio x y = roundToDouble (p / q) := by
  unfold Double.safeRatio at h ⊢
  dsimp only at h ⊢
  cases hx : x.toNumber <;> cases hy : y.toNumber <;>
    simp [hx, hy, JsNum.isFinite, JsNum.isZero] at h ⊢
  rename_i p q
  by_cases hq : q = 0
  · simp [hq, JsNum.isFinite] at h
  · simp [hq, Double.div]

/-- When the replacement block ends with the source `ratio-fallback`, the
replacement figure is the finite product of the finite ratio and the
fallback's pollutant value. -/
theorem double_replacementBlock_ratioFallback (supabaseModule : Option SupabaseModule)
    (polluter baseline fallback : DataPoint)
    (h : (Double.replacementBlock supabaseModule (some polluter) (some baseline)
        (some fallback)).replacementDetails.map (fun d => d.calcSource)
      = some CalcSource.ratioFallback) :
    (Double.safeRatio polluter.pollutantValue fallback.pollutantValue).isFinite = true ∧
    (Double.mul (Double.safeRatio polluter.pollutantValue fallback.pollutantValue)
      fallback.pollutantValue.toNumber).isFinite = true ∧
    (Double.replacementBlock supabaseModule (some polluter) (some baseline)
        (some fallback)).replacementPollution
      = some (Double.mul (Double.safeRatio polluter.pollutantValue fallback.pollutantValue)
          fallback.pollutantValue.toNumber) := by
  rw [double_replacementBlock_eq] at h ⊢
  have hbase := double_baselineOnlyStep_calcSource
    (buildReplacementInclusionNote supabaseModule (some polluter) (some baseline))
    polluter baseline
  split at h
  · rename_i hcond
    simp only [hcond, if_true]
    rcases double_fallThroughStep_cases polluter baseline (some fallback)
      (Double.baselineOnlyStep
        (buildReplacementInclusionNote supabaseModule (some polluter) (some baseline))
        polluter baseline) with
      ⟨_, _, _, h2⟩ | ⟨_, _, _, h2⟩ | ⟨_, _, fb, hfb, hfin, hmul, hvalue, _⟩ | ⟨_, _, _, hsame⟩
    · rw [h2] at h; cases h
    · rw [h2] at h; cases h
    · cases hfb
      exact ⟨hfin, hmul, hvalue⟩
    · rw [hsame] at h
      rcases hbase with hb | ⟨hb, _⟩
      · rw [hb] at h; cases h
      · rw [hb] at h; cases h
  · rcases hbase with hb | ⟨hb, _⟩
    · rw [hb] at h; cases h
    · rw [hb] at h; cases h

theorem double_statementOf_energySecondary (labels : StatementLabels)
    (leftLeader leftFollower energyLeader energyFollower : DataPoint)
    (comparison : JsNum × Option PollutionRelation) (energyRatio : JsNum)
    (replacement : ReplacementState) :
    (Double.statementOf labels leftLeader leftFollower energyLeader energyFollower comparison
      energyRatio replacement).energySecondary = energyFollower := rfl

theorem double_statementOf_energyPrimary (labels : StatementLabels)
    (leftLeader leftFollower energyLeader energyFollower : DataPoint)
    (comparison : JsNum × Option PollutionRelation) (energyRatio : JsNum)
    (replacement : ReplacementState) :
    (Double.statementOf labels leftLeader leftFollower energyLeader energyFollower comparison
      energyRatio replacement).energyPrimary = energyLeader := rfl

/-- A polluter with activity 0 against a baseline with a positive activity:
no strategy but the ratio fallback applies; when the ratio of the two
pollutant values and its product with the baseline's are finite, the
statement reports that product with the source `ratio-fallback`. -/
theorem double_idle_statement (polluter baseline : DataPoint) (qb : ℚ)
    (hp : normalizeNumber polluter.actDataValue = JsNum.fin 0)
    (hb : normalizeNumber baseline.actDataValue = JsNum.fin qb)
    (hgt : JsNum.gt (roundToDouble (qb + -0)) (JsNum.fin 0) = true)
    (hratio : (Double.safeRatio polluter.pollutantValue baseline.pollutantValue).isFinite
      = true)
    (hmul : (Double.mul (Double.safeRatio polluter.pollutantValue baseline.pollutantValue)
      baseline.pollutantValue.toNumber).isFinite = true) :
    ∃ st, Double.syncComparisonStatement (some excludingService) exampleLabels
        [polluter, baseline] = some st ∧
      st.warningDetails.calcSource = some CalcSource.ratioFallback ∧
      st.replacementPollution
        = some (Double.mul (Double.safeRatio polluter.pollutantValue baseline.pollutantValue)
            baseline.pollutantValue.toNumber) ∧
      st.energySecondary.pollutantValue = polluter.pollutantValue ∧
      st.energyPrimary.pollutantValue = baseline.pollutantValue := by
  rw [double_syncComparisonStatement_eq,
    double_energy_ranking_pair polluter baseline 0 qb hp hb hgt]
  have hblock := double_replacementBlock_without_note (some excludingService)
    (Double.enrich polluter) (Double.enrich baseline) (some (Double.enrich baseline))
    (buildReplacementInclusionNote_failed _ _ _ (excluding_fails _ _))
  have hcalc : Double.calculateEmissionFactor (some polluter) = none := by
    unfold Double.calculateEmissionFactor
    dsimp only
    rw [hp]
    simp [JsNum.isZero]
  have hfactor : Double.polluterEmissionFactorOf (Double.enrich polluter) = none := by
    rw [double_polluterEmissionFactorOf_enrich, hcalc]
  have hest : Double.estimateReplacementPollution (some (Double.enrich polluter))
      (some (Double.enrich baseline)) = none := by
    rw [double_estimate_eq, double_calculateEmissionFactor_enrich, hcalc]
    simp [nullableIsFinite]
  have hfall :
      (Double.fallThroughStep (Double.enrich polluter) (Double.enrich baseline)
        (some (Double.enrich baseline)) noReplacement).replacementDetails.map
          (fun d => d.calcSource) = some CalcSource.ratioFallback ∧
      (Double.fallThroughStep (Double.enrich polluter) (Double.enrich baseline)
        (some (Double.enrich baseline)) noReplacement).replacementPollution
          = some (Double.mul
              (Double.safeRatio polluter.pollutantValue baseline.pollutantValue)
              baseline.pollutantValue.toNumber) := by
    rcases double_fallThroughStep_cases (Double.enrich polluter) (Double.enrich baseline)
      (some (Double.enrich baseline)) noReplacement with
      ⟨est, he, _, _⟩ | ⟨_, hcond, _, _⟩ | ⟨_, _, fb, hfb, _, _, hvalue, h2⟩ | ⟨_, _, hnot, _⟩
    · rw [hest] at he; cases he
    · rw [hfactor] at hcond
      simp [nullableIsFinite] at hcond
    · cases hfb
      exact ⟨h2, hvalue⟩
    · have := hnot (Double.enrich baseline) rfl hratio
      have hmul2 : (Double.mul
          (Double.safeRatio (Double.enrich polluter).pollutantValue
            (Double.enrich baseline).pollutantValue)
          (Double.enrich baseline).pollutantValue.toNumber).isFinite = true := hmul
      rw [hmul2] at this
      cases this
  refine ⟨_, rfl, ?_, ?_, ?_, ?_⟩
  · rw [double_statementOf_calcSource, hblock]
    exact hfall.1
  · rw [double_statementOf_replacementPollution, hblock]
    exact hfall.2
  · rw [double_statementOf_energySecondary]
    rfl
  · rw [double_statementOf_energyPrimary]
    rfl

theorem unit_ratio :
    Double.safeRatio unitPolluter.pollutantValue seventhBaseline.pollutantValue
      = JsNum.fin (5882252574524729 * (2 : ℚ) ^ (-58 : ℤ)) := by
  have h : Double.safeRatio unitPolluter.pollutantValue seventhBaseline.pollutantValue
      = roundToDouble (1 / 49) := by
    simp [Double.safeRatio, unitPolluter, seventhBaseline, JsVal.toNumber, JsNum.isFinite,
      JsNum.isZero, Double.div]
  rw [h, roundToDouble_one_49th]

theorem unit_product :
    Double.mul (Double.safeRatio unitPolluter.pollutantValue seventhBaseline.pollutantValue)
        seventhBaseline.pollutantValue.toNumber
      = JsNum.fin (9007199254740991 * (2 : ℚ) ^ (-53 : ℤ)) := by
  rw [unit_ratio]
  exact roundToDouble_49_49ths

theorem positive_200 : JsNum.gt (roundToDouble (200 + -0)) (JsNum.fin 0) = true := by
  have h : (200 : ℚ) + -0 = 200 := by norm_num
  rw [h, roundToDouble_200]
  simp [JsNum.gt, JsNum.lt]

/-- C27 (counterexample): a polluter with pollution 1 and activity 0 against a
baseline with pollution 49 and activity 200, in double arithmetic.  Only the
ratio fallback applies; the double quotient `1 / 49` times 49 is
`(2^53 - 1) / 2^53 = 0.9999999999999999`, so the replacement figure is not the
polluter's own pollutant value 1. -/
theorem ratio_fallback_is_rounded :
    ∃ st, Double.syncComparisonStatement (some excludingService) exampleLabels
        [unitPolluter, seventhBaseline] = some st ∧
      st.warningDetails.calcSource = some CalcSource.ratioFallback ∧
      st.energySecondary.pollutantValue.toNumber = JsNum.fin 1 ∧
      st.replacementPollution
        = some (JsNum.fin (9007199254740991 * (2 : ℚ) ^ (-53 : ℤ))) ∧
      st.replacementPollution ≠ some (JsNum.fin 1) := by
  obtain ⟨st, hst, hsource, hvalue, hpolluter, _⟩ :=
    double_idle_statement unitPolluter seventhBaseline 200 rfl rfl positive_200
      (by rw [unit_ratio]; rfl) (by rw [unit_product]; rfl)
  rw [unit_product] at hvalue
  refine ⟨st, hst, hsource, ?_, hvalue, ?_⟩
  · rw [hpolluter]
    rfl
  · rw [hvalue]
    intro hc
    simp only [Option.some.injEq, JsNum.fin.injEq] at hc
    norm_num at hc

/-- C27 (amended): whenever the `ratio-fallback` strategy supplies the
replacement figure, the polluter's pollutant value `p` and the baseline's `q`
are finite numbers, `q` is not 0, and `replacementPollution` is the finite
double `safeRatio(p, q) * q`: the quotient rounded to a double, times `q`,
rounded again.  So the figure is computed from the two pollutant values only
(no activity value), it lies within `2^-51 * |p| + 2^-1074 * (1 + |q|)` of `p`,
and it is `p` itself when the quotient `p / q` and `p` are doubles. -/
theorem ratio_fallback_figure (supabaseModule : Option SupabaseModule)
    (labels : StatementLabels) (comparisonData : List DataPoint) (st : ComparisonStatement)
    (h : Double.syncComparisonStatement supabaseModule labels comparisonData = some st)
    (hsource : st.warningDetails.calcSource = some CalcSource.ratioFallback) :
    ∃ p q v : ℚ, q ≠ 0 ∧
      st.energySecondary.pollutantValue.toNumber = JsNum.fin p ∧
      st.energyPrimary.pollutantValue.toNumber = JsNum.fin q ∧
      st.replacementPollution = some (JsNum.fin v) ∧
      Double.mul (Double.safeRatio st.energySecondary.pollutantValue
        st.energyPrimary.pollutantValue) st.energyPrimary.pollutantValue.toNumber
        = JsNum.fin v ∧
      Double.mul (Double.div (JsNum.fin p) (JsNum.fin q)) (JsNum.fin q) = JsNum.fin v ∧
      |v - p| ≤ (2 : ℚ) ^ (-51 : ℤ) * |p| + (2 : ℚ) ^ (-1074 : ℤ) * (1 + |q|) ∧
      (roundToDouble (p / q) = JsNum.fin (p / q) → roundToDouble p = JsNum.fin p → v = p) := by
  obtain ⟨energyLeader, energyFollower, _, _, hst⟩ := double_syncComparisonStatement_some h
  subst hst
  simp only [Double.statementOf] at hsource ⊢
  obtain ⟨hfin, hmul, hvalue⟩ :=
    double_replacementBlock_ratioFallback supabaseModule energyFollower energyLeader
      energyLeader hsource
  obtain ⟨p, q, hp, hq, hq0, hratio⟩ := double_safeRatio_finite _ _ hfin
  rw [hratio] at hfin hmul hvalue ⊢
  obtain ⟨r, hr⟩ := (isFinite_iff_fin _).mp hfin
  rw [hr, hq] at hmul hvalue ⊢
  have hprod : Double.mul (JsNum.fin r) (JsNum.fin q) = roundToDouble (r * q) := rfl
  rw [hprod] at hmul hvalue ⊢
  obtain ⟨v, hv⟩ := (isFinite_iff_fin _).mp hmul
  have hdiv : Double.div (JsNum.fin p) (JsNum.fin q) = roundToDouble (p / q) := by
    simp [Double.div, hq0]
  refine ⟨p, q, v, hq0, hp, rfl, by rw [hvalue, hv], hv, ?_, ratio_roundtrip_error hq0 hr hv,
    ?_⟩
  · rw [hdiv, hr, hprod, hv]
  · intro hexact hdouble
    rw [hexact] at hr
    simp only [JsNum.fin.injEq] at hr
    have hrq : r * q = p := by
      rw [← hr]
      field_simp
    rw [hrq, hdouble] at hv
    simp only [JsNum.fin.injEq] at hv
    exact hv.symm

/-- C27 (witness): a polluter with pollution 5 and activity 0 against category
B (pollution 40): the ratio fallback supplies the figure; `5 / 40` and 5 are
doubles, and the figure is 5. -/
theorem ratio_fallback_figure_witness :
    ∃ st, Double.syncComparisonStatement (some excludingService) exampleLabels
        [idlePolluter, categoryB] = some st ∧
      st.warningDetails.calcSource = some CalcSource.ratioFallback ∧
      st.replacementPollution = some (JsNum.fin 5) := by
  have hratio : Double.safeRatio idlePolluter.pollutantValue categoryB.pollutantValue
      = JsNum.fin (5 / 40) := by
    have h : Double.safeRatio idlePolluter.pollutantValue categoryB.pollutantValue
        = roundToDouble (5 / 40) := by
      simp [Double.safeRatio, idlePolluter, categoryB, JsVal.toNumber, JsNum.isFinite,
        JsNum.isZero, Double.div]
    rw [h, roundToDouble_eighth]
  have hmul : Double.mul (Double.safeRatio idlePolluter.pollutantValue
      categoryB.pollutantValue) categoryB.pollutantValue.toNumber = JsNum.fin 5 := by
    rw [hratio]
    have h : Double.mul (JsNum.fin (5 / 40)) categoryB.pollutantValue.toNumber
        = roundToDouble (5 / 40 * 40) := rfl
    have h5 : (5 : ℚ) / 40 * 40 = 5 := by norm_num
    rw [h, h5, roundToDouble_five]
  obtain ⟨st, hst, hsource, _, hpolluter, hbaseline⟩ :=
    double_idle_statement idlePolluter categoryB 200 rfl rfl positive_200
      (by rw [hratio]; rfl) (by rw [hmul]; rfl)
  obtain ⟨p, q, v, _, hp, hq, hvalue, _, _, _, hexact⟩ :=
    ratio_fallback_figure (some excludingService) exampleLabels [idlePolluter, categoryB] st
      hst hsource
  rw [hpolluter] at hp
  rw [hbaseline] at hq
  have hp5 : p = 5 := by
    have : JsNum.fin 5 = JsNum.fin p := hp
    simp only [JsNum.fin.injEq] at this
    exact this.symm
  have hq40 : q = 40 := by
    have : JsNum.fin 40 = JsNum.fin q := hq
    simp only [JsNum.fin.injEq] at this
    exact this.symm
  subst hp5
  subst hq40
  have hv : v = 5 := hexact roundToDouble_eighth roundToDouble_five
  subst hv
  exact ⟨st, hst, hsource, hvalue⟩

/-! ## The replacement figure on doubles (C7) -/

/-- The replacement block leaves `replacementPollution` at `null` exactly when
no strategy assigns a value. -/
theorem double_replacementBlock_none_iff (supabaseModule : Option SupabaseModule)
    (polluter baseline : DataPoint) :
    (Double.replacementBlock supabaseModule (some polluter) (some baseline)
        (some baseline)).replacementPollution = none ↔
      (Double.baselineOnlyStep
          (buildReplacementInclusionNote supabaseModule (some polluter) (some baseline))
          polluter baseline).replacementPollution = none ∧
      Double.estimateReplacementPollution (some polluter) (some baseline) = none ∧
      (nullableIsFinite (Double.polluterEmissionFactorOf polluter)
        && JsNum.gt (Double.sumActivityValues [polluter.actDataValue, baseline.actDataValue])
            (JsNum.fin 0)) = false ∧
      ((Double.safeRatio polluter.pollutantValue baseline.pollutantValue).isFinite = false ∨
        (Double.mul (Double.safeRatio polluter.pollutantValue baseline.pollutantValue)
          baseline.pollutantValue.toNumber).isFinite = false) := by
  rw [double_replacementBlock_eq]
  rcases double_baselineOnlyStep_cases
    (buildReplacementInclusionNote supabaseModule (some polluter) (some baseline))
    polluter baseline with ⟨_, hstep⟩ | ⟨_, hstep⟩
  · rw [hstep]
    constructor
    · intro h
      exfalso
      split at h
      · rcases double_fallThroughStep_cases polluter baseline (some baseline)
          { replacementPollution := some (Double.mul
              (nullableToNumber (Double.polluterEmissionFactorOf polluter))
              (normalizeNumber baseline.actDataValue)),
            replacementDetails := some
              { polluter := polluter, baseline := baseline,
                emissionFactor := Double.polluterEmissionFactorOf polluter,
                totalActivity := some (normalizeNumber baseline.actDataValue),
                calcSource := CalcSource.baselineOnly },
            replacementInclusion :=
              buildReplacementInclusionNote supabaseModule (some polluter) (some baseline) }
          with ⟨_, _, h1, _⟩ | ⟨_, _, h1, _⟩ | ⟨_, _, _, _, _, _, h1, _⟩ | ⟨_, _, _, h1⟩
        · rw [h1] at h; cases h
        · rw [h1] at h; cases h
        · rw [h1] at h; cases h
        · rw [h1] at h; cases h
      · cases h
    · intro h
      cases h.1
  · rw [hstep]
    simp only [nullableTruthy, Bool.not_false, if_true]
    rcases double_fallThroughStep_cases polluter baseline (some baseline)
      { replacementPollution := none, replacementDetails := none,
        replacementInclusion :=
          buildReplacementInclusionNote supabaseModule (some polluter) (some baseline) }
      with ⟨est, he, h1, _⟩ | ⟨he, hc, h1, _⟩ | ⟨he, hc, fb, hfb, hr, hm, h1, _⟩ |
        ⟨he, hc, hnot, h1⟩
    · rw [h1, he]; simp
    · rw [h1, hc]; simp
    · cases hfb
      rw [h1, hr, hm]; simp
    · rw [h1]
      have hlast : (Double.safeRatio polluter.pollutantValue
            baseline.pollutantValue).isFinite = false ∨
          (Double.mul (Double.safeRatio polluter.pollutantValue baseline.pollutantValue)
            baseline.pollutantValue.toNumber).isFinite = false := by
        cases hfin : (Double.safeRatio polluter.pollutantValue
            baseline.pollutantValue).isFinite with
        | false => left; rfl
        | true => right; exact hnot baseline rfl hfin
      simp only [true_iff, true_and]
      exact ⟨he, hc, hlast⟩

/-- When the replacement block ends with the source `ef`, the figure is the
value of the combined-activity estimate. -/
theorem double_replacementBlock_ef (supabaseModule : Option SupabaseModule)
    (polluter baseline : DataPoint) (warningFallback : Option DataPoint)
    (h : (Double.replacementBlock supabaseModule (some polluter) (some baseline)
        warningFallback).replacementDetails.map (fun d => d.calcSource)
      = some CalcSource.ef) :
    ∃ est, Double.estimateReplacementPollution (some polluter) (some baseline) = some est ∧
      (Double.replacementBlock supabaseModule (some polluter) (some baseline)
        warningFallback).replacementPollution = some est.value := by
  rw [double_replacementBlock_eq] at h ⊢
  have hbase := double_baselineOnlyStep_calcSource
    (buildReplacementInclusionNote supabaseModule (some polluter) (some baseline))
    polluter baseline
  split at h
  · rename_i hcond
    simp only [hcond, if_true]
    rcases double_fallThroughStep_cases polluter baseline warningFallback
      (Double.baselineOnlyStep
        (buildReplacementInclusionNote supabaseModule (some polluter) (some baseline))
        polluter baseline) with
      ⟨est, he, h1, _⟩ | ⟨_, _, _, h2⟩ | ⟨_, _, _, _, _, _, _, h2⟩ | ⟨_, _, _, hsame⟩
    · exact ⟨est, he, h1⟩
    · rw [h2] at h; cases h
    · rw [h2] at h; cases h
    · rw [hsame] at h
      rcases hbase with hb | ⟨hb, _⟩
      · rw [hb] at h; cases h
      · rw [hb] at h; cases h
  · rcases hbase with hb | ⟨hb, _⟩
    · rw [hb] at h; cases h
    · rw [hb] at h; cases h

/-- What an estimate that is not `null` holds: a finite emission factor, a
finite activity sum above 0 and their finite product. -/
theorem double_estimate_some (source baseline : DataPoint) (est : ReplacementEstimate)
    (h : Double.estimateReplacementPollution (some source) (some baseline) = some est) :
    nullableIsFinite (Double.calculateEmissionFactor (some source)) = true ∧
    (Double.sumActivityValues [source.actDataValue, baseline.actDataValue]).isFinite = true ∧
    JsNum.le (Double.sumActivityValues [source.actDataValue, baseline.actDataValue])
      (JsNum.fin 0) = false ∧
    est.value.isFinite = true ∧
    est.value = Double.mul (nullableToNumber (Double.calculateEmissionFactor (some source)))
      (Double.sumActivityValues [source.actDataValue, baseline.actDataValue]) := by
  rw [double_estimate_eq] at h
  split at h
  · cases h
  · rename_i hguard
    simp only [Bool.or_eq_true, Bool.not_eq_true', not_or, Bool.not_eq_false] at hguard
    cases h
    exact ⟨hguard.1.1.1, hguard.1.1.2, by simpa using hguard.1.2, hguard.2, rfl⟩

theorem double_calculateEmissionFactor_pos (dataPoint : DataPoint) (p a : ℚ)
    (hp : normalizeNumber dataPoint.pollutantValue = JsNum.fin p)
    (ha : normalizeNumber dataPoint.actDataValue = JsNum.fin a) (hapos : 0 < a) :
    Double.calculateEmissionFactor (some dataPoint) = some (roundToDouble (p / a)) := by
  unfold Double.calculateEmissionFactor
  dsimp only
  rw [hp, ha]
  simp [JsNum.isFinite, JsNum.isZero, ne_of_gt hapos, Double.div]

/-- For a polluter with strictly positive pollution and activity an estimate
that is not `null` has a value that is not negative. -/
theorem double_estimate_nonneg (source baseline : DataPoint) (est : ReplacementEstimate)
    (p a : ℚ) (hp : normalizeNumber source.pollutantValue = JsNum.fin p)
    (ha : normalizeNumber source.actDataValue = JsNum.fin a) (hppos : 0 < p) (hapos : 0 < a)
    (h : Double.estimateReplacementPollution (some source) (some baseline) = some est) :
    ∃ v : ℚ, est.value = JsNum.fin v ∧ 0 ≤ v := by
  obtain ⟨hfactor, hsum, hle, hfin, hvalue⟩ := double_estimate_some source baseline est h
  rw [double_calculateEmissionFactor_pos source p a hp ha hapos] at hfactor hvalue
  obtain ⟨t, ht⟩ := (isFinite_iff_fin _).mp hsum
  rw [ht] at hle hvalue
  have htpos : 0 ≤ t := by
    have : 0 < t := by simpa [JsNum.le, JsNum.lt] using hle
    exact this.le
  rcases roundToDouble_nonneg (div_nonneg hppos.le hapos.le) with hinf | ⟨e, he, hepos⟩
  · rw [hinf] at hfactor
    cases hfactor
  · rw [he] at hvalue
    have hprod : Double.mul (nullableToNumber (some (JsNum.fin e))) (JsNum.fin t)
        = roundToDouble (e * t) := rfl
    rw [hprod] at hvalue
    rcases roundToDouble_nonneg (mul_nonneg hepos htpos) with hinf | ⟨v, hv, hvpos⟩
    · rw [hvalue, hinf] at hfin
      cases hfin
    · exact ⟨v, by rw [hvalue, hv], hvpos⟩

theorem double_statementOf_inclusion (labels : StatementLabels)
    (leftLeader leftFollower energyLeader energyFollower : DataPoint)
    (comparison : JsNum × Option PollutionRelation) (energyRatio : JsNum)
    (replacement : ReplacementState) :
    (Double.statementOf labels leftLeader leftFollower energyLeader energyFollower comparison
      energyRatio replacement).warningDetails.inclusion = replacement.replacementInclusion :=
  rfl

theorem double_estimate_enrich (polluter baseline : DataPoint) :
    Double.estimateReplacementPollution (some (Double.enrich polluter))
        (some (Double.enrich baseline))
      = Double.estimateReplacementPollution (some polluter) (some baseline) := rfl

/-- Two data points whose combined-activity estimate is not `null`, the second
with the larger activity: the statement reports the value of the estimate with
the source `ef`. -/
theorem double_ef_statement (polluter baseline : DataPoint) (qa qb : ℚ)
    (ha : normalizeNumber polluter.actDataValue = JsNum.fin qa)
    (hb : normalizeNumber baseline.actDataValue = JsNum.fin qb)
    (hgt : JsNum.gt (roundToDouble (qb + -qa)) (JsNum.fin 0) = true)
    (est : ReplacementEstimate)
    (hest : Double.estimateReplacementPollution (some polluter) (some baseline) = some est) :
    ∃ st, Double.syncComparisonStatement (some excludingService) exampleLabels
        [polluter, baseline] = some st ∧
      st.warningDetails.calcSource = some CalcSource.ef ∧
      st.replacementPollution = some est.value ∧
      st.energySecondary.pollutantValue = polluter.pollutantValue ∧
      st.energySecondary.actDataValue = polluter.actDataValue := by
  rw [double_syncComparisonStatement_eq,
    double_energy_ranking_pair polluter baseline qa qb ha hb hgt]
  have hblock := double_replacementBlock_without_note (some excludingService)
    (Double.enrich polluter) (Double.enrich baseline) (some (Double.enrich baseline))
    (buildReplacementInclusionNote_failed _ _ _ (excluding_fails _ _))
  have hfall :
      (Double.fallThroughStep (Double.enrich polluter) (Double.enrich baseline)
        (some (Double.enrich baseline)) noReplacement).replacementDetails.map
          (fun d => d.calcSource) = some CalcSource.ef ∧
      (Double.fallThroughStep (Double.enrich polluter) (Double.enrich baseline)
        (some (Double.enrich baseline)) noReplacement).replacementPollution
          = some est.value := by
    rcases double_fallThroughStep_cases (Double.enrich polluter) (Double.enrich baseline)
      (some (Double.enrich baseline)) noReplacement with
      ⟨est2, he, h1, h2⟩ | ⟨he, _⟩ | ⟨he, _⟩ | ⟨he, _⟩
    · rw [double_estimate_enrich, hest] at he
      cases he
      exact ⟨h2, h1⟩
    · rw [double_estimate_enrich, hest] at he; cases he
    · rw [double_estimate_enrich, hest] at he; cases he
    · rw [double_estimate_enrich, hest] at he; cases he
  refine ⟨_, rfl, ?_, ?_, ?_, ?_⟩
  · rw [double_statementOf_calcSource, hblock]
    exact hfall.1
  · rw [double_statementOf_replacementPollution, hblock]
    exact hfall.2
  · rw [double_statementOf_energySecondary]
    rfl
  · rw [double_statementOf_energySecondary]
    rfl

theorem roundToDouble_150 : roundToDouble 150 = JsNum.fin 150 :=
  roundToDouble_exact 7 (75 * 2 ^ 46) (by norm_num) (by norm_num) (by norm_num) (by norm_num)
    (by norm_num)

theorem positive_150 : JsNum.gt (roundToDouble (200 + -50)) (JsNum.fin 0) = true := by
  have h : (200 : ℚ) + -50 = 150 := by norm_num
  rw [h, roundToDouble_150]
  simp [JsNum.gt, JsNum.lt]

theorem clean_estimate :
    ∃ est, Double.estimateReplacementPollution (some cleanPolluter) (some categoryB)
        = some est ∧ est.value = JsNum.fin 0 := by
  have hfactor : Double.calculateEmissionFactor (some cleanPolluter) = some (JsNum.fin 0) := by
    rw [double_calculateEmissionFactor_pos cleanPolluter 0 50 rfl rfl (by norm_num)]
    have h : (0 : ℚ) / 50 = 0 := by norm_num
    rw [h, roundToDouble_zero]
  have hsum : Double.sumActivityValues [cleanPolluter.actDataValue, categoryB.actDataValue]
      = JsNum.fin 250 := by
    rw [double_sum_pair cleanPolluter.actDataValue categoryB.actDataValue 50 200 rfl rfl
      (by norm_num) (by norm_num) roundToDouble_fifty]
    have h : (50 : ℚ) + 200 = 250 := by norm_num
    rw [h, roundToDouble_250]
  have hmul : Double.mul (nullableToNumber (some (JsNum.fin 0))) (JsNum.fin 250)
      = JsNum.fin 0 := by
    have h : Double.mul (nullableToNumber (some (JsNum.fin 0))) (JsNum.fin 250)
        = roundToDouble (0 * 250) := rfl
    rw [h, zero_mul, roundToDouble_zero]
  rw [double_estimate_eq, hfactor, hsum, hmul]
  have hle : JsNum.le (JsNum.fin 250) (JsNum.fin 0) = false := by
    simp [JsNum.le, JsNum.lt]
  simp only [nullableIsFinite, JsNum.isFinite, hle, Bool.not_true, Bool.or_self,
    Bool.false_eq_true, if_false]
  exact ⟨_, rfl, rfl⟩

theorem scenario_estimate :
    ∃ est, Double.estimateReplacementPollution (some categoryA) (some categoryB)
        = some est ∧ est.value = JsNum.fin 500 := by
  rw [double_estimate_eq, scenario_factor, scenario_sum, scenario_product]
  have hle : JsNum.le (JsNum.fin 250) (JsNum.fin 0) = false := by
    simp [JsNum.le, JsNum.lt]
  simp only [nullableIsFinite, JsNum.isFinite, hle, Bool.not_true, Bool.or_self,
    Bool.false_eq_true, if_false]
  exact ⟨_, rfl, rfl⟩

/-- C7 (counterexample): a polluter with pollution 0 and activity 50 against a
baseline with activity 200, in double arithmetic.  The combined-activity
estimate yields `replacementPollution = 0`: not null, and not strictly
positive. -/
theorem zero_pollution_gives_zero_replacement :
    ∃ st, Double.syncComparisonStatement (some excludingService) exampleLabels
        [cleanPolluter, categoryB] = some st ∧
      st.replacementPollution = some (JsNum.fin 0) ∧
      st.warningDetails.calcSource = some CalcSource.ef ∧
      ¬ ∃ q : ℚ, st.replacementPollution = some (JsNum.fin q) ∧ 0 < q := by
  obtain ⟨est, hest, hvalue⟩ := clean_estimate
  obtain ⟨st, hst, hsource, hfigure, _, _⟩ :=
    double_ef_statement cleanPolluter categoryB 50 200 rfl rfl positive_150 est hest
  rw [hvalue] at hfigure
  refine ⟨st, hst, hfigure, hsource, ?_⟩
  rintro ⟨q, hq, hpos⟩
  rw [hfigure] at hq
  simp only [Option.some.injEq, JsNum.fin.injEq] at hq
  rw [← hq] at hpos
  exact lt_irrefl _ hpos

/-- C7 (amended): in every statement the derivation builds in double
arithmetic, a non-null `replacementPollution` that comes from the
combined-activity estimate (`calcSource = 'ef'`) or from the ratio fallback
(`'ratio-fallback'`) is a finite number; it need not be strictly positive (it
is 0 for a polluter without pollution), but a figure from the combined-activity
estimate is not negative when the polluter's pollutant and activity values are
strictly positive.  `replacementPollution` is null exactly when no strategy
assigns a value: baseline-only does not apply, the combined-activity estimate
is null, the summed-activity fallback does not apply, and the ratio fallback
or its product with the baseline's pollutant value is not finite. -/
theorem replacement_figure_finite_or_null (supabaseModule : Option SupabaseModule)
    (labels : StatementLabels) (comparisonData : List DataPoint) (st : ComparisonStatement)
    (h : Double.syncComparisonStatement supabaseModule labels comparisonData = some st) :
    (∀ x, st.replacementPollution = some x →
      (st.warningDetails.calcSource = some CalcSource.ef ∨
        st.warningDetails.calcSource = some CalcSource.ratioFallback) →
      x.isFinite = true) ∧
    (∀ p a : ℚ, normalizeNumber st.energySecondary.pollutantValue = JsNum.fin p →
      normalizeNumber st.energySecondary.actDataValue = JsNum.fin a → 0 < p → 0 < a →
      st.warningDetails.calcSource = some CalcSource.ef →
      ∃ v : ℚ, st.replacementPollution = some (JsNum.fin v) ∧ 0 ≤ v) ∧
    (st.replacementPollution = none ↔
      (Double.baselineOnlyStep st.warningDetails.inclusion st.energySecondary
          st.energyPrimary).replacementPollution = none ∧
      Double.estimateReplacementPollution (some st.energySecondary) (some st.energyPrimary)
        = none ∧
      (nullableIsFinite (Double.polluterEmissionFactorOf st.energySecondary)
        && JsNum.gt (Double.sumActivityValues
              [st.energySecondary.actDataValue, st.energyPrimary.actDataValue])
            (JsNum.fin 0)) = false ∧
      ((Double.safeRatio st.energySecondary.pollutantValue
          st.energyPrimary.pollutantValue).isFinite = false ∨
        (Double.mul (Double.safeRatio st.energySecondary.pollutantValue
            st.energyPrimary.pollutantValue)
          st.energyPrimary.pollutantValue.toNumber).isFinite = false)) := by
  obtain ⟨energyLeader, energyFollower, _, _, hst⟩ := double_syncComparisonStatement_some h
  subst hst
  simp only [Double.statementOf]
  refine ⟨?_, ?_, ?_⟩
  · intro x hx hsource
    rcases hsource with hef | hratio
    · obtain ⟨est, hest, hvalue⟩ :=
        double_replacementBlock_ef supabaseModule energyFollower energyLeader _ hef
      rw [hvalue] at hx
      cases hx
      exact (double_estimate_some energyFollower energyLeader est hest).2.2.2.1
    · obtain ⟨_, hmul, hvalue⟩ :=
        double_replacementBlock_ratioFallback supabaseModule energyFollower energyLeader
          energyLeader hratio
      rw [hvalue] at hx
      cases hx
      exact hmul
  · intro p a hp ha hppos hapos hef
    obtain ⟨est, hest, hvalue⟩ :=
      double_replacementBlock_ef supabaseModule energyFollower energyLeader _ hef
    obtain ⟨v, hv, hvpos⟩ :=
      double_estimate_nonneg energyFollower energyLeader est p a hp ha hppos hapos hest
    exact ⟨v, by rw [hvalue, hv], hvpos⟩
  · rw [double_replacementBlock_inclusion]
    exact double_replacementBlock_none_iff supabaseModule energyFollower energyLeader

/-- C7 (witness): the scenario, whose polluter A has pollution 100 and
activity 50, in double arithmetic: the figure comes from the combined-activity
estimate, it is finite and not negative. -/
theorem replacement_figure_finite_or_null_witness :
    ∃ st, Double.syncComparisonStatement (some excludingService) exampleLabels
        [categoryA, categoryB] = some st ∧
      st.warningDetails.calcSource = some CalcSource.ef ∧
      st.replacementPollution = some (JsNum.fin 500) ∧
      (∀ x, st.replacementPollution = some x → x.isFinite = true) ∧
      ∃ v : ℚ, st.replacementPollution = some (JsNum.fin v) ∧ 0 ≤ v := by
  obtain ⟨est, hest, hvalue⟩ := scenario_estimate
  obtain ⟨st, hst, hsource, hfigure, hpollution, hactivity⟩ :=
    double_ef_statement categoryA categoryB 50 200 rfl rfl positive_150 est hest
  rw [hvalue] at hfigure
  have hthm := replacement_figure_finite_or_null (some excludingService) exampleLabels
    [categoryA, categoryB] st hst
  refine ⟨st, hst, hsource, hfigure, fun x hx => hthm.1 x hx (Or.inl hsource), ?_⟩
  exact hthm.2.1 100 50 (by rw [hpollution]; rfl) (by rw [hactivity]; rfl) (by norm_num)
    (by norm_num) hsource

end BubbleChart
